import Mathlib

/-!
# OGRE Direct3D 11 render system: pipeline state and draw translation

A shallow embedding of `RenderSystems/Direct3D11/src/OgreD3D11RenderSystem.cpp`.

* Native objects are addresses (`Handle`); a pointer or `ComPtr` is an `Option Handle`.
* The render system is a record of the member variables the modelled functions use.
* Every call that reaches the native device or its immediate context is appended to a
  history of `Call`s. What the device answers (a result code, an error flag, an error text)
  is a function of that history, so the device is an arbitrary but deterministic collaborator.
* A C++ function that can raise is a function from the world to an outcome and the world
  it leaves behind: what was written before an exception is raised stays written.
* `size_t` is 64 bits wide, `DWORD`, `UINT` and `INT` are 32 bits wide.
-/

namespace Ogre

/-! ## Machine integers and native handles -/

/-- Address of a native object. -/
abbrev Handle := Nat

/-- Result code of a native call. -/
abbrev HRESULT := Int

/-- The `FAILED` test of the platform headers: a result code is a failure when negative. -/
def FAILED (hr : HRESULT) : Bool := decide (hr < 0)

/-- Largest `size_t`, which is what `-1` becomes when compared with a `size_t`. -/
def SIZE_MAX : Nat := 2 ^ 64 - 1

/-- Conversion to `size_t`. -/
def size_t (n : Nat) : Nat := n % 2 ^ 64

/-- Conversion to `DWORD` (32-bit unsigned). -/
def DWORD (n : Nat) : Nat := n % 2 ^ 32

/-- Subtraction of two `DWORD`s, which wraps around. -/
def DWORD.sub (a b : Nat) : Nat := (DWORD a + 2 ^ 32 - DWORD b) % 2 ^ 32

/-- Conversion to `UINT` (32-bit unsigned). -/
def UINT (n : Nat) : Nat := n % 2 ^ 32

/-- Conversion to `INT` (32-bit two's complement). -/
def INT (n : Nat) : Int :=
  if n % 2 ^ 32 < 2 ^ 31 then ((n % 2 ^ 32 : Nat) : Int) else ((n % 2 ^ 32 : Nat) : Int) - 2 ^ 32

/-- Conversion to `LONG` (32-bit two's complement). -/
def LONG (n : Nat) : Int :=
  if n % 2 ^ 32 < 2 ^ 31 then ((n % 2 ^ 32 : Nat) : Int) else ((n % 2 ^ 32 : Nat) : Int) - 2 ^ 32

/-- The `float` nearest to `q`, ties to the even significand (IEEE 754 binary32, with its
subnormal numbers). A value beyond the largest `float` is outside the range of the model. -/
def toFloat (q : ℚ) : ℚ :=
  if q = 0 then 0
  else
    let e : Int := max (Int.log 2 |q|) (-126)
    let ulp : ℚ := (2 : ℚ) ^ (e - 23)
    let m : ℚ := |q| / ulp
    let f : Int := ⌊m⌋
    let n : Int :=
      if m - f < 1 / 2 then f
      else if 1 / 2 < m - f then f + 1
      else if f % 2 = 0 then f else f + 1
    (if q < 0 then -1 else 1) * n * ulp

/-- `D3D_FEATURE_LEVEL` values of the platform headers. -/
abbrev D3D_FEATURE_LEVEL := Nat
def D3D_FEATURE_LEVEL_9_1 : D3D_FEATURE_LEVEL := 0x9100
def D3D_FEATURE_LEVEL_9_2 : D3D_FEATURE_LEVEL := 0x9200
def D3D_FEATURE_LEVEL_9_3 : D3D_FEATURE_LEVEL := 0x9300
def D3D_FEATURE_LEVEL_10_0 : D3D_FEATURE_LEVEL := 0xa000
def D3D_FEATURE_LEVEL_10_1 : D3D_FEATURE_LEVEL := 0xa100
def D3D_FEATURE_LEVEL_11_0 : D3D_FEATURE_LEVEL := 0xb000
def D3D_FEATURE_LEVEL_11_1 : D3D_FEATURE_LEVEL := 0xb100

/-- Largest finite `float`, the `D3D11_FLOAT32_MAX` of the platform headers. -/
def D3D11_FLOAT32_MAX : ℚ := 340282346638528859811704183484516925440

/-! ## Engine enumerations

The enumerations below are declared in the engine's public headers; the render system only
compares their values or hands them to `D3D11Mappings`. -/

inductive SceneBlendFactor
  | SBF_ONE | SBF_ZERO | SBF_DEST_COLOUR | SBF_SOURCE_COLOUR
  | SBF_ONE_MINUS_DEST_COLOUR | SBF_ONE_MINUS_SOURCE_COLOUR
  | SBF_DEST_ALPHA | SBF_SOURCE_ALPHA
  | SBF_ONE_MINUS_DEST_ALPHA | SBF_ONE_MINUS_SOURCE_ALPHA
deriving DecidableEq, Repr

inductive SceneBlendOperation
  | SBO_ADD | SBO_SUBTRACT | SBO_REVERSE_SUBTRACT | SBO_MIN | SBO_MAX
deriving DecidableEq, Repr

inductive CompareFunction
  | CMPF_ALWAYS_FAIL | CMPF_ALWAYS_PASS | CMPF_LESS | CMPF_LESS_EQUAL
  | CMPF_EQUAL | CMPF_NOT_EQUAL | CMPF_GREATER_EQUAL | CMPF_GREATER
deriving DecidableEq, Repr

inductive FilterOptions
  | FO_NONE | FO_POINT | FO_LINEAR | FO_ANISOTROPIC
deriving DecidableEq, Repr

inductive TextureType
  | TEX_TYPE_1D | TEX_TYPE_2D | TEX_TYPE_3D | TEX_TYPE_CUBE_MAP | TEX_TYPE_2D_ARRAY
deriving DecidableEq, Repr

inductive IndexType
  | IT_16BIT | IT_32BIT
deriving DecidableEq, Repr

/-- Shader stages, `GpuProgramType` of the engine. -/
inductive GpuProgramType
  | GPT_VERTEX_PROGRAM | GPT_FRAGMENT_PROGRAM | GPT_GEOMETRY_PROGRAM
  | GPT_DOMAIN_PROGRAM | GPT_HULL_PROGRAM | GPT_COMPUTE_PROGRAM
deriving DecidableEq, Repr

/-- The stage a texture unit is bound to, `TextureUnitState::BindingType`. -/
inductive BindingType
  | BT_FRAGMENT | BT_VERTEX | BT_GEOMETRY
  | BT_TESSELLATION_HULL | BT_TESSELLATION_DOMAIN | BT_COMPUTE
deriving DecidableEq, Repr

/-- Topology tags of `RenderOperation::OperationType` that `_render` names. -/
inductive OperationType
  | OT_POINT_LIST | OT_LINE_LIST | OT_LINE_STRIP
  | OT_TRIANGLE_LIST | OT_TRIANGLE_STRIP | OT_TRIANGLE_FAN
deriving DecidableEq, Repr

inductive PolygonMode
  | PM_POINTS | PM_WIREFRAME | PM_SOLID
deriving DecidableEq, Repr

inductive CullingMode
  | CULL_NONE | CULL_CLOCKWISE | CULL_ANTICLOCKWISE
deriving DecidableEq, Repr

inductive StencilOperation
  | SOP_KEEP | SOP_ZERO | SOP_REPLACE | SOP_INCREMENT | SOP_DECREMENT
  | SOP_INCREMENT_WRAP | SOP_DECREMENT_WRAP | SOP_INVERT
deriving DecidableEq, Repr

/-- The values of the engine's `Capabilities` enumeration that the render system sets. -/
inductive Capabilities
  | RSC_ADVANCED_BLEND_OPERATIONS | RSC_HWSTENCIL | RSC_32BIT_INDEX | RSC_ANISOTROPY
  | RSC_AUTOMIPMAP | RSC_AUTOMIPMAP_COMPRESSED | RSC_DOT3 | RSC_CUBEMAPPING
  | RSC_READ_BACK_AS_TEXTURE | RSC_TEXTURE_COMPRESSION | RSC_TEXTURE_COMPRESSION_DXT
  | RSC_SCISSOR_TEST | RSC_TWO_SIDED_STENCIL | RSC_STENCIL_WRAP | RSC_HWOCCLUSION
  | RSC_HWOCCLUSION_ASYNCHRONOUS | RSC_VERTEX_PROGRAM | RSC_FRAGMENT_PROGRAM
  | RSC_GEOMETRY_PROGRAM | RSC_HWRENDER_TO_VERTEX_BUFFER | RSC_TESSELLATION_HULL_PROGRAM
  | RSC_TESSELLATION_DOMAIN_PROGRAM | RSC_COMPUTE_PROGRAM | RSC_SHADER_SUBROUTINE
  | RSC_USER_CLIP_PLANES | RSC_VERTEX_FORMAT_UBYTE4 | RSC_RTT_SEPARATE_DEPTHBUFFER
  | RSC_RTT_MAIN_DEPTHBUFFER_ATTACHABLE | RSC_INFINITE_FAR_PLANE | RSC_TEXTURE_3D
  | RSC_NON_POWER_OF_2_TEXTURES | RSC_HWRENDER_TO_TEXTURE_3D | RSC_TEXTURE_1D
  | RSC_TEXTURE_COMPRESSION_BC6H_BC7 | RSC_COMPLETE_TEXTURE_BINDING | RSC_HWRENDER_TO_TEXTURE
  | RSC_TEXTURE_FLOAT | RSC_MRT_DIFFERENT_BIT_DEPTHS | RSC_POINT_SPRITES
  | RSC_POINT_EXTENDED_PARAMETERS | RSC_VERTEX_TEXTURE_FETCH | RSC_MIPMAP_LOD_BIAS
  | RSC_PERSTAGECONSTANT | RSC_VERTEX_BUFFER_INSTANCE_DATA | RSC_CAN_GET_COMPILED_SHADER_BUFFER
deriving DecidableEq, Repr

inductive GPUVendor
  | GPU_UNKNOWN | GPU_NVIDIA | GPU_AMD | GPU_INTEL | GPU_MS_SOFTWARE | GPU_MS_WARP
deriving DecidableEq, Repr

/-- `D3D_DRIVER_TYPE` of the platform headers. -/
inductive D3D_DRIVER_TYPE
  | D3D_DRIVER_TYPE_UNKNOWN | D3D_DRIVER_TYPE_HARDWARE | D3D_DRIVER_TYPE_REFERENCE
  | D3D_DRIVER_TYPE_NULL | D3D_DRIVER_TYPE_SOFTWARE | D3D_DRIVER_TYPE_WARP
deriving DecidableEq, Repr

/-- The `Exception::ExceptionCodes` the modelled functions raise. -/
inductive ExceptionCodes
  | ERR_INVALIDPARAMS | ERR_RENDERINGAPI_ERROR | ERR_INTERNAL_ERROR
deriving DecidableEq, Repr

/-- An engine exception as built by `OGRE_EXCEPT` (no native code) and `OGRE_EXCEPT_EX`
(with the native result code). -/
structure OgreException where
  number : ExceptionCodes
  hresult : Option HRESULT
  description : String
  source : String
deriving DecidableEq, Repr

/-! ## Native descriptors -/

abbrev D3D11_BLEND := Nat
abbrev D3D11_BLEND_OP := Nat
abbrev D3D11_FILTER := Nat
abbrev D3D11_TEXTURE_ADDRESS_MODE := Nat
abbrev D3D11_COMPARISON_FUNC := Nat
abbrev D3D11_FILL_MODE := Nat
abbrev D3D11_CULL_MODE := Nat
abbrev D3D11_DEPTH_WRITE_MASK := Nat
abbrev D3D11_STENCIL_OP := Nat
abbrev DXGI_FORMAT := Nat

structure D3D11_RENDER_TARGET_BLEND_DESC where
  BlendEnable : Bool
  SrcBlend : D3D11_BLEND
  DestBlend : D3D11_BLEND
  BlendOp : D3D11_BLEND_OP
  SrcBlendAlpha : D3D11_BLEND
  DestBlendAlpha : D3D11_BLEND
  BlendOpAlpha : D3D11_BLEND_OP
  RenderTargetWriteMask : Nat
deriving DecidableEq, Repr

structure D3D11_BLEND_DESC where
  AlphaToCoverageEnable : Bool
  IndependentBlendEnable : Bool
  RenderTarget : Fin 8 → D3D11_RENDER_TARGET_BLEND_DESC
deriving DecidableEq

structure D3D11_RASTERIZER_DESC where
  FillMode : D3D11_FILL_MODE
  CullMode : D3D11_CULL_MODE
  FrontCounterClockwise : Bool
  DepthBias : Int
  DepthBiasClamp : ℚ
  SlopeScaledDepthBias : ℚ
  DepthClipEnable : Bool
  ScissorEnable : Bool
  MultisampleEnable : Bool
  AntialiasedLineEnable : Bool
deriving DecidableEq

/-- `D3D11_RECT`, the `RECT` of the platform headers. -/
structure RECT where
  left : Int
  top : Int
  right : Int
  bottom : Int
deriving DecidableEq, Repr

structure D3D11_DEPTH_STENCILOP_DESC where
  StencilFailOp : D3D11_STENCIL_OP
  StencilDepthFailOp : D3D11_STENCIL_OP
  StencilPassOp : D3D11_STENCIL_OP
  StencilFunc : D3D11_COMPARISON_FUNC
deriving DecidableEq, Repr

structure D3D11_DEPTH_STENCIL_DESC where
  DepthEnable : Bool
  DepthWriteMask : D3D11_DEPTH_WRITE_MASK
  DepthFunc : D3D11_COMPARISON_FUNC
  StencilEnable : Bool
  StencilReadMask : Nat
  StencilWriteMask : Nat
  FrontFace : D3D11_DEPTH_STENCILOP_DESC
  BackFace : D3D11_DEPTH_STENCILOP_DESC
deriving DecidableEq, Repr

/-- Sampler descriptor; the `float` members are held as exact rationals. -/
structure D3D11_SAMPLER_DESC where
  Filter : D3D11_FILTER
  AddressU : D3D11_TEXTURE_ADDRESS_MODE
  AddressV : D3D11_TEXTURE_ADDRESS_MODE
  AddressW : D3D11_TEXTURE_ADDRESS_MODE
  MipLODBias : ℚ
  MaxAnisotropy : Nat
  ComparisonFunc : D3D11_COMPARISON_FUNC
  BorderColor : Fin 4 → ℚ
  MinLOD : ℚ
  MaxLOD : ℚ
deriving DecidableEq

/-- Native primitive topologies that `_render` selects. -/
inductive D3D11_PRIMITIVE_TOPOLOGY
  | D3D11_PRIMITIVE_TOPOLOGY_UNDEFINED
  | D3D11_PRIMITIVE_TOPOLOGY_POINTLIST
  | D3D11_PRIMITIVE_TOPOLOGY_LINELIST
  | D3D11_PRIMITIVE_TOPOLOGY_LINESTRIP
  | D3D11_PRIMITIVE_TOPOLOGY_TRIANGLELIST
  | D3D11_PRIMITIVE_TOPOLOGY_TRIANGLESTRIP
  | D3D11_PRIMITIVE_TOPOLOGY_LINELIST_ADJ
  | D3D11_PRIMITIVE_TOPOLOGY_LINESTRIP_ADJ
  | D3D11_PRIMITIVE_TOPOLOGY_TRIANGLELIST_ADJ
  | D3D11_PRIMITIVE_TOPOLOGY_TRIANGLESTRIP_ADJ
  | D3D11_PRIMITIVE_TOPOLOGY_2_CONTROL_POINT_PATCHLIST
  | D3D11_PRIMITIVE_TOPOLOGY_3_CONTROL_POINT_PATCHLIST
deriving DecidableEq, Repr

/-- The overloads of `D3D11Mappings::get` and `D3D11Mappings::getFormat` that the modelled
functions call. They are defined in another translation unit, so they are a parameter of
the embedding: every theorem holds for every choice of them. -/
structure D3D11Mappings where
  get_SceneBlendFactor : SceneBlendFactor → Bool → D3D11_BLEND
  get_SceneBlendOperation : SceneBlendOperation → D3D11_BLEND_OP
  get_CompareFunction : CompareFunction → D3D11_COMPARISON_FUNC
  get_FilterOptions : FilterOptions → FilterOptions → FilterOptions → Bool → D3D11_FILTER
  getFormat : IndexType → DXGI_FORMAT
  get_CullingMode : CullingMode → Bool → D3D11_CULL_MODE
  get_PolygonMode : PolygonMode → D3D11_FILL_MODE
  get_StencilOperation : StencilOperation → Bool → D3D11_STENCIL_OP

/-! ## Capabilities and drivers -/

/-- The engine's `DriverVersion`. -/
structure DriverVersion where
  major : Int
  minor : Int
  release : Int
  build : Int
deriving DecidableEq, Repr

/-- A `D3D11Driver` as the render system reads it: the description and the vendor of its
adapter identifier, the locally unique identifier of the adapter, the description that
`DriverDescription` gives, and the adapter that `getDeviceAdapter` gives. -/
structure D3D11Driver where
  Description : String
  VendorId : Nat
  AdapterLuid : Nat × Int
  DriverDescription : String
  getDeviceAdapter : Option Handle
deriving DecidableEq, Repr

/-- The members of the engine's `RenderSystemCapabilities` that the render system sets. The
capability flags are held as the set of the capabilities that are set, the shader profiles
as the list of the profiles in the order they were added. -/
structure RenderSystemCapabilities where
  mDriverVersion : DriverVersion
  mDeviceName : String
  mRenderSystemName : String
  mCapabilities : Capabilities → Bool
  mStencilBufferBitDepth : Nat
  mNumTextureUnits : Nat
  mNumVertexAttributes : Nat
  mSupportedShaderProfiles : List String
  mVendor : GPUVendor
  mNumMultiRenderTargets : Nat
  mMaxPointSize : ℚ
  mNumVertexTextureUnits : Nat
  mVertexTextureUnitsShared : Bool
  mVertexProgramConstantFloatCount : Nat
  mVertexProgramConstantIntCount : Nat
  mVertexProgramConstantBoolCount : Nat
  mFragmentProgramConstantFloatCount : Nat
  mFragmentProgramConstantIntCount : Nat
  mFragmentProgramConstantBoolCount : Nat
  mGeometryProgramConstantFloatCount : Nat
  mGeometryProgramConstantIntCount : Nat
  mGeometryProgramConstantBoolCount : Nat
  mGeometryProgramNumOutputVertices : Nat
  mTessellationHullProgramConstantFloatCount : Nat
  mTessellationHullProgramConstantIntCount : Nat
  mTessellationHullProgramConstantBoolCount : Nat
  mTessellationDomainProgramConstantFloatCount : Nat
  mTessellationDomainProgramConstantIntCount : Nat
  mTessellationDomainProgramConstantBoolCount : Nat
  mComputeProgramConstantFloatCount : Nat
  mComputeProgramConstantIntCount : Nat
  mComputeProgramConstantBoolCount : Nat

/-- `RenderSystemCapabilities::setCapability`. -/
def RenderSystemCapabilities.setCapability (rsc : RenderSystemCapabilities)
    (c : Capabilities) : RenderSystemCapabilities :=
  { rsc with mCapabilities := Function.update rsc.mCapabilities c true }

/-- `RenderSystemCapabilities::hasCapability`. -/
def RenderSystemCapabilities.hasCapability (rsc : RenderSystemCapabilities)
    (c : Capabilities) : Bool :=
  rsc.mCapabilities c

/-- `RenderSystemCapabilities::addShaderProfile`. -/
def RenderSystemCapabilities.addShaderProfile (rsc : RenderSystemCapabilities)
    (profile : String) : RenderSystemCapabilities :=
  { rsc with mSupportedShaderProfiles := rsc.mSupportedShaderProfiles ++ [profile] }

/-- `RenderSystemCapabilities::isShaderProfileSupported`. -/
def RenderSystemCapabilities.isShaderProfileSupported (rsc : RenderSystemCapabilities)
    (profile : String) : Bool :=
  decide (profile ∈ rsc.mSupportedShaderProfiles)

/-- The macros of the build configuration and of the platform headers that select code in
the modelled functions.

* `D3D_FEATURE_LEVEL_9_3_defined` is the test `#ifdef D3D_FEATURE_LEVEL_9_3`.
* `OGRE_WINRT` is `OGRE_PLATFORM == OGRE_PLATFORM_WINRT`, and `OGRE_WINRT_PHONE` is the
  macro `__OGRE_WINRT_PHONE`.
* `WIN32_WINNT_WIN8` is the test
  `defined(_WIN32_WINNT_WIN8) && _WIN32_WINNT >= _WIN32_WINNT_WIN8`. -/
structure BuildConfig where
  SUPPORT_SM2_0_HLSL_SHADERS : Bool
  OGRE_MAX_MULTIPLE_RENDER_TARGETS : Nat
  D3D_FEATURE_LEVEL_9_3_defined : Bool
  OGRE_WINRT : Bool
  OGRE_WINRT_PHONE : Bool
  WIN32_WINNT_WIN8 : Bool
  OGRE_DEBUG_MODE : Bool
  OGRE_THREAD_SUPPORT : Bool

/-! ## Render operation -/

/-- A vertex buffer as `setVertexBufferBinding` reads it. -/
structure D3D11HardwareVertexBuffer where
  vertexSize : Nat
  d3dVertexBuffer : Option Handle
deriving DecidableEq, Repr

/-- A `VertexBufferBinding`: the bound buffers in increasing slot order, and the answer of
`getHasInstanceData`. -/
structure VertexBufferBinding where
  bindings : List (Nat × D3D11HardwareVertexBuffer)
  hasInstanceData : Bool
deriving DecidableEq, Repr

structure VertexData where
  vertexDeclaration : Handle
  vertexBufferBinding : VertexBufferBinding
  vertexStart : Nat
  vertexCount : Nat
deriving DecidableEq, Repr

structure D3D11HardwareIndexBuffer where
  d3dIndexBuffer : Option Handle
  type : IndexType
deriving DecidableEq, Repr

structure IndexData where
  indexBuffer : D3D11HardwareIndexBuffer
  indexStart : Nat
  indexCount : Nat
deriving DecidableEq, Repr

/-- A `RenderOperation`. `vertexData` is a pointer that `_render` tests for null.
`indexData` is a pointer that `_render` follows only when `useIndexes` is set; the record
holds what it points to. -/
structure RenderOperation where
  vertexData : Option VertexData
  operationType : OperationType
  useIndexes : Bool
  indexData : IndexData
  numberOfInstances : Nat
  useGlobalInstancingVertexBufferIsAvailable : Bool
deriving DecidableEq, Repr

/-- What the render system reads of a bound `D3D11HLSLProgram`: its name, the native shader
object its stage getter returns, and `isAdjacencyInfoRequired`. -/
structure D3D11HLSLProgram where
  name : String
  shader : Option Handle
  adjacencyInfoRequired : Bool
deriving DecidableEq, Repr

/-- The enumerators `GPV_GLOBAL` and `GPV_PASS_ITERATION_NUMBER` of `GpuParamVariability`,
bit flags of a 16-bit mask. The enumeration is declared with the class
`GpuProgramParameters`, outside this file. -/
def GPV_GLOBAL : Nat := 1
def GPV_PASS_ITERATION_NUMBER : Nat := 8

/-- Modelled from the spec: the parameters of a program, an object of the class
`GpuProgramParameters`, which is not among the sources at hand. The spec has "stage binding
update hooks" re-invoked between the iterations of a pass when "non-global parameters
changed"; the hook of a stage hands the active parameters of the stage to
`bindGpuProgramParameters`. The model keeps what that function reads of them:
`subroutineMap` is the answer of `getSubroutineMap()`, the entries of the map from slot
indices to subroutine names in the order of its iterator, and `constantBuffer program mask`
is the answer of `program->getConstantBuffer(params, mask)`. -/
structure GpuProgramParameters where
  subroutineMap : List (Nat × String)
  constantBuffer : D3D11HLSLProgram → Nat → Option Handle

/-! ## Device history -/

/-- A call that leaves the render system: a method of the native device or of its immediate
context, `D3D11VertexDeclaration::bindToShader`, or one of the calls of device-loss
recovery to the engine and to the platform. The stage-specific families are indexed by the
stage: `SetShader GPT_VERTEX_PROGRAM` is `VSSetShader`, `SetSamplers GPT_FRAGMENT_PROGRAM`
is `PSSetSamplers`, and so on.

* `fireEvent` is `RenderSystem::fireEvent` as `fireDeviceEvent` calls it, with the native
  device it passes as the `D3DDEVICE` parameter.
* `_releaseManualHardwareResources` and `_restoreManualHardwareResources` are the methods
  of the scene manager named.
* `notifyDeviceLost` and `notifyDeviceRestored` are the methods of the base class
  `D3D11DeviceResourceManager`, with the native device that `mDevice` holds at the call.
* `_releaseBufferCopies` is the method of `HardwareBufferManager`, `_cleanupDepthBuffers`
  the method of the base class `RenderSystem`, `reloadAll` the method of `MeshManager`.
* `ReleaseAll` is the method of `D3D11Device`, `refresh` the method of `D3D11DriverList`.
* `D3D11CreateDeviceN` is the native device creation, with the feature levels it is
  handed.
* `CheckMultisampleQualityLevels` is the method of the native device; `GetClassInstance`
  and `CreateClassInstance` are the methods of the class linkage of the device.
* `RSSetScissorRects` is the method of the immediate context, with the number of
  rectangles and the one rectangle it is handed; `SetConstantBuffers GPT_VERTEX_PROGRAM` is
  `VSSetConstantBuffers`, and so on.
* `_copySharedParams` is the method of `GpuProgramParameters`. -/
inductive Call
  | CreateBlendState (desc : D3D11_BLEND_DESC)
  | CreateRasterizerState (desc : D3D11_RASTERIZER_DESC)
  | CreateDepthStencilState (desc : D3D11_DEPTH_STENCIL_DESC)
  | CreateSamplerState (desc : D3D11_SAMPLER_DESC)
  | OMSetBlendState (state : Option Handle) (sampleMask : Nat)
  | RSSetState (state : Option Handle)
  | OMSetDepthStencilState (state : Option Handle) (stencilRef : Nat)
  | SetSamplers (stage : GpuProgramType) (startSlot numSamplers : Nat)
      (samplers : List (Option Handle))
  | SetShaderResources (stage : GpuProgramType) (startSlot numViews : Nat)
      (views : List (Option Handle))
  | SOGetTargets (numBuffers : Nat)
  | SetShader (stage : GpuProgramType) (shader : Option Handle)
      (classInstances : List (Option Handle)) (numClassInstances : Nat)
  | bindToShader (declaration : Handle) (program : Option D3D11HLSLProgram)
      (binding : VertexBufferBinding)
  | IASetVertexBuffers (startSlot numBuffers : Nat) (buffer : Option Handle)
      (stride offset : Nat)
  | Dispatch (x y z : Nat)
  | CSSetUnorderedAccessViews (startSlot numUAVs : Nat) (views : List (Option Handle))
  | IASetIndexBuffer (buffer : Option Handle) (format : DXGI_FORMAT) (offset : Nat)
  | IASetPrimitiveTopology (topology : D3D11_PRIMITIVE_TOPOLOGY)
  | DrawIndexedInstanced (indexCountPerInstance instanceCount startIndexLocation : Nat)
      (baseVertexLocation : Int) (startInstanceLocation : Nat)
  | DrawIndexed (indexCount startIndexLocation : Nat) (baseVertexLocation : Int)
  | DrawAuto
  | DrawInstanced (vertexCountPerInstance instanceCount startVertexLocation
      startInstanceLocation : Nat)
  | Draw (vertexCount startVertexLocation : Nat)
  | fireEvent (name : String) (device : Option Handle)
  | _releaseManualHardwareResources (sceneManager : Handle)
  | _restoreManualHardwareResources (sceneManager : Handle)
  | notifyDeviceLost (device : Option Handle)
  | notifyDeviceRestored (device : Option Handle)
  | _releaseBufferCopies (forceFreeUnused : Bool)
  | _cleanupDepthBuffers
  | reloadAll
  | ReleaseAll
  | refresh
  | D3D11CreateDeviceN (pAdapter : Option Handle) (driverType : D3D_DRIVER_TYPE) (flags : Nat)
      (featureLevels : List D3D_FEATURE_LEVEL)
  | CheckMultisampleQualityLevels (format : DXGI_FORMAT) (sampleCount : Nat)
  | GetClassInstance (name : String) (instanceIndex : Nat)
  | CreateClassInstance (name : String)
      (constantBufferOffset constantVectorOffset textureOffset samplerOffset : Nat)
  | RSSetScissorRects (numRects : Nat) (rect : RECT)
  | SetConstantBuffers (stage : GpuProgramType) (startSlot numBuffers : Nat)
      (buffers : List (Option Handle))
  | _copySharedParams

/-- The native function a call names, without its arguments. -/
inductive CallName
  | CreateBlendState | CreateRasterizerState | CreateDepthStencilState | CreateSamplerState
  | OMSetBlendState | RSSetState | OMSetDepthStencilState
  | VSSetSamplers | PSSetSamplers | GSSetSamplers | HSSetSamplers | DSSetSamplers
  | CSSetSamplers
  | VSSetShaderResources | PSSetShaderResources | GSSetShaderResources
  | HSSetShaderResources | DSSetShaderResources | CSSetShaderResources
  | SOGetTargets
  | VSSetShader | PSSetShader | GSSetShader | HSSetShader | DSSetShader | CSSetShader
  | bindToShader | IASetVertexBuffers | Dispatch | CSSetUnorderedAccessViews
  | IASetIndexBuffer | IASetPrimitiveTopology
  | DrawIndexedInstanced | DrawIndexed | DrawAuto | DrawInstanced | Draw
  | fireEvent | _releaseManualHardwareResources | _restoreManualHardwareResources
  | notifyDeviceLost | notifyDeviceRestored | _releaseBufferCopies | _cleanupDepthBuffers
  | reloadAll | ReleaseAll | refresh | D3D11CreateDeviceN
  | CheckMultisampleQualityLevels | GetClassInstance | CreateClassInstance
  | RSSetScissorRects
  | VSSetConstantBuffers | PSSetConstantBuffers | GSSetConstantBuffers
  | HSSetConstantBuffers | DSSetConstantBuffers | CSSetConstantBuffers
  | _copySharedParams
deriving DecidableEq, Repr

open GpuProgramType in
/-- Name of the native function behind a call. -/
def Call.name : Call → CallName
  | .CreateBlendState _ => .CreateBlendState
  | .CreateRasterizerState _ => .CreateRasterizerState
  | .CreateDepthStencilState _ => .CreateDepthStencilState
  | .CreateSamplerState _ => .CreateSamplerState
  | .OMSetBlendState _ _ => .OMSetBlendState
  | .RSSetState _ => .RSSetState
  | .OMSetDepthStencilState _ _ => .OMSetDepthStencilState
  | .SetSamplers GPT_VERTEX_PROGRAM _ _ _ => .VSSetSamplers
  | .SetSamplers GPT_FRAGMENT_PROGRAM _ _ _ => .PSSetSamplers
  | .SetSamplers GPT_GEOMETRY_PROGRAM _ _ _ => .GSSetSamplers
  | .SetSamplers GPT_HULL_PROGRAM _ _ _ => .HSSetSamplers
  | .SetSamplers GPT_DOMAIN_PROGRAM _ _ _ => .DSSetSamplers
  | .SetSamplers GPT_COMPUTE_PROGRAM _ _ _ => .CSSetSamplers
  | .SetShaderResources GPT_VERTEX_PROGRAM _ _ _ => .VSSetShaderResources
  | .SetShaderResources GPT_FRAGMENT_PROGRAM _ _ _ => .PSSetShaderResources
  | .SetShaderResources GPT_GEOMETRY_PROGRAM _ _ _ => .GSSetShaderResources
  | .SetShaderResources GPT_HULL_PROGRAM _ _ _ => .HSSetShaderResources
  | .SetShaderResources GPT_DOMAIN_PROGRAM _ _ _ => .DSSetShaderResources
  | .SetShaderResources GPT_COMPUTE_PROGRAM _ _ _ => .CSSetShaderResources
  | .SOGetTargets _ => .SOGetTargets
  | .SetShader GPT_VERTEX_PROGRAM _ _ _ => .VSSetShader
  | .SetShader GPT_FRAGMENT_PROGRAM _ _ _ => .PSSetShader
  | .SetShader GPT_GEOMETRY_PROGRAM _ _ _ => .GSSetShader
  | .SetShader GPT_HULL_PROGRAM _ _ _ => .HSSetShader
  | .SetShader GPT_DOMAIN_PROGRAM _ _ _ => .DSSetShader
  | .SetShader GPT_COMPUTE_PROGRAM _ _ _ => .CSSetShader
  | .bindToShader _ _ _ => .bindToShader
  | .IASetVertexBuffers _ _ _ _ _ => .IASetVertexBuffers
  | .Dispatch _ _ _ => .Dispatch
  | .CSSetUnorderedAccessViews _ _ _ => .CSSetUnorderedAccessViews
  | .IASetIndexBuffer _ _ _ => .IASetIndexBuffer
  | .IASetPrimitiveTopology _ => .IASetPrimitiveTopology
  | .DrawIndexedInstanced _ _ _ _ _ => .DrawIndexedInstanced
  | .DrawIndexed _ _ _ => .DrawIndexed
  | .DrawAuto => .DrawAuto
  | .DrawInstanced _ _ _ _ => .DrawInstanced
  | .Draw _ _ => .Draw
  | .fireEvent _ _ => .fireEvent
  | ._releaseManualHardwareResources _ => ._releaseManualHardwareResources
  | ._restoreManualHardwareResources _ => ._restoreManualHardwareResources
  | .notifyDeviceLost _ => .notifyDeviceLost
  | .notifyDeviceRestored _ => .notifyDeviceRestored
  | ._releaseBufferCopies _ => ._releaseBufferCopies
  | ._cleanupDepthBuffers => ._cleanupDepthBuffers
  | .reloadAll => .reloadAll
  | .ReleaseAll => .ReleaseAll
  | .refresh => .refresh
  | .D3D11CreateDeviceN _ _ _ _ => .D3D11CreateDeviceN
  | .CheckMultisampleQualityLevels _ _ => .CheckMultisampleQualityLevels
  | .GetClassInstance _ _ => .GetClassInstance
  | .CreateClassInstance _ _ _ _ _ => .CreateClassInstance
  | .RSSetScissorRects _ _ => .RSSetScissorRects
  | .SetConstantBuffers GPT_VERTEX_PROGRAM _ _ _ => .VSSetConstantBuffers
  | .SetConstantBuffers GPT_FRAGMENT_PROGRAM _ _ _ => .PSSetConstantBuffers
  | .SetConstantBuffers GPT_GEOMETRY_PROGRAM _ _ _ => .GSSetConstantBuffers
  | .SetConstantBuffers GPT_HULL_PROGRAM _ _ _ => .HSSetConstantBuffers
  | .SetConstantBuffers GPT_DOMAIN_PROGRAM _ _ _ => .DSSetConstantBuffers
  | .SetConstantBuffers GPT_COMPUTE_PROGRAM _ _ _ => .CSSetConstantBuffers
  | ._copySharedParams => ._copySharedParams

/-- The topology-based draw calls. -/
def Call.isDraw : Call → Bool
  | .DrawIndexedInstanced _ _ _ _ _ => true
  | .DrawIndexed _ _ _ => true
  | .DrawAuto => true
  | .DrawInstanced _ _ _ _ => true
  | .Draw _ _ => true
  | _ => false

/-- The compute dispatch. -/
def Call.isDispatch : Call → Bool
  | .Dispatch _ _ _ => true
  | _ => false

/-- The native device and what hangs off it, seen from the render system. Each answer is
a function of the calls issued so far, the call being answered included.

* `isError` and `getErrorDescription` are the methods of `D3D11Device` of those names
  (`getErrorDescription` with the result code it is given, if any).
* `created` is what the `Create...State` call that ends the history returns: its result
  code and the object it stores through the out-pointer.
* `soTarget` is the buffer that the `SOGetTargets` call that ends the history stores.
* `bindToShaderError` is the description of the exception that escapes from the
  `bindToShader` call that ends the history, if one does.
* `multisampleQualityLevels` is what the `CheckMultisampleQualityLevels` call that ends the
  history returns: its result code and the number of quality levels it stores.
* `classInstance` is what the `GetClassInstance` or `CreateClassInstance` call that ends
  the history returns: its result code and the class instance it stores. -/
structure D3D11Device where
  isError : List Call → Bool
  getErrorDescription : List Call → Option HRESULT → String
  created : List Call → HRESULT × Option Handle
  soTarget : List Call → Option Handle
  bindToShaderError : List Call → Option String
  multisampleQualityLevels : List Call → HRESULT × Nat
  classInstance : List Call → HRESULT × Option Handle

/-- The engine and the platform as device-loss recovery sees them. Each answer is a function
of the calls issued so far, the call being answered included.

* `sceneManagers` is the scene managers that the iterator of `SceneManagerEnumerator`
  visits, in order.
* `count`, `findByName` and `item` are the methods of `D3D11DriverList` of those names.
* `createdDevice` is what the `D3D11CreateDeviceN` call that ends the history returns: its
  result code, the device it stores, and the feature level it stores when it stores one.
* `GetDriverVersion` is the method of `D3D11Device`: the high and the low part of the
  version, each as its 32-bit pattern.
* `raised` is the exception that escapes from the call to the engine that ends the
  history, if one does.
* `IsWorkingUnderNsight` is the function of that name, and `exceptionsOff` says whether
  `D3D11Device::getExceptionsErrorLevel()` is `D3D_NO_EXCEPTION`. -/
structure Platform where
  sceneManagers : List Call → List Handle
  count : List Call → Nat
  findByName : List Call → String → D3D11Driver
  item : List Call → String → Option D3D11Driver
  createdDevice : List Call → HRESULT × Option Handle × Option D3D_FEATURE_LEVEL
  GetDriverVersion : List Call → Nat × Nat
  raised : List Call → Option OgreException
  IsWorkingUnderNsight : Bool
  exceptionsOff : Bool

/-! ## Render system state -/

/-- One entry of `mTexStageDesc`. -/
structure sD3DTextureStageDesc where
  type : TextureType
  coordIndex : Nat
  pTex : Option Handle
  samplerDesc : D3D11_SAMPLER_DESC
  used : Bool

/-- Modelled from the spec: a depth buffer of the pool, an object of the class
`D3D11DepthBuffer`, which is not among the sources at hand. The spec has the pool as a
"mapping from pool identifier to list of depth-buffer objects" that are "looked up by
identity (view handle)". The fields are the arguments of the constructor as
`_addManualDepthBuffer` calls it; `address` is the address of the object, by which the
pool refers to it; `getPoolId()` answers `poolId` and `getDepthStencilView()` answers
`depthStencilView`. -/
structure D3D11DepthBuffer where
  address : Handle
  poolId : Nat
  depthStencilView : Option Handle
  width : Nat
  height : Nat
  fsaa : Nat
  multiSampleQuality : Nat
  isManual : Bool
deriving DecidableEq, Repr

/-- The member variables of `D3D11RenderSystem`, and of its base class `RenderSystem`, that
the modelled functions read or write. The per-unit arrays are functions of the index.
`activeRenderTargetRequiresTextureFlipping` is the answer of
`mActiveRenderTarget->requiresTextureFlipping()`, and `mD3D11Device` is the native device
that `mDevice` holds (`mDevice.get()`). `mDepthBufferPool` gives the depth buffers of each
pool, in the order of the vector; `mInstanceMap` is the map from subroutine names to class
instances, as the list of its entries.

The arrays `mClassInstances` and `mNumClassInstances` are declared with the class, outside
this file. A row of `mClassInstances` is the list of its entries from the first to the last
one ever assigned; the constructor zeroes the array (line 143), so the entries behind are
null. The entries of `mNumClassInstances` are handed to the `SetShader` calls as their
`UINT` parameter `NumClassInstances` and are 32-bit unsigned numbers.

The six `mActive...GpuProgramParameters` are the shared pointers of the base class, null
when `none`. Modelled from the spec: `passIterationStages n` is the stages whose binding
update hook the pass-iteration predicate of the base class invokes, in its order, when it
has counted the iterations still due down to `n`. -/
structure D3D11RenderSystem where
  mDevice : D3D11Device
  mFeatureLevel : D3D_FEATURE_LEVEL
  mBlendDesc : D3D11_BLEND_DESC
  mRasterizerDesc : D3D11_RASTERIZER_DESC
  mDepthStencilDesc : D3D11_DEPTH_STENCIL_DESC
  mBlendDescChanged : Bool
  mRasterizerDescChanged : Bool
  mDepthStencilDescChanged : Bool
  mSamplerStatesChanged : Bool
  mBoundBlendState : Option Handle
  mBoundRasterizer : Option Handle
  mBoundDepthStencilState : Option Handle
  mStencilRef : Nat
  mSceneAlphaRejectFunc : CompareFunction
  mSceneAlphaRejectValue : Nat
  mSceneAlphaToCoverage : Bool
  mTexStageDesc : Nat → sD3DTextureStageDesc
  mLastTextureUnitState : Nat
  FilterMinification : Nat → FilterOptions
  FilterMagnification : Nat → FilterOptions
  FilterMips : Nat → FilterOptions
  mBindingType : BindingType
  mBoundVertexProgram : Option D3D11HLSLProgram
  mBoundFragmentProgram : Option D3D11HLSLProgram
  mBoundGeometryProgram : Option D3D11HLSLProgram
  mBoundTessellationHullProgram : Option D3D11HLSLProgram
  mBoundTessellationDomainProgram : Option D3D11HLSLProgram
  mBoundComputeProgram : Option D3D11HLSLProgram
  mGeometryProgramBound : Bool
  mClassInstances : GpuProgramType → List (Option Handle)
  mNumClassInstances : GpuProgramType → Nat
  mLastVertexSourceCount : Nat
  mGlobalInstanceVertexBuffer : Option Handle
  mGlobalInstanceVertexBufferVertexDeclaration : Option Handle
  mGlobalNumberOfInstances : Nat
  mCurrentPassIterationCount : Nat
  mPolygonMode : PolygonMode
  mCullingMode : CullingMode
  mInvertVertexWinding : Bool
  activeRenderTargetRequiresTextureFlipping : Bool
  mReadBackAsTexture : Bool
  mD3D11Device : Option Handle
  mDriverVersion : DriverVersion
  mActiveD3DDriver : D3D11Driver
  mDriverType : D3D_DRIVER_TYPE
  mDriverName : String
  mUseNVPerfHUD : Bool
  mMinRequestedFeatureLevel : D3D_FEATURE_LEVEL
  mMaxRequestedFeatureLevel : D3D_FEATURE_LEVEL
  mRealCapabilities : Option RenderSystemCapabilities
  mCurrentCapabilities : Option RenderSystemCapabilities
  mUseCustomCapabilities : Bool
  mActiveViewport : Option Handle
  mDepthBufferPool : Nat → List D3D11DepthBuffer
  mInstanceMap : List (String × Option Handle)
  mScissorRect : RECT
  mActiveVertexGpuProgramParameters : Option GpuProgramParameters
  mActiveFragmentGpuProgramParameters : Option GpuProgramParameters
  mActiveGeometryGpuProgramParameters : Option GpuProgramParameters
  mActiveTessellationHullGpuProgramParameters : Option GpuProgramParameters
  mActiveTessellationDomainGpuProgramParameters : Option GpuProgramParameters
  mActiveComputeGpuProgramParameters : Option GpuProgramParameters
  passIterationStages : Nat → List GpuProgramType

/-- The fixed number of texture units, `OGRE_MAX_TEXTURE_LAYERS` of the build configuration. -/
def OGRE_MAX_TEXTURE_LAYERS : Nat := 16

/-! ## Blend state setters -/

/-- Assignment to members of `RenderTarget[0]`. -/
def D3D11_BLEND_DESC.setRenderTarget0 (d : D3D11_BLEND_DESC)
    (f : D3D11_RENDER_TARGET_BLEND_DESC → D3D11_RENDER_TARGET_BLEND_DESC) : D3D11_BLEND_DESC :=
  { d with RenderTarget := Function.update d.RenderTarget 0 (f (d.RenderTarget 0)) }

open SceneBlendFactor in
/-- `D3D11RenderSystem::_setSceneBlending` (lines 1874-1898). -/
def _setSceneBlending (maps : D3D11Mappings) (rs : D3D11RenderSystem)
    (sourceFactor destFactor : SceneBlendFactor) (op : SceneBlendOperation) :
    D3D11RenderSystem :=
  if sourceFactor = SBF_ONE ∧ destFactor = SBF_ZERO then
    { rs with
      mBlendDesc := rs.mBlendDesc.setRenderTarget0 fun rt => { rt with BlendEnable := false }
      mBlendDescChanged := true }
  else
    { rs with
      mBlendDesc :=
        { rs.mBlendDesc.setRenderTarget0 fun rt =>
            { rt with
              BlendEnable := true
              SrcBlend := maps.get_SceneBlendFactor sourceFactor false
              DestBlend := maps.get_SceneBlendFactor destFactor false
              SrcBlendAlpha := maps.get_SceneBlendFactor sourceFactor true
              DestBlendAlpha := maps.get_SceneBlendFactor destFactor true
              BlendOp := maps.get_SceneBlendOperation op
              BlendOpAlpha := maps.get_SceneBlendOperation op
              RenderTargetWriteMask := 0x0F } with
          AlphaToCoverageEnable :=
            if rs.mFeatureLevel < D3D_FEATURE_LEVEL_10_0 then false
            else rs.mSceneAlphaToCoverage }
      mBlendDescChanged := true }

open SceneBlendFactor in
/-- `D3D11RenderSystem::_setSeparateSceneBlending` (lines 1900-1920). -/
def _setSeparateSceneBlending (maps : D3D11Mappings) (rs : D3D11RenderSystem)
    (sourceFactor destFactor sourceFactorAlpha destFactorAlpha : SceneBlendFactor)
    (op alphaOp : SceneBlendOperation) : D3D11RenderSystem :=
  if sourceFactor = SBF_ONE ∧ destFactor = SBF_ZERO then
    { rs with
      mBlendDesc := rs.mBlendDesc.setRenderTarget0 fun rt => { rt with BlendEnable := false }
      mBlendDescChanged := true }
  else
    { rs with
      mBlendDesc :=
        { rs.mBlendDesc.setRenderTarget0 fun rt =>
            { rt with
              BlendEnable := true
              SrcBlend := maps.get_SceneBlendFactor sourceFactor false
              DestBlend := maps.get_SceneBlendFactor destFactor false
              BlendOp := maps.get_SceneBlendOperation op
              SrcBlendAlpha := maps.get_SceneBlendFactor sourceFactorAlpha true
              DestBlendAlpha := maps.get_SceneBlendFactor destFactorAlpha true
              BlendOpAlpha := maps.get_SceneBlendOperation alphaOp
              RenderTargetWriteMask := 0x0F } with
          AlphaToCoverageEnable := false }
      mBlendDescChanged := true }

/-! ## Rasterizer, depth-stencil and texture setters -/

/-- `D3D11RenderSystem::_setAlphaRejectSettings` (lines 1922-1929). -/
def _setAlphaRejectSettings (rs : D3D11RenderSystem) (func : CompareFunction) (value : Nat)
    (alphaToCoverage : Bool) : D3D11RenderSystem :=
  { rs with
    mSceneAlphaRejectFunc := func
    mSceneAlphaRejectValue := value
    mSceneAlphaToCoverage := alphaToCoverage
    mBlendDesc := { rs.mBlendDesc with AlphaToCoverageEnable := alphaToCoverage }
    mBlendDescChanged := true }

/-- The winding test of `_setCullingMode` (lines 1935-1936) and of `setStencilBufferParams`
(lines 2022-2023). -/
def flipWinding (rs : D3D11RenderSystem) : Bool :=
  (rs.mInvertVertexWinding && !rs.activeRenderTargetRequiresTextureFlipping)
    || (!rs.mInvertVertexWinding && rs.activeRenderTargetRequiresTextureFlipping)

/-- `D3D11RenderSystem::_setCullingMode` (lines 1931-1940). -/
def _setCullingMode (maps : D3D11Mappings) (rs : D3D11RenderSystem) (mode : CullingMode) :
    D3D11RenderSystem :=
  { rs with
    mCullingMode := mode
    mRasterizerDesc :=
      { rs.mRasterizerDesc with CullMode := maps.get_CullingMode mode (flipWinding rs) }
    mRasterizerDescChanged := true }

/-- `D3D11RenderSystem::_setDepthBufferCheckEnabled` (lines 1949-1953). -/
def _setDepthBufferCheckEnabled (rs : D3D11RenderSystem) (enabled : Bool) : D3D11RenderSystem :=
  { rs with
    mDepthStencilDesc := { rs.mDepthStencilDesc with DepthEnable := enabled }
    mDepthStencilDescChanged := true }

def D3D11_DEPTH_WRITE_MASK_ZERO : D3D11_DEPTH_WRITE_MASK := 0
def D3D11_DEPTH_WRITE_MASK_ALL : D3D11_DEPTH_WRITE_MASK := 1

/-- `D3D11RenderSystem::_setDepthBufferWriteEnabled` (lines 1955-1966). -/
def _setDepthBufferWriteEnabled (rs : D3D11RenderSystem) (enabled : Bool) : D3D11RenderSystem :=
  { rs with
    mDepthStencilDesc :=
      { rs.mDepthStencilDesc with
        DepthWriteMask :=
          if enabled then D3D11_DEPTH_WRITE_MASK_ALL else D3D11_DEPTH_WRITE_MASK_ZERO }
    mDepthStencilDescChanged := true }

/-- `D3D11RenderSystem::_setDepthBufferFunction` (lines 1968-1972). -/
def _setDepthBufferFunction (maps : D3D11Mappings) (rs : D3D11RenderSystem)
    (func : CompareFunction) : D3D11RenderSystem :=
  { rs with
    mDepthStencilDesc :=
      { rs.mDepthStencilDesc with DepthFunc := maps.get_CompareFunction func }
    mDepthStencilDescChanged := true }

/-- `D3D11RenderSystem::_setDepthBufferParams` (lines 1942-1947). -/
def _setDepthBufferParams (maps : D3D11Mappings) (rs : D3D11RenderSystem)
    (depthTest depthWrite : Bool) (depthFunction : CompareFunction) : D3D11RenderSystem :=
  _setDepthBufferFunction maps
    (_setDepthBufferWriteEnabled (_setDepthBufferCheckEnabled rs depthTest) depthWrite)
    depthFunction

/-- Conversion of a `float` to `int`, which drops the fraction. -/
def truncate (q : ℚ) : Int := q.num.tdiv q.den

/-- `D3D11RenderSystem::_setDepthBias` (lines 1974-1980). The two arguments are `float`s;
the product with `nearFarFactor` is a `float`, rounded before it is converted to `int`. A
product beyond the range of `int` is outside the range of the model. -/
def _setDepthBias (rs : D3D11RenderSystem) (constantBias slopeScaleBias : ℚ) :
    D3D11RenderSystem :=
  let nearFarFactor : ℚ := 10
  { rs with
    mRasterizerDesc :=
      { rs.mRasterizerDesc with
        DepthBias := truncate (toFloat (-constantBias * nearFarFactor))
        SlopeScaledDepthBias := -slopeScaleBias }
    mRasterizerDescChanged := true }

def D3D11_COLOR_WRITE_ENABLE_RED : Nat := 1
def D3D11_COLOR_WRITE_ENABLE_GREEN : Nat := 2
def D3D11_COLOR_WRITE_ENABLE_BLUE : Nat := 4
def D3D11_COLOR_WRITE_ENABLE_ALPHA : Nat := 8

/-- `D3D11RenderSystem::_setColourBufferWriteEnabled` (lines 1982-1997). -/
def _setColourBufferWriteEnabled (rs : D3D11RenderSystem) (red green blue alpha : Bool) :
    D3D11RenderSystem :=
  let val0 : Nat := 0
  let val1 := if red then val0 ||| D3D11_COLOR_WRITE_ENABLE_RED else val0
  let val2 := if green then val1 ||| D3D11_COLOR_WRITE_ENABLE_GREEN else val1
  let val3 := if blue then val2 ||| D3D11_COLOR_WRITE_ENABLE_BLUE else val2
  let val := if alpha then val3 ||| D3D11_COLOR_WRITE_ENABLE_ALPHA else val3
  { rs with
    mBlendDesc := rs.mBlendDesc.setRenderTarget0 fun rt => { rt with RenderTargetWriteMask := val }
    mBlendDescChanged := true }

/-- `D3D11RenderSystem::_setPolygonMode` (lines 1999-2007). -/
def _setPolygonMode (maps : D3D11Mappings) (rs : D3D11RenderSystem) (level : PolygonMode) :
    D3D11RenderSystem :=
  if rs.mPolygonMode ≠ level then
    { rs with
      mPolygonMode := level
      mRasterizerDesc := { rs.mRasterizerDesc with FillMode := maps.get_PolygonMode level }
      mRasterizerDescChanged := true }
  else
    rs

/-- `D3D11RenderSystem::setStencilCheckEnabled` (lines 2009-2013). -/
def setStencilCheckEnabled (rs : D3D11RenderSystem) (enabled : Bool) : D3D11RenderSystem :=
  { rs with
    mDepthStencilDesc := { rs.mDepthStencilDesc with StencilEnable := enabled }
    mDepthStencilDescChanged := true }

/-- `D3D11RenderSystem::setStencilBufferParams` (lines 2015-2043). The masks are stored in
8-bit members. -/
def setStencilBufferParams (maps : D3D11Mappings) (rs : D3D11RenderSystem)
    (func : CompareFunction) (refValue compareMask writeMask : Nat)
    (stencilFailOp depthFailOp passOp : StencilOperation)
    (twoSidedOperation readBackAsTexture : Bool) : D3D11RenderSystem :=
  let flipFront := twoSidedOperation && flipWinding rs
  let flipBack := twoSidedOperation && !flipFront
  { rs with
    mStencilRef := refValue
    mDepthStencilDesc :=
      { rs.mDepthStencilDesc with
        StencilReadMask := compareMask % 2 ^ 8
        StencilWriteMask := writeMask % 2 ^ 8
        FrontFace :=
          { StencilFailOp := maps.get_StencilOperation stencilFailOp flipFront
            StencilDepthFailOp := maps.get_StencilOperation depthFailOp flipFront
            StencilPassOp := maps.get_StencilOperation passOp flipFront
            StencilFunc := maps.get_CompareFunction func }
        BackFace :=
          { StencilFailOp := maps.get_StencilOperation stencilFailOp flipBack
            StencilDepthFailOp := maps.get_StencilOperation depthFailOp flipBack
            StencilPassOp := maps.get_StencilOperation passOp flipBack
            StencilFunc := maps.get_CompareFunction func } }
    mReadBackAsTexture := readBackAsTexture
    mDepthStencilDescChanged := true }

/-- A texture as `_setTexture` reads it: its size in bytes, its shader resource view and its
type. -/
structure D3D11Texture where
  getSize : Nat
  getTexture : Option Handle
  getTextureType : TextureType

/-- `D3D11RenderSystem::_setTexture` (lines 1769-1791). A null `tex` is `none`. The call of
`touch`, which loads the texture, is left out. -/
def _setTexture (rs : D3D11RenderSystem) (stage : Nat) (enabled : Bool)
    (tex : Option D3D11Texture) : D3D11RenderSystem :=
  let unused : D3D11RenderSystem :=
    { rs with
      mTexStageDesc :=
        Function.update rs.mTexStageDesc stage { rs.mTexStageDesc stage with used := false }
      mLastTextureUnitState := min rs.mLastTextureUnitState stage
      mSamplerStatesChanged := true }
  match tex with
  | some dt =>
    if enabled ∧ dt.getSize > 0 then
      { rs with
        mTexStageDesc :=
          Function.update rs.mTexStageDesc stage
            { rs.mTexStageDesc stage with
              pTex := dt.getTexture
              used := true
              type := dt.getTextureType }
        mLastTextureUnitState := size_t (stage + 1)
        mSamplerStatesChanged := true }
    else
      unused
  | none => unused

/-- The render system after `_setTexture` was called for the stages `0`, ..., `count - 1` in
this order, with the arguments `enabled stage` and `tex stage`: an ascending sweep over
the texture stages. -/
def setTextures (rs : D3D11RenderSystem) (enabled : Nat → Bool)
    (tex : Nat → Option D3D11Texture) (count : Nat) : D3D11RenderSystem :=
  (List.range count).foldl (fun rs stage => _setTexture rs stage (enabled stage) (tex stage)) rs

/-! ## Capability derivation -/

def D3D11_STANDARD_VERTEX_ELEMENT_COUNT : Nat := 32
def D3D11_SIMULTANEOUS_RENDER_TARGET_COUNT : Nat := 8
def D3D11_FORMAT_SUPPORT_IA_INDEX_BUFFER : Nat := 0x4

/-- `D3D11RenderSystem::getName` (lines 204-208). -/
def getName : String := "Direct3D11 Rendering Subsystem"

/-- The `SUCCEEDED` test of the platform headers. -/
def SUCCEEDED (hr : HRESULT) : Bool := decide (hr ≥ 0)

/-- The setters of `RenderSystemCapabilities` for the members the render system sets. -/
@[simp]
def RenderSystemCapabilities.setDriverVersion (rsc : RenderSystemCapabilities)
    (v : DriverVersion) : RenderSystemCapabilities :=
  { rsc with mDriverVersion := v }

@[simp]
def RenderSystemCapabilities.setDeviceName (rsc : RenderSystemCapabilities) (name : String) :
    RenderSystemCapabilities :=
  { rsc with mDeviceName := name }

@[simp]
def RenderSystemCapabilities.setRenderSystemName (rsc : RenderSystemCapabilities)
    (name : String) : RenderSystemCapabilities :=
  { rsc with mRenderSystemName := name }

@[simp]
def RenderSystemCapabilities.setStencilBufferBitDepth (rsc : RenderSystemCapabilities)
    (n : Nat) : RenderSystemCapabilities :=
  { rsc with mStencilBufferBitDepth := n }

@[simp]
def RenderSystemCapabilities.setNumTextureUnits (rsc : RenderSystemCapabilities) (n : Nat) :
    RenderSystemCapabilities :=
  { rsc with mNumTextureUnits := n }

@[simp]
def RenderSystemCapabilities.setNumVertexAttributes (rsc : RenderSystemCapabilities)
    (n : Nat) : RenderSystemCapabilities :=
  { rsc with mNumVertexAttributes := n }

@[simp]
def RenderSystemCapabilities.setVendor (rsc : RenderSystemCapabilities) (v : GPUVendor) :
    RenderSystemCapabilities :=
  { rsc with mVendor := v }

@[simp]
def RenderSystemCapabilities.setNumMultiRenderTargets (rsc : RenderSystemCapabilities)
    (n : Nat) : RenderSystemCapabilities :=
  { rsc with mNumMultiRenderTargets := n }

@[simp]
def RenderSystemCapabilities.setMaxPointSize (rsc : RenderSystemCapabilities) (s : ℚ) :
    RenderSystemCapabilities :=
  { rsc with mMaxPointSize := s }

@[simp]
def RenderSystemCapabilities.setNumVertexTextureUnits (rsc : RenderSystemCapabilities)
    (n : Nat) : RenderSystemCapabilities :=
  { rsc with mNumVertexTextureUnits := n }

@[simp]
def RenderSystemCapabilities.setVertexTextureUnitsShared (rsc : RenderSystemCapabilities)
    (shared : Bool) : RenderSystemCapabilities :=
  { rsc with mVertexTextureUnitsShared := shared }

@[simp]
def RenderSystemCapabilities.setVertexProgramConstantFloatCount (rsc : RenderSystemCapabilities)
    (c : Nat) : RenderSystemCapabilities :=
  { rsc with mVertexProgramConstantFloatCount := c }

@[simp]
def RenderSystemCapabilities.setVertexProgramConstantIntCount (rsc : RenderSystemCapabilities)
    (c : Nat) : RenderSystemCapabilities :=
  { rsc with mVertexProgramConstantIntCount := c }

@[simp]
def RenderSystemCapabilities.setVertexProgramConstantBoolCount (rsc : RenderSystemCapabilities)
    (c : Nat) : RenderSystemCapabilities :=
  { rsc with mVertexProgramConstantBoolCount := c }

@[simp]
def RenderSystemCapabilities.setFragmentProgramConstantFloatCount (rsc : RenderSystemCapabilities)
    (c : Nat) : RenderSystemCapabilities :=
  { rsc with mFragmentProgramConstantFloatCount := c }

@[simp]
def RenderSystemCapabilities.setFragmentProgramConstantIntCount (rsc : RenderSystemCapabilities)
    (c : Nat) : RenderSystemCapabilities :=
  { rsc with mFragmentProgramConstantIntCount := c }

@[simp]
def RenderSystemCapabilities.setFragmentProgramConstantBoolCount (rsc : RenderSystemCapabilities)
    (c : Nat) : RenderSystemCapabilities :=
  { rsc with mFragmentProgramConstantBoolCount := c }

@[simp]
def RenderSystemCapabilities.setGeometryProgramConstantFloatCount (rsc : RenderSystemCapabilities)
    (c : Nat) : RenderSystemCapabilities :=
  { rsc with mGeometryProgramConstantFloatCount := c }

@[simp]
def RenderSystemCapabilities.setGeometryProgramConstantIntCount (rsc : RenderSystemCapabilities)
    (c : Nat) : RenderSystemCapabilities :=
  { rsc with mGeometryProgramConstantIntCount := c }

@[simp]
def RenderSystemCapabilities.setGeometryProgramConstantBoolCount (rsc : RenderSystemCapabilities)
    (c : Nat) : RenderSystemCapabilities :=
  { rsc with mGeometryProgramConstantBoolCount := c }

@[simp]
def RenderSystemCapabilities.setTessellationHullProgramConstantFloatCount (rsc : RenderSystemCapabilities)
    (c : Nat) : RenderSystemCapabilities :=
  { rsc with mTessellationHullProgramConstantFloatCount := c }

@[simp]
def RenderSystemCapabilities.setTessellationHullProgramConstantIntCount (rsc : RenderSystemCapabilities)
    (c : Nat) : RenderSystemCapabilities :=
  { rsc with mTessellationHullProgramConstantIntCount := c }

@[simp]
def RenderSystemCapabilities.setTessellationHullProgramConstantBoolCount (rsc : RenderSystemCapabilities)
    (c : Nat) : RenderSystemCapabilities :=
  { rsc with mTessellationHullProgramConstantBoolCount := c }

@[simp]
def RenderSystemCapabilities.setTessellationDomainProgramConstantFloatCount (rsc : RenderSystemCapabilities)
    (c : Nat) : RenderSystemCapabilities :=
  { rsc with mTessellationDomainProgramConstantFloatCount := c }

@[simp]
def RenderSystemCapabilities.setTessellationDomainProgramConstantIntCount (rsc : RenderSystemCapabilities)
    (c : Nat) : RenderSystemCapabilities :=
  { rsc with mTessellationDomainProgramConstantIntCount := c }

@[simp]
def RenderSystemCapabilities.setTessellationDomainProgramConstantBoolCount (rsc : RenderSystemCapabilities)
    (c : Nat) : RenderSystemCapabilities :=
  { rsc with mTessellationDomainProgramConstantBoolCount := c }

@[simp]
def RenderSystemCapabilities.setComputeProgramConstantFloatCount (rsc : RenderSystemCapabilities)
    (c : Nat) : RenderSystemCapabilities :=
  { rsc with mComputeProgramConstantFloatCount := c }

@[simp]
def RenderSystemCapabilities.setComputeProgramConstantIntCount (rsc : RenderSystemCapabilities)
    (c : Nat) : RenderSystemCapabilities :=
  { rsc with mComputeProgramConstantIntCount := c }

@[simp]
def RenderSystemCapabilities.setComputeProgramConstantBoolCount (rsc : RenderSystemCapabilities)
    (c : Nat) : RenderSystemCapabilities :=
  { rsc with mComputeProgramConstantBoolCount := c }

@[simp]
def RenderSystemCapabilities.setGeometryProgramNumOutputVertices
    (rsc : RenderSystemCapabilities) (n : Nat) : RenderSystemCapabilities :=
  { rsc with mGeometryProgramNumOutputVertices := n }

/-- A profile added under `#if SUPPORT_SM2_0_HLSL_SHADERS == 1`. -/
def RenderSystemCapabilities.addSM2ShaderProfile (rsc : RenderSystemCapabilities)
    (config : BuildConfig) (profile : String) : RenderSystemCapabilities :=
  if config.SUPPORT_SM2_0_HLSL_SHADERS then rsc.addShaderProfile profile else rsc

open Capabilities in
/-- `D3D11RenderSystem::convertVertexShaderCaps` (lines 1140-1183). -/
def convertVertexShaderCaps (config : BuildConfig) (rs : D3D11RenderSystem)
    (rsc : RenderSystemCapabilities) : RenderSystemCapabilities :=
  let rsc :=
    if rs.mFeatureLevel ≥ D3D_FEATURE_LEVEL_9_1 then
      (rsc.addShaderProfile "vs_4_0_level_9_1").addSM2ShaderProfile config "vs_2_0"
    else rsc
  let rsc :=
    if rs.mFeatureLevel ≥ D3D_FEATURE_LEVEL_9_3 then
      ((rsc.addShaderProfile "vs_4_0_level_9_3").addSM2ShaderProfile config
        "vs_2_a").addSM2ShaderProfile config "vs_2_x"
    else rsc
  let rsc :=
    if rs.mFeatureLevel ≥ D3D_FEATURE_LEVEL_10_0 then
      (rsc.addShaderProfile "vs_4_0").addSM2ShaderProfile config "vs_3_0"
    else rsc
  let rsc :=
    if rs.mFeatureLevel ≥ D3D_FEATURE_LEVEL_10_1 then rsc.addShaderProfile "vs_4_1" else rsc
  let rsc :=
    if rs.mFeatureLevel ≥ D3D_FEATURE_LEVEL_11_0 then rsc.addShaderProfile "vs_5_0" else rsc
  (((rsc.setCapability RSC_VERTEX_PROGRAM).setVertexProgramConstantBoolCount
    16).setVertexProgramConstantIntCount 16).setVertexProgramConstantFloatCount 512

open Capabilities in
/-- `D3D11RenderSystem::convertPixelShaderCaps` (lines 1185-1232). -/
def convertPixelShaderCaps (config : BuildConfig) (rs : D3D11RenderSystem)
    (rsc : RenderSystemCapabilities) : RenderSystemCapabilities :=
  let rsc :=
    if rs.mFeatureLevel ≥ D3D_FEATURE_LEVEL_9_1 then
      (rsc.addShaderProfile "ps_4_0_level_9_1").addSM2ShaderProfile config "ps_2_0"
    else rsc
  let rsc :=
    if rs.mFeatureLevel ≥ D3D_FEATURE_LEVEL_9_3 then
      (((rsc.addShaderProfile "ps_4_0_level_9_3").addSM2ShaderProfile config
        "ps_2_a").addSM2ShaderProfile config "ps_2_b").addSM2ShaderProfile config "ps_2_x"
    else rsc
  let rsc :=
    if rs.mFeatureLevel ≥ D3D_FEATURE_LEVEL_10_0 then
      ((rsc.addShaderProfile "ps_4_0").addSM2ShaderProfile config
        "ps_3_0").addSM2ShaderProfile config "ps_3_x"
    else rsc
  let rsc :=
    if rs.mFeatureLevel ≥ D3D_FEATURE_LEVEL_10_1 then rsc.addShaderProfile "ps_4_1" else rsc
  let rsc :=
    if rs.mFeatureLevel ≥ D3D_FEATURE_LEVEL_11_0 then rsc.addShaderProfile "ps_5_0" else rsc
  (((rsc.setCapability RSC_FRAGMENT_PROGRAM).setFragmentProgramConstantBoolCount
    16).setFragmentProgramConstantIntCount 16).setFragmentProgramConstantFloatCount 512

open Capabilities in
/-- `D3D11RenderSystem::convertHullShaderCaps` (lines 1234-1252). -/
def convertHullShaderCaps (rs : D3D11RenderSystem) (rsc : RenderSystemCapabilities) :
    RenderSystemCapabilities :=
  if rs.mFeatureLevel ≥ D3D_FEATURE_LEVEL_11_0 then
    ((((rsc.addShaderProfile "hs_5_0").setCapability
      RSC_TESSELLATION_HULL_PROGRAM).setTessellationHullProgramConstantBoolCount
      16).setTessellationHullProgramConstantIntCount
      16).setTessellationHullProgramConstantFloatCount 512
  else rsc

open Capabilities in
/-- `D3D11RenderSystem::convertDomainShaderCaps` (lines 1254-1273). -/
def convertDomainShaderCaps (rs : D3D11RenderSystem) (rsc : RenderSystemCapabilities) :
    RenderSystemCapabilities :=
  if rs.mFeatureLevel ≥ D3D_FEATURE_LEVEL_11_0 then
    ((((rsc.addShaderProfile "ds_5_0").setCapability
      RSC_TESSELLATION_DOMAIN_PROGRAM).setTessellationDomainProgramConstantBoolCount
      16).setTessellationDomainProgramConstantIntCount
      16).setTessellationDomainProgramConstantFloatCount 512
  else rsc

open Capabilities in
/-- `D3D11RenderSystem::convertComputeShaderCaps` (lines 1275-1302). -/
def convertComputeShaderCaps (rs : D3D11RenderSystem) (rsc : RenderSystemCapabilities) :
    RenderSystemCapabilities :=
  let rsc :=
    if rs.mFeatureLevel ≥ D3D_FEATURE_LEVEL_10_0 then
      (rsc.addShaderProfile "cs_4_0").setCapability RSC_COMPUTE_PROGRAM
    else rsc
  let rsc :=
    if rs.mFeatureLevel ≥ D3D_FEATURE_LEVEL_10_1 then rsc.addShaderProfile "cs_4_1" else rsc
  let rsc :=
    if rs.mFeatureLevel ≥ D3D_FEATURE_LEVEL_11_0 then rsc.addShaderProfile "cs_5_0" else rsc
  ((rsc.setComputeProgramConstantBoolCount 16).setComputeProgramConstantIntCount
    16).setComputeProgramConstantFloatCount 512

open Capabilities in
/-- `D3D11RenderSystem::convertGeometryShaderCaps` (lines 1304-1325). -/
def convertGeometryShaderCaps (rs : D3D11RenderSystem) (rsc : RenderSystemCapabilities) :
    RenderSystemCapabilities :=
  let rsc :=
    if rs.mFeatureLevel ≥ D3D_FEATURE_LEVEL_10_0 then
      ((rsc.addShaderProfile "gs_4_0").setCapability RSC_GEOMETRY_PROGRAM).setCapability
        RSC_HWRENDER_TO_VERTEX_BUFFER
    else rsc
  let rsc :=
    if rs.mFeatureLevel ≥ D3D_FEATURE_LEVEL_10_1 then rsc.addShaderProfile "gs_4_1" else rsc
  let rsc :=
    if rs.mFeatureLevel ≥ D3D_FEATURE_LEVEL_11_0 then rsc.addShaderProfile "gs_5_0" else rsc
  (((rsc.setGeometryProgramConstantFloatCount 512).setGeometryProgramConstantIntCount
    16).setGeometryProgramConstantBoolCount 16).setGeometryProgramNumOutputVertices 1024

open GPUVendor D3D_DRIVER_TYPE in
/-- `createRenderSystemCapabilities`, lines 1042-1072: the vendor of the adapter. -/
def vendorOf (driverType : D3D_DRIVER_TYPE) (vendorId : Nat) : GPUVendor :=
  match driverType with
  | D3D_DRIVER_TYPE_HARDWARE =>
    if vendorId = 0x10DE then GPU_NVIDIA
    else if vendorId = 0x1002 then GPU_AMD
    else if vendorId = 0x163C ∨ vendorId = 0x8086 then GPU_INTEL
    else GPU_UNKNOWN
  | D3D_DRIVER_TYPE_SOFTWARE => GPU_MS_SOFTWARE
  | D3D_DRIVER_TYPE_WARP => GPU_MS_WARP
  | _ => GPU_UNKNOWN

/-- `createRenderSystemCapabilities`, lines 1089-1095: the number of render targets the
feature level allows. -/
def numMultiRenderTargets (config : BuildConfig) (featureLevel : D3D_FEATURE_LEVEL) : Nat :=
  if config.D3D_FEATURE_LEVEL_9_3_defined then
    if featureLevel > D3D_FEATURE_LEVEL_9_3 then D3D11_SIMULTANEOUS_RENDER_TARGET_COUNT
    else if featureLevel = D3D_FEATURE_LEVEL_9_3 then 4
    else 1
  else
    D3D11_SIMULTANEOUS_RENDER_TARGET_COUNT

/-- A sequence of `setCapability` calls. -/
def RenderSystemCapabilities.setCapabilities (rsc : RenderSystemCapabilities)
    (l : List Capabilities) : RenderSystemCapabilities :=
  l.foldl RenderSystemCapabilities.setCapability rsc

open Capabilities in
/-- `D3D11RenderSystem::createRenderSystemCapabilities` (lines 972-1118).

`rsc` is the object that `new RenderSystemCapabilities()` gives: the constructor belongs to
the engine's core library. `formatSupport` is what the device answers to
`CheckFormatSupport(DXGI_FORMAT_R32_UINT, &formatSupport)`: the result code and the
support bits. -/
def createRenderSystemCapabilities (config : BuildConfig) (rsc : RenderSystemCapabilities)
    (rs : D3D11RenderSystem) (formatSupport : HRESULT × Nat) : RenderSystemCapabilities :=
  let rsc :=
    ((rsc.setDriverVersion rs.mDriverVersion).setDeviceName
      rs.mActiveD3DDriver.DriverDescription).setRenderSystemName getName
  let rsc := rsc.setCapabilities [RSC_ADVANCED_BLEND_OPERATIONS, RSC_HWSTENCIL]
  let rsc := rsc.setStencilBufferBitDepth 8
  let rsc :=
    if rs.mFeatureLevel ≥ D3D_FEATURE_LEVEL_9_2
        ∨ (SUCCEEDED formatSupport.1
          ∧ 0 ≠ formatSupport.2 &&& D3D11_FORMAT_SUPPORT_IA_INDEX_BUFFER) then
      rsc.setCapability RSC_32BIT_INDEX
    else rsc
  let rsc :=
    (rsc.setNumTextureUnits OGRE_MAX_TEXTURE_LAYERS).setNumVertexAttributes
      D3D11_STANDARD_VERTEX_ELEMENT_COUNT
  let rsc := rsc.setCapabilities [RSC_ANISOTROPY, RSC_AUTOMIPMAP, RSC_AUTOMIPMAP_COMPRESSED,
    RSC_DOT3]
  let rsc :=
    if rs.mFeatureLevel ≥ D3D_FEATURE_LEVEL_10_0 then
      rsc.setCapabilities [RSC_CUBEMAPPING, RSC_READ_BACK_AS_TEXTURE]
    else rsc
  let rsc := rsc.setCapabilities [RSC_TEXTURE_COMPRESSION, RSC_TEXTURE_COMPRESSION_DXT,
    RSC_SCISSOR_TEST]
  let rsc :=
    if rs.mFeatureLevel ≥ D3D_FEATURE_LEVEL_10_0 then rsc.setCapability RSC_TWO_SIDED_STENCIL
    else rsc
  let rsc := rsc.setCapabilities [RSC_STENCIL_WRAP, RSC_HWOCCLUSION,
    RSC_HWOCCLUSION_ASYNCHRONOUS]
  let rsc := convertVertexShaderCaps config rs rsc
  let rsc := convertPixelShaderCaps config rs rsc
  let rsc := convertGeometryShaderCaps rs rsc
  let rsc := convertHullShaderCaps rs rsc
  let rsc := convertDomainShaderCaps rs rsc
  let rsc := convertComputeShaderCaps rs rsc
  let rsc := rsc.addShaderProfile "hlsl"
  let rsc :=
    if rs.mFeatureLevel ≥ D3D_FEATURE_LEVEL_11_0 then rsc.setCapability RSC_SHADER_SUBROUTINE
    else rsc
  let rsc := rsc.setCapabilities [RSC_USER_CLIP_PLANES, RSC_VERTEX_FORMAT_UBYTE4,
    RSC_RTT_SEPARATE_DEPTHBUFFER, RSC_RTT_MAIN_DEPTHBUFFER_ATTACHABLE]
  let rsc := rsc.setVendor (vendorOf rs.mDriverType rs.mActiveD3DDriver.VendorId)
  let rsc := rsc.setCapabilities [RSC_INFINITE_FAR_PLANE, RSC_TEXTURE_3D]
  let rsc :=
    if rs.mFeatureLevel ≥ D3D_FEATURE_LEVEL_10_0 then
      rsc.setCapabilities [RSC_NON_POWER_OF_2_TEXTURES, RSC_HWRENDER_TO_TEXTURE_3D,
        RSC_TEXTURE_1D, RSC_TEXTURE_COMPRESSION_BC6H_BC7, RSC_COMPLETE_TEXTURE_BINDING]
    else rsc
  let rsc := rsc.setCapabilities [RSC_HWRENDER_TO_TEXTURE, RSC_TEXTURE_FLOAT]
  let rsc :=
    rsc.setNumMultiRenderTargets
      (min (numMultiRenderTargets config rs.mFeatureLevel)
        config.OGRE_MAX_MULTIPLE_RENDER_TARGETS)
  let rsc := rsc.setCapabilities [RSC_MRT_DIFFERENT_BIT_DEPTHS, RSC_POINT_SPRITES,
    RSC_POINT_EXTENDED_PARAMETERS]
  let rsc := rsc.setMaxPointSize 256
  let rsc := rsc.setCapability RSC_VERTEX_TEXTURE_FETCH
  let rsc := (rsc.setNumVertexTextureUnits 4).setVertexTextureUnitsShared false
  rsc.setCapabilities [RSC_MIPMAP_LOD_BIAS, RSC_PERSTAGECONSTANT,
    RSC_VERTEX_BUFFER_INSTANCE_DATA, RSC_CAN_GET_COMPILED_SHADER_BUFFER]

open GpuProgramType in
/-- The float, int and bool constant counts that a capability object reports for a stage. -/
def RenderSystemCapabilities.constantCounts (rsc : RenderSystemCapabilities)
    (stage : GpuProgramType) : Nat × Nat × Nat :=
  match stage with
  | GPT_VERTEX_PROGRAM =>
    (rsc.mVertexProgramConstantFloatCount, rsc.mVertexProgramConstantIntCount,
      rsc.mVertexProgramConstantBoolCount)
  | GPT_FRAGMENT_PROGRAM =>
    (rsc.mFragmentProgramConstantFloatCount, rsc.mFragmentProgramConstantIntCount,
      rsc.mFragmentProgramConstantBoolCount)
  | GPT_GEOMETRY_PROGRAM =>
    (rsc.mGeometryProgramConstantFloatCount, rsc.mGeometryProgramConstantIntCount,
      rsc.mGeometryProgramConstantBoolCount)
  | GPT_DOMAIN_PROGRAM =>
    (rsc.mTessellationDomainProgramConstantFloatCount,
      rsc.mTessellationDomainProgramConstantIntCount,
      rsc.mTessellationDomainProgramConstantBoolCount)
  | GPT_HULL_PROGRAM =>
    (rsc.mTessellationHullProgramConstantFloatCount,
      rsc.mTessellationHullProgramConstantIntCount,
      rsc.mTessellationHullProgramConstantBoolCount)
  | GPT_COMPUTE_PROGRAM =>
    (rsc.mComputeProgramConstantFloatCount, rsc.mComputeProgramConstantIntCount,
      rsc.mComputeProgramConstantBoolCount)

/-- A build for the desktop with the configuration the engine ships: shader model 2
profiles off, 8 render targets, a Windows 8 software kit, release mode, no threading. -/
def sampleConfig : BuildConfig where
  SUPPORT_SM2_0_HLSL_SHADERS := false
  OGRE_MAX_MULTIPLE_RENDER_TARGETS := 8
  D3D_FEATURE_LEVEL_9_3_defined := false
  OGRE_WINRT := false
  OGRE_WINRT_PHONE := false
  WIN32_WINNT_WIN8 := true
  OGRE_DEBUG_MODE := false
  OGRE_THREAD_SUPPORT := false

/-- A capability object with no capability set, no profile and every number 0. -/
def emptyCapabilities : RenderSystemCapabilities where
  mDriverVersion := ⟨0, 0, 0, 0⟩
  mDeviceName := ""
  mRenderSystemName := ""
  mCapabilities := fun _ => false
  mStencilBufferBitDepth := 0
  mNumTextureUnits := 0
  mNumVertexAttributes := 0
  mSupportedShaderProfiles := []
  mVendor := GPUVendor.GPU_UNKNOWN
  mNumMultiRenderTargets := 0
  mMaxPointSize := 0
  mNumVertexTextureUnits := 0
  mVertexTextureUnitsShared := false
  mVertexProgramConstantFloatCount := 0
  mVertexProgramConstantIntCount := 0
  mVertexProgramConstantBoolCount := 0
  mFragmentProgramConstantFloatCount := 0
  mFragmentProgramConstantIntCount := 0
  mFragmentProgramConstantBoolCount := 0
  mGeometryProgramConstantFloatCount := 0
  mGeometryProgramConstantIntCount := 0
  mGeometryProgramConstantBoolCount := 0
  mGeometryProgramNumOutputVertices := 0
  mTessellationHullProgramConstantFloatCount := 0
  mTessellationHullProgramConstantIntCount := 0
  mTessellationHullProgramConstantBoolCount := 0
  mTessellationDomainProgramConstantFloatCount := 0
  mTessellationDomainProgramConstantIntCount := 0
  mTessellationDomainProgramConstantBoolCount := 0
  mComputeProgramConstantFloatCount := 0
  mComputeProgramConstantIntCount := 0
  mComputeProgramConstantBoolCount := 0

/-! ## Member functions that reach the device -/

deriving instance DecidableEq for Except

/-- The render system together with the history of the calls issued so far. -/
structure World where
  rs : D3D11RenderSystem
  calls : List Call

/-- A member function that reaches the device and may raise: from the world it is entered
in, it gives either a value or the exception raised, and the world it leaves behind. -/
def M (α : Type) : Type := World → Except OgreException α × World

instance : Monad M where
  pure a := fun w => (Except.ok a, w)
  bind m f := fun w =>
    match (m w).1 with
    | Except.ok a => f a (m w).2
    | Except.error e => (Except.error e, (m w).2)

/-- Read the member variables. -/
def getRS : M D3D11RenderSystem := fun w => (Except.ok w.rs, w)

/-- Write member variables. -/
def modifyRS (f : D3D11RenderSystem → D3D11RenderSystem) : M Unit :=
  fun w => (Except.ok (), { w with rs := f w.rs })

/-- Issue a call: it is appended to the history. -/
def native (c : Call) : M Unit :=
  fun w => (Except.ok (), { w with calls := w.calls ++ [c] })

/-- Raise an exception, as `OGRE_EXCEPT` does. -/
def OGRE_EXCEPT {α : Type} (number : ExceptionCodes) (description source : String) : M α :=
  fun w => (Except.error ⟨number, none, description, source⟩, w)

/-- Raise an exception that carries a native result code, as `OGRE_EXCEPT_EX` does. -/
def OGRE_EXCEPT_EX {α : Type} (number : ExceptionCodes) (hr : HRESULT)
    (description source : String) : M α :=
  fun w => (Except.error ⟨number, some hr, description, source⟩, w)

/-- `mDevice.isError()`. -/
def isError : M Bool := fun w => (Except.ok (w.rs.mDevice.isError w.calls), w)

/-- `mDevice.getErrorDescription()` and `mDevice.getErrorDescription(hr)`. -/
def getErrorDescription (hr : Option HRESULT) : M String :=
  fun w => (Except.ok (w.rs.mDevice.getErrorDescription w.calls hr), w)

/-- What the `Create...State` call just issued returned. -/
def created : M (HRESULT × Option Handle) :=
  fun w => (Except.ok (w.rs.mDevice.created w.calls), w)

/-- The buffer that the `SOGetTargets` call just issued stored. -/
def soTarget : M (Option Handle) :=
  fun w => (Except.ok (w.rs.mDevice.soTarget w.calls), w)

/-- The description of the exception escaping from the `bindToShader` call just issued,
if one does. -/
def bindToShaderError : M (Option String) :=
  fun w => (Except.ok (w.rs.mDevice.bindToShaderError w.calls), w)

/-- Raise the exception `e` again: it passes through the caller unchanged. -/
def rethrow {α : Type} (e : OgreException) : M α := fun w => (Except.error e, w)

/-- The calls that running `m` in `w` adds to the history. -/
def M.issued {α : Type} (m : M α) (w : World) : List Call :=
  (m w).2.calls.drop w.calls.length

/-- The recurring test after a context call: if the device reports an error, raise a
rendering-API error whose description is `what` followed by the device's description. -/
def throwIfError (what source : String) : M Unit := do
  if (← isError) then
    let errorDescription ← getErrorDescription none
    OGRE_EXCEPT ExceptionCodes.ERR_RENDERINGAPI_ERROR (what ++ errorDescription) source

/-- The recurring test after a `Create...State` call: on a failure code raise a
rendering-API error that carries the code, otherwise give the created object. -/
def throwIfFailed (what : String) : M (Option Handle) := do
  let r ← created
  if FAILED r.1 then
    let errorDescription ← getErrorDescription (some r.1)
    OGRE_EXCEPT_EX ExceptionCodes.ERR_RENDERINGAPI_ERROR r.1 (what ++ errorDescription)
      "D3D11RenderSystem::_render"
  else
    pure r.2

/-- The local `D3D11RenderOperationState` of `_render` (lines 2276-2291). The two arrays
are held as the lists of their first `mSamplerStatesCount` and `mTexturesCount` entries. -/
structure D3D11RenderOperationState where
  mBlendState : Option Handle
  mRasterizer : Option Handle
  mDepthStencilState : Option Handle
  mSamplerStates : List (Option Handle)
  mSamplerStatesCount : Nat
  mTextures : List (Option Handle)
  mTexturesCount : Nat

/-- `_render`, lines 2323-2340: the blend state object of this operation. -/
def resolveBlendState : M (Option Handle) := do
  let rs ← getRS
  if rs.mBlendDescChanged then
    modifyRS fun rs => { rs with mBlendDescChanged := false, mBoundBlendState := none }
    native (Call.CreateBlendState rs.mBlendDesc)
    throwIfFailed "Failed to create blend state\nError Description:"
  else
    pure rs.mBoundBlendState

/-- `_render`, lines 2342-2359: the rasterizer state object of this operation. -/
def resolveRasterizer : M (Option Handle) := do
  let rs ← getRS
  if rs.mRasterizerDescChanged then
    modifyRS fun rs => { rs with mRasterizerDescChanged := false, mBoundRasterizer := none }
    native (Call.CreateRasterizerState rs.mRasterizerDesc)
    throwIfFailed "Failed to create rasterizer state\nError Description:"
  else
    pure rs.mBoundRasterizer

/-- `_render`, lines 2361-2378: the depth-stencil state object of this operation. -/
def resolveDepthStencilState : M (Option Handle) := do
  let rs ← getRS
  if rs.mDepthStencilDescChanged then
    modifyRS fun rs =>
      { rs with mBoundDepthStencilState := none, mDepthStencilDescChanged := false }
    native (Call.CreateDepthStencilState rs.mDepthStencilDesc)
    throwIfFailed "Failed to create depth stencil state\nError Description:"
  else
    pure rs.mBoundDepthStencilState

/-- `Math::Clamp`. -/
def Clamp (val minval maxval : ℚ) : ℚ := max (min val maxval) minval

/-- `_render`, lines 2390-2414: the body of the sampler loop for unit `n`. It gives the
sampler state and the texture view stored for the unit. -/
def resolveSamplerUnit (maps : D3D11Mappings) (n : Nat) :
    M (Option Handle × Option Handle) := do
  let rs ← getRS
  let stage := rs.mTexStageDesc n
  if stage.used then
    let samplerDesc : D3D11_SAMPLER_DESC :=
      { stage.samplerDesc with
        Filter := maps.get_FilterOptions (rs.FilterMinification n)
          (rs.FilterMagnification n) (rs.FilterMips n) false
        ComparisonFunc := maps.get_CompareFunction rs.mSceneAlphaRejectFunc
        MipLODBias := Clamp (stage.samplerDesc.MipLODBias - 1 / 2) (-16) (1599 / 100)
        MinLOD := -D3D11_FLOAT32_MAX
        MaxLOD := D3D11_FLOAT32_MAX }
    modifyRS fun rs =>
      { rs with
        mTexStageDesc :=
          Function.update rs.mTexStageDesc n { stage with samplerDesc := samplerDesc } }
    native (Call.CreateSamplerState samplerDesc)
    let samplerState ← throwIfFailed "Failed to create sampler state\nError Description:"
    pure (samplerState, stage.pTex)
  else
    pure (none, none)

/-- `_render`, lines 2388-2415: the sampler loop from unit `n` on, for `count` units. -/
def resolveSamplerUnits (maps : D3D11Mappings) (n : Nat) :
    Nat → M (List (Option Handle × Option Handle))
  | 0 => pure []
  | count + 1 => do
    let unit ← resolveSamplerUnit maps n
    let units ← resolveSamplerUnits maps (n + 1) count
    pure (unit :: units)

/-- `_render`, lines 2320-2420: the state objects of this operation. A descriptor that
changed is rebuilt, the others keep the bound object; samplers are rebuilt for the first
`min(mLastTextureUnitState, OGRE_MAX_TEXTURE_LAYERS + 1)` units when sampler state
changed. -/
def resolveStateObjects (maps : D3D11Mappings) : M D3D11RenderOperationState := do
  let blendState ← resolveBlendState
  let rasterizer ← resolveRasterizer
  let depthStencilState ← resolveDepthStencilState
  let rs ← getRS
  if rs.mSamplerStatesChanged then
    let numberOfSamplers := min rs.mLastTextureUnitState (OGRE_MAX_TEXTURE_LAYERS + 1)
    let units ← resolveSamplerUnits maps 0 numberOfSamplers
    pure
      { mBlendState := blendState
        mRasterizer := rasterizer
        mDepthStencilState := depthStencilState
        mSamplerStates := units.map Prod.fst
        mSamplerStatesCount := numberOfSamplers
        mTextures := units.map Prod.snd
        mTexturesCount := numberOfSamplers }
  else
    pure
      { mBlendState := blendState
        mRasterizer := rasterizer
        mDepthStencilState := depthStencilState
        mSamplerStates := []
        mSamplerStatesCount := 0
        mTextures := []
        mTexturesCount := 0 }

/-- A `...SetSamplers` call followed by a `...SetShaderResources` call for one stage, each
followed by the error test, and each issued only when `supported` holds. -/
def setSamplersAndResources (stage : GpuProgramType) (supported : Bool)
    (opState : D3D11RenderOperationState) (samplersMessage resourcesMessage : String) :
    M Unit := do
  if supported then
    native (Call.SetSamplers stage (UINT 0) (UINT opState.mSamplerStatesCount)
      opState.mSamplerStates)
    throwIfError samplersMessage "D3D11RenderSystem::_render"
  if supported then
    native (Call.SetShaderResources stage (UINT 0) (UINT opState.mTexturesCount)
      opState.mTextures)
    throwIfError resourcesMessage "D3D11RenderSystem::_render"

open GpuProgramType BindingType in
/-- `_render`, lines 2422-2483: bind the state objects that differ from the bound ones. -/
def bindStateObjects (opState : D3D11RenderOperationState) : M Unit := do
  let rs ← getRS
  if opState.mBlendState ≠ rs.mBoundBlendState then
    modifyRS fun rs => { rs with mBoundBlendState := opState.mBlendState }
    native (Call.OMSetBlendState opState.mBlendState 0xffffffff)
    throwIfError "D3D11 device cannot set blend state\nError Description:"
      "D3D11RenderSystem::_render"
    if rs.mSamplerStatesChanged ∧ rs.mBoundGeometryProgram.isSome
        ∧ rs.mBindingType = BT_GEOMETRY then
      setSamplersAndResources GPT_GEOMETRY_PROGRAM true opState
        "D3D11 device cannot set pixel shader samplers\nError Description:"
        "D3D11 device cannot set pixel shader resources\nError Description:"
  if opState.mRasterizer ≠ rs.mBoundRasterizer then
    modifyRS fun rs => { rs with mBoundRasterizer := opState.mRasterizer }
    native (Call.RSSetState opState.mRasterizer)
    throwIfError "D3D11 device cannot set rasterizer state\nError Description:"
      "D3D11RenderSystem::_render"
  if opState.mDepthStencilState ≠ rs.mBoundDepthStencilState then
    modifyRS fun rs => { rs with mBoundDepthStencilState := opState.mDepthStencilState }
    native (Call.OMSetDepthStencilState opState.mDepthStencilState rs.mStencilRef)
    throwIfError "D3D11 device cannot set depth stencil state\nError Description:"
      "D3D11RenderSystem::_render"

open GpuProgramType BindingType in
/-- `_render`, lines 2485-2622: push samplers and textures to the stages when sampler
state changed and at least one unit is in use. -/
def bindSamplers (opState : D3D11RenderOperationState) : M Unit := do
  let rs ← getRS
  if rs.mSamplerStatesChanged ∧ opState.mSamplerStatesCount > 0 then
    modifyRS fun rs => { rs with mSamplerStatesChanged := false }
    setSamplersAndResources GPT_FRAGMENT_PROGRAM true opState
      "D3D11 device cannot set pixel shader samplers\nError Description:"
      "D3D11 device cannot set pixel shader resources\nError Description:"
    setSamplersAndResources GPT_VERTEX_PROGRAM
      (decide (rs.mFeatureLevel ≥ D3D_FEATURE_LEVEL_10_0)) opState
      "D3D11 device cannot set pixel shader samplers\nError Description:"
      "D3D11 device cannot set pixel shader resources\nError Description:"
    if rs.mBoundComputeProgram.isSome ∧ rs.mBindingType = BT_COMPUTE then
      setSamplersAndResources GPT_COMPUTE_PROGRAM
        (decide (rs.mFeatureLevel ≥ D3D_FEATURE_LEVEL_10_0)) opState
        "D3D11 device cannot set compute shader samplers\nError Description:"
        "D3D11 device cannot set compute shader resources\nError Description:"
    if rs.mBoundTessellationHullProgram.isSome ∧ rs.mBindingType = BT_TESSELLATION_HULL then
      setSamplersAndResources GPT_HULL_PROGRAM
        (decide (rs.mFeatureLevel ≥ D3D_FEATURE_LEVEL_10_0)) opState
        "D3D11 device cannot set hull shader samplers\nError Description:"
        "D3D11 device cannot set hull shader resources\nError Description:"
    if rs.mBoundTessellationDomainProgram.isSome
        ∧ rs.mBindingType = BT_TESSELLATION_DOMAIN then
      setSamplersAndResources GPT_DOMAIN_PROGRAM
        (decide (rs.mFeatureLevel ≥ D3D_FEATURE_LEVEL_10_0)) opState
        "D3D11 device cannot set domain shader samplers\nError Description:"
        "D3D11 device cannot set domain shader resources\nError Description:"

/-- Description of the exception `_render` raises when the vertex or the fragment program
is missing (line 2635). -/
def missingShadersMessage : String :=
  "Attempted to render to a D3D11 device without both vertex and fragment shaders there is no fixed pipeline in d3d11 - use the RTSS or write custom shaders."

/-- Description of the exception `_render` raises when a hull program is bound without a
domain program (line 2645). -/
def missingDomainShaderMessage : String :=
  "Attempted to use tessellation, but domain shader is missing"

/-- Description of the exception `_render` raises when a domain program is bound without a
hull program (line 2650). -/
def missingHullShaderMessage : String :=
  "Attempted to use tessellation, but hull shader is missing"

/-- Description of the exception `_render` raises for a triangle fan (line 2826). -/
def triangleFanMessage : String :=
  "Error - DX11 render - no support for triangle fan (OT_TRIANGLE_FAN)"

/-- The exception for missing vertex or fragment programs. -/
def missingShadersError : OgreException :=
  ⟨ExceptionCodes.ERR_RENDERINGAPI_ERROR, none, missingShadersMessage,
    "D3D11RenderSystem::_render"⟩

/-- The exception for a hull program without a domain program. -/
def missingDomainShaderError : OgreException :=
  ⟨ExceptionCodes.ERR_RENDERINGAPI_ERROR, none, missingDomainShaderMessage,
    "D3D11RenderSystem::_render"⟩

/-- The exception for a domain program without a hull program. -/
def missingHullShaderError : OgreException :=
  ⟨ExceptionCodes.ERR_RENDERINGAPI_ERROR, none, missingHullShaderMessage,
    "D3D11RenderSystem::_render"⟩

/-- The exception for a triangle fan. -/
def triangleFanError : OgreException :=
  ⟨ExceptionCodes.ERR_RENDERINGAPI_ERROR, none, triangleFanMessage,
    "D3D11RenderSystem::_render"⟩

open OperationType in
/-- `_render`, lines 2624-2661: read the stream-output target, then check that the bound
programs are consistent. -/
def checkPrograms (op : RenderOperation) : M Unit := do
  native (Call.SOGetTargets 1)
  let pSOTarget ← soTarget
  let rs ← getRS
  if rs.mBoundVertexProgram.isNone ∨
      (rs.mBoundFragmentProgram.isNone ∧ op.operationType ≠ OT_POINT_LIST
        ∧ pSOTarget.isNone) then
    OGRE_EXCEPT ExceptionCodes.ERR_RENDERINGAPI_ERROR missingShadersMessage
      "D3D11RenderSystem::_render"
  if (rs.mBoundTessellationHullProgram.isSome ∧ rs.mBoundTessellationDomainProgram.isNone) ∨
      (rs.mBoundTessellationHullProgram.isNone ∧ rs.mBoundTessellationDomainProgram.isSome) then
    if rs.mBoundTessellationHullProgram.isSome ∧ rs.mBoundTessellationDomainProgram.isNone then
      OGRE_EXCEPT ExceptionCodes.ERR_RENDERINGAPI_ERROR missingDomainShaderMessage
        "D3D11RenderSystem::_render"
    else
      OGRE_EXCEPT ExceptionCodes.ERR_RENDERINGAPI_ERROR missingHullShaderMessage
        "D3D11RenderSystem::_render"
  throwIfError "D3D11 device cannot set geometry shader to null\nError Description:"
    "D3D11RenderSystem::_render"

/-- One block of the deferred program bind: if a program is bound to the stage, issue the
stage's `SetShader` with the program's shader and the stage's class instances, then test
for a device error. -/
def setShader (stage : GpuProgramType) (program : Option D3D11HLSLProgram)
    (message : String) : M Unit := do
  let rs ← getRS
  match program with
  | some p =>
    native (Call.SetShader stage p.shader (rs.mClassInstances stage)
      (rs.mNumClassInstances stage))
    throwIfError message "D3D11RenderSystem::_render"
  | none => pure ()

open GpuProgramType in
/-- `_render`, lines 2663-2743: the deferred program bind, one block per stage. -/
def bindPrograms : M Unit := do
  let rs ← getRS
  setShader GPT_VERTEX_PROGRAM rs.mBoundVertexProgram
    "D3D11 device cannot set vertex shader\nError Description:"
  setShader GPT_FRAGMENT_PROGRAM rs.mBoundFragmentProgram
    "D3D11 device cannot set pixel shader\nError Description:"
  setShader GPT_GEOMETRY_PROGRAM rs.mBoundGeometryProgram
    "D3D11 device cannot set geometry shader\nError Description:"
  setShader GPT_HULL_PROGRAM rs.mBoundTessellationHullProgram
    "D3D11 device cannot set hull shader\nError Description:"
  setShader GPT_DOMAIN_PROGRAM rs.mBoundTessellationDomainProgram
    "D3D11 device cannot set domain shader\nError Description:"
  setShader GPT_COMPUTE_PROGRAM rs.mBoundComputeProgram
    "D3D11 device cannot set compute shader\nError Description:"

/-- `D3D11RenderSystem::setVertexDeclaration(decl, binding)` (lines 2231-2237). It hands
over to `D3D11VertexDeclaration::bindToShader`, which is recorded as a call; an exception
that escapes from it carries the description the collaborator gives and names the
collaborator as its source. -/
def setVertexDeclaration (decl : Handle) (binding : VertexBufferBinding) : M Unit := do
  let rs ← getRS
  native (Call.bindToShader decl rs.mBoundVertexProgram binding)
  let failure ← bindToShaderError
  match failure with
  | some description =>
    OGRE_EXCEPT ExceptionCodes.ERR_RENDERINGAPI_ERROR description
      "D3D11VertexDeclaration::bindToShader"
  | none => pure ()

/-- The loop of `setVertexBufferBinding` over the bound buffers (lines 2245-2269). -/
def setVertexBuffers : List (Nat × D3D11HardwareVertexBuffer) → M Unit
  | [] => pure ()
  | (slot, d3d11buf) :: rest => do
    native (Call.IASetVertexBuffers (UINT slot) 1 d3d11buf.d3dVertexBuffer
      (UINT d3d11buf.vertexSize) 0)
    throwIfError "D3D11 device cannot set vertex buffers\nError Description:"
      "D3D11RenderSystem::setVertexBufferBinding"
    setVertexBuffers rest

/-- `D3D11RenderSystem::setVertexBufferBinding` (lines 2239-2272). -/
def setVertexBufferBinding (binding : VertexBufferBinding) : M Unit := do
  setVertexBuffers binding.bindings
  modifyRS fun rs => { rs with mLastVertexSourceCount := binding.bindings.length }

/-- The element count the primitive count is computed from: the index count when the
operation is indexed, the vertex count otherwise. -/
def elementCount (op : RenderOperation) (vertexData : VertexData) : Nat :=
  if op.useIndexes then op.indexData.indexCount else vertexData.vertexCount

open OperationType D3D11_PRIMITIVE_TOPOLOGY in
/-- `_render`, lines 2768-2793: topology and primitive count when a hull and a domain
program are bound. `primType` and `primCount` keep their initial values (triangle list
and 0) for the operation types the switch does not name. -/
def tessellationPrimitives (operationType : OperationType) (n : Nat) :
    D3D11_PRIMITIVE_TOPOLOGY × Nat :=
  match operationType with
  | OT_LINE_LIST => (D3D11_PRIMITIVE_TOPOLOGY_2_CONTROL_POINT_PATCHLIST, DWORD n / 2)
  | OT_LINE_STRIP => (D3D11_PRIMITIVE_TOPOLOGY_2_CONTROL_POINT_PATCHLIST, DWORD.sub n 1)
  | OT_TRIANGLE_LIST => (D3D11_PRIMITIVE_TOPOLOGY_3_CONTROL_POINT_PATCHLIST, DWORD n / 3)
  | OT_TRIANGLE_STRIP => (D3D11_PRIMITIVE_TOPOLOGY_3_CONTROL_POINT_PATCHLIST, DWORD.sub n 2)
  | _ => (D3D11_PRIMITIVE_TOPOLOGY_TRIANGLELIST, 0)

open OperationType D3D11_PRIMITIVE_TOPOLOGY in
/-- `_render`, lines 2794-2831: topology and primitive count without tessellation. A
triangle fan raises. -/
def plainPrimitives (useAdjacency : Bool) (operationType : OperationType) (n : Nat) :
    Except OgreException (D3D11_PRIMITIVE_TOPOLOGY × Nat) :=
  match operationType with
  | OT_POINT_LIST => Except.ok (D3D11_PRIMITIVE_TOPOLOGY_POINTLIST, DWORD n)
  | OT_LINE_LIST =>
    Except.ok (if useAdjacency then D3D11_PRIMITIVE_TOPOLOGY_LINELIST_ADJ
      else D3D11_PRIMITIVE_TOPOLOGY_LINELIST, DWORD n / 2)
  | OT_LINE_STRIP =>
    Except.ok (if useAdjacency then D3D11_PRIMITIVE_TOPOLOGY_LINESTRIP_ADJ
      else D3D11_PRIMITIVE_TOPOLOGY_LINESTRIP, DWORD.sub n 1)
  | OT_TRIANGLE_LIST =>
    Except.ok (if useAdjacency then D3D11_PRIMITIVE_TOPOLOGY_TRIANGLELIST_ADJ
      else D3D11_PRIMITIVE_TOPOLOGY_TRIANGLELIST, DWORD n / 3)
  | OT_TRIANGLE_STRIP =>
    Except.ok (if useAdjacency then D3D11_PRIMITIVE_TOPOLOGY_TRIANGLESTRIP_ADJ
      else D3D11_PRIMITIVE_TOPOLOGY_TRIANGLESTRIP, DWORD.sub n 2)
  | OT_TRIANGLE_FAN => Except.error triangleFanError

/-- `_render`, line 2797: whether the adjacency variant of a topology is to be used. -/
def useAdjacency (rs : D3D11RenderSystem) : Bool :=
  rs.mGeometryProgramBound
    && (match rs.mBoundGeometryProgram with
        | some p => p.adjacencyInfoRequired
        | none => false)

/-- `_render`, lines 2768-2831: the translation of the operation when no compute program is
bound. The tessellation switch is taken when both a hull and a domain program are bound,
the plain one otherwise. -/
def translateOperation (rs : D3D11RenderSystem) (op : RenderOperation)
    (vertexData : VertexData) : Except OgreException (D3D11_PRIMITIVE_TOPOLOGY × Nat) :=
  if rs.mBoundTessellationHullProgram.isSome ∧ rs.mBoundTessellationDomainProgram.isSome then
    Except.ok (tessellationPrimitives op.operationType (elementCount op vertexData))
  else
    plainPrimitives (useAdjacency rs) op.operationType (elementCount op vertexData)

/-- `_render`, lines 2862-2901: the draw call of one pass iteration. -/
def drawCall (op : RenderOperation) (vertexData : VertexData) (hasInstanceData : Bool)
    (numberOfInstances : Nat) : Call :=
  if op.useIndexes then
    if hasInstanceData then
      Call.DrawIndexedInstanced (UINT op.indexData.indexCount) (UINT numberOfInstances)
        (UINT op.indexData.indexStart) (INT vertexData.vertexStart) 0
    else
      Call.DrawIndexed (UINT op.indexData.indexCount) (UINT op.indexData.indexStart)
        (INT vertexData.vertexStart)
  else
    if vertexData.vertexCount = SIZE_MAX then
      Call.DrawAuto
    else if hasInstanceData then
      Call.DrawInstanced (UINT vertexData.vertexCount) (UINT numberOfInstances)
        (UINT vertexData.vertexStart) 0
    else
      Call.Draw (UINT vertexData.vertexCount) (UINT vertexData.vertexStart)

/-- `_render`, lines 2905-2917: the description of the exception raised when the device
reports an error after a draw call. -/
def drawErrorDescription (rs : D3D11RenderSystem) (op : RenderOperation)
    (vertexData : VertexData) (hasInstanceData : Bool) (deviceDescription : String) : String :=
  let shader (tag : String) (p : Option D3D11HLSLProgram) : String :=
    match p with
    | some q => tag ++ q.name
    | none => ""
  "D3D11 device cannot draw"
    ++ (if !op.useIndexes && vertexData.vertexCount = SIZE_MAX then " auto"
        else (if op.useIndexes then " indexed" else "")
          ++ (if hasInstanceData then " instanced" else ""))
    ++ "\nError Description:" ++ deviceDescription
    ++ "\nActive OGRE shaders:"
    ++ shader "\nVS = " rs.mBoundVertexProgram
    ++ shader "\nHS = " rs.mBoundTessellationHullProgram
    ++ shader "\nDS = " rs.mBoundTessellationDomainProgram
    ++ shader "\nGS = " rs.mBoundGeometryProgram
    ++ shader "\nFS = " rs.mBoundFragmentProgram
    ++ shader "\nCS = " rs.mBoundComputeProgram

/-! ### Shader subroutines and the parameters of a program -/

/-- What the `GetClassInstance` or `CreateClassInstance` call just issued returned. -/
def classInstance : M (HRESULT × Option Handle) :=
  fun w => (Except.ok (w.rs.mDevice.classInstance w.calls), w)

/-- `setSubroutine`, lines 3388-3400: the class instance of a subroutine that the map does
not hold yet. An existing instance is asked for first, then a new one is created. -/
def obtainClassInstance (subroutineName : String) : M (Option Handle) := do
  native (Call.GetClassInstance subroutineName 0)
  let (hr, inst) ← classInstance
  if FAILED hr ∨ inst = none then
    native (Call.CreateClassInstance subroutineName 0 0 0 0)
    let (hr, inst) ← classInstance
    if FAILED hr ∨ inst = none then
      OGRE_EXCEPT_EX ExceptionCodes.ERR_RENDERINGAPI_ERROR hr
        ("Shader subroutine with name " ++ subroutineName ++ " doesn't exist.")
        "D3D11RenderSystem::setSubroutineName"
    else
      pure inst
  else
    pure inst

/-- `setSubroutine`, lines 3383-3408: the class instance of the subroutine, from the map
`mInstanceMap` or, when the map does not hold the name, from the class linkage; the map
then stores it. -/
def findClassInstance (subroutineName : String) : M (Option Handle) := do
  let rs ← getRS
  match rs.mInstanceMap.lookup subroutineName with
  | none => do
    let inst ← obtainClassInstance subroutineName
    modifyRS fun rs => { rs with mInstanceMap := rs.mInstanceMap ++ [(subroutineName, inst)] }
    pure inst
  | some inst => pure inst

/-- The assignment `row[slotIndex] = instance` to a row of `mClassInstances`: a row that
ends before the slot is first continued with the null entries that lie between. -/
def assignSlot (row : List (Option Handle)) (slotIndex : Nat) (inst : Option Handle) :
    List (Option Handle) :=
  (row ++ List.replicate (slotIndex + 1 - row.length) none).set slotIndex inst

/-- `D3D11RenderSystem::setSubroutine(gptype, slotIndex, subroutineName)` (lines 3381-3413).
The counter of the stage is a `UINT`: the addition of line 3412 wraps around. The overload
that takes the name of a slot (lines 3415-3472) looks the index of the slot up in the
program bound to the stage, 0 when none is bound, and calls this function once with it. -/
def setSubroutine (gptype : GpuProgramType) (slotIndex : Nat) (subroutineName : String) :
    M Unit := do
  let inst ← findClassInstance subroutineName
  modifyRS fun rs =>
    { rs with
      mClassInstances :=
        Function.update rs.mClassInstances gptype
          (assignSlot (rs.mClassInstances gptype) slotIndex inst)
      mNumClassInstances :=
        Function.update rs.mNumClassInstances gptype (UINT (rs.mNumClassInstances gptype + 1)) }

/-- `bindGpuProgramParameters`, lines 3344-3351: `setSubroutine` for each entry of the
subroutine map, in the order of the iterator. -/
def setSubroutines (gptype : GpuProgramType) : List (Nat × String) → M Unit
  | [] => pure ()
  | (slotIndex, subroutineName) :: rest => do
    setSubroutine gptype slotIndex subroutineName
    setSubroutines gptype rest

open GpuProgramType in
/-- The program bound to a stage, as the switch of `bindGpuProgramParameters` reads it
(lines 3231-3338). -/
def boundProgram (rs : D3D11RenderSystem) : GpuProgramType → Option D3D11HLSLProgram
  | GPT_VERTEX_PROGRAM => rs.mBoundVertexProgram
  | GPT_FRAGMENT_PROGRAM => rs.mBoundFragmentProgram
  | GPT_GEOMETRY_PROGRAM => rs.mBoundGeometryProgram
  | GPT_HULL_PROGRAM => rs.mBoundTessellationHullProgram
  | GPT_DOMAIN_PROGRAM => rs.mBoundTessellationDomainProgram
  | GPT_COMPUTE_PROGRAM => rs.mBoundComputeProgram

open GpuProgramType in
/-- The head of the description of the error of `bindGpuProgramParameters` for a stage
(lines 3244, 3263, 3280, 3297, 3314, 3331). -/
def constantBuffersMessage : GpuProgramType → String
  | GPT_VERTEX_PROGRAM =>
    "D3D11 device cannot set vertex shader constant buffers\nError Description:"
  | GPT_FRAGMENT_PROGRAM =>
    "D3D11 device cannot set fragment shader constant buffers\nError Description:"
  | GPT_GEOMETRY_PROGRAM =>
    "D3D11 device cannot set Geometry shader constant buffers\nError Description:"
  | GPT_HULL_PROGRAM =>
    "D3D11 device cannot set Hull shader constant buffers\nError Description:"
  | GPT_DOMAIN_PROGRAM =>
    "D3D11 device cannot set Domain shader constant buffers\nError Description:"
  | GPT_COMPUTE_PROGRAM =>
    "D3D11 device cannot set Compute shader constant buffers\nError Description:"

/-- `bindGpuProgramParameters`, one case of the switch of lines 3231-3338: the constant
buffer of the program bound to the stage, if one is bound, is set. -/
def setConstantBuffer (gptype : GpuProgramType) (params : GpuProgramParameters) (mask : Nat) :
    Option D3D11HLSLProgram → M Unit
  | some program => do
    native (Call.SetConstantBuffers gptype 0 1 [params.constantBuffer program mask])
    throwIfError (constantBuffersMessage gptype) "D3D11RenderSystem::bindGpuProgramParameters"
  | none => pure ()

/-- `bindGpuProgramParameters`, lines 3220-3339: the shared parameters are copied when the
mask has `GPV_GLOBAL`, and the constant buffer is set. -/
def setConstantBuffers (gptype : GpuProgramType) (params : GpuProgramParameters)
    (mask : Nat) : M Unit := do
  if mask &&& GPV_GLOBAL ≠ 0 then
    native Call._copySharedParams
  let rs ← getRS
  setConstantBuffer gptype params mask (boundProgram rs gptype)

/-- `D3D11RenderSystem::bindGpuProgramParameters` (lines 3218-3352). The early return on an
empty subroutine map is the loop over no entry. -/
def bindGpuProgramParameters (gptype : GpuProgramType) (params : GpuProgramParameters)
    (mask : Nat) : M Unit := do
  setConstantBuffers gptype params mask
  setSubroutines gptype params.subroutineMap

open GpuProgramType in
/-- The active parameters of a stage, as the switch of
`bindGpuProgramPassIterationParameters` reads them (lines 3357-3378). -/
def activeParameters (rs : D3D11RenderSystem) : GpuProgramType → Option GpuProgramParameters
  | GPT_VERTEX_PROGRAM => rs.mActiveVertexGpuProgramParameters
  | GPT_FRAGMENT_PROGRAM => rs.mActiveFragmentGpuProgramParameters
  | GPT_GEOMETRY_PROGRAM => rs.mActiveGeometryGpuProgramParameters
  | GPT_HULL_PROGRAM => rs.mActiveTessellationHullGpuProgramParameters
  | GPT_DOMAIN_PROGRAM => rs.mActiveTessellationDomainGpuProgramParameters
  | GPT_COMPUTE_PROGRAM => rs.mActiveComputeGpuProgramParameters

/-- `D3D11RenderSystem::bindGpuProgramPassIterationParameters` (lines 3354-3379), the
binding update hook of a stage. For a stage without active parameters the source hands a
null pointer on; the model does nothing then. -/
def bindGpuProgramPassIterationParameters (gptype : GpuProgramType) : M Unit := do
  let rs ← getRS
  match activeParameters rs gptype with
  | some params => bindGpuProgramParameters gptype params GPV_PASS_ITERATION_NUMBER
  | none => pure ()

/-- The binding update hooks of a list of stages, one after the other. -/
def bindStages : List GpuProgramType → M Unit
  | [] => pure ()
  | gptype :: rest => do
    bindGpuProgramPassIterationParameters gptype
    bindStages rest

/-- Modelled from the spec: what the pass-iteration predicate does when it answers true,
after it has counted one iteration off. The spec has it "re-invoking stage binding update
hooks between iterations only if non-global parameters changed"; the stages it invokes the
hook of are those of `passIterationStages`. -/
def passIterationHooks : M Unit := do
  let rs ← getRS
  bindStages (rs.passIterationStages rs.mCurrentPassIterationCount)

/-! ### The draw loop -/

/-- `_render`, lines 2862-2920: the body of the draw loop. -/
def drawOnce (op : RenderOperation) (vertexData : VertexData) (hasInstanceData : Bool)
    (numberOfInstances : Nat) : M Unit := do
  native (drawCall op vertexData hasInstanceData numberOfInstances)
  if (← isError) then
    let rs ← getRS
    let deviceDescription ← getErrorDescription none
    OGRE_EXCEPT ExceptionCodes.ERR_RENDERINGAPI_ERROR
      (drawErrorDescription rs op vertexData hasInstanceData deviceDescription)
      "D3D11RenderSystem::_render"

/-- Modelled from the spec: the pass-iteration predicate `updatePassIterationRenderState`
belongs to the base class `RenderSystem`, which is not among the sources at hand. The
spec has the draw call loop "once per pass-iteration as reported by an external
pass-iteration predicate", "re-invoking stage binding update hooks between iterations".
The model keeps the number of iterations still due in `mCurrentPassIterationCount`: the
predicate answers true as long as more than one is due; it then counts one iteration off
and invokes the hooks. `drawLoop body k` is the loop
`do body while (updatePassIterationRenderState())` entered with `k + 1` iterations due
(`k = 0` also when none is due: the body of a do-while runs once). -/
def drawLoop (body : M Unit) : Nat → M Unit
  | 0 => body
  | k + 1 => do
    body
    modifyRS fun rs =>
      { rs with mCurrentPassIterationCount := rs.mCurrentPassIterationCount - 1 }
    passIterationHooks
    drawLoop body k

/-- `_render`, lines 2837-2858: the index buffer of an indexed operation and the topology
are set before the draw loop. -/
def setIndexBufferAndTopology (maps : D3D11Mappings) (op : RenderOperation)
    (primType : D3D11_PRIMITIVE_TOPOLOGY) : M Unit := do
  if op.useIndexes then
    native (Call.IASetIndexBuffer op.indexData.indexBuffer.d3dIndexBuffer
      (maps.getFormat op.indexData.indexBuffer.type) 0)
    throwIfError "D3D11 device cannot set index buffer\nError Description:"
      "D3D11RenderSystem::_render"
  native (Call.IASetPrimitiveTopology primType)
  throwIfError "D3D11 device cannot set primitive topology\nError Description:"
    "D3D11RenderSystem::_render"

open GpuProgramType in
/-- `_render`, lines 2750-2923: dispatch when a compute program is bound; otherwise
translate the operation and, when the primitive count is not zero, draw. -/
def issueOperation (maps : D3D11Mappings) (op : RenderOperation) (vertexData : VertexData)
    (hasInstanceData : Bool) (numberOfInstances : Nat) : M Unit := do
  let rs ← getRS
  if rs.mBoundComputeProgram.isSome then
    native (Call.Dispatch 1 1 1)
    native (Call.SetShaderResources GPT_COMPUTE_PROGRAM 0 1 [none])
    native (Call.CSSetUnorderedAccessViews 0 1 [none])
    native (Call.SetShader GPT_COMPUTE_PROGRAM none [] 0)
  else
    match translateOperation rs op vertexData with
    | Except.error e => rethrow e
    | Except.ok (primType, primCount) =>
      if primCount ≠ 0 then do
        setIndexBufferAndTopology maps op primType
        drawLoop (drawOnce op vertexData hasInstanceData numberOfInstances)
          (rs.mCurrentPassIterationCount - 1)
      else
        pure ()

/-- `_render`, lines 2320-2622: resolve the state objects of this operation, then bind
them and push the samplers. -/
def applyStateObjects (maps : D3D11Mappings) : M Unit := do
  let opState ← resolveStateObjects maps
  bindStateObjects opState
  bindSamplers opState

/-- `_render`, lines 2320-2747: all that `_render` does before it turns to the operation
itself. -/
def prepareOperation (maps : D3D11Mappings) (op : RenderOperation) (vertexData : VertexData) :
    M Unit := do
  applyStateObjects maps
  checkPrograms op
  bindPrograms
  setVertexDeclaration vertexData.vertexDeclaration vertexData.vertexBufferBinding
  setVertexBufferBinding vertexData.vertexBufferBinding

/-- `_render`, lines 2306-2308: whether the operation carries instance data. -/
def hasInstanceData (rs : D3D11RenderSystem) (op : RenderOperation) (vertexData : VertexData) :
    Bool :=
  (op.useGlobalInstancingVertexBufferIsAvailable
      && rs.mGlobalInstanceVertexBuffer.isSome
      && rs.mGlobalInstanceVertexBufferVertexDeclaration.isSome)
    || vertexData.vertexBufferBinding.hasInstanceData

/-- `_render`, lines 2310-2315: the number of instances to draw. -/
def numberOfInstances (rs : D3D11RenderSystem) (op : RenderOperation) : Nat :=
  if op.useGlobalInstancingVertexBufferIsAvailable then
    size_t (op.numberOfInstances * rs.mGlobalNumberOfInstances)
  else
    op.numberOfInstances

/-- `D3D11RenderSystem::_render` (lines 2294-2939).

The call of the base class `RenderSystem::_render` (line 2318) updates the frame
statistics of the base class, which no modelled function reads; it is left out. -/
def _render (maps : D3D11Mappings) (op : RenderOperation) : M Unit :=
  match op.vertexData with
  | none => pure ()
  | some vertexData =>
    if vertexData.vertexCount = 0 then
      pure ()
    else do
      let rs ← getRS
      prepareOperation maps op vertexData
      issueOperation maps op vertexData (hasInstanceData rs op vertexData)
        (numberOfInstances rs op)

/-! ## The scissor test and sequences of descriptor setters -/

/-- `D3D11RenderSystem::setScissorTest` (lines 3478-3496). -/
def setScissorTest (enabled : Bool) (left top right bottom : Nat) : M Unit := do
  modifyRS fun rs =>
    { rs with
      mRasterizerDesc := { rs.mRasterizerDesc with ScissorEnable := enabled }
      mScissorRect := ⟨LONG left, LONG top, LONG right, LONG bottom⟩ }
  let rs ← getRS
  native (Call.RSSetScissorRects 1 rs.mScissorRect)
  throwIfError "D3D11 device cannot set scissor rects\nError Description:"
    "D3D11RenderSystem::setScissorTest"
  modifyRS fun rs => { rs with mRasterizerDescChanged := true }

/-- A call of one of the setters of the blend, rasterizer and depth-stencil descriptors
(lines 1874-2043 and 3478-3496), with its arguments. -/
inductive StateSetter
  | _setSceneBlending (sourceFactor destFactor : SceneBlendFactor) (op : SceneBlendOperation)
  | _setSeparateSceneBlending (sourceFactor destFactor sourceFactorAlpha
      destFactorAlpha : SceneBlendFactor) (op alphaOp : SceneBlendOperation)
  | _setAlphaRejectSettings (func : CompareFunction) (value : Nat) (alphaToCoverage : Bool)
  | _setCullingMode (mode : CullingMode)
  | _setDepthBufferParams (depthTest depthWrite : Bool) (depthFunction : CompareFunction)
  | _setDepthBufferCheckEnabled (enabled : Bool)
  | _setDepthBufferWriteEnabled (enabled : Bool)
  | _setDepthBufferFunction (func : CompareFunction)
  | _setDepthBias (constantBias slopeScaleBias : ℚ)
  | _setColourBufferWriteEnabled (red green blue alpha : Bool)
  | _setPolygonMode (level : PolygonMode)
  | setStencilCheckEnabled (enabled : Bool)
  | setStencilBufferParams (func : CompareFunction) (refValue compareMask writeMask : Nat)
      (stencilFailOp depthFailOp passOp : StencilOperation)
      (twoSidedOperation readBackAsTexture : Bool)
  | setScissorTest (enabled : Bool) (left top right bottom : Nat)

/-- One setter call. Only `setScissorTest` reaches the device and may raise. -/
def StateSetter.run (maps : D3D11Mappings) : StateSetter → M Unit
  | ._setSceneBlending s d op => modifyRS fun rs => Ogre._setSceneBlending maps rs s d op
  | ._setSeparateSceneBlending s d sa da op aop =>
    modifyRS fun rs => Ogre._setSeparateSceneBlending maps rs s d sa da op aop
  | ._setAlphaRejectSettings f v a => modifyRS fun rs => Ogre._setAlphaRejectSettings rs f v a
  | ._setCullingMode m => modifyRS fun rs => Ogre._setCullingMode maps rs m
  | ._setDepthBufferParams t w f => modifyRS fun rs => Ogre._setDepthBufferParams maps rs t w f
  | ._setDepthBufferCheckEnabled e => modifyRS fun rs => Ogre._setDepthBufferCheckEnabled rs e
  | ._setDepthBufferWriteEnabled e => modifyRS fun rs => Ogre._setDepthBufferWriteEnabled rs e
  | ._setDepthBufferFunction f => modifyRS fun rs => Ogre._setDepthBufferFunction maps rs f
  | ._setDepthBias c s => modifyRS fun rs => Ogre._setDepthBias rs c s
  | ._setColourBufferWriteEnabled r g b a =>
    modifyRS fun rs => Ogre._setColourBufferWriteEnabled rs r g b a
  | ._setPolygonMode l => modifyRS fun rs => Ogre._setPolygonMode maps rs l
  | .setStencilCheckEnabled e => modifyRS fun rs => Ogre.setStencilCheckEnabled rs e
  | .setStencilBufferParams f r c w s d p t b =>
    modifyRS fun rs => Ogre.setStencilBufferParams maps rs f r c w s d p t b
  | .setScissorTest e l t r b => Ogre.setScissorTest e l t r b

/-- The world after a sequence of setter calls, first call first: each call is entered in
the world that the call before it left, whether that call returned or raised. -/
def World.afterSetters (maps : D3D11Mappings) (w : World) (setters : List StateSetter) :
    World :=
  setters.foldl (fun w s => (s.run maps w).2) w

/-- Every call of a sequence of setter calls returns. -/
def World.settersReturn (maps : D3D11Mappings) : World → List StateSetter → Prop
  | _, [] => True
  | w, s :: rest =>
    (s.run maps w).1 = Except.ok () ∧ World.settersReturn maps (s.run maps w).2 rest

/-- The three descriptors that `_render` builds state objects from. -/
inductive DescriptorKind
  | blend | rasterizer | depthStencil
deriving DecidableEq, Repr

/-- The descriptor that a setter writes. -/
def StateSetter.kind : StateSetter → DescriptorKind
  | ._setSceneBlending _ _ _ => .blend
  | ._setSeparateSceneBlending _ _ _ _ _ _ => .blend
  | ._setAlphaRejectSettings _ _ _ => .blend
  | ._setCullingMode _ => .rasterizer
  | ._setDepthBufferParams _ _ _ => .depthStencil
  | ._setDepthBufferCheckEnabled _ => .depthStencil
  | ._setDepthBufferWriteEnabled _ => .depthStencil
  | ._setDepthBufferFunction _ => .depthStencil
  | ._setDepthBias _ _ => .rasterizer
  | ._setColourBufferWriteEnabled _ _ _ _ => .blend
  | ._setPolygonMode _ => .rasterizer
  | .setStencilCheckEnabled _ => .depthStencil
  | .setStencilBufferParams _ _ _ _ _ _ _ _ _ => .depthStencil
  | .setScissorTest _ _ _ _ _ => .rasterizer

/-- Whether a descriptor is marked changed. -/
def D3D11RenderSystem.marked (rs : D3D11RenderSystem) : DescriptorKind → Bool
  | .blend => rs.mBlendDescChanged
  | .rasterizer => rs.mRasterizerDescChanged
  | .depthStencil => rs.mDepthStencilDescChanged

/-- The setter call is `_setPolygonMode` with the polygon mode that is in force: the one
setter call that returns without marking its descriptor (line 2001). -/
def StateSetter.keepsPolygonMode (rs : D3D11RenderSystem) : StateSetter → Prop
  | ._setPolygonMode level => rs.mPolygonMode = level
  | _ => False

/-! ## Device creation and device-loss recovery

Messages to the log are left out. -/

/-- An answer of the engine or of the platform to the call just issued. -/
def ask {α : Type} (answer : List Call → α) : M α := fun w => (Except.ok (answer w.calls), w)

/-- A call to the engine: the call is issued, and an exception that escapes from it passes
through the caller. -/
def collaborator (p : Platform) (c : Call) : M Unit := do
  native c
  match ← ask p.raised with
  | some e => rethrow e
  | none => pure ()

def D3D11_CREATE_DEVICE_SINGLETHREADED : Nat := 0x1
def D3D11_CREATE_DEVICE_DEBUG : Nat := 0x2
def D3D11_CREATE_DEVICE_BGRA_SUPPORT : Nat := 0x20

/-- `createD3D11Device`, lines 236-249: the device flags. -/
def deviceFlags (config : BuildConfig) (p : Platform) : Nat :=
  let deviceFlags := UINT 0
  let deviceFlags :=
    if config.OGRE_WINRT then deviceFlags ||| D3D11_CREATE_DEVICE_BGRA_SUPPORT else deviceFlags
  let deviceFlags :=
    if config.OGRE_DEBUG_MODE ∧ ¬ p.IsWorkingUnderNsight ∧ ¬ p.exceptionsOff then
      deviceFlags ||| D3D11_CREATE_DEVICE_DEBUG
    else deviceFlags
  if ¬ config.OGRE_THREAD_SUPPORT then deviceFlags ||| D3D11_CREATE_DEVICE_SINGLETHREADED
  else deviceFlags

/-- `createD3D11Device`, lines 252-264: the table of the feature levels, highest first. -/
def requestedLevels (config : BuildConfig) : List D3D_FEATURE_LEVEL :=
  (if ¬ config.OGRE_WINRT_PHONE then
      (if config.WIN32_WINNT_WIN8 then [D3D_FEATURE_LEVEL_11_1] else [])
        ++ [D3D_FEATURE_LEVEL_11_0, D3D_FEATURE_LEVEL_10_1, D3D_FEATURE_LEVEL_10_0]
    else [])
    ++ [D3D_FEATURE_LEVEL_9_3, D3D_FEATURE_LEVEL_9_2, D3D_FEATURE_LEVEL_9_1]

/-- `createD3D11Device`, lines 266-273: the positions in the table that `pFirstFL` and
`pLastFL` point to after the loop. They start at the first and at the last entry; an entry
equal to `minFL` moves `pLastFL` to it, an entry equal to `maxFL` moves `pFirstFL` to it. -/
def requestedRange (levels : List D3D_FEATURE_LEVEL) (minFL maxFL : D3D_FEATURE_LEVEL) :
    Nat × Nat :=
  (List.range levels.length).foldl
    (fun (r : Nat × Nat) i =>
      let pLastFL := if minFL = levels.getD i 0 then i else r.2
      let pFirstFL := if maxFL = levels.getD i 0 then i else r.1
      (pFirstFL, pLastFL))
    (0, levels.length - 1)

/-- One attempt of `createD3D11Device` to create the native device (lines 283 and 293):
the call, the feature level it stores through `pFeatureLevel` when that is not null, and
what it returns. -/
def attemptCreateDevice (p : Platform) (pAdapter : Option Handle)
    (driverType : D3D_DRIVER_TYPE) (deviceFlags : Nat) (levels : List D3D_FEATURE_LEVEL)
    (storeFeatureLevel : Bool) : M (HRESULT × Option Handle) := do
  native (Call.D3D11CreateDeviceN pAdapter driverType deviceFlags levels)
  let (hr, device, featureLevel) ← ask p.createdDevice
  match featureLevel with
  | some level =>
    if storeFeatureLevel then modifyRS fun rs => { rs with mFeatureLevel := level }
  | none => pure ()
  pure (hr, device)

open D3D_DRIVER_TYPE in
/-- `D3D11RenderSystem::createD3D11Device` (lines 222-300). `storeFeatureLevel` says
whether `pFeatureLevel` points to `mFeatureLevel` (otherwise it is null). The assertion on
the driver type is compiled out of release builds and is left out. -/
def createD3D11Device (config : BuildConfig) (p : Platform) (d3dDriver : Option D3D11Driver)
    (driverType : D3D_DRIVER_TYPE) (minFL maxFL : D3D_FEATURE_LEVEL)
    (storeFeatureLevel : Bool) : M (Option Handle) := do
  let pAdapter : Option Handle :=
    match d3dDriver with
    | some driver => if driverType = D3D_DRIVER_TYPE_HARDWARE then driver.getDeviceAdapter else none
    | none => none
  let driverType : D3D_DRIVER_TYPE :=
    match d3dDriver with
    | some driver =>
      if driver.Description = "NVIDIA PerfHUD" then D3D_DRIVER_TYPE_REFERENCE
      else D3D_DRIVER_TYPE_UNKNOWN
    | none => driverType
  let deviceFlags := deviceFlags config p
  let (pFirstFL, pLastFL) := requestedRange (requestedLevels config) minFL maxFL
  if pLastFL < pFirstFL then
    OGRE_EXCEPT ExceptionCodes.ERR_INTERNAL_ERROR
      "Requested min level feature is bigger the requested max level feature."
      "D3D11RenderSystem::initialise"
  else do
    let levels := ((requestedLevels config).drop pFirstFL).take (pLastFL - pFirstFL + 1)
    let (hr, device) ←
      attemptCreateDevice p pAdapter driverType deviceFlags levels storeFeatureLevel
    let (hr, device) ←
      if FAILED hr ∧ 0 ≠ deviceFlags &&& D3D11_CREATE_DEVICE_DEBUG then
        attemptCreateDevice p pAdapter driverType
          (deviceFlags &&& (0xffffffff ^^^ D3D11_CREATE_DEVICE_DEBUG)) levels storeFeatureLevel
      else pure (hr, device)
    if FAILED hr then
      OGRE_EXCEPT_EX ExceptionCodes.ERR_RENDERINGAPI_ERROR hr
        "Failed to create Direct3D11 device" "D3D11RenderSystem::D3D11RenderSystem"
    else
      pure device

/-- `D3D11RenderSystem::getDirect3DDrivers` (lines 211-220): the list of drivers is refreshed
when that is asked for or when the list is empty. -/
def getDirect3DDrivers (p : Platform) (refreshList : Bool) : M Unit := do
  let count ← ask p.count
  if refreshList ∨ count = 0 then collaborator p Call.refresh

/-- The `HIWORD` and `LOWORD` macros of the platform headers. -/
def HIWORD (n : Nat) : Nat := (n >>> 16) &&& 0xffff
def LOWORD (n : Nat) : Nat := n &&& 0xffff

open D3D_DRIVER_TYPE in
/-- `D3D11RenderSystem::createDevice` (lines 1551-1573). `ReleaseAll` lets go of the native
device, and `TransferOwnership` takes the new one. -/
def createDevice (config : BuildConfig) (p : Platform) : M Unit := do
  collaborator p Call.ReleaseAll
  modifyRS fun rs => { rs with mD3D11Device := none }
  let rs ← getRS
  getDirect3DDrivers p true
  let d3dDriver ← ask fun calls => p.findByName calls rs.mDriverName
  modifyRS fun rs => { rs with mActiveD3DDriver := d3dDriver }
  let nvPerfHudDriver : Option D3D11Driver ←
    if rs.mDriverType = D3D_DRIVER_TYPE_HARDWARE ∧ rs.mUseNVPerfHUD then do
      getDirect3DDrivers p false
      ask fun calls => p.item calls "NVIDIA PerfHUD"
    else pure none
  let d3dDriver :=
    match nvPerfHudDriver with
    | some driver => driver
    | none => d3dDriver
  let device ← createD3D11Device config p (some d3dDriver) rs.mDriverType
    rs.mMinRequestedFeatureLevel rs.mMaxRequestedFeatureLevel true
  modifyRS fun rs => { rs with mD3D11Device := device }
  let driverVersion ← ask p.GetDriverVersion
  modifyRS fun rs =>
    { rs with
      mDriverVersion :=
        { major := HIWORD driverVersion.1
          minor := LOWORD driverVersion.1
          release := HIWORD driverVersion.2
          build := LOWORD driverVersion.2 } }

/-- `D3D11RenderSystem::fireDeviceEvent` (lines 963-970), without a sending window. -/
def fireDeviceEvent (p : Platform) (name : String) : M Unit := do
  let rs ← getRS
  collaborator p (Call.fireEvent name rs.mD3D11Device)

/-- A loop over the scene managers that calls the same method of each. -/
def forEachSceneManager (p : Platform) (method : Handle → Call) : List Handle → M Unit
  | [] => pure ()
  | sceneManager :: rest => do
    collaborator p (method sceneManager)
    forEachSceneManager p method rest

/-- `D3D11RenderSystem::handleDeviceLost` (lines 1575-1614). -/
def handleDeviceLost (config : BuildConfig) (p : Platform) : M Unit := do
  fireDeviceEvent p "DeviceLost"
  let scnIt ← ask p.sceneManagers
  forEachSceneManager p Call._releaseManualHardwareResources scnIt
  let rs ← getRS
  collaborator p (Call.notifyDeviceLost rs.mD3D11Device)
  collaborator p (Call._releaseBufferCopies true)
  collaborator p Call._cleanupDepthBuffers
  createDevice config p
  let rs ← getRS
  collaborator p (Call.notifyDeviceRestored rs.mD3D11Device)
  collaborator p Call.reloadAll
  let scnIt ← ask p.sceneManagers
  forEachSceneManager p Call._restoreManualHardwareResources scnIt
  modifyRS fun rs => { rs with mActiveViewport := none }
  fireDeviceEvent p "DeviceRestored"

def DXGI_ERROR_DEVICE_REMOVED : HRESULT := -2005270523
def DXGI_ERROR_DEVICE_RESET : HRESULT := -2005270521

/-- The result code of a `D3D11RenderingAPIException`, the kind of exception that
`OGRE_EXCEPT_EX` raises for `ERR_RENDERINGAPI_ERROR`: a rendering-API error that carries a
native result code. An exception of another kind gives none. -/
def OgreException.getHResult (e : OgreException) : Option HRESULT :=
  if e.number = ExceptionCodes.ERR_RENDERINGAPI_ERROR then e.hresult else none

/-- The `try` block with the handler of `_updateAllRenderTargets` and of
`_swapAllRenderTargetBuffers` (lines 1644-1654 and 1659-1669): a
`D3D11RenderingAPIException` whose result code is `DXGI_ERROR_DEVICE_REMOVED` or
`DXGI_ERROR_DEVICE_RESET` is caught, and any other exception passes through. -/
def catchDeviceLoss (body : M Unit) : M Unit := fun w =>
  match (body w).1 with
  | Except.ok _ => (Except.ok (), (body w).2)
  | Except.error e =>
    match e.getHResult with
    | some hr =>
      if hr = DXGI_ERROR_DEVICE_REMOVED ∨ hr = DXGI_ERROR_DEVICE_RESET then
        (Except.ok (), (body w).2)
      else
        (Except.error e, (body w).2)
    | none => (Except.error e, (body w).2)

/-- `D3D11RenderSystem::_updateAllRenderTargets` (lines 1642-1655). `base` is the method of
the base class `RenderSystem` that it wraps. -/
def _updateAllRenderTargets (base : Bool → M Unit) (swapBuffers : Bool) : M Unit :=
  catchDeviceLoss (base swapBuffers)

/-- `D3D11RenderSystem::_swapAllRenderTargetBuffers` (lines 1657-1670). `base` is the method
of the base class `RenderSystem` that it wraps. -/
def _swapAllRenderTargetBuffers (base : M Unit) : M Unit :=
  catchDeviceLoss base

/-! ## Depth buffers, multisampling, texture bias and program binding -/

/-- `DepthBuffer::POOL_DEFAULT`, the identifier of the default pool. The enumeration belongs
to the class `DepthBuffer`, which is not among the sources at hand; nothing below depends
on the value. -/
def POOL_DEFAULT : Nat := 1

/-- `D3D11RenderSystem::_addManualDepthBuffer` (lines 1458-1482). `newAddress` is the address
that `new` gives to a depth buffer it creates. The result is the depth buffer returned and
the render system afterwards. -/
def _addManualDepthBuffer (rs : D3D11RenderSystem) (newAddress : Handle)
    (depthSurface : Option Handle) (width height fsaa fsaaQuality : Nat) :
    D3D11DepthBuffer × D3D11RenderSystem :=
  match (rs.mDepthBufferPool POOL_DEFAULT).find? fun b => b.depthStencilView = depthSurface with
  | some b => (b, rs)
  | none =>
    let newDepthBuffer : D3D11DepthBuffer :=
      ⟨newAddress, POOL_DEFAULT, depthSurface, width, height, fsaa, fsaaQuality, true⟩
    (newDepthBuffer,
      { rs with
        mDepthBufferPool :=
          Function.update rs.mDepthBufferPool newDepthBuffer.poolId
            (rs.mDepthBufferPool newDepthBuffer.poolId ++ [newDepthBuffer]) })

/-- `DXGI_SAMPLE_DESC`. -/
structure DXGI_SAMPLE_DESC where
  Count : Nat
  Quality : Nat
deriving DecidableEq, Repr

/-- `determineFSAASettings`, lines 3707-3723: the table of modes, from high quality to low
quality. The entry `{ NULL }` that ends the array is the end of the list. -/
def presets : List DXGI_SAMPLE_DESC :=
  [⟨8, 16⟩, ⟨4, 16⟩, ⟨16, 0⟩, ⟨12, 0⟩, ⟨8, 8⟩, ⟨4, 8⟩, ⟨8, 0⟩, ⟨6, 0⟩, ⟨4, 0⟩, ⟨2, 0⟩, ⟨1, 0⟩]

/-- `determineFSAASettings`, lines 3729-3731: whether a mode is of too high a quality for
the request. -/
def tooHQ (fsaa : Nat) (qualityHint : Bool) (mode : DXGI_SAMPLE_DESC) : Bool :=
  let modeFSAA := max mode.Count mode.Quality
  let modeQuality : Bool := decide (mode.Count ≥ 8) && decide (mode.Quality ≠ 0)
  decide (modeFSAA > fsaa) || (decide (modeFSAA = fsaa) && modeQuality && !qualityHint)

/-- What the `CheckMultisampleQualityLevels` call just issued returned. -/
def multisampleQualityLevels : M (HRESULT × Nat) :=
  fun w => (Except.ok (w.rs.mDevice.multisampleQualityLevels w.calls), w)

/-- `determineFSAASettings`, lines 3736-3750: the first mode of the list that the device
supports, and the mode of one sample without quality when it supports none. -/
def firstSupportedMode (format : DXGI_FORMAT) : List DXGI_SAMPLE_DESC → M DXGI_SAMPLE_DESC
  | [] => pure ⟨1, 0⟩
  | mode :: modes => do
    native (Call.CheckMultisampleQualityLevels format mode.Count)
    let (hr, outQuality) ← multisampleQualityLevels
    if SUCCEEDED hr ∧ outQuality > mode.Quality then
      pure mode
    else
      firstSupportedMode format modes

/-- `D3D11RenderSystem::determineFSAASettings` (lines 3696-3751). The result is what it
stores through `outFSAASettings`. -/
def determineFSAASettings (fsaa : Nat) (fsaaHint : String) (format : DXGI_FORMAT) :
    M DXGI_SAMPLE_DESC :=
  let qualityHint : Bool := decide (fsaa ≥ 8) && decide ("Quality".toList <:+: fsaaHint.toList)
  firstSupportedMode format (presets.dropWhile (tooHQ fsaa qualityHint))

/-- `D3D11RenderSystem::_setTextureMipmapBias` (lines 1851-1855). -/
def _setTextureMipmapBias (rs : D3D11RenderSystem) (unit : Nat) (bias : ℚ) :
    D3D11RenderSystem :=
  { rs with
    mTexStageDesc :=
      Function.update rs.mTexStageDesc unit
        { rs.mTexStageDesc unit with
          samplerDesc := { (rs.mTexStageDesc unit).samplerDesc with MipLODBias := bias } }
    mSamplerStatesChanged := true }

open GpuProgramType in
/-- `D3D11RenderSystem::bindGpuProgram` (lines 3048-3153). `type` is the answer of
`prg->getType()`. The method of the base class `RenderSystem` that it ends with is not among
the sources at hand; it reaches members of the base class only, of which the model has the
flag `mGeometryProgramBound`, and `base` gives the value it leaves in the flag. -/
def bindGpuProgram (base : GpuProgramType → Bool → Bool) (prg : Option D3D11HLSLProgram)
    (type : GpuProgramType) : M Unit :=
  match prg with
  | none =>
    OGRE_EXCEPT ExceptionCodes.ERR_RENDERINGAPI_ERROR "Null program bound."
      "D3D11RenderSystem::bindGpuProgram"
  | some p => do
    match type with
    | GPT_VERTEX_PROGRAM => modifyRS fun rs => { rs with mBoundVertexProgram := some p }
    | GPT_FRAGMENT_PROGRAM => modifyRS fun rs => { rs with mBoundFragmentProgram := some p }
    | GPT_GEOMETRY_PROGRAM => modifyRS fun rs => { rs with mBoundGeometryProgram := some p }
    | GPT_HULL_PROGRAM => modifyRS fun rs => { rs with mBoundTessellationHullProgram := some p }
    | GPT_DOMAIN_PROGRAM =>
      modifyRS fun rs => { rs with mBoundTessellationDomainProgram := some p }
    | GPT_COMPUTE_PROGRAM => modifyRS fun rs => { rs with mBoundComputeProgram := some p }
    modifyRS fun rs => { rs with mGeometryProgramBound := base type rs.mGeometryProgramBound }

open GpuProgramType in
/-- `D3D11RenderSystem::unbindGpuProgram` (lines 3157-3216). `base` is as for
`bindGpuProgram`. -/
def unbindGpuProgram (base : GpuProgramType → Bool → Bool) (gptype : GpuProgramType) :
    M Unit := do
  match gptype with
  | GPT_VERTEX_PROGRAM =>
    modifyRS fun rs =>
      { rs with mActiveVertexGpuProgramParameters := none, mBoundVertexProgram := none }
  | GPT_FRAGMENT_PROGRAM =>
    modifyRS fun rs =>
      { rs with mActiveFragmentGpuProgramParameters := none, mBoundFragmentProgram := none }
  | GPT_GEOMETRY_PROGRAM =>
    modifyRS fun rs =>
      { rs with mActiveGeometryGpuProgramParameters := none, mBoundGeometryProgram := none }
  | GPT_HULL_PROGRAM =>
    modifyRS fun rs =>
      { rs with
        mActiveTessellationHullGpuProgramParameters := none
        mBoundTessellationHullProgram := none }
  | GPT_DOMAIN_PROGRAM =>
    modifyRS fun rs =>
      { rs with
        mActiveTessellationDomainGpuProgramParameters := none
        mBoundTessellationDomainProgram := none }
  | GPT_COMPUTE_PROGRAM =>
    modifyRS fun rs =>
      { rs with mActiveComputeGpuProgramParameters := none, mBoundComputeProgram := none }
  native (Call.SetShader gptype none [] 0)
  modifyRS fun rs => { rs with mGeometryProgramBound := base gptype rs.mGeometryProgramBound }

/-! ## Predicates used to state what the member functions do -/

/-- Member variables that `_render` only reads: the device, the bound programs and the
class instances. -/
structure Unchanged (a b : D3D11RenderSystem) : Prop where
  device : b.mDevice = a.mDevice
  vertex : b.mBoundVertexProgram = a.mBoundVertexProgram
  fragment : b.mBoundFragmentProgram = a.mBoundFragmentProgram
  geometry : b.mBoundGeometryProgram = a.mBoundGeometryProgram
  hull : b.mBoundTessellationHullProgram = a.mBoundTessellationHullProgram
  domain : b.mBoundTessellationDomainProgram = a.mBoundTessellationDomainProgram
  compute : b.mBoundComputeProgram = a.mBoundComputeProgram
  geometryBound : b.mGeometryProgramBound = a.mGeometryProgramBound
  classInstances : b.mClassInstances = a.mClassInstances
  numClassInstances : b.mNumClassInstances = a.mNumClassInstances

/-- What a member function does, whatever world it is entered in: it leaves the device, the
bound programs and the class instances alone, it adds to the history only calls that
satisfy `Q`, and an exception it raises satisfies `P`. -/
def M.Does {α : Type} (Q : Call → Prop) (P : OgreException → Prop) (m : M α) : Prop :=
  ∀ w, Unchanged w.rs (m w).2.rs
    ∧ (∃ l, (m w).2.calls = w.calls ++ l ∧ ∀ c ∈ l, Q c)
    ∧ ∀ e, (m w).1 = Except.error e → P e

/-- What a member function issues and raises, whatever world it is entered in: it adds to
the history only calls that satisfy `Q`, and an exception it raises satisfies `P`. -/
def M.Issues {α : Type} (Q : Call → Prop) (P : OgreException → Prop) (m : M α) : Prop :=
  ∀ w, (∃ l, (m w).2.calls = w.calls ++ l ∧ ∀ c ∈ l, Q c)
    ∧ ∀ e, (m w).1 = Except.error e → P e

/-- The calls of `bindGpuProgramParameters` and of `setSubroutine`. -/
def Call.isParameterCall : Call → Bool
  | .GetClassInstance _ _ => true
  | .CreateClassInstance _ _ _ _ _ => true
  | .SetConstantBuffers _ _ _ _ => true
  | ._copySharedParams => true
  | _ => false

/-- The second render system is the first but for the class instances, their counters and
the map from subroutine names to class instances. -/
@[reducible]
def WritesClassInstances (a b : D3D11RenderSystem) : Prop :=
  b = { a with
        mClassInstances := b.mClassInstances
        mNumClassInstances := b.mNumClassInstances
        mInstanceMap := b.mInstanceMap }

/-- A call that is neither a topology-based draw nor a dispatch. -/
def Call.Quiet (c : Call) : Prop := c.isDraw = false ∧ c.isDispatch = false

/-- The calls of the compute path of `_render` (lines 2758-2764). -/
def computeCalls : List Call :=
  [Call.Dispatch 1 1 1,
    Call.SetShaderResources GpuProgramType.GPT_COMPUTE_PROGRAM 0 1 [none],
    Call.CSSetUnorderedAccessViews 0 1 [none],
    Call.SetShader GpuProgramType.GPT_COMPUTE_PROGRAM none [] 0]

/-- The `SetShader` call of the deferred program bind for one stage: none when no program
is bound to the stage. -/
def shaderCall (rs : D3D11RenderSystem) (stage : GpuProgramType)
    (program : Option D3D11HLSLProgram) : List Call :=
  match program with
  | some p =>
    [Call.SetShader stage p.shader (rs.mClassInstances stage) (rs.mNumClassInstances stage)]
  | none => []

open GpuProgramType in
/-- The calls of the deferred program bind of `_render` (lines 2663-2743), in order. -/
def programCalls (rs : D3D11RenderSystem) : List Call :=
  shaderCall rs GPT_VERTEX_PROGRAM rs.mBoundVertexProgram
    ++ shaderCall rs GPT_FRAGMENT_PROGRAM rs.mBoundFragmentProgram
    ++ shaderCall rs GPT_GEOMETRY_PROGRAM rs.mBoundGeometryProgram
    ++ shaderCall rs GPT_HULL_PROGRAM rs.mBoundTessellationHullProgram
    ++ shaderCall rs GPT_DOMAIN_PROGRAM rs.mBoundTessellationDomainProgram
    ++ shaderCall rs GPT_COMPUTE_PROGRAM rs.mBoundComputeProgram

/-- The calls of `setVertexBufferBinding` (lines 2245-2269), in order. -/
def vertexBufferCalls (binding : VertexBufferBinding) : List Call :=
  binding.bindings.map fun b =>
    Call.IASetVertexBuffers (UINT b.1) 1 b.2.d3dVertexBuffer (UINT b.2.vertexSize) 0

/-- The calls issued before the first dispatch. -/
def beforeDispatch (l : List Call) : List Call := l.takeWhile fun c => !c.isDispatch

/-- The calls that create a blend, rasterizer or depth-stencil state object. -/
def Call.createsStateObject : Call → Bool
  | .CreateBlendState _ => true
  | .CreateRasterizerState _ => true
  | .CreateDepthStencilState _ => true
  | _ => false

/-- The calls that bind a blend, rasterizer or depth-stencil state object. -/
def Call.bindsStateObject : Call → Bool
  | .OMSetBlendState _ _ => true
  | .RSSetState _ => true
  | .OMSetDepthStencilState _ _ => true
  | _ => false

/-- The `Create...State` calls that `_render` issues for the descriptors marked changed
(lines 2323-2378), in order. -/
def createCalls (rs : D3D11RenderSystem) : List Call :=
  (if rs.mBlendDescChanged then [Call.CreateBlendState rs.mBlendDesc] else [])
    ++ (if rs.mRasterizerDescChanged then [Call.CreateRasterizerState rs.mRasterizerDesc]
        else [])
    ++ (if rs.mDepthStencilDescChanged then
          [Call.CreateDepthStencilState rs.mDepthStencilDesc] else [])

/-- What a member function does to the world, whatever world it is entered in: the world
it is entered in and the world it leaves are related by `R`. -/
def M.Keeps {α : Type} (R : World → World → Prop) (m : M α) : Prop :=
  ∀ w, R w (m w).2

/-- A relation between worlds that holds between a world and itself, and between the first
and the last of three worlds when it holds between the first two and between the last
two: what a sequence of steps keeps when every step keeps it. -/
structure Frame (R : World → World → Prop) : Prop where
  refl : ∀ w, R w w
  trans : ∀ {a b c : World}, R a b → R b c → R a c

/-- A relation that the binding update hooks keep: a frame that holds across each of their
calls and across a write to the class instances. -/
structure HookFrame (R : World → World → Prop) extends Frame R : Prop where
  call : ∀ c : Call, c.isParameterCall = true → ∀ w : World, R w ⟨w.rs, w.calls ++ [c]⟩
  write : ∀ f : D3D11RenderSystem → D3D11RenderSystem,
    (∀ rs, WritesClassInstances rs (f rs)) → ∀ w : World, R w ⟨f w.rs, w.calls⟩

/-- The three state descriptors are the same in both worlds, one that is not marked
changed in the first is not marked changed in the second, and the history of the second
extends that of the first by calls that create no blend, rasterizer or depth-stencil state
object. -/
structure DescriptorsKept (w w' : World) : Prop where
  blendDesc : w'.rs.mBlendDesc = w.rs.mBlendDesc
  rasterizerDesc : w'.rs.mRasterizerDesc = w.rs.mRasterizerDesc
  depthStencilDesc : w'.rs.mDepthStencilDesc = w.rs.mDepthStencilDesc
  blendClear : w.rs.mBlendDescChanged = false → w'.rs.mBlendDescChanged = false
  rasterizerClear : w.rs.mRasterizerDescChanged = false → w'.rs.mRasterizerDescChanged = false
  depthStencilClear :
    w.rs.mDepthStencilDescChanged = false → w'.rs.mDepthStencilDescChanged = false
  calls : ∃ l, w'.calls = w.calls ++ l ∧ ∀ c ∈ l, c.createsStateObject = false

/-- The world after the blend, the rasterizer and the depth-stencil descriptor were
resolved, one after the other (lines 2323-2378). -/
def resolvedWorld (w : World) : World :=
  (resolveDepthStencilState (resolveRasterizer (resolveBlendState w).2).2).2

/-- The state-object cache is the same in both worlds: the three descriptors, their changed
marks and the three bound objects; and the history of the second extends that of the first
by calls that neither create nor bind a blend, rasterizer or depth-stencil state object. -/
structure CacheKept (w w' : World) : Prop where
  blendDesc : w'.rs.mBlendDesc = w.rs.mBlendDesc
  rasterizerDesc : w'.rs.mRasterizerDesc = w.rs.mRasterizerDesc
  depthStencilDesc : w'.rs.mDepthStencilDesc = w.rs.mDepthStencilDesc
  blendChanged : w'.rs.mBlendDescChanged = w.rs.mBlendDescChanged
  rasterizerChanged : w'.rs.mRasterizerDescChanged = w.rs.mRasterizerDescChanged
  depthStencilChanged : w'.rs.mDepthStencilDescChanged = w.rs.mDepthStencilDescChanged
  boundBlend : w'.rs.mBoundBlendState = w.rs.mBoundBlendState
  boundRasterizer : w'.rs.mBoundRasterizer = w.rs.mBoundRasterizer
  boundDepthStencil : w'.rs.mBoundDepthStencilState = w.rs.mBoundDepthStencilState
  calls : ∃ l, w'.calls = w.calls ++ l
    ∧ ∀ c ∈ l, c.createsStateObject = false ∧ c.bindsStateObject = false

/-- The capability objects of the render system are the same in both worlds, and the
history of the second extends that of the first by calls that satisfy `Q`. -/
structure CapabilitiesKept (Q : Call → Prop) (w w' : World) : Prop where
  real : w'.rs.mRealCapabilities = w.rs.mRealCapabilities
  current : w'.rs.mCurrentCapabilities = w.rs.mCurrentCapabilities
  calls : ∃ l, w'.calls = w.calls ++ l ∧ ∀ c ∈ l, Q c

/-- The calls of `createDevice`: to `ReleaseAll`, to `refresh` and to the native device
creation. -/
def Call.isRecreation : Call → Bool
  | .ReleaseAll => true
  | .refresh => true
  | .D3D11CreateDeviceN _ _ _ _ => true
  | _ => false

/-- The native device creation. -/
def Call.isDeviceCreation : Call → Bool
  | .D3D11CreateDeviceN _ _ _ _ => true
  | _ => false

/-- What a member function does when it returns: the world it is entered in and the world
it leaves are then related by `S`. -/
def M.Yields {α : Type} (S : World → World → Prop) (m : M α) : Prop :=
  ∀ w a, (m w).1 = Except.ok a → S w (m w).2

/-- The history of the second world extends that of the first by calls among which there
is a native device creation. -/
def CreatesDevice (w w' : World) : Prop :=
  ∃ l, w'.calls = w.calls ++ l ∧ ∃ c ∈ l, c.isDeviceCreation = true

/-- The error of `createD3D11Device` when the requested range is empty. -/
def rangeError : OgreException :=
  ⟨ExceptionCodes.ERR_INTERNAL_ERROR, none,
    "Requested min level feature is bigger the requested max level feature.",
    "D3D11RenderSystem::initialise"⟩

/-- The error of `createD3D11Device` when the native creation failed with `hr`. -/
def creationError (hr : HRESULT) : OgreException :=
  ⟨ExceptionCodes.ERR_RENDERINGAPI_ERROR, some hr, "Failed to create Direct3D11 device",
    "D3D11RenderSystem::D3D11RenderSystem"⟩

/-- A `SetShader` call passes the number of class instances that `counts` has for its
stage, or it unbinds the shader of the stage (no shader, no class instance); any other call
passes. -/
def Call.passes (counts : GpuProgramType → Nat) : Call → Prop
  | .SetShader stage shader classInstances numClassInstances =>
    numClassInstances = counts stage
      ∨ (shader = none ∧ classInstances = [] ∧ numClassInstances = 0)
  | _ => True

/-- The number of iterations still due is the same in both worlds; and if the counters of
class instances are `counts` in the first world, they are `counts` in the second, and the
history of the second extends that of the first by calls that pass `counts`. -/
def ClassInstancesKept (counts : GpuProgramType → Nat) (w w' : World) : Prop :=
  w'.rs.mCurrentPassIterationCount = w.rs.mCurrentPassIterationCount
    ∧ (w.rs.mNumClassInstances = counts →
      w'.rs.mNumClassInstances = counts
        ∧ ∃ l, w'.calls = w.calls ++ l ∧ ∀ c ∈ l, c.passes counts)

/-- The history of the second world extends that of the first by calls that pass
`counts`. -/
def CallsPass (counts : GpuProgramType → Nat) (w w' : World) : Prop :=
  ∃ l, w'.calls = w.calls ++ l ∧ ∀ c ∈ l, c.passes counts

/-- The 32-bit counter `x` after `n` additions of one, each of which wraps around. -/
def countUp : Nat → Nat → Nat
  | 0, x => x
  | n + 1, x => countUp n (UINT (x + 1))

/-- What is counted in the part of a member function that follows `m`: what `c` counts in
the world that `m` leaves when it returns, and nothing when `m` raises, since the part is
not reached then. -/
def countAfter {α : Type} (m : M α) (c : GpuProgramType → World → Nat) :
    GpuProgramType → World → Nat :=
  fun gptype w =>
    match (m w).1 with
    | Except.ok _ => c gptype (m w).2
    | Except.error _ => 0

/-- The number of `setSubroutine` calls for the stage `gptype` that return, in one call
`setSubroutine(type, slotIndex, subroutineName)` entered in `w`: one or none. -/
def subroutineSuccesses (type : GpuProgramType) (slotIndex : Nat) (subroutineName : String) :
    GpuProgramType → World → Nat :=
  fun gptype w =>
    if type = gptype ∧ (setSubroutine type slotIndex subroutineName w).1 = Except.ok () then 1
    else 0

/-- The number of `setSubroutine` calls for the stage `gptype` that return, in the loop
`setSubroutines type entries` entered in `w`. -/
def subroutinesSuccesses (type : GpuProgramType) :
    List (Nat × String) → GpuProgramType → World → Nat
  | [] => fun _ _ => 0
  | (slotIndex, subroutineName) :: rest => fun gptype w =>
    subroutineSuccesses type slotIndex subroutineName gptype w
      + countAfter (setSubroutine type slotIndex subroutineName)
          (subroutinesSuccesses type rest) gptype w

/-- The number of `setSubroutine` calls for the stage `gptype` that return, in
`bindGpuProgramParameters(type, params, mask)` entered in `w`: those of its loop, which
follows the setting of the constant buffer. -/
def parametersSuccesses (type : GpuProgramType) (params : GpuProgramParameters) (mask : Nat) :
    GpuProgramType → World → Nat :=
  countAfter (setConstantBuffers type params mask)
    (subroutinesSuccesses type params.subroutineMap)

/-- The number of `setSubroutine` calls for the stage `gptype` that return, in the binding
update hook of the stage `type` entered in `w`. -/
def hookSuccesses (type : GpuProgramType) : GpuProgramType → World → Nat :=
  fun gptype w =>
    match activeParameters w.rs type with
    | some params => parametersSuccesses type params GPV_PASS_ITERATION_NUMBER gptype w
    | none => 0

/-- The number of `setSubroutine` calls for the stage `gptype` that return, in the hooks of
a list of stages entered in `w`. -/
def stagesSuccesses : List GpuProgramType → GpuProgramType → World → Nat
  | [] => fun _ _ => 0
  | type :: rest => fun gptype w =>
    hookSuccesses type gptype w
      + countAfter (bindGpuProgramPassIterationParameters type) (stagesSuccesses rest) gptype w

/-- The number of `setSubroutine` calls for the stage `gptype` that return, in the hooks
between two iterations, entered in `w`. -/
def hooksSuccesses : GpuProgramType → World → Nat :=
  fun gptype w =>
    stagesSuccesses (w.rs.passIterationStages w.rs.mCurrentPassIterationCount) gptype w

/-- The number of `setSubroutine` calls for the stage `gptype` that return, in
`drawLoop body k` entered in `w`, for a body that calls none: those of the hooks that
follow each of the first `k` iterations. -/
def drawLoopSuccesses (body : M Unit) : Nat → GpuProgramType → World → Nat
  | 0 => fun _ _ => 0
  | k + 1 =>
    countAfter body
      (countAfter
        (modifyRS fun rs =>
          { rs with mCurrentPassIterationCount := rs.mCurrentPassIterationCount - 1 })
        fun gptype w =>
          hooksSuccesses gptype w
            + countAfter passIterationHooks (drawLoopSuccesses body k) gptype w)

/-- The number of `setSubroutine` calls for the stage `gptype` that return, in
`issueOperation` entered in `w`: those of the draw loop, when it is reached. -/
def issueSuccesses (maps : D3D11Mappings) (op : RenderOperation) (vertexData : VertexData)
    (hasInstanceData : Bool) (numberOfInstances : Nat) : GpuProgramType → World → Nat :=
  fun gptype w =>
    if w.rs.mBoundComputeProgram.isSome then 0
    else
      match translateOperation w.rs op vertexData with
      | Except.error _ => 0
      | Except.ok (primType, primCount) =>
        if primCount ≠ 0 then
          countAfter (setIndexBufferAndTopology maps op primType)
            (drawLoopSuccesses (drawOnce op vertexData hasInstanceData numberOfInstances)
              (w.rs.mCurrentPassIterationCount - 1)) gptype w
        else 0

/-- The number of `setSubroutine` calls for the stage `gptype` that return, in
`_render(op)` entered in `w`: those of `issueOperation`, when it is reached. -/
def renderSuccesses (maps : D3D11Mappings) (op : RenderOperation) :
    GpuProgramType → World → Nat :=
  fun gptype w =>
    match op.vertexData with
    | none => 0
    | some vertexData =>
      if vertexData.vertexCount = 0 then 0
      else
        countAfter (prepareOperation maps op vertexData)
          (issueSuccesses maps op vertexData (hasInstanceData w.rs op vertexData)
            (numberOfInstances w.rs op)) gptype w

/-- What a member function does to the counters of class instances, whatever world it is
entered in: the counter of each stage is counted up `c` times. -/
def M.Counts {α : Type} (c : GpuProgramType → World → Nat) (m : M α) : Prop :=
  ∀ w gptype,
    (m w).2.rs.mNumClassInstances gptype = countUp (c gptype w) (w.rs.mNumClassInstances gptype)

/-- The member functions that the claim on the counter of class instances speaks of, and
`bindGpuProgramParameters`, with their arguments. -/
inductive ProgramCall
  | setSubroutine (gptype : GpuProgramType) (slotIndex : Nat) (subroutineName : String)
  | bindGpuProgramParameters (gptype : GpuProgramType) (params : GpuProgramParameters)
      (mask : Nat)
  | bindGpuProgram (prg : Option D3D11HLSLProgram) (type : GpuProgramType)
  | unbindGpuProgram (gptype : GpuProgramType)
  | _render (op : RenderOperation)

/-- The member function that a `ProgramCall` stands for. -/
def ProgramCall.run (maps : D3D11Mappings) (base : GpuProgramType → Bool → Bool) :
    ProgramCall → M Unit
  | .setSubroutine gptype slotIndex subroutineName =>
    Ogre.setSubroutine gptype slotIndex subroutineName
  | .bindGpuProgramParameters gptype params mask =>
    Ogre.bindGpuProgramParameters gptype params mask
  | .bindGpuProgram prg type => Ogre.bindGpuProgram base prg type
  | .unbindGpuProgram gptype => Ogre.unbindGpuProgram base gptype
  | ._render op => Ogre._render maps op

/-- The world after a sequence of calls, each entered in the world the one before it left,
whether that one returned or raised. -/
def ProgramCall.runAll (maps : D3D11Mappings) (base : GpuProgramType → Bool → Bool)
    (calls : List ProgramCall) (w : World) : World :=
  calls.foldl (fun w c => (c.run maps base w).2) w

/-- The number of `setSubroutine` calls for the stage `gptype` that return in one call
entered in `w`, made by the call itself or inside it. -/
def ProgramCall.count (maps : D3D11Mappings) :
    ProgramCall → GpuProgramType → World → Nat
  | .setSubroutine type slotIndex subroutineName =>
    subroutineSuccesses type slotIndex subroutineName
  | .bindGpuProgramParameters type params mask => parametersSuccesses type params mask
  | .bindGpuProgram _ _ => fun _ _ => 0
  | .unbindGpuProgram _ => fun _ _ => 0
  | ._render op => renderSuccesses maps op

/-- The number of `setSubroutine` calls for the stage `gptype` that return in a sequence of
calls entered in `w`. -/
def ProgramCall.successes (maps : D3D11Mappings) (base : GpuProgramType → Bool → Bool)
    (gptype : GpuProgramType) : List ProgramCall → World → Nat
  | [], _ => 0
  | c :: calls, w =>
    c.count maps gptype w + ProgramCall.successes maps base gptype calls (c.run maps base w).2

/-! ## Sample worlds

A device that never reports an error and hands out fresh objects, a freshly initialised
render system on it (every descriptor marked changed, no texture unit in use, nothing
bound), and a few operations. -/

/-- A device that never fails: each `Create...State` call succeeds with a fresh object, no
error is ever pending, no stream-output target is bound. -/
def sampleDevice : D3D11Device where
  isError := fun _ => false
  getErrorDescription := fun _ _ => ""
  created := fun calls => (0, some (calls.length + 100))
  soTarget := fun _ => none
  bindToShaderError := fun _ => none
  multisampleQualityLevels := fun _ => (0, 1)
  classInstance := fun calls => (0, some (calls.length + 300))

/-- A device on which every `Create...State` call fails with `E_FAIL`. -/
def failingDevice : D3D11Device :=
  { sampleDevice with created := fun _ => (-2147467259, none) }

/-- Mappings that send every engine value to the native value 0. -/
def sampleMappings : D3D11Mappings where
  get_SceneBlendFactor := fun _ _ => 0
  get_SceneBlendOperation := fun _ => 0
  get_CompareFunction := fun _ => 0
  get_FilterOptions := fun _ _ _ _ => 0
  getFormat := fun _ => 0
  get_CullingMode := fun _ _ => 0
  get_PolygonMode := fun _ => 0
  get_StencilOperation := fun _ _ => 0

/-- A hardware adapter. -/
def sampleDriver : D3D11Driver :=
  ⟨"Sample Adapter", 0x10DE, (7, 0), "Sample Adapter", some 900⟩

/-- A program with the given name and native shader object. -/
def sampleProgram (name : String) (shader : Handle) : D3D11HLSLProgram :=
  ⟨name, some shader, false⟩

/-- The render system as `initRenderSystem` leaves it (lines 3783-3826), on `sampleDevice`
at feature level 11.0. -/
def sampleRenderSystem : D3D11RenderSystem where
  mDevice := sampleDevice
  mFeatureLevel := D3D_FEATURE_LEVEL_11_0
  mBlendDesc := ⟨false, false, fun _ => ⟨false, 0, 0, 0, 0, 0, 0, 0⟩⟩
  mRasterizerDesc := ⟨0, 0, true, 0, 0, 0, true, false, true, false⟩
  mDepthStencilDesc := ⟨false, 0, 0, false, 0, 0, ⟨0, 0, 0, 0⟩, ⟨0, 0, 0, 0⟩⟩
  mBlendDescChanged := true
  mRasterizerDescChanged := true
  mDepthStencilDescChanged := true
  mSamplerStatesChanged := true
  mBoundBlendState := none
  mBoundRasterizer := none
  mBoundDepthStencilState := none
  mStencilRef := 0
  mSceneAlphaRejectFunc := CompareFunction.CMPF_ALWAYS_PASS
  mSceneAlphaRejectValue := 0
  mSceneAlphaToCoverage := false
  mTexStageDesc := fun _ =>
    ⟨TextureType.TEX_TYPE_1D, 0, none, ⟨0, 0, 0, 0, 0, 0, 0, fun _ => 0, 0, 0⟩, false⟩
  mLastTextureUnitState := 0
  FilterMinification := fun _ => FilterOptions.FO_NONE
  FilterMagnification := fun _ => FilterOptions.FO_NONE
  FilterMips := fun _ => FilterOptions.FO_NONE
  mBindingType := BindingType.BT_FRAGMENT
  mBoundVertexProgram := none
  mBoundFragmentProgram := none
  mBoundGeometryProgram := none
  mBoundTessellationHullProgram := none
  mBoundTessellationDomainProgram := none
  mBoundComputeProgram := none
  mGeometryProgramBound := false
  mClassInstances := fun _ => []
  mNumClassInstances := fun _ => 0
  mLastVertexSourceCount := 0
  mGlobalInstanceVertexBuffer := none
  mGlobalInstanceVertexBufferVertexDeclaration := none
  mGlobalNumberOfInstances := 1
  mCurrentPassIterationCount := 1
  mPolygonMode := PolygonMode.PM_SOLID
  mCullingMode := CullingMode.CULL_CLOCKWISE
  mInvertVertexWinding := false
  activeRenderTargetRequiresTextureFlipping := false
  mReadBackAsTexture := false
  mD3D11Device := some 1000
  mDriverVersion := ⟨27, 21, 14, 5671⟩
  mActiveD3DDriver := sampleDriver
  mDriverType := D3D_DRIVER_TYPE.D3D_DRIVER_TYPE_HARDWARE
  mDriverName := "Sample Adapter"
  mUseNVPerfHUD := false
  mMinRequestedFeatureLevel := D3D_FEATURE_LEVEL_9_1
  mMaxRequestedFeatureLevel := D3D_FEATURE_LEVEL_11_0
  mRealCapabilities := none
  mCurrentCapabilities := none
  mUseCustomCapabilities := false
  mActiveViewport := none
  mDepthBufferPool := fun _ => []
  mInstanceMap := []
  mScissorRect := ⟨0, 0, 0, 0⟩
  mActiveVertexGpuProgramParameters := none
  mActiveFragmentGpuProgramParameters := none
  mActiveGeometryGpuProgramParameters := none
  mActiveTessellationHullGpuProgramParameters := none
  mActiveTessellationDomainGpuProgramParameters := none
  mActiveComputeGpuProgramParameters := none
  passIterationStages := fun _ => []

/-- The sample render system with a vertex and a fragment program bound. -/
def sampleGraphicsSystem : D3D11RenderSystem :=
  { sampleRenderSystem with
    mBoundVertexProgram := some (sampleProgram "vs" 1)
    mBoundFragmentProgram := some (sampleProgram "fs" 2) }

/-- The sample render system with a vertex, a fragment and a compute program bound. -/
def sampleComputeSystem : D3D11RenderSystem :=
  { sampleGraphicsSystem with mBoundComputeProgram := some (sampleProgram "cs" 3) }

/-- The sample render system with only a compute program bound. -/
def sampleComputeOnlySystem : D3D11RenderSystem :=
  { sampleRenderSystem with mBoundComputeProgram := some (sampleProgram "cs" 3) }

/-- The sample render system with a vertex, a fragment, a hull and a domain program bound. -/
def sampleTessellationSystem : D3D11RenderSystem :=
  { sampleGraphicsSystem with
    mBoundTessellationHullProgram := some (sampleProgram "hs" 4)
    mBoundTessellationDomainProgram := some (sampleProgram "ds" 5) }

/-- The sample render system with a vertex, a fragment and a hull program bound, and no
domain program. -/
def sampleHullOnlySystem : D3D11RenderSystem :=
  { sampleGraphicsSystem with mBoundTessellationHullProgram := some (sampleProgram "hs" 4) }

/-- Vertex data of `vertexCount` vertices in one 12-byte buffer bound to slot 0. -/
def sampleVertexData (vertexCount : Nat) : VertexData :=
  ⟨7, ⟨[(0, ⟨12, some 9⟩)], false⟩, 0, vertexCount⟩

/-- A non-indexed, non-instanced operation of `vertexCount` vertices. -/
def sampleOperation (operationType : OperationType) (vertexCount : Nat) : RenderOperation :=
  ⟨some (sampleVertexData vertexCount), operationType, false,
    ⟨⟨none, IndexType.IT_16BIT⟩, 0, 0⟩, 1, false⟩

/-- An indexed, non-instanced operation of `indexCount` indices over `vertexCount`
vertices. -/
def sampleIndexedOperation (operationType : OperationType) (vertexCount indexCount : Nat) :
    RenderOperation :=
  ⟨some (sampleVertexData vertexCount), operationType, true,
    ⟨⟨some 11, IndexType.IT_16BIT⟩, 0, indexCount⟩, 1, false⟩

/-- A device on which the first `Create...State` call fails with `E_OUTOFMEMORY` and every
later one succeeds. -/
def failingOnceDevice : D3D11Device :=
  { sampleDevice with
    created := fun calls =>
      if calls.length = 1 then (-2147024882, none) else (0, some (calls.length + 100)) }

/-- An engine with two scene managers and one adapter, in which no call raises, on a
platform that creates a device of feature level 9.1 at the first attempt. -/
def samplePlatform : Platform where
  sceneManagers := fun _ => [31, 32]
  count := fun _ => 1
  findByName := fun _ _ => sampleDriver
  item := fun _ _ => none
  createdDevice := fun calls => (0, some (calls.length + 2000), some D3D_FEATURE_LEVEL_9_1)
  GetDriverVersion := fun _ => (0x001b0015, 0x000e1627)
  raised := fun _ => none
  IsWorkingUnderNsight := false
  exceptionsOff := false

/-- The sample render system after its first window was created: the capabilities are
those derived for its device, of feature level 11.0. -/
def sampleWindowedSystem : D3D11RenderSystem :=
  { sampleGraphicsSystem with
    mRealCapabilities :=
      some (createRenderSystemCapabilities sampleConfig emptyCapabilities sampleGraphicsSystem
        (0, 0))
    mCurrentCapabilities :=
      some (createRenderSystemCapabilities sampleConfig emptyCapabilities sampleGraphicsSystem
        (0, 0)) }

/-- The exception of a presentation on a removed device. -/
def sampleDeviceRemoved : OgreException :=
  ⟨ExceptionCodes.ERR_RENDERINGAPI_ERROR, some DXGI_ERROR_DEVICE_REMOVED,
    "Error Presenting surfaces", "D3D11RenderWindowSwapChainBased::swapBuffers"⟩

/-- A base-class method that fails with `sampleDeviceRemoved`. -/
def presentOnRemovedDevice : M Unit :=
  OGRE_EXCEPT_EX ExceptionCodes.ERR_RENDERINGAPI_ERROR DXGI_ERROR_DEVICE_REMOVED
    "Error Presenting surfaces" "D3D11RenderWindowSwapChainBased::swapBuffers"

/-- The sample build with the debug mode on, so that the debug layer is asked for. -/
def debugConfig : BuildConfig :=
  { sampleConfig with OGRE_DEBUG_MODE := true }

/-- A platform without the debug layer: the first native device creation fails with
`DXGI_ERROR_SDK_COMPONENT_MISSING`, every later one succeeds at feature level 11.0. -/
def missingDebugLayerPlatform : Platform :=
  { samplePlatform with
    createdDevice := fun calls =>
      if calls.length = 1 then (-2005270483, none, none)
      else (0, some (calls.length + 2000), some D3D_FEATURE_LEVEL_11_0) }

/-- A 64-byte 2-D texture with the shader resource view 50. -/
def sampleTexture : D3D11Texture := ⟨64, some 50, TextureType.TEX_TYPE_2D⟩

/-- The sample graphics system with the sample texture on unit 0 and the bias of that unit
set to 0. -/
def sampleBiasedSystem : D3D11RenderSystem :=
  _setTextureMipmapBias (_setTexture sampleGraphicsSystem 0 true (some sampleTexture)) 0 0

/-- The world that the first render of three vertices leaves, entered with
`sampleBiasedSystem` and an empty history. -/
def sampleBiasedWorld : World :=
  (_render sampleMappings (sampleOperation OperationType.OT_TRIANGLE_LIST 3) ⟨sampleBiasedSystem, []⟩).2

/-- A class linkage that has no class instance of the name "absent" and one of every other
name. -/
def sampleClassLinkage (calls : List Call) : HRESULT × Option Handle :=
  match calls.getLast? with
  | some (Call.GetClassInstance name _) =>
    if name = "absent" then (-2147024809, none) else (0, some (calls.length + 300))
  | some (Call.CreateClassInstance name _ _ _ _) =>
    if name = "absent" then (-2147024809, none) else (0, some (calls.length + 300))
  | _ => (0, none)

/-- The sample graphics system on a device with the sample class linkage. -/
def sampleSubroutineSystem : D3D11RenderSystem :=
  { sampleGraphicsSystem with
    mDevice := { sampleDevice with classInstance := sampleClassLinkage } }

/-- Parameters with the given subroutine map, whose constant buffer is the object 9 for
every program. -/
def sampleParameters (subroutineMap : List (Nat × String)) : GpuProgramParameters :=
  ⟨subroutineMap, fun _ _ => some 9⟩

/-- The sample system with the class linkage, in a pass of three iterations: between two
iterations the hook of the vertex stage is invoked, whose active parameters have a
subroutine for slot 0 and one for slot 1. -/
def sampleIteratedSystem : D3D11RenderSystem :=
  { sampleSubroutineSystem with
    mCurrentPassIterationCount := 3
    passIterationStages := fun _ => [GpuProgramType.GPT_VERTEX_PROGRAM]
    mActiveVertexGpuProgramParameters := some (sampleParameters [(0, "red"), (1, "green")]) }

/-- A sequence of calls: two subroutines for slot 0 of the vertex stage, one that the
linkage does not have, one for the fragment stage, the parameters of the fragment stage
with a subroutine for slot 0, one that the linkage does not have and a third that is not
reached, a program bound and one unbound, and a render of three vertices. -/
def sampleProgramCalls : List ProgramCall :=
  [ProgramCall.setSubroutine GpuProgramType.GPT_VERTEX_PROGRAM 0 "red",
    ProgramCall.setSubroutine GpuProgramType.GPT_VERTEX_PROGRAM 0 "green",
    ProgramCall.setSubroutine GpuProgramType.GPT_VERTEX_PROGRAM 1 "absent",
    ProgramCall.setSubroutine GpuProgramType.GPT_FRAGMENT_PROGRAM 0 "red",
    ProgramCall.bindGpuProgramParameters GpuProgramType.GPT_FRAGMENT_PROGRAM
      (sampleParameters [(0, "blue"), (2, "absent"), (3, "red")]) GPV_GLOBAL,
    ProgramCall.bindGpuProgram (some (sampleProgram "vs2" 6))
      GpuProgramType.GPT_VERTEX_PROGRAM,
    ProgramCall.unbindGpuProgram GpuProgramType.GPT_GEOMETRY_PROGRAM,
    ProgramCall._render (sampleOperation OperationType.OT_TRIANGLE_LIST 3)]

/-- The call `setSubroutine(GPT_VERTEX_PROGRAM, 0, "red")`, 4294967296 times. -/
def sampleRepeatedCalls : List ProgramCall :=
  List.replicate 4294967296 (ProgramCall.setSubroutine GpuProgramType.GPT_VERTEX_PROGRAM 0 "red")

/-- A device that reports an error after each `RSSetScissorRects` call and after no other
call. -/
def scissorFailingDevice : D3D11Device :=
  { sampleDevice with
    isError := fun calls =>
      match calls.getLast? with
      | some (Call.RSSetScissorRects _ _) => true
      | _ => false }

/-- The sample graphics system on `scissorFailingDevice`. -/
def sampleScissorFailingSystem : D3D11RenderSystem :=
  { sampleGraphicsSystem with mDevice := scissorFailingDevice }

/-! # Theorems -/

open OperationType D3D11_PRIMITIVE_TOPOLOGY SceneBlendFactor

/-! ## How member functions compose -/

theorem Unchanged.refl (a : D3D11RenderSystem) : Unchanged a a :=
  ⟨rfl, rfl, rfl, rfl, rfl, rfl, rfl, rfl, rfl, rfl⟩

theorem Unchanged.trans {a b c : D3D11RenderSystem} (h : Unchanged a b) (k : Unchanged b c) :
    Unchanged a c :=
  ⟨k.device.trans h.device, k.vertex.trans h.vertex, k.fragment.trans h.fragment,
    k.geometry.trans h.geometry, k.hull.trans h.hull, k.domain.trans h.domain,
    k.compute.trans h.compute, k.geometryBound.trans h.geometryBound,
    k.classInstances.trans h.classInstances, k.numClassInstances.trans h.numClassInstances⟩

theorem M.bind_ok {α β : Type} (m : M α) (f : α → M β) (w : World) (a : α)
    (h : (m w).1 = Except.ok a) : (m >>= f) w = f a (m w).2 := by
  show (match (m w).1 with
    | Except.ok a => f a (m w).2
    | Except.error e => (Except.error e, (m w).2)) = _
  rw [h]

theorem M.bind_error {α β : Type} (m : M α) (f : α → M β) (w : World) (e : OgreException)
    (h : (m w).1 = Except.error e) : (m >>= f) w = (Except.error e, (m w).2) := by
  show (match (m w).1 with
    | Except.ok a => f a (m w).2
    | Except.error e => (Except.error e, (m w).2)) = _
  rw [h]

section Composition

variable {α β : Type} {Q : Call → Prop} {P : OgreException → Prop}

theorem M.Does.pure (a : α) : M.Does Q P (pure a : M α) :=
  fun w => ⟨Unchanged.refl _, ⟨[], by simp [Pure.pure], by simp⟩, by simp [Pure.pure]⟩

theorem M.Does.read (g : World → α) : M.Does Q P (fun w => (Except.ok (g w), w)) :=
  fun w => ⟨Unchanged.refl _, ⟨[], by simp, by simp⟩, by simp⟩

theorem M.Does.bind {m : M α} {f : α → M β} (hm : M.Does Q P m)
    (hf : ∀ a, M.Does Q P (f a)) : M.Does Q P (m >>= f) := by
  intro w
  obtain ⟨hu, ⟨l, hl, hq⟩, he⟩ := hm w
  cases h : (m w).1 with
  | error e =>
    rw [M.bind_error m f w e h]
    exact ⟨hu, ⟨l, hl, hq⟩, fun e' h' => by
      simp only [Except.error.injEq] at h'; exact h' ▸ he e h⟩
  | ok a =>
    rw [M.bind_ok m f w a h]
    obtain ⟨hu', ⟨l', hl', hq'⟩, he'⟩ := hf a (m w).2
    refine ⟨hu.trans hu', ⟨l ++ l', by rw [hl', hl, List.append_assoc], ?_⟩, he'⟩
    intro c hc
    rcases List.mem_append.mp hc with h1 | h1
    · exact hq c h1
    · exact hq' c h1

theorem M.Does.getRS : M.Does Q P getRS := M.Does.read _

theorem M.Does.isError : M.Does Q P isError := M.Does.read _

theorem M.Does.getErrorDescription (hr : Option HRESULT) : M.Does Q P (getErrorDescription hr) :=
  M.Does.read _

theorem M.Does.created : M.Does Q P created := M.Does.read _

theorem M.Does.soTarget : M.Does Q P soTarget := M.Does.read _

theorem M.Does.bindToShaderError : M.Does Q P bindToShaderError := M.Does.read _

theorem M.Does.modifyRS {f : D3D11RenderSystem → D3D11RenderSystem}
    (h : ∀ rs, Unchanged rs (f rs)) : M.Does Q P (modifyRS f) :=
  fun w => ⟨h w.rs, ⟨[], by simp [Ogre.modifyRS], by simp⟩, by simp [Ogre.modifyRS]⟩

theorem M.Does.native {c : Call} (h : Q c) : M.Does Q P (native c) :=
  fun w => ⟨Unchanged.refl _, ⟨[c], by simp [Ogre.native], by simpa using h⟩,
    by simp [Ogre.native]⟩

theorem M.Does.rethrow {e : OgreException} (h : P e) : M.Does Q P (rethrow e : M α) :=
  fun w => ⟨Unchanged.refl _, ⟨[], by simp [Ogre.rethrow], by simp⟩, by
    intro e' h'
    simp only [Ogre.rethrow, Except.error.injEq] at h'
    exact h' ▸ h⟩

theorem M.Does.OGRE_EXCEPT {number : ExceptionCodes} {description source : String}
    (h : P ⟨number, none, description, source⟩) :
    M.Does Q P (OGRE_EXCEPT number description source : M α) :=
  M.Does.rethrow h

theorem M.Does.OGRE_EXCEPT_EX {number : ExceptionCodes} {hr : HRESULT}
    {description source : String} (h : P ⟨number, some hr, description, source⟩) :
    M.Does Q P (OGRE_EXCEPT_EX number hr description source : M α) :=
  M.Does.rethrow h

theorem M.Does.ite {c : Prop} [Decidable c] {a b : M α} (ha : M.Does Q P a)
    (hb : M.Does Q P b) : M.Does Q P (if c then a else b) := by
  split
  · exact ha
  · exact hb

theorem M.Does.mono {Q' : Call → Prop} {P' : OgreException → Prop} {m : M α}
    (h : M.Does Q P m) (hQ : ∀ c, Q c → Q' c) (hP : ∀ e, P e → P' e) : M.Does Q' P' m :=
  fun w =>
    let ⟨hu, ⟨l, hl, hq⟩, he⟩ := h w
    ⟨hu, ⟨l, hl, fun c hc => hQ c (hq c hc)⟩, fun e h' => hP e (he e h')⟩

theorem M.Does.throwIfError {what source : String}
    (h : ∀ d, P ⟨ExceptionCodes.ERR_RENDERINGAPI_ERROR, none, what ++ d, source⟩) :
    M.Does Q P (throwIfError what source) := by
  unfold Ogre.throwIfError
  refine M.Does.bind M.Does.isError fun b => M.Does.ite ?_ (M.Does.pure _)
  exact M.Does.bind (M.Does.getErrorDescription _) fun d => M.Does.OGRE_EXCEPT (h d)

theorem M.Does.throwIfFailed {what : String}
    (h : ∀ hr d, P ⟨ExceptionCodes.ERR_RENDERINGAPI_ERROR, some hr, what ++ d,
      "D3D11RenderSystem::_render"⟩) :
    M.Does Q P (throwIfFailed what) := by
  unfold Ogre.throwIfFailed
  refine M.Does.bind M.Does.created fun r => M.Does.ite ?_ (M.Does.pure _)
  exact M.Does.bind (M.Does.getErrorDescription _) fun d => M.Does.OGRE_EXCEPT_EX (h _ d)

theorem M.Does.issues {m : M α} (h : M.Does Q P m) : M.Issues Q P m := fun w => (h w).2

theorem issues_bind {m : M α} {f : α → M β} (hm : M.Issues Q P m)
    (hf : ∀ a, M.Issues Q P (f a)) : M.Issues Q P (m >>= f) := by
  intro w
  obtain ⟨⟨l, hl, hq⟩, he⟩ := hm w
  cases h : (m w).1 with
  | error e =>
    rw [M.bind_error m f w e h]
    exact ⟨⟨l, hl, hq⟩, fun e' h' => by
      simp only [Except.error.injEq] at h'; exact h' ▸ he e h⟩
  | ok a =>
    rw [M.bind_ok m f w a h]
    obtain ⟨⟨l', hl', hq'⟩, he'⟩ := hf a (m w).2
    refine ⟨⟨l ++ l', by rw [hl', hl, List.append_assoc], ?_⟩, he'⟩
    intro c hc
    rcases List.mem_append.mp hc with hc | hc
    · exact hq c hc
    · exact hq' c hc

theorem issues_ite {c : Prop} [Decidable c] {a b : M α} (ha : M.Issues Q P a)
    (hb : M.Issues Q P b) : M.Issues Q P (if c then a else b) := by
  split
  · exact ha
  · exact hb

theorem issues_modifyRS (f : D3D11RenderSystem → D3D11RenderSystem) :
    M.Issues Q P (modifyRS f) :=
  fun w => ⟨⟨[], by simp [Ogre.modifyRS], by simp⟩, by simp [Ogre.modifyRS]⟩

theorem issues_mono {Q' : Call → Prop} {P' : OgreException → Prop} {m : M α}
    (h : M.Issues Q P m) (hQ : ∀ c, Q c → Q' c) (hP : ∀ e, P e → P' e) : M.Issues Q' P' m :=
  fun w =>
    let ⟨⟨l, hl, hq⟩, he⟩ := h w
    ⟨⟨l, hl, fun c hc => hQ c (hq c hc)⟩, fun e h' => hP e (he e h')⟩

end Composition

/-! ## What each part of `_render` does -/

theorem resolveBlendState_does : M.Does Call.Quiet (fun _ => True) resolveBlendState := by
  unfold resolveBlendState
  repeat' first
    | exact M.Does.pure _
    | exact M.Does.getRS
    | exact M.Does.native ⟨rfl, rfl⟩
    | exact M.Does.modifyRS fun _ => ⟨rfl, rfl, rfl, rfl, rfl, rfl, rfl, rfl, rfl, rfl⟩
    | exact M.Does.throwIfFailed fun _ _ => trivial
    | exact M.Does.throwIfError fun _ => trivial
    | refine M.Does.ite ?_ ?_
    | refine M.Does.bind ?_ fun _ => ?_

theorem resolveRasterizer_does : M.Does Call.Quiet (fun _ => True) resolveRasterizer := by
  unfold resolveRasterizer
  repeat' first
    | exact M.Does.pure _
    | exact M.Does.getRS
    | exact M.Does.native ⟨rfl, rfl⟩
    | exact M.Does.modifyRS fun _ => ⟨rfl, rfl, rfl, rfl, rfl, rfl, rfl, rfl, rfl, rfl⟩
    | exact M.Does.throwIfFailed fun _ _ => trivial
    | exact M.Does.throwIfError fun _ => trivial
    | refine M.Does.ite ?_ ?_
    | refine M.Does.bind ?_ fun _ => ?_

theorem resolveDepthStencilState_does :
    M.Does Call.Quiet (fun _ => True) resolveDepthStencilState := by
  unfold resolveDepthStencilState
  repeat' first
    | exact M.Does.pure _
    | exact M.Does.getRS
    | exact M.Does.native ⟨rfl, rfl⟩
    | exact M.Does.modifyRS fun _ => ⟨rfl, rfl, rfl, rfl, rfl, rfl, rfl, rfl, rfl, rfl⟩
    | exact M.Does.throwIfFailed fun _ _ => trivial
    | exact M.Does.throwIfError fun _ => trivial
    | refine M.Does.ite ?_ ?_
    | refine M.Does.bind ?_ fun _ => ?_

theorem resolveSamplerUnit_does (maps : D3D11Mappings) (n : Nat) :
    M.Does Call.Quiet (fun _ => True) (resolveSamplerUnit maps n) := by
  unfold resolveSamplerUnit
  repeat' first
    | exact M.Does.pure _
    | exact M.Does.getRS
    | exact M.Does.native ⟨rfl, rfl⟩
    | exact M.Does.modifyRS fun _ => ⟨rfl, rfl, rfl, rfl, rfl, rfl, rfl, rfl, rfl, rfl⟩
    | exact M.Does.throwIfFailed fun _ _ => trivial
    | exact M.Does.throwIfError fun _ => trivial
    | refine M.Does.ite ?_ ?_
    | refine M.Does.bind ?_ fun _ => ?_

theorem resolveSamplerUnits_does (maps : D3D11Mappings) (count : Nat) :
    ∀ n, M.Does Call.Quiet (fun _ => True) (resolveSamplerUnits maps n count) := by
  induction count with
  | zero => intro n; exact M.Does.pure _
  | succ k ih =>
    intro n
    unfold resolveSamplerUnits
    exact M.Does.bind (resolveSamplerUnit_does maps n) fun _ =>
      M.Does.bind (ih (n + 1)) fun _ => M.Does.pure _

theorem resolveStateObjects_does (maps : D3D11Mappings) :
    M.Does Call.Quiet (fun _ => True) (resolveStateObjects maps) := by
  unfold resolveStateObjects
  repeat' first
    | exact M.Does.pure _
    | exact M.Does.getRS
    | exact M.Does.native ⟨rfl, rfl⟩
    | exact M.Does.modifyRS fun _ => ⟨rfl, rfl, rfl, rfl, rfl, rfl, rfl, rfl, rfl, rfl⟩
    | exact M.Does.throwIfFailed fun _ _ => trivial
    | exact M.Does.throwIfError fun _ => trivial
    | exact resolveBlendState_does
    | exact resolveRasterizer_does
    | exact resolveDepthStencilState_does
    | exact resolveSamplerUnits_does _ _ _
    | refine M.Does.ite ?_ ?_
    | refine M.Does.bind ?_ fun _ => ?_

theorem setSamplersAndResources_does (stage : GpuProgramType) (supported : Bool)
    (opState : D3D11RenderOperationState) (a b : String) :
    M.Does Call.Quiet (fun _ => True) (setSamplersAndResources stage supported opState a b) := by
  unfold setSamplersAndResources
  repeat' first
    | exact M.Does.pure _
    | exact M.Does.getRS
    | exact M.Does.native ⟨rfl, rfl⟩
    | exact M.Does.modifyRS fun _ => ⟨rfl, rfl, rfl, rfl, rfl, rfl, rfl, rfl, rfl, rfl⟩
    | exact M.Does.throwIfFailed fun _ _ => trivial
    | exact M.Does.throwIfError fun _ => trivial
    | refine M.Does.ite ?_ ?_
    | refine M.Does.bind ?_ fun _ => ?_

theorem bindStateObjects_does (opState : D3D11RenderOperationState) :
    M.Does Call.Quiet (fun _ => True) (bindStateObjects opState) := by
  unfold bindStateObjects
  repeat' first
    | exact M.Does.pure _
    | exact M.Does.getRS
    | exact M.Does.native ⟨rfl, rfl⟩
    | exact M.Does.modifyRS fun _ => ⟨rfl, rfl, rfl, rfl, rfl, rfl, rfl, rfl, rfl, rfl⟩
    | exact M.Does.throwIfFailed fun _ _ => trivial
    | exact M.Does.throwIfError fun _ => trivial
    | exact setSamplersAndResources_does _ _ _ _ _
    | refine M.Does.ite ?_ ?_
    | refine M.Does.bind ?_ fun _ => ?_

theorem bindSamplers_does (opState : D3D11RenderOperationState) :
    M.Does Call.Quiet (fun _ => True) (bindSamplers opState) := by
  unfold bindSamplers
  repeat' first
    | exact M.Does.pure _
    | exact M.Does.getRS
    | exact M.Does.native ⟨rfl, rfl⟩
    | exact M.Does.modifyRS fun _ => ⟨rfl, rfl, rfl, rfl, rfl, rfl, rfl, rfl, rfl, rfl⟩
    | exact M.Does.throwIfFailed fun _ _ => trivial
    | exact M.Does.throwIfError fun _ => trivial
    | exact setSamplersAndResources_does _ _ _ _ _
    | refine M.Does.ite ?_ ?_
    | refine M.Does.bind ?_ fun _ => ?_

theorem applyStateObjects_does (maps : D3D11Mappings) :
    M.Does Call.Quiet (fun _ => True) (applyStateObjects maps) := by
  unfold applyStateObjects
  repeat' first
    | exact M.Does.pure _
    | exact M.Does.getRS
    | exact M.Does.native ⟨rfl, rfl⟩
    | exact M.Does.modifyRS fun _ => ⟨rfl, rfl, rfl, rfl, rfl, rfl, rfl, rfl, rfl, rfl⟩
    | exact M.Does.throwIfFailed fun _ _ => trivial
    | exact M.Does.throwIfError fun _ => trivial
    | exact resolveStateObjects_does _
    | exact bindStateObjects_does _
    | exact bindSamplers_does _
    | refine M.Does.ite ?_ ?_
    | refine M.Does.bind ?_ fun _ => ?_

theorem checkPrograms_does (op : RenderOperation) :
    M.Does Call.Quiet (fun _ => True) (checkPrograms op) := by
  unfold checkPrograms
  repeat' first
    | exact M.Does.pure _
    | exact M.Does.getRS
    | exact M.Does.native ⟨rfl, rfl⟩
    | exact M.Does.modifyRS fun _ => ⟨rfl, rfl, rfl, rfl, rfl, rfl, rfl, rfl, rfl, rfl⟩
    | exact M.Does.throwIfFailed fun _ _ => trivial
    | exact M.Does.throwIfError fun _ => trivial
    | exact M.Does.soTarget
    | exact M.Does.OGRE_EXCEPT trivial
    | refine M.Does.ite ?_ ?_
    | refine M.Does.bind ?_ fun _ => ?_

/-! ### Exceptions other than the missing-shaders one -/

theorem head_append_of_head {a : String} {c : Char} (d : String)
    (h : a.data.head? = some c) : (a ++ d).data.head? = some c := by
  rw [String.data_append]
  cases hd : a.data with
  | nil => rw [hd] at h; cases h
  | cons x xs => rw [hd] at h; simpa using h

theorem ne_missingShaders_of_head {e : OgreException}
    (h : e.description.data.head? = some 'D') : e ≠ missingShadersError := by
  intro h'
  rw [h'] at h
  revert h
  decide

theorem throwIfError_notMissing {Q : Call → Prop} {what source : String}
    (h : what.data.head? = some 'D') :
    M.Does Q (fun e => e ≠ missingShadersError) (throwIfError what source) :=
  M.Does.throwIfError fun d => ne_missingShaders_of_head (head_append_of_head d h)

theorem setShader_does (stage : GpuProgramType) (program : Option D3D11HLSLProgram)
    (message : String) (h : message.data.head? = some 'D') :
    M.Does Call.Quiet (fun e => e ≠ missingShadersError) (setShader stage program message) := by
  unfold setShader
  refine M.Does.bind M.Does.getRS fun rs => ?_
  cases program with
  | none => exact M.Does.pure _
  | some p =>
    refine M.Does.bind (M.Does.native ⟨?_, ?_⟩) fun _ => throwIfError_notMissing h
    · cases stage <;> rfl
    · cases stage <;> rfl

theorem bindPrograms_does :
    M.Does Call.Quiet (fun e => e ≠ missingShadersError) bindPrograms := by
  unfold bindPrograms
  repeat' first
    | exact M.Does.pure _
    | exact M.Does.getRS
    | exact M.Does.native ⟨rfl, rfl⟩
    | exact M.Does.modifyRS fun _ => ⟨rfl, rfl, rfl, rfl, rfl, rfl, rfl, rfl, rfl, rfl⟩
    | exact throwIfError_notMissing rfl
    | exact setShader_does _ _ _ rfl
    | refine M.Does.ite ?_ ?_
    | refine M.Does.bind ?_ fun _ => ?_

theorem setVertexDeclaration_does (decl : Handle) (binding : VertexBufferBinding) :
    M.Does Call.Quiet (fun e => e ≠ missingShadersError)
      (setVertexDeclaration decl binding) := by
  unfold setVertexDeclaration
  refine M.Does.bind M.Does.getRS fun rs => M.Does.bind (M.Does.native ⟨rfl, rfl⟩) fun _ =>
    M.Does.bind M.Does.bindToShaderError fun failure => ?_
  cases failure with
  | none => exact M.Does.pure _
  | some d =>
    exact M.Does.OGRE_EXCEPT fun h =>
      absurd (show "D3D11VertexDeclaration::bindToShader" = "D3D11RenderSystem::_render" from
        congrArg OgreException.source h) (by decide)

theorem setVertexBuffers_does (l : List (Nat × D3D11HardwareVertexBuffer)) :
    M.Does Call.Quiet (fun e => e ≠ missingShadersError) (setVertexBuffers l) := by
  induction l with
  | nil => exact M.Does.pure _
  | cons b rest ih =>
    obtain ⟨slot, buf⟩ := b
    unfold setVertexBuffers
    exact M.Does.bind (M.Does.native ⟨rfl, rfl⟩) fun _ =>
      M.Does.bind (throwIfError_notMissing rfl) fun _ => ih

theorem setVertexBufferBinding_does (binding : VertexBufferBinding) :
    M.Does Call.Quiet (fun e => e ≠ missingShadersError) (setVertexBufferBinding binding) := by
  unfold setVertexBufferBinding
  repeat' first
    | exact M.Does.pure _
    | exact M.Does.getRS
    | exact M.Does.native ⟨rfl, rfl⟩
    | exact M.Does.modifyRS fun _ => ⟨rfl, rfl, rfl, rfl, rfl, rfl, rfl, rfl, rfl, rfl⟩
    | exact throwIfError_notMissing rfl
    | exact setVertexBuffers_does _
    | refine M.Does.ite ?_ ?_
    | refine M.Does.bind ?_ fun _ => ?_

theorem prepareOperation_does (maps : D3D11Mappings) (op : RenderOperation)
    (vertexData : VertexData) :
    M.Does Call.Quiet (fun _ => True) (prepareOperation maps op vertexData) := by
  unfold prepareOperation
  refine M.Does.bind (applyStateObjects_does maps) fun _ =>
    M.Does.bind (checkPrograms_does op) fun _ => ?_
  exact M.Does.mono
    (M.Does.bind bindPrograms_does fun _ =>
      M.Does.bind (setVertexDeclaration_does _ _) fun _ => setVertexBufferBinding_does _)
    (fun _ h => h) (fun _ _ => trivial)

/-! ### The operation itself -/

theorem translateOperation_error {rs : D3D11RenderSystem} {op : RenderOperation}
    {vertexData : VertexData} {e : OgreException}
    (h : translateOperation rs op vertexData = Except.error e) :
    e = triangleFanError ∧ op.operationType = OperationType.OT_TRIANGLE_FAN := by
  unfold translateOperation at h
  split at h
  · cases h
  · unfold plainPrimitives at h
    cases ht : op.operationType <;> rw [ht] at h <;> simp at h
    exact ⟨h.symm, rfl⟩

theorem drawErrorDescription_head (rs : D3D11RenderSystem) (op : RenderOperation)
    (vertexData : VertexData) (hasInstanceData : Bool) (d : String) :
    (drawErrorDescription rs op vertexData hasInstanceData d).data.head? = some 'D' := by
  unfold drawErrorDescription
  simp only [String.data_append, List.append_assoc]
  rfl

theorem drawOnce_does (op : RenderOperation) (vertexData : VertexData)
    (hasInstanceData : Bool) (numberOfInstances : Nat) :
    M.Does (fun c => c = drawCall op vertexData hasInstanceData numberOfInstances)
      (fun e => e ≠ missingShadersError)
      (drawOnce op vertexData hasInstanceData numberOfInstances) := by
  unfold drawOnce
  refine M.Does.bind (M.Does.native rfl) fun _ => M.Does.bind M.Does.isError fun _ =>
    M.Does.ite ?_ (M.Does.pure _)
  exact M.Does.bind M.Does.getRS fun _ => M.Does.bind (M.Does.getErrorDescription _) fun _ =>
    M.Does.OGRE_EXCEPT (ne_missingShaders_of_head (drawErrorDescription_head _ _ _ _ _))

/-! ### The binding update hooks between the iterations of a pass -/

theorem obtainClassInstance_does {Q : Call → Prop} {P : OgreException → Prop}
    (hQ : ∀ c : Call, c.isParameterCall = true → Q c)
    (hP : ∀ e : OgreException, e.source ≠ "D3D11RenderSystem::_render" → P e)
    (subroutineName : String) : M.Does Q P (obtainClassInstance subroutineName) := by
  unfold obtainClassInstance
  refine M.Does.bind (M.Does.native (hQ (Call.GetClassInstance subroutineName 0) rfl))
    fun _ => M.Does.bind (M.Does.read _) fun a => ?_
  obtain ⟨hr, inst⟩ := a
  refine M.Does.ite ?_ (M.Does.pure _)
  refine M.Does.bind
    (M.Does.native (hQ (Call.CreateClassInstance subroutineName 0 0 0 0) rfl))
    fun _ => M.Does.bind (M.Does.read _) fun a => ?_
  obtain ⟨hr, inst⟩ := a
  exact M.Does.ite
    (M.Does.OGRE_EXCEPT_EX
      (hP _ (show "D3D11RenderSystem::setSubroutineName" ≠ "D3D11RenderSystem::_render" by
        decide)))
    (M.Does.pure _)

theorem findClassInstance_does {Q : Call → Prop} {P : OgreException → Prop}
    (hQ : ∀ c : Call, c.isParameterCall = true → Q c)
    (hP : ∀ e : OgreException, e.source ≠ "D3D11RenderSystem::_render" → P e)
    (subroutineName : String) : M.Does Q P (findClassInstance subroutineName) := by
  unfold findClassInstance
  refine M.Does.bind M.Does.getRS fun rs => ?_
  cases rs.mInstanceMap.lookup subroutineName with
  | some inst => exact M.Does.pure _
  | none =>
    exact M.Does.bind (obtainClassInstance_does hQ hP subroutineName) fun _ =>
      M.Does.bind
        (M.Does.modifyRS fun _ => ⟨rfl, rfl, rfl, rfl, rfl, rfl, rfl, rfl, rfl, rfl⟩)
        fun _ => M.Does.pure _

theorem setSubroutine_issues {Q : Call → Prop} {P : OgreException → Prop}
    (hQ : ∀ c : Call, c.isParameterCall = true → Q c)
    (hP : ∀ e : OgreException, e.source ≠ "D3D11RenderSystem::_render" → P e)
    (gptype : GpuProgramType) (slotIndex : Nat) (subroutineName : String) :
    M.Issues Q P (setSubroutine gptype slotIndex subroutineName) := by
  unfold setSubroutine
  exact issues_bind (findClassInstance_does hQ hP subroutineName).issues fun _ =>
    issues_modifyRS _

theorem setSubroutines_issues {Q : Call → Prop} {P : OgreException → Prop}
    (hQ : ∀ c : Call, c.isParameterCall = true → Q c)
    (hP : ∀ e : OgreException, e.source ≠ "D3D11RenderSystem::_render" → P e)
    (gptype : GpuProgramType) (entries : List (Nat × String)) :
    M.Issues Q P (setSubroutines gptype entries) := by
  induction entries with
  | nil => exact (M.Does.pure _).issues
  | cons entry rest ih =>
    obtain ⟨slotIndex, subroutineName⟩ := entry
    unfold setSubroutines
    exact issues_bind (setSubroutine_issues hQ hP gptype slotIndex subroutineName) fun _ => ih

theorem setConstantBuffer_does {Q : Call → Prop} {P : OgreException → Prop}
    (hQ : ∀ c : Call, c.isParameterCall = true → Q c)
    (hP : ∀ e : OgreException, e.source ≠ "D3D11RenderSystem::_render" → P e)
    (gptype : GpuProgramType) (params : GpuProgramParameters) (mask : Nat)
    (program : Option D3D11HLSLProgram) :
    M.Does Q P (setConstantBuffer gptype params mask program) := by
  cases program with
  | none => exact M.Does.pure _
  | some program =>
    exact M.Does.bind
      (M.Does.native (hQ (Call.SetConstantBuffers gptype 0 1 _) rfl)) fun _ =>
        M.Does.throwIfError fun d =>
          hP _ (show "D3D11RenderSystem::bindGpuProgramParameters"
            ≠ "D3D11RenderSystem::_render" by decide)

theorem setConstantBuffers_does {Q : Call → Prop} {P : OgreException → Prop}
    (hQ : ∀ c : Call, c.isParameterCall = true → Q c)
    (hP : ∀ e : OgreException, e.source ≠ "D3D11RenderSystem::_render" → P e)
    (gptype : GpuProgramType) (params : GpuProgramParameters) (mask : Nat) :
    M.Does Q P (setConstantBuffers gptype params mask) := by
  unfold setConstantBuffers
  repeat' first
    | exact M.Does.pure _
    | exact M.Does.getRS
    | exact M.Does.native (hQ Call._copySharedParams rfl)
    | exact setConstantBuffer_does hQ hP _ _ _ _
    | refine M.Does.ite ?_ ?_
    | refine M.Does.bind ?_ fun _ => ?_

theorem bindGpuProgramParameters_issues {Q : Call → Prop} {P : OgreException → Prop}
    (hQ : ∀ c : Call, c.isParameterCall = true → Q c)
    (hP : ∀ e : OgreException, e.source ≠ "D3D11RenderSystem::_render" → P e)
    (gptype : GpuProgramType) (params : GpuProgramParameters) (mask : Nat) :
    M.Issues Q P (bindGpuProgramParameters gptype params mask) := by
  unfold bindGpuProgramParameters
  exact issues_bind (setConstantBuffers_does hQ hP gptype params mask).issues fun _ =>
    setSubroutines_issues hQ hP gptype _

theorem bindGpuProgramPassIterationParameters_issues {Q : Call → Prop}
    {P : OgreException → Prop} (hQ : ∀ c : Call, c.isParameterCall = true → Q c)
    (hP : ∀ e : OgreException, e.source ≠ "D3D11RenderSystem::_render" → P e)
    (gptype : GpuProgramType) :
    M.Issues Q P (bindGpuProgramPassIterationParameters gptype) := by
  unfold bindGpuProgramPassIterationParameters
  refine issues_bind M.Does.getRS.issues fun rs => ?_
  cases activeParameters rs gptype with
  | none => exact (M.Does.pure _).issues
  | some params => exact bindGpuProgramParameters_issues hQ hP gptype params _

theorem bindStages_issues {Q : Call → Prop} {P : OgreException → Prop}
    (hQ : ∀ c : Call, c.isParameterCall = true → Q c)
    (hP : ∀ e : OgreException, e.source ≠ "D3D11RenderSystem::_render" → P e)
    (stages : List GpuProgramType) : M.Issues Q P (bindStages stages) := by
  induction stages with
  | nil => exact (M.Does.pure _).issues
  | cons gptype rest ih =>
    unfold bindStages
    exact issues_bind (bindGpuProgramPassIterationParameters_issues hQ hP gptype) fun _ => ih

theorem passIterationHooks_issues {Q : Call → Prop} {P : OgreException → Prop}
    (hQ : ∀ c : Call, c.isParameterCall = true → Q c)
    (hP : ∀ e : OgreException, e.source ≠ "D3D11RenderSystem::_render" → P e) :
    M.Issues Q P passIterationHooks := by
  unfold passIterationHooks
  exact issues_bind M.Does.getRS.issues fun rs => bindStages_issues hQ hP _

theorem drawLoop_issues {Q : Call → Prop} {P : OgreException → Prop} {body : M Unit}
    (hQ : ∀ c : Call, c.isParameterCall = true → Q c)
    (hP : ∀ e : OgreException, e.source ≠ "D3D11RenderSystem::_render" → P e)
    (h : M.Issues Q P body) (k : Nat) : M.Issues Q P (drawLoop body k) := by
  induction k with
  | zero => exact h
  | succ k ih =>
    unfold drawLoop
    exact issues_bind h fun _ => issues_bind (issues_modifyRS _) fun _ =>
      issues_bind (passIterationHooks_issues hQ hP) fun _ => ih

theorem getRS_bind {β : Type} (f : D3D11RenderSystem → M β) (w : World) :
    (getRS >>= f) w = f w.rs w := rfl

theorem native_bind {β : Type} (c : Call) (f : Unit → M β) (w : World) :
    (native c >>= f) w = f () ⟨w.rs, w.calls ++ [c]⟩ := rfl

theorem native_apply (c : Call) (w : World) :
    native c w = (Except.ok (), ⟨w.rs, w.calls ++ [c]⟩) := rfl

theorem issued_eq {α : Type} {m : M α} {w : World} {l : List Call}
    (h : (m w).2.calls = w.calls ++ l) : m.issued w = l := by
  simp [M.issued, h]

theorem render_eq (maps : D3D11Mappings) (op : RenderOperation) (vertexData : VertexData)
    (w : World) (hvd : op.vertexData = some vertexData) (hcount : vertexData.vertexCount ≠ 0) :
    _render maps op w =
      (prepareOperation maps op vertexData >>= fun _ =>
        issueOperation maps op vertexData (hasInstanceData w.rs op vertexData)
          (numberOfInstances w.rs op)) w := by
  unfold _render
  rw [hvd]
  simp only [hcount, if_false]
  rfl

theorem issueOperation_compute (maps : D3D11Mappings) (op : RenderOperation)
    (vertexData : VertexData) (hi : Bool) (ni : Nat) (w : World)
    (h : w.rs.mBoundComputeProgram.isSome = true) :
    issueOperation maps op vertexData hi ni w =
      (Except.ok (), ⟨w.rs, w.calls ++ computeCalls⟩) := by
  unfold issueOperation
  rw [getRS_bind]
  simp only [h, if_true, native_bind, native_apply, List.append_assoc, List.singleton_append]
  rfl

theorem triangleFan_ne_missingShaders : triangleFanError ≠ missingShadersError := by decide

theorem setIndexBufferAndTopology_does (maps : D3D11Mappings) (op : RenderOperation)
    (primType : D3D11_PRIMITIVE_TOPOLOGY) :
    M.Does Call.Quiet (fun e => e ≠ missingShadersError)
      (setIndexBufferAndTopology maps op primType) := by
  unfold setIndexBufferAndTopology
  repeat' first
    | exact M.Does.pure _
    | exact M.Does.native ⟨rfl, rfl⟩
    | exact throwIfError_notMissing rfl
    | refine M.Does.ite ?_ ?_
    | refine M.Does.bind ?_ fun _ => ?_

theorem isDraw_of_isParameterCall {c : Call} (h : c.isParameterCall = true) :
    c.isDraw = false := by
  cases c <;> first | rfl | cases h

theorem source_ne_of_ne_missingShaders {e : OgreException}
    (h : e.source ≠ "D3D11RenderSystem::_render") : e ≠ missingShadersError :=
  fun he => h (by rw [he]; rfl)

theorem drawLoop_drawOnce_issues (op : RenderOperation) (vertexData : VertexData) (hi : Bool)
    (ni k : Nat) :
    M.Issues (fun c => c.isDraw = true → c = drawCall op vertexData hi ni)
      (fun e => e ≠ missingShadersError) (drawLoop (drawOnce op vertexData hi ni) k) := by
  refine drawLoop_issues (fun c hc hd => ?_) (fun e he => source_ne_of_ne_missingShaders he)
    ?_ k
  · rw [isDraw_of_isParameterCall hc] at hd
    cases hd
  · refine (M.Does.mono (drawOnce_does op vertexData hi ni) ?_ fun _ h => h).issues
    intro c h _
    exact h

theorem issueOperation_issues (maps : D3D11Mappings) (op : RenderOperation)
    (vertexData : VertexData) (hi : Bool) (ni : Nat) :
    M.Issues (fun c => c.isDraw = true → c = drawCall op vertexData hi ni)
      (fun e => e ≠ missingShadersError) (issueOperation maps op vertexData hi ni) := by
  unfold issueOperation
  refine issues_bind M.Does.getRS.issues fun rs => issues_ite ?_ ?_
  · exact (M.Does.bind (M.Does.native fun h => nomatch h) fun _ =>
      M.Does.bind (M.Does.native fun h => nomatch h) fun _ =>
        M.Does.bind (M.Does.native fun h => nomatch h) fun _ =>
          M.Does.native fun h => nomatch h).issues
  · cases ht : translateOperation rs op vertexData with
    | error e =>
      exact (M.Does.rethrow
        ((translateOperation_error ht).1 ▸ triangleFan_ne_missingShaders)).issues
    | ok p =>
      obtain ⟨primType, primCount⟩ := p
      refine issues_ite ?_ (M.Does.pure _).issues
      refine issues_bind ?_ fun _ => drawLoop_drawOnce_issues op vertexData hi ni _
      exact (M.Does.mono (setIndexBufferAndTopology_does maps op primType)
        (fun c h hd => by rw [h.1] at hd; cases hd) fun _ h => h).issues

theorem translateOperation_fan {rs : D3D11RenderSystem} {op : RenderOperation}
    {vertexData : VertexData} {p : D3D11_PRIMITIVE_TOPOLOGY × Nat}
    (hfan : op.operationType = OperationType.OT_TRIANGLE_FAN)
    (h : translateOperation rs op vertexData = Except.ok p) : p.2 = 0 := by
  unfold translateOperation at h
  rw [hfan] at h
  split at h
  · simp only [tessellationPrimitives, Except.ok.injEq] at h
    rw [← h]
  · simp [plainPrimitives] at h

theorem issueOperation_fan_does (maps : D3D11Mappings) (op : RenderOperation)
    (vertexData : VertexData) (hi : Bool) (ni : Nat)
    (hfan : op.operationType = OperationType.OT_TRIANGLE_FAN) :
    M.Does (fun c => c.isDraw = false) (fun _ => True)
      (issueOperation maps op vertexData hi ni) := by
  unfold issueOperation
  refine M.Does.bind M.Does.getRS fun rs => M.Does.ite ?_ ?_
  · exact M.Does.bind (M.Does.native rfl) fun _ => M.Does.bind (M.Does.native rfl) fun _ =>
      M.Does.bind (M.Does.native rfl) fun _ => M.Does.native rfl
  · cases ht : translateOperation rs op vertexData with
    | error e => exact M.Does.rethrow trivial
    | ok p =>
      obtain ⟨primType, primCount⟩ := p
      have h0 : primCount = 0 := translateOperation_fan hfan ht
      subst h0
      simp only [ne_eq, not_true_eq_false, if_false]
      exact M.Does.pure _

theorem issueOperation_fan_error (maps : D3D11Mappings) (op : RenderOperation)
    (vertexData : VertexData) (hi : Bool) (ni : Nat) (w : World)
    (hfan : op.operationType = OperationType.OT_TRIANGLE_FAN)
    (hcompute : w.rs.mBoundComputeProgram = none)
    (htess : ¬ (w.rs.mBoundTessellationHullProgram.isSome = true
      ∧ w.rs.mBoundTessellationDomainProgram.isSome = true)) :
    issueOperation maps op vertexData hi ni w = (Except.error triangleFanError, w) := by
  unfold issueOperation
  rw [getRS_bind]
  simp only [hcompute, Option.isSome_none, Bool.false_eq_true, if_false, translateOperation,
    htess, hfan, plainPrimitives]
  rfl

/-- The composite of the two parts of `_render` issues draw calls only as `drawCall` says. -/
theorem render_parts_issues (maps : D3D11Mappings) (op : RenderOperation)
    (vertexData : VertexData) (hi : Bool) (ni : Nat) :
    M.Issues (fun c => c.isDraw = true → c = drawCall op vertexData hi ni) (fun _ => True)
      (prepareOperation maps op vertexData >>= fun _ =>
        issueOperation maps op vertexData hi ni) :=
  issues_bind
    (M.Does.mono (prepareOperation_does maps op vertexData)
      (fun c h hd => by rw [h.1] at hd; cases hd) fun _ h => h).issues
    fun _ => issues_mono (issueOperation_issues maps op vertexData hi ni) (fun _ h => h)
      fun _ _ => trivial

theorem soTarget_bind {β : Type} (f : Option Handle → M β) (w : World) :
    (soTarget >>= f) w = f (w.rs.mDevice.soTarget w.calls) w := rfl

theorem pure_bind_apply {α β : Type} (a : α) (f : α → M β) (w : World) :
    ((pure a : M α) >>= f) w = f a w := rfl

theorem M.Does.raises {α : Type} {Q : Call → Prop} {P : OgreException → Prop} {m : M α}
    (h : M.Does Q P m) (w : World) {e : OgreException} (he : (m w).1 = Except.error e) : P e :=
  (h w).2.2 e he

theorem checkPrograms_missing (op : RenderOperation) (w : World)
    (h : w.rs.mBoundVertexProgram = none
      ∨ (w.rs.mBoundFragmentProgram = none ∧ op.operationType ≠ OperationType.OT_POINT_LIST
        ∧ w.rs.mDevice.soTarget (w.calls ++ [Call.SOGetTargets 1]) = none)) :
    checkPrograms op w =
      (Except.error missingShadersError, ⟨w.rs, w.calls ++ [Call.SOGetTargets 1]⟩) := by
  unfold checkPrograms
  rw [native_bind, soTarget_bind, getRS_bind]
  simp only [Option.isNone_iff_eq_none]
  rw [if_pos h]
  rfl

theorem checkPrograms_not_missing (op : RenderOperation) (w : World)
    (h : ¬ (w.rs.mBoundVertexProgram = none
      ∨ (w.rs.mBoundFragmentProgram = none ∧ op.operationType ≠ OperationType.OT_POINT_LIST
        ∧ w.rs.mDevice.soTarget (w.calls ++ [Call.SOGetTargets 1]) = none)))
    (e : OgreException) (he : (checkPrograms op w).1 = Except.error e) :
    e ≠ missingShadersError := by
  unfold checkPrograms at he
  rw [native_bind, soTarget_bind, getRS_bind] at he
  simp only [Option.isNone_iff_eq_none] at he
  rw [if_neg h, pure_bind_apply] at he
  refine @M.Does.raises _ (fun _ => True) (fun e => e ≠ missingShadersError) _ ?_ _ _ he
  repeat' first
    | exact M.Does.pure _
    | exact M.Does.OGRE_EXCEPT (by decide)
    | exact throwIfError_notMissing rfl
    | refine M.Does.ite ?_ ?_

theorem checkPrograms_hull_only (op : RenderOperation) (w : World)
    (hv : w.rs.mBoundVertexProgram.isSome = true)
    (hf : w.rs.mBoundFragmentProgram.isSome = true)
    (hh : w.rs.mBoundTessellationHullProgram.isSome = true)
    (hd : w.rs.mBoundTessellationDomainProgram = none) :
    checkPrograms op w =
      (Except.error missingDomainShaderError, ⟨w.rs, w.calls ++ [Call.SOGetTargets 1]⟩) := by
  unfold checkPrograms
  rw [native_bind, soTarget_bind, getRS_bind]
  have hv' : w.rs.mBoundVertexProgram.isNone = false := by
    cases hp : w.rs.mBoundVertexProgram <;> simp_all
  have hf' : w.rs.mBoundFragmentProgram.isNone = false := by
    cases hp : w.rs.mBoundFragmentProgram <;> simp_all
  simp only [hv', hf', hh, hd, Bool.false_eq_true, false_and, or_false, if_false,
    Option.isNone_none, and_self, if_true, true_or, pure_bind_apply]
  rfl

theorem checkPrograms_domain_only (op : RenderOperation) (w : World)
    (hv : w.rs.mBoundVertexProgram.isSome = true)
    (hf : w.rs.mBoundFragmentProgram.isSome = true)
    (hh : w.rs.mBoundTessellationHullProgram = none)
    (hd : w.rs.mBoundTessellationDomainProgram.isSome = true) :
    checkPrograms op w =
      (Except.error missingHullShaderError, ⟨w.rs, w.calls ++ [Call.SOGetTargets 1]⟩) := by
  unfold checkPrograms
  rw [native_bind, soTarget_bind, getRS_bind]
  have hv' : w.rs.mBoundVertexProgram.isNone = false := by
    cases hp : w.rs.mBoundVertexProgram <;> simp_all
  have hf' : w.rs.mBoundFragmentProgram.isNone = false := by
    cases hp : w.rs.mBoundFragmentProgram <;> simp_all
  have hd' : w.rs.mBoundTessellationDomainProgram.isNone = false := by
    cases hp : w.rs.mBoundTessellationDomainProgram <;> simp_all
  simp only [hv', hf', hh, hd, hd', Bool.false_eq_true, false_and, or_false, if_false,
    Option.isNone_none, Option.isSome_none, and_self, and_false, if_true, or_true, false_or,
    pure_bind_apply]
  rfl

/-- When state resolution and binding succeed, `_render` fails with whatever
`checkPrograms` raises. -/
theorem render_error_of_check (maps : D3D11Mappings) (op : RenderOperation)
    (vertexData : VertexData) (w : World) (e : OgreException)
    (hvd : op.vertexData = some vertexData) (hcount : vertexData.vertexCount ≠ 0)
    (hok : (applyStateObjects maps w).1 = Except.ok ())
    (he : (checkPrograms op (applyStateObjects maps w).2).1 = Except.error e) :
    (_render maps op w).1 = Except.error e := by
  have hp : (prepareOperation maps op vertexData w).1 = Except.error e := by
    unfold prepareOperation
    rw [M.bind_ok _ _ w () hok, M.bind_error _ _ _ e he]
  rw [render_eq maps op vertexData w hvd hcount, M.bind_error _ _ w e hp]

/-- When state resolution or binding fails, `_render` fails with the same exception. -/
theorem render_error_of_apply (maps : D3D11Mappings) (op : RenderOperation)
    (vertexData : VertexData) (w : World) (e : OgreException)
    (hvd : op.vertexData = some vertexData) (hcount : vertexData.vertexCount ≠ 0)
    (he : (applyStateObjects maps w).1 = Except.error e) :
    (_render maps op w).1 = Except.error e := by
  have hp : (prepareOperation maps op vertexData w).1 = Except.error e := by
    unfold prepareOperation
    rw [M.bind_error _ _ w e he]
  rw [render_eq maps op vertexData w hvd hcount, M.bind_error _ _ w e hp]

theorem M.error_of_bind {α β : Type} {m : M α} {f : α → M β} {w : World} {e : OgreException}
    (h : ((m >>= f) w).1 = Except.error e) :
    (m w).1 = Except.error e ∨ ∃ a, (m w).1 = Except.ok a ∧ (f a (m w).2).1 = Except.error e := by
  cases hm : (m w).1 with
  | error e' =>
    rw [M.bind_error m f w e' hm] at h
    exact Or.inl (by simpa using h)
  | ok a =>
    rw [M.bind_ok m f w a hm] at h
    exact Or.inr ⟨a, rfl, h⟩

theorem M.ok_of_bind {α β : Type} {m : M α} {f : α → M β} {w : World} {b : β}
    (h : ((m >>= f) w).1 = Except.ok b) :
    ∃ a, (m w).1 = Except.ok a ∧ (m >>= f) w = f a (m w).2 := by
  cases hm : (m w).1 with
  | error e =>
    rw [M.bind_error m f w e hm] at h
    simp at h
  | ok a => exact ⟨a, rfl, M.bind_ok m f w a hm⟩

theorem throwIfError_world (what source : String) (w : World) :
    (throwIfError what source w).2 = w := by
  unfold throwIfError
  show ((isError >>= _) w).2 = w
  rw [M.bind_ok isError _ w _ rfl]
  split <;> rfl

theorem setShader_world (stage : GpuProgramType) (program : Option D3D11HLSLProgram)
    (message : String) (w : World) :
    (setShader stage program message w).2 = ⟨w.rs, w.calls ++ shaderCall w.rs stage program⟩ := by
  unfold setShader
  rw [getRS_bind]
  cases program with
  | none => simp [shaderCall]; rfl
  | some p =>
    show ((native _ >>= _) w).2 = _
    rw [native_bind, throwIfError_world]
    rfl

theorem setShader_bind {β : Type} {stage : GpuProgramType}
    {program : Option D3D11HLSLProgram} {message : String} {f : Unit → M β} {w : World} {b : β}
    (h : ((setShader stage program message >>= f) w).1 = Except.ok b) :
    (setShader stage program message >>= f) w
      = f () ⟨w.rs, w.calls ++ shaderCall w.rs stage program⟩ := by
  obtain ⟨a, -, h2⟩ := M.ok_of_bind h
  rw [h2, setShader_world]

theorem bindPrograms_world (w : World) (h : (bindPrograms w).1 = Except.ok ()) :
    (bindPrograms w).2 = ⟨w.rs, w.calls ++ programCalls w.rs⟩ := by
  unfold bindPrograms at h ⊢
  rw [getRS_bind] at h ⊢
  have e1 := setShader_bind h
  rw [e1] at h ⊢
  have e2 := setShader_bind h
  rw [e2] at h ⊢
  have e3 := setShader_bind h
  rw [e3] at h ⊢
  have e4 := setShader_bind h
  rw [e4] at h ⊢
  have e5 := setShader_bind h
  rw [e5] at h ⊢
  rw [setShader_world]
  simp only [programCalls, List.append_assoc]

theorem setVertexDeclaration_world (decl : Handle) (binding : VertexBufferBinding) (w : World) :
    (setVertexDeclaration decl binding w).2
      = ⟨w.rs, w.calls ++ [Call.bindToShader decl w.rs.mBoundVertexProgram binding]⟩ := by
  unfold setVertexDeclaration
  rw [getRS_bind, native_bind]
  show ((bindToShaderError >>= _) _).2 = _
  rw [M.bind_ok bindToShaderError _ _ _ rfl]
  cases w.rs.mDevice.bindToShaderError
      (w.calls ++ [Call.bindToShader decl w.rs.mBoundVertexProgram binding]) <;> rfl

theorem setVertexBuffers_calls (l : List (Nat × D3D11HardwareVertexBuffer)) :
    ∀ w, (setVertexBuffers l w).1 = Except.ok () →
      (setVertexBuffers l w).2.calls = w.calls ++ l.map fun b =>
        Call.IASetVertexBuffers (UINT b.1) 1 b.2.d3dVertexBuffer (UINT b.2.vertexSize) 0 := by
  induction l with
  | nil => intro w _; simp [setVertexBuffers]; rfl
  | cons b rest ih =>
    obtain ⟨slot, buf⟩ := b
    intro w h
    unfold setVertexBuffers at h ⊢
    rw [native_bind] at h ⊢
    obtain ⟨_, -, h2⟩ := M.ok_of_bind h
    rw [h2] at h ⊢
    rw [throwIfError_world] at h ⊢
    rw [ih _ h]
    simp

theorem setVertexBufferBinding_calls (binding : VertexBufferBinding) (w : World)
    (h : (setVertexBufferBinding binding w).1 = Except.ok ()) :
    (setVertexBufferBinding binding w).2.calls = w.calls ++ vertexBufferCalls binding := by
  unfold setVertexBufferBinding at h ⊢
  obtain ⟨_, h1, h2⟩ := M.ok_of_bind h
  rw [h2]
  show (setVertexBuffers binding.bindings w).2.calls = _
  exact setVertexBuffers_calls _ w h1

theorem programCalls_congr {a b : D3D11RenderSystem} (h : Unchanged a b) :
    programCalls b = programCalls a := by
  unfold programCalls shaderCall
  rw [h.vertex, h.fragment, h.geometry, h.hull, h.domain, h.compute, h.classInstances,
    h.numClassInstances]

theorem beforeDispatch_append_computeCalls (l : List Call)
    (h : ∀ c ∈ l, c.isDispatch = false) : beforeDispatch (l ++ computeCalls) = l := by
  induction l with
  | nil => rfl
  | cons c rest ih =>
    have hc : c.isDispatch = false := h c (List.mem_cons_self _ _)
    have hr := ih fun x hx => h x (List.mem_cons_of_mem _ hx)
    unfold beforeDispatch at hr ⊢
    simp only [List.cons_append, List.takeWhile_cons, hc, Bool.not_false, if_true, hr]

/-- The calls of a successful `_render` with a compute program bound. -/
theorem render_compute_calls (maps : D3D11Mappings) (op : RenderOperation)
    (vertexData : VertexData) (w : World)
    (hvd : op.vertexData = some vertexData) (hcount : vertexData.vertexCount ≠ 0)
    (hcompute : w.rs.mBoundComputeProgram.isSome = true)
    (hok : (_render maps op w).1 = Except.ok ()) :
    w.rs.mBoundVertexProgram.isSome = true ∧ ∃ pre, (∀ c ∈ pre, c.Quiet)
      ∧ (_render maps op).issued w
        = pre ++ programCalls w.rs
          ++ [Call.bindToShader vertexData.vertexDeclaration w.rs.mBoundVertexProgram
              vertexData.vertexBufferBinding]
          ++ vertexBufferCalls vertexData.vertexBufferBinding ++ computeCalls := by
  rw [render_eq maps op vertexData w hvd hcount] at hok
  obtain ⟨_, hp, hr⟩ := M.ok_of_bind hok
  obtain ⟨hu, -, -⟩ := prepareOperation_does maps op vertexData w
  rw [issueOperation_compute _ _ _ _ _ _ (by rw [hu.compute]; exact hcompute)] at hr
  rw [← render_eq maps op vertexData w hvd hcount] at hr
  -- the stages of the preparation
  unfold prepareOperation at hp hr
  obtain ⟨_, ha, e1⟩ := M.ok_of_bind hp
  rw [e1] at hp hr
  obtain ⟨_, hc, e2⟩ := M.ok_of_bind hp
  rw [e2] at hp hr
  obtain ⟨_, hb, e3⟩ := M.ok_of_bind hp
  rw [e3] at hp hr
  obtain ⟨_, hd, e4⟩ := M.ok_of_bind hp
  rw [e4] at hp hr
  obtain ⟨hu1, ⟨l1, hl1, hq1⟩, -⟩ := applyStateObjects_does maps w
  obtain ⟨hu2, ⟨l2, hl2, hq2⟩, -⟩ := checkPrograms_does op (applyStateObjects maps w).2
  have hu12 := hu1.trans hu2
  have hvertex : w.rs.mBoundVertexProgram.isSome = true := by
    cases hv : w.rs.mBoundVertexProgram with
    | some p => rfl
    | none =>
      rw [checkPrograms_missing op _ (Or.inl (by rw [hu1.vertex]; exact hv))] at hc
      simp at hc
  refine ⟨hvertex, l1 ++ l2, ?_, ?_⟩
  · intro c hc'
    rcases List.mem_append.mp hc' with h | h
    · exact hq1 c h
    · exact hq2 c h
  · apply issued_eq
    rw [hr, setVertexBufferBinding_calls _ _ hp, setVertexDeclaration_world,
      bindPrograms_world _ hb]
    simp only [hl2, hl1, programCalls_congr hu12, hu12.vertex, List.append_assoc]

theorem DWORD_of_lt {n : Nat} (h : n < 2 ^ 32) : DWORD n = n := Nat.mod_eq_of_lt h

theorem DWORD_sub_of_le {n k : Nat} (h : n < 2 ^ 32) (hk : k ≤ n) : DWORD.sub n k = n - k := by
  unfold DWORD.sub DWORD
  have hk' : k < 2 ^ 32 := lt_of_le_of_lt hk h
  rw [Nat.mod_eq_of_lt h, Nat.mod_eq_of_lt hk']
  have : n + 2 ^ 32 - k = (n - k) + 2 ^ 32 := by omega
  rw [this, Nat.add_mod_right]
  exact Nat.mod_eq_of_lt (by omega)


/-- Without a vertex program `_render` fails, whatever else is bound. -/
theorem render_fails_without_vertex_program (maps : D3D11Mappings) (op : RenderOperation)
    (vertexData : VertexData) (w : World)
    (hvd : op.vertexData = some vertexData) (hcount : vertexData.vertexCount ≠ 0)
    (hvertex : w.rs.mBoundVertexProgram = none) :
    ∃ e, (_render maps op w).1 = Except.error e := by
  obtain ⟨hu, -, -⟩ := applyStateObjects_does maps w
  cases ha : (applyStateObjects maps w).1 with
  | error e => exact ⟨e, render_error_of_apply maps op vertexData w e hvd hcount ha⟩
  | ok u =>
    exact ⟨missingShadersError, render_error_of_check maps op vertexData w _ hvd hcount ha
      (by rw [checkPrograms_missing op _ (Or.inl (by rw [hu.vertex]; exact hvertex))])⟩

/-! ## The state-object cache across `_render` -/

theorem cacheKept_refl (w : World) : CacheKept w w :=
  ⟨rfl, rfl, rfl, rfl, rfl, rfl, rfl, rfl, rfl, [], by simp, by simp⟩

theorem cacheKept_trans {a b c : World} (h : CacheKept a b) (k : CacheKept b c) :
    CacheKept a c := by
  obtain ⟨l, hl, hq⟩ := h.calls
  obtain ⟨l', hl', hq'⟩ := k.calls
  refine ⟨k.blendDesc.trans h.blendDesc, k.rasterizerDesc.trans h.rasterizerDesc,
    k.depthStencilDesc.trans h.depthStencilDesc, k.blendChanged.trans h.blendChanged,
    k.rasterizerChanged.trans h.rasterizerChanged,
    k.depthStencilChanged.trans h.depthStencilChanged, k.boundBlend.trans h.boundBlend,
    k.boundRasterizer.trans h.boundRasterizer, k.boundDepthStencil.trans h.boundDepthStencil,
    l ++ l', by rw [hl', hl, List.append_assoc], ?_⟩
  intro x hx
  rcases List.mem_append.mp hx with h1 | h1
  · exact hq x h1
  · exact hq' x h1

theorem cacheKept_native {c : Call} (h : c.createsStateObject = false)
    (h' : c.bindsStateObject = false) (w : World) :
    CacheKept w ⟨w.rs, w.calls ++ [c]⟩ :=
  ⟨rfl, rfl, rfl, rfl, rfl, rfl, rfl, rfl, rfl, [c], rfl, by simpa using ⟨h, h'⟩⟩

theorem cacheKept_frame : Frame CacheKept := ⟨cacheKept_refl, cacheKept_trans⟩

theorem descriptorsKept_refl (w : World) : DescriptorsKept w w :=
  ⟨rfl, rfl, rfl, id, id, id, [], by simp, by simp⟩

theorem descriptorsKept_trans {a b c : World} (h : DescriptorsKept a b)
    (k : DescriptorsKept b c) : DescriptorsKept a c := by
  obtain ⟨l, hl, hq⟩ := h.calls
  obtain ⟨l', hl', hq'⟩ := k.calls
  refine ⟨k.blendDesc.trans h.blendDesc, k.rasterizerDesc.trans h.rasterizerDesc,
    k.depthStencilDesc.trans h.depthStencilDesc, fun x => k.blendClear (h.blendClear x),
    fun x => k.rasterizerClear (h.rasterizerClear x),
    fun x => k.depthStencilClear (h.depthStencilClear x),
    l ++ l', by rw [hl', hl, List.append_assoc], ?_⟩
  intro x hx
  rcases List.mem_append.mp hx with h1 | h1
  · exact hq x h1
  · exact hq' x h1

theorem descriptorsKept_native {c : Call} (h : c.createsStateObject = false) (w : World) :
    DescriptorsKept w ⟨w.rs, w.calls ++ [c]⟩ :=
  ⟨rfl, rfl, rfl, id, id, id, [c], rfl, by simpa using h⟩

theorem descriptorsKept_frame : Frame DescriptorsKept :=
  ⟨descriptorsKept_refl, descriptorsKept_trans⟩

theorem CacheKept.descriptorsKept {a b : World} (h : CacheKept a b) : DescriptorsKept a b :=
  ⟨h.blendDesc, h.rasterizerDesc, h.depthStencilDesc, fun x => h.blendChanged.trans x,
    fun x => h.rasterizerChanged.trans x, fun x => h.depthStencilChanged.trans x,
    let ⟨l, hl, hq⟩ := h.calls
    ⟨l, hl, fun c hc => (hq c hc).1⟩⟩

theorem throwIfFailed_world (what : String) (w : World) : (throwIfFailed what w).2 = w := by
  unfold throwIfFailed
  show ((created >>= _) w).2 = w
  rw [M.bind_ok created _ w _ rfl]
  split <;> rfl

section Keeping

variable {α β : Type} {R : World → World → Prop}

theorem keeps_pure (hR : Frame R) (a : α) : M.Keeps R (pure a : M α) := fun w => hR.refl w

theorem keeps_read (hR : Frame R) (g : World → α) :
    M.Keeps R (fun w => (Except.ok (g w), w)) := fun w => hR.refl w

theorem keeps_bind (hR : Frame R) {m : M α} {f : α → M β}
    (hm : M.Keeps R m) (hf : ∀ a, M.Keeps R (f a)) : M.Keeps R (m >>= f) := by
  intro w
  cases h : (m w).1 with
  | error e =>
    rw [M.bind_error m f w e h]
    exact hm w
  | ok a =>
    rw [M.bind_ok m f w a h]
    exact hR.trans (hm w) (hf a (m w).2)

theorem keeps_getRS (hR : Frame R) : M.Keeps R getRS := fun w => hR.refl w

theorem keeps_soTarget (hR : Frame R) : M.Keeps R soTarget := fun w => hR.refl w

theorem keeps_isError (hR : Frame R) : M.Keeps R isError := fun w => hR.refl w

theorem keeps_getErrorDescription (hR : Frame R) (hres : Option HRESULT) :
    M.Keeps R (getErrorDescription hres) := fun w => hR.refl w

theorem keeps_bindToShaderError (hR : Frame R) : M.Keeps R bindToShaderError :=
  fun w => hR.refl w

theorem keeps_modifyRS {f : D3D11RenderSystem → D3D11RenderSystem}
    (h : ∀ w : World, R w ⟨f w.rs, w.calls⟩) : M.Keeps R (modifyRS f) := fun w => h w

theorem keeps_native {c : Call} (h : ∀ w : World, R w ⟨w.rs, w.calls ++ [c]⟩) :
    M.Keeps R (native c) := fun w => h w

theorem keeps_rethrow (hR : Frame R) (e : OgreException) :
    M.Keeps R (rethrow e : M α) := fun w => hR.refl w

theorem keeps_OGRE_EXCEPT (hR : Frame R) (number : ExceptionCodes)
    (description source : String) :
    M.Keeps R (OGRE_EXCEPT number description source : M α) := fun w => hR.refl w

theorem keeps_ite {c : Prop} [Decidable c] {a b : M α} (ha : M.Keeps R a)
    (hb : M.Keeps R b) : M.Keeps R (if c then a else b) := by
  split
  · exact ha
  · exact hb

theorem keeps_mono {R' : World → World → Prop} {m : M α} (h : M.Keeps R m)
    (hR : ∀ a b, R a b → R' a b) : M.Keeps R' m := fun w => hR _ _ (h w)

theorem keeps_throwIfError (hR : Frame R) (what source : String) :
    M.Keeps R (throwIfError what source) := fun w => by
  rw [throwIfError_world]
  exact hR.refl w

theorem keeps_throwIfFailed (hR : Frame R) (what : String) :
    M.Keeps R (throwIfFailed what) := fun w => by
  rw [throwIfFailed_world]
  exact hR.refl w

end Keeping

theorem setSamplersAndResources_keeps (stage : GpuProgramType) (supported : Bool)
    (opState : D3D11RenderOperationState) (a b : String) :
    M.Keeps CacheKept (setSamplersAndResources stage supported opState a b) := by
  unfold setSamplersAndResources
  repeat' first
    | exact keeps_pure cacheKept_frame _
    | exact keeps_native (cacheKept_native rfl rfl)
    | exact keeps_throwIfError cacheKept_frame _ _
    | refine keeps_ite ?_ ?_
    | refine keeps_bind cacheKept_frame ?_ fun _ => ?_

theorem resolveSamplerUnit_keeps (maps : D3D11Mappings) (n : Nat) :
    M.Keeps CacheKept (resolveSamplerUnit maps n) := by
  unfold resolveSamplerUnit
  repeat' first
    | exact keeps_pure cacheKept_frame _
    | exact keeps_getRS cacheKept_frame
    | exact keeps_native (cacheKept_native rfl rfl)
    | exact keeps_modifyRS fun _ =>
        ⟨rfl, rfl, rfl, rfl, rfl, rfl, rfl, rfl, rfl, [], by simp, by simp⟩
    | exact keeps_throwIfFailed cacheKept_frame _
    | refine keeps_ite ?_ ?_
    | refine keeps_bind cacheKept_frame ?_ fun _ => ?_

theorem resolveSamplerUnits_keeps (maps : D3D11Mappings) (count : Nat) :
    ∀ n, M.Keeps CacheKept (resolveSamplerUnits maps n count) := by
  induction count with
  | zero => intro n; exact keeps_pure cacheKept_frame _
  | succ k ih =>
    intro n
    unfold resolveSamplerUnits
    exact keeps_bind cacheKept_frame (resolveSamplerUnit_keeps maps n) fun _ =>
      keeps_bind cacheKept_frame (ih (n + 1)) fun _ =>
        keeps_pure cacheKept_frame _

theorem bindSamplers_keeps (opState : D3D11RenderOperationState) :
    M.Keeps CacheKept (bindSamplers opState) := by
  unfold bindSamplers
  repeat' first
    | exact keeps_pure cacheKept_frame _
    | exact keeps_getRS cacheKept_frame
    | exact keeps_modifyRS fun _ =>
        ⟨rfl, rfl, rfl, rfl, rfl, rfl, rfl, rfl, rfl, [], by simp, by simp⟩
    | exact setSamplersAndResources_keeps _ _ _ _ _
    | refine keeps_ite ?_ ?_
    | refine keeps_bind cacheKept_frame ?_ fun _ => ?_

theorem checkPrograms_keeps (op : RenderOperation) : M.Keeps CacheKept (checkPrograms op) := by
  unfold checkPrograms
  repeat' first
    | exact keeps_pure cacheKept_frame _
    | exact keeps_getRS cacheKept_frame
    | exact keeps_soTarget cacheKept_frame
    | exact keeps_native (cacheKept_native rfl rfl)
    | exact keeps_throwIfError cacheKept_frame _ _
    | exact keeps_OGRE_EXCEPT cacheKept_frame _ _ _
    | refine keeps_ite ?_ ?_
    | refine keeps_bind cacheKept_frame ?_ fun _ => ?_

theorem setShader_keeps (stage : GpuProgramType) (program : Option D3D11HLSLProgram)
    (message : String) : M.Keeps CacheKept (setShader stage program message) := by
  unfold setShader
  refine keeps_bind cacheKept_frame (keeps_getRS cacheKept_frame) fun rs => ?_
  cases program with
  | none => exact keeps_pure cacheKept_frame _
  | some p =>
    exact keeps_bind cacheKept_frame
      (keeps_native (cacheKept_native rfl rfl)) fun _ =>
        keeps_throwIfError cacheKept_frame _ _

theorem bindPrograms_keeps : M.Keeps CacheKept bindPrograms := by
  unfold bindPrograms
  repeat' first
    | exact keeps_getRS cacheKept_frame
    | exact setShader_keeps _ _ _
    | refine keeps_bind cacheKept_frame ?_ fun _ => ?_

theorem setVertexDeclaration_keeps (decl : Handle) (binding : VertexBufferBinding) :
    M.Keeps CacheKept (setVertexDeclaration decl binding) := by
  unfold setVertexDeclaration
  refine keeps_bind cacheKept_frame (keeps_getRS cacheKept_frame) fun rs =>
    keeps_bind cacheKept_frame (keeps_native (cacheKept_native rfl rfl))
      fun _ => keeps_bind cacheKept_frame
        (keeps_bindToShaderError cacheKept_frame) fun failure => ?_
  cases failure with
  | none => exact keeps_pure cacheKept_frame _
  | some d => exact keeps_OGRE_EXCEPT cacheKept_frame _ _ _

theorem setVertexBuffers_keeps (l : List (Nat × D3D11HardwareVertexBuffer)) :
    M.Keeps CacheKept (setVertexBuffers l) := by
  induction l with
  | nil => exact keeps_pure cacheKept_frame _
  | cons b rest ih =>
    obtain ⟨slot, buf⟩ := b
    unfold setVertexBuffers
    exact keeps_bind cacheKept_frame
      (keeps_native (cacheKept_native rfl rfl)) fun _ =>
        keeps_bind cacheKept_frame (keeps_throwIfError cacheKept_frame _ _)
          fun _ => ih

theorem setVertexBufferBinding_keeps (binding : VertexBufferBinding) :
    M.Keeps CacheKept (setVertexBufferBinding binding) := by
  unfold setVertexBufferBinding
  repeat' first
    | exact keeps_modifyRS fun _ =>
        ⟨rfl, rfl, rfl, rfl, rfl, rfl, rfl, rfl, rfl, [], by simp, by simp⟩
    | exact setVertexBuffers_keeps _
    | refine keeps_bind cacheKept_frame ?_ fun _ => ?_

/-! ### What the binding update hooks keep -/

theorem keeps_write {R : World → World → Prop} (hR : HookFrame R)
    (f : D3D11RenderSystem → D3D11RenderSystem) (hf : ∀ rs, WritesClassInstances rs (f rs)) :
    M.Keeps R (modifyRS f) := fun w => hR.write f hf w

theorem obtainClassInstance_keeps {R : World → World → Prop} (hR : HookFrame R)
    (subroutineName : String) : M.Keeps R (obtainClassInstance subroutineName) := by
  unfold obtainClassInstance
  refine keeps_bind hR.toFrame (keeps_native (hR.call _ rfl)) fun _ =>
    keeps_bind hR.toFrame (keeps_read hR.toFrame _) fun a => ?_
  obtain ⟨hr, inst⟩ := a
  refine keeps_ite ?_ (keeps_pure hR.toFrame _)
  refine keeps_bind hR.toFrame (keeps_native (hR.call _ rfl)) fun _ =>
    keeps_bind hR.toFrame (keeps_read hR.toFrame _) fun a => ?_
  obtain ⟨hr, inst⟩ := a
  exact keeps_ite (fun w => hR.refl w) (keeps_pure hR.toFrame _)

theorem findClassInstance_keeps {R : World → World → Prop} (hR : HookFrame R)
    (subroutineName : String) : M.Keeps R (findClassInstance subroutineName) := by
  unfold findClassInstance
  refine keeps_bind hR.toFrame (keeps_getRS hR.toFrame) fun rs => ?_
  cases rs.mInstanceMap.lookup subroutineName with
  | some inst => exact keeps_pure hR.toFrame _
  | none =>
    exact keeps_bind hR.toFrame (obtainClassInstance_keeps hR subroutineName) fun _ =>
      keeps_bind hR.toFrame (keeps_write hR _ fun _ => rfl) fun _ =>
        keeps_pure hR.toFrame _

theorem setSubroutine_keeps {R : World → World → Prop} (hR : HookFrame R)
    (gptype : GpuProgramType) (slotIndex : Nat) (subroutineName : String) :
    M.Keeps R (setSubroutine gptype slotIndex subroutineName) := by
  unfold setSubroutine
  exact keeps_bind hR.toFrame (findClassInstance_keeps hR subroutineName) fun _ =>
    keeps_write hR _ fun _ => rfl

theorem setSubroutines_keeps {R : World → World → Prop} (hR : HookFrame R)
    (gptype : GpuProgramType) (entries : List (Nat × String)) :
    M.Keeps R (setSubroutines gptype entries) := by
  induction entries with
  | nil => exact keeps_pure hR.toFrame _
  | cons entry rest ih =>
    obtain ⟨slotIndex, subroutineName⟩ := entry
    unfold setSubroutines
    exact keeps_bind hR.toFrame (setSubroutine_keeps hR gptype slotIndex subroutineName)
      fun _ => ih

theorem setConstantBuffer_keeps {R : World → World → Prop} (hR : HookFrame R)
    (gptype : GpuProgramType) (params : GpuProgramParameters) (mask : Nat)
    (program : Option D3D11HLSLProgram) :
    M.Keeps R (setConstantBuffer gptype params mask program) := by
  cases program with
  | none => exact keeps_pure hR.toFrame _
  | some program =>
    exact keeps_bind hR.toFrame (keeps_native (hR.call _ rfl)) fun _ =>
      keeps_throwIfError hR.toFrame _ _

theorem setConstantBuffers_keeps {R : World → World → Prop} (hR : HookFrame R)
    (gptype : GpuProgramType) (params : GpuProgramParameters) (mask : Nat) :
    M.Keeps R (setConstantBuffers gptype params mask) := by
  unfold setConstantBuffers
  repeat' first
    | exact keeps_pure hR.toFrame _
    | exact keeps_getRS hR.toFrame
    | exact keeps_native (hR.call Call._copySharedParams rfl)
    | exact setConstantBuffer_keeps hR _ _ _ _
    | refine keeps_ite ?_ ?_
    | refine keeps_bind hR.toFrame ?_ fun _ => ?_

theorem bindGpuProgramParameters_keeps {R : World → World → Prop} (hR : HookFrame R)
    (gptype : GpuProgramType) (params : GpuProgramParameters) (mask : Nat) :
    M.Keeps R (bindGpuProgramParameters gptype params mask) := by
  unfold bindGpuProgramParameters
  exact keeps_bind hR.toFrame (setConstantBuffers_keeps hR gptype params mask) fun _ =>
    setSubroutines_keeps hR gptype _

theorem bindGpuProgramPassIterationParameters_keeps {R : World → World → Prop}
    (hR : HookFrame R) (gptype : GpuProgramType) :
    M.Keeps R (bindGpuProgramPassIterationParameters gptype) := by
  unfold bindGpuProgramPassIterationParameters
  refine keeps_bind hR.toFrame (keeps_getRS hR.toFrame) fun rs => ?_
  cases activeParameters rs gptype with
  | none => exact keeps_pure hR.toFrame _
  | some params => exact bindGpuProgramParameters_keeps hR gptype params _

theorem bindStages_keeps {R : World → World → Prop} (hR : HookFrame R)
    (stages : List GpuProgramType) : M.Keeps R (bindStages stages) := by
  induction stages with
  | nil => exact keeps_pure hR.toFrame _
  | cons gptype rest ih =>
    unfold bindStages
    exact keeps_bind hR.toFrame (bindGpuProgramPassIterationParameters_keeps hR gptype)
      fun _ => ih

theorem passIterationHooks_keeps {R : World → World → Prop} (hR : HookFrame R) :
    M.Keeps R passIterationHooks := by
  unfold passIterationHooks
  exact keeps_bind hR.toFrame (keeps_getRS hR.toFrame) fun rs => bindStages_keeps hR _

theorem cacheKept_hookFrame : HookFrame CacheKept where
  toFrame := cacheKept_frame
  call := fun c hc w =>
    cacheKept_native (by cases c <;> first | rfl | cases hc)
      (by cases c <;> first | rfl | cases hc) w
  write := fun f hf w => by
    have h := hf w.rs
    refine ⟨?_, ?_, ?_, ?_, ?_, ?_, ?_, ?_, ?_, [], by simp, by simp⟩ <;>
      (dsimp only
       rw [h])

theorem drawCall_createsStateObject (op : RenderOperation) (vertexData : VertexData)
    (hi : Bool) (ni : Nat) :
    (drawCall op vertexData hi ni).createsStateObject = false
      ∧ (drawCall op vertexData hi ni).bindsStateObject = false := by
  unfold drawCall
  split_ifs <;> exact ⟨rfl, rfl⟩

theorem drawOnce_keeps (op : RenderOperation) (vertexData : VertexData) (hi : Bool) (ni : Nat) :
    M.Keeps CacheKept (drawOnce op vertexData hi ni) := by
  unfold drawOnce
  repeat' first
    | exact keeps_pure cacheKept_frame _
    | exact keeps_getRS cacheKept_frame
    | exact keeps_isError cacheKept_frame
    | exact keeps_getErrorDescription cacheKept_frame _
    | exact keeps_native (cacheKept_native (drawCall_createsStateObject _ _ _ _).1
        (drawCall_createsStateObject _ _ _ _).2)
    | exact keeps_OGRE_EXCEPT cacheKept_frame _ _ _
    | refine keeps_ite ?_ ?_
    | refine keeps_bind cacheKept_frame ?_ fun _ => ?_

theorem drawLoop_keeps {body : M Unit} (h : M.Keeps CacheKept body) (k : Nat) :
    M.Keeps CacheKept (drawLoop body k) := by
  induction k with
  | zero => exact h
  | succ k ih =>
    unfold drawLoop
    exact keeps_bind cacheKept_frame h fun _ =>
      keeps_bind cacheKept_frame
        (keeps_modifyRS fun _ =>
          ⟨rfl, rfl, rfl, rfl, rfl, rfl, rfl, rfl, rfl, [], by simp, by simp⟩)
        fun _ => keeps_bind cacheKept_frame (passIterationHooks_keeps cacheKept_hookFrame)
          fun _ => ih

theorem issueOperation_keeps (maps : D3D11Mappings) (op : RenderOperation)
    (vertexData : VertexData) (hi : Bool) (ni : Nat) :
    M.Keeps CacheKept (issueOperation maps op vertexData hi ni) := by
  unfold issueOperation
  refine keeps_bind cacheKept_frame (keeps_getRS cacheKept_frame) fun rs =>
    keeps_ite ?_ ?_
  · repeat' first
      | exact keeps_native (cacheKept_native rfl rfl)
      | refine keeps_bind cacheKept_frame ?_ fun _ => ?_
  · cases ht : translateOperation rs op vertexData with
    | error e => exact keeps_rethrow cacheKept_frame _
    | ok p =>
      obtain ⟨primType, primCount⟩ := p
      repeat' first
        | exact keeps_pure cacheKept_frame _
        | exact keeps_native (cacheKept_native rfl rfl)
        | exact keeps_throwIfError cacheKept_frame _ _
        | exact drawLoop_keeps (drawOnce_keeps _ _ _ _) _
        | refine keeps_ite ?_ ?_
        | refine keeps_bind cacheKept_frame ?_ fun _ => ?_

theorem modifyRS_bind {β : Type} (f : D3D11RenderSystem → D3D11RenderSystem) (g : Unit → M β)
    (w : World) : (modifyRS f >>= g) w = g () ⟨f w.rs, w.calls⟩ := rfl

theorem resolveBlendState_world (w : World) :
    (resolveBlendState w).2 =
      if w.rs.mBlendDescChanged then
        ⟨{ w.rs with mBlendDescChanged := false, mBoundBlendState := none },
          w.calls ++ [Call.CreateBlendState w.rs.mBlendDesc]⟩
      else w := by
  unfold resolveBlendState
  rw [getRS_bind]
  split
  · rw [modifyRS_bind, native_bind, throwIfFailed_world]
  · rfl

theorem resolveRasterizer_world (w : World) :
    (resolveRasterizer w).2 =
      if w.rs.mRasterizerDescChanged then
        ⟨{ w.rs with mRasterizerDescChanged := false, mBoundRasterizer := none },
          w.calls ++ [Call.CreateRasterizerState w.rs.mRasterizerDesc]⟩
      else w := by
  unfold resolveRasterizer
  rw [getRS_bind]
  split
  · rw [modifyRS_bind, native_bind, throwIfFailed_world]
  · rfl

theorem resolveDepthStencilState_world (w : World) :
    (resolveDepthStencilState w).2 =
      if w.rs.mDepthStencilDescChanged then
        ⟨{ w.rs with mBoundDepthStencilState := none, mDepthStencilDescChanged := false },
          w.calls ++ [Call.CreateDepthStencilState w.rs.mDepthStencilDesc]⟩
      else w := by
  unfold resolveDepthStencilState
  rw [getRS_bind]
  split
  · rw [modifyRS_bind, native_bind, throwIfFailed_world]
  · rfl

theorem resolveBlendState_clean (w : World) (h : w.rs.mBlendDescChanged = false) :
    resolveBlendState w = (Except.ok w.rs.mBoundBlendState, w) := by
  unfold resolveBlendState
  rw [getRS_bind]
  simp only [h, Bool.false_eq_true, if_false]
  rfl

theorem resolveRasterizer_clean (w : World) (h : w.rs.mRasterizerDescChanged = false) :
    resolveRasterizer w = (Except.ok w.rs.mBoundRasterizer, w) := by
  unfold resolveRasterizer
  rw [getRS_bind]
  simp only [h, Bool.false_eq_true, if_false]
  rfl

theorem resolveDepthStencilState_clean (w : World)
    (h : w.rs.mDepthStencilDescChanged = false) :
    resolveDepthStencilState w = (Except.ok w.rs.mBoundDepthStencilState, w) := by
  unfold resolveDepthStencilState
  rw [getRS_bind]
  simp only [h, Bool.false_eq_true, if_false]
  rfl

/-- The world after the three descriptors were resolved: none is marked changed, the
descriptors are as before, and one `Create...State` call was issued for each descriptor
that was marked changed. -/
theorem resolvedWorld_spec (w : World) :
    (resolvedWorld w).rs.mBlendDescChanged = false
      ∧ (resolvedWorld w).rs.mRasterizerDescChanged = false
      ∧ (resolvedWorld w).rs.mDepthStencilDescChanged = false
      ∧ (resolvedWorld w).rs.mBlendDesc = w.rs.mBlendDesc
      ∧ (resolvedWorld w).rs.mRasterizerDesc = w.rs.mRasterizerDesc
      ∧ (resolvedWorld w).rs.mDepthStencilDesc = w.rs.mDepthStencilDesc
      ∧ (resolvedWorld w).calls = w.calls ++ createCalls w.rs := by
  unfold resolvedWorld createCalls
  rw [resolveDepthStencilState_world, resolveRasterizer_world, resolveBlendState_world]
  cases hB : w.rs.mBlendDescChanged <;> cases hR : w.rs.mRasterizerDescChanged <;>
    cases hD : w.rs.mDepthStencilDescChanged <;> simp [hB, hR, hD]

theorem bindStateObjects_keeps (opState : D3D11RenderOperationState) :
    M.Keeps DescriptorsKept (bindStateObjects opState) := by
  unfold bindStateObjects
  repeat' first
    | exact keeps_pure descriptorsKept_frame _
    | exact keeps_getRS descriptorsKept_frame
    | exact keeps_native (descriptorsKept_native rfl)
    | exact keeps_modifyRS fun _ => ⟨rfl, rfl, rfl, id, id, id, [], by simp, by simp⟩
    | exact keeps_throwIfError descriptorsKept_frame _ _
    | exact keeps_mono (setSamplersAndResources_keeps _ _ _ _ _)
        fun _ _ => CacheKept.descriptorsKept
    | refine keeps_ite ?_ ?_
    | refine keeps_bind descriptorsKept_frame ?_ fun _ => ?_

/-- Binding the state objects that are bound already does nothing. -/
theorem bindStateObjects_same (opState : D3D11RenderOperationState) (w : World)
    (hB : opState.mBlendState = w.rs.mBoundBlendState)
    (hR : opState.mRasterizer = w.rs.mBoundRasterizer)
    (hD : opState.mDepthStencilState = w.rs.mBoundDepthStencilState) :
    bindStateObjects opState w = (Except.ok (), w) := by
  unfold bindStateObjects
  rw [getRS_bind]
  simp only [hB, hR, hD, ne_eq, not_true_eq_false, if_false]
  rfl

/-- What `_render` does after the state objects were bound keeps the cache. -/
theorem afterBind_keeps (maps : D3D11Mappings) (op : RenderOperation)
    (vertexData : VertexData) (opState : D3D11RenderOperationState) (hi : Bool) (ni : Nat) :
    M.Keeps CacheKept
      (bindSamplers opState >>= fun _ => checkPrograms op >>= fun _ => bindPrograms
        >>= fun _ => setVertexDeclaration vertexData.vertexDeclaration
          vertexData.vertexBufferBinding
        >>= fun _ => setVertexBufferBinding vertexData.vertexBufferBinding
        >>= fun _ => issueOperation maps op vertexData hi ni) := by
  repeat' first
    | exact bindSamplers_keeps _
    | exact checkPrograms_keeps _
    | exact bindPrograms_keeps
    | exact setVertexDeclaration_keeps _ _
    | exact setVertexBufferBinding_keeps _
    | exact issueOperation_keeps _ _ _ _ _
    | refine keeps_bind cacheKept_frame ?_ fun _ => ?_

theorem M.bind_assoc_apply {α β γ : Type} (m : M α) (f : α → M β) (g : β → M γ) (w : World) :
    ((m >>= f) >>= g) w = (m >>= fun a => f a >>= g) w := by
  cases h : (m w).1 with
  | error e =>
    rw [M.bind_error (m >>= f) g w e (by rw [M.bind_error m f w e h]),
      M.bind_error m f w e h, M.bind_error m _ w e h]
  | ok a =>
    rw [M.bind_ok m _ w a h]
    cases h2 : (f a (m w).2).1 with
    | error e =>
      rw [M.bind_error (m >>= f) g w e (by rw [M.bind_ok m f w a h]; exact h2),
        M.bind_ok m f w a h, M.bind_error _ _ _ e h2]
    | ok b =>
      rw [M.bind_ok (m >>= f) g w b (by rw [M.bind_ok m f w a h]; exact h2),
        M.bind_ok m f w a h, M.bind_ok _ _ _ b h2]

theorem M.bind_assoc {α β γ : Type} (m : M α) (f : α → M β) (g : β → M γ) :
    (m >>= f) >>= g = m >>= fun a => f a >>= g :=
  funext fun w => M.bind_assoc_apply m f g w

/-- `_render` of an operation with vertices, as one sequence of its parts. -/
theorem render_sequence (maps : D3D11Mappings) (op : RenderOperation) (vertexData : VertexData)
    (w : World) (hvd : op.vertexData = some vertexData) (hcount : vertexData.vertexCount ≠ 0) :
    _render maps op w =
      (resolveStateObjects maps >>= fun opState => bindStateObjects opState
        >>= fun _ => bindSamplers opState >>= fun _ => checkPrograms op >>= fun _ => bindPrograms
        >>= fun _ => setVertexDeclaration vertexData.vertexDeclaration
          vertexData.vertexBufferBinding
        >>= fun _ => setVertexBufferBinding vertexData.vertexBufferBinding
        >>= fun _ => issueOperation maps op vertexData (hasInstanceData w.rs op vertexData)
          (numberOfInstances w.rs op)) w := by
  rw [render_eq maps op vertexData w hvd hcount]
  unfold prepareOperation applyStateObjects
  simp only [M.bind_assoc]

/-- What `resolveStateObjects` does once the three descriptors are resolved keeps the
cache. -/
theorem resolveSamplers_keeps (maps : D3D11Mappings) (b r d : Option Handle) :
    M.Keeps CacheKept (do
      let rs ← getRS
      if rs.mSamplerStatesChanged then
        let numberOfSamplers := min rs.mLastTextureUnitState (OGRE_MAX_TEXTURE_LAYERS + 1)
        let units ← resolveSamplerUnits maps 0 numberOfSamplers
        pure
          ({ mBlendState := b
             mRasterizer := r
             mDepthStencilState := d
             mSamplerStates := units.map Prod.fst
             mSamplerStatesCount := numberOfSamplers
             mTextures := units.map Prod.snd
             mTexturesCount := numberOfSamplers } : D3D11RenderOperationState)
      else
        pure
          { mBlendState := b
            mRasterizer := r
            mDepthStencilState := d
            mSamplerStates := []
            mSamplerStatesCount := 0
            mTextures := []
            mTexturesCount := 0 }) := by
  repeat' first
    | exact keeps_pure cacheKept_frame _
    | exact keeps_getRS cacheKept_frame
    | exact resolveSamplerUnits_keeps _ _ _
    | refine keeps_ite ?_ ?_
    | refine keeps_bind cacheKept_frame ?_ fun _ => ?_

/-- When `resolveStateObjects` returns, the cache is as the three resolutions left it. -/
theorem resolveStateObjects_resolved (maps : D3D11Mappings) (w : World)
    (opState : D3D11RenderOperationState)
    (h : (resolveStateObjects maps w).1 = Except.ok opState) :
    CacheKept (resolvedWorld w) (resolveStateObjects maps w).2 := by
  unfold resolveStateObjects at h ⊢
  obtain ⟨b, -, e1⟩ := M.ok_of_bind h
  rw [e1] at h ⊢
  obtain ⟨r, -, e2⟩ := M.ok_of_bind h
  rw [e2] at h ⊢
  obtain ⟨d, -, e3⟩ := M.ok_of_bind h
  rw [e3]
  exact resolveSamplers_keeps maps b r d _

/-- When no descriptor is marked changed, `resolveStateObjects` keeps the cache and gives
the bound objects. -/
theorem resolveStateObjects_clean (maps : D3D11Mappings) (w : World)
    (hB : w.rs.mBlendDescChanged = false) (hR : w.rs.mRasterizerDescChanged = false)
    (hD : w.rs.mDepthStencilDescChanged = false) :
    CacheKept w (resolveStateObjects maps w).2
      ∧ ∀ opState, (resolveStateObjects maps w).1 = Except.ok opState →
        opState.mBlendState = w.rs.mBoundBlendState
          ∧ opState.mRasterizer = w.rs.mBoundRasterizer
          ∧ opState.mDepthStencilState = w.rs.mBoundDepthStencilState := by
  unfold resolveStateObjects
  rw [M.bind_ok resolveBlendState _ w _ (by rw [resolveBlendState_clean w hB]),
    resolveBlendState_clean w hB]
  simp only []
  rw [M.bind_ok resolveRasterizer _ w _ (by rw [resolveRasterizer_clean w hR]),
    resolveRasterizer_clean w hR]
  simp only []
  rw [M.bind_ok resolveDepthStencilState _ w _ (by rw [resolveDepthStencilState_clean w hD]),
    resolveDepthStencilState_clean w hD]
  simp only []
  refine ⟨resolveSamplers_keeps maps _ _ _ w, ?_⟩
  intro opState h
  rw [getRS_bind] at h
  split at h
  · obtain ⟨units, -, e⟩ := M.ok_of_bind h
    rw [e] at h
    simp only [Pure.pure, Except.ok.injEq] at h
    rw [← h]
    exact ⟨rfl, rfl, rfl⟩
  · simp only [Pure.pure, Except.ok.injEq] at h
    rw [← h]
    exact ⟨rfl, rfl, rfl⟩

/-- A successful `_render` of an operation with vertices resolves the three descriptors
and, from then on, changes no descriptor, marks none changed and creates no blend,
rasterizer or depth-stencil state object. -/
theorem render_settles (maps : D3D11Mappings) (op : RenderOperation) (vertexData : VertexData)
    (w : World) (hvd : op.vertexData = some vertexData) (hcount : vertexData.vertexCount ≠ 0)
    (hok : (_render maps op w).1 = Except.ok ()) :
    DescriptorsKept (resolvedWorld w) (_render maps op w).2 := by
  rw [render_sequence maps op vertexData w hvd hcount] at hok ⊢
  obtain ⟨opState, hs, e⟩ := M.ok_of_bind hok
  rw [e]
  refine descriptorsKept_trans (resolveStateObjects_resolved maps w opState hs).descriptorsKept ?_
  exact keeps_bind descriptorsKept_frame (bindStateObjects_keeps opState)
    (fun _ => keeps_mono (afterBind_keeps maps op vertexData opState _ _)
      fun _ _ => CacheKept.descriptorsKept) _

/-- When no descriptor is marked changed, `_render` keeps the cache, whether it returns or
raises. -/
theorem render_clean (maps : D3D11Mappings) (op : RenderOperation) (w : World)
    (hB : w.rs.mBlendDescChanged = false) (hR : w.rs.mRasterizerDescChanged = false)
    (hD : w.rs.mDepthStencilDescChanged = false) : CacheKept w (_render maps op w).2 := by
  cases hvd : op.vertexData with
  | none =>
    unfold _render
    rw [hvd]
    exact cacheKept_refl w
  | some vertexData =>
    by_cases hcount : vertexData.vertexCount = 0
    · unfold _render
      rw [hvd]
      simp only [hcount, if_true]
      exact cacheKept_refl w
    · rw [render_sequence maps op vertexData w hvd hcount]
      obtain ⟨hk, hst⟩ := resolveStateObjects_clean maps w hB hR hD
      cases hs : (resolveStateObjects maps w).1 with
      | error e =>
        rw [M.bind_error _ _ w e hs]
        exact hk
      | ok opState =>
        rw [M.bind_ok _ _ w opState hs]
        obtain ⟨h1, h2, h3⟩ := hst opState hs
        have hsame := bindStateObjects_same opState (resolveStateObjects maps w).2
          (by rw [hk.boundBlend]; exact h1) (by rw [hk.boundRasterizer]; exact h2)
          (by rw [hk.boundDepthStencil]; exact h3)
        rw [M.bind_ok _ _ _ () (by rw [hsame]), hsame]
        exact cacheKept_trans hk (afterBind_keeps maps op vertexData opState _ _ _)

/-- What `setScissorTest` does: the scissor flag of the rasterizer descriptor and the
rectangle are written and the rectangle is set; the descriptor is marked changed when the
device reports no error, and the error is raised with the descriptor not marked when it
does. -/
theorem setScissorTest_apply (enabled : Bool) (left top right bottom : Nat) (w : World) :
    setScissorTest enabled left top right bottom w =
      if w.rs.mDevice.isError
          (w.calls ++ [Call.RSSetScissorRects 1 ⟨LONG left, LONG top, LONG right, LONG bottom⟩])
      then
        (Except.error ⟨ExceptionCodes.ERR_RENDERINGAPI_ERROR, none,
            "D3D11 device cannot set scissor rects\nError Description:"
              ++ w.rs.mDevice.getErrorDescription
                (w.calls
                  ++ [Call.RSSetScissorRects 1 ⟨LONG left, LONG top, LONG right, LONG bottom⟩])
                none,
            "D3D11RenderSystem::setScissorTest"⟩,
          ⟨{ w.rs with
              mRasterizerDesc := { w.rs.mRasterizerDesc with ScissorEnable := enabled }
              mScissorRect := ⟨LONG left, LONG top, LONG right, LONG bottom⟩ },
            w.calls
              ++ [Call.RSSetScissorRects 1 ⟨LONG left, LONG top, LONG right, LONG bottom⟩]⟩)
      else
        (Except.ok (),
          ⟨{ w.rs with
              mRasterizerDesc := { w.rs.mRasterizerDesc with ScissorEnable := enabled }
              mScissorRect := ⟨LONG left, LONG top, LONG right, LONG bottom⟩
              mRasterizerDescChanged := true },
            w.calls
              ++ [Call.RSSetScissorRects 1 ⟨LONG left, LONG top, LONG right, LONG bottom⟩]⟩) := by
  unfold setScissorTest throwIfError
  rw [modifyRS_bind, getRS_bind, native_bind]
  show ((isError >>= _) >>= _) _ = _
  rw [M.bind_assoc, M.bind_ok isError _ _ _ rfl]
  split <;> rfl


theorem afterSetters_cons (maps : D3D11Mappings) (w : World) (s : StateSetter)
    (rest : List StateSetter) :
    w.afterSetters maps (s :: rest) = (s.run maps w).2.afterSetters maps rest := rfl

theorem afterSetters_append (maps : D3D11Mappings) (w : World) (a b : List StateSetter) :
    w.afterSetters maps (a ++ b) = (w.afterSetters maps a).afterSetters maps b := by
  unfold World.afterSetters
  rw [List.foldl_append]

/-- A setter call marks the blend descriptor changed or leaves it and its mark. -/
theorem StateSetter.run_blend (maps : D3D11Mappings) (w : World) (s : StateSetter) :
    (s.run maps w).2.rs.mBlendDescChanged = true
      ∨ ((s.run maps w).2.rs.mBlendDescChanged = w.rs.mBlendDescChanged
        ∧ (s.run maps w).2.rs.mBlendDesc = w.rs.mBlendDesc) := by
  cases s with
  | setScissorTest e l t r b =>
    have e1 : StateSetter.run maps (.setScissorTest e l t r b) w
        = Ogre.setScissorTest e l t r b w := rfl
    rw [e1, setScissorTest_apply]
    split <;> exact Or.inr ⟨rfl, rfl⟩
  | _setSceneBlending s d op =>
    have e1 : (StateSetter.run maps (._setSceneBlending s d op) w).2.rs
        = Ogre._setSceneBlending maps w.rs s d op := rfl
    rw [e1]
    unfold Ogre._setSceneBlending
    split <;> exact Or.inl rfl
  | _setSeparateSceneBlending s d sa da op aop =>
    have e1 : (StateSetter.run maps (._setSeparateSceneBlending s d sa da op aop) w).2.rs
        = Ogre._setSeparateSceneBlending maps w.rs s d sa da op aop := rfl
    rw [e1]
    unfold Ogre._setSeparateSceneBlending
    split <;> exact Or.inl rfl
  | _setPolygonMode level =>
    have e1 : (StateSetter.run maps (._setPolygonMode level) w).2.rs
        = Ogre._setPolygonMode maps w.rs level := rfl
    rw [e1]
    unfold Ogre._setPolygonMode
    split <;> exact Or.inr ⟨rfl, rfl⟩
  | _ => first | exact Or.inl rfl | exact Or.inr ⟨rfl, rfl⟩

/-- A setter call marks the depth-stencil descriptor changed or leaves it and its mark. -/
theorem StateSetter.run_depthStencil (maps : D3D11Mappings) (w : World) (s : StateSetter) :
    (s.run maps w).2.rs.mDepthStencilDescChanged = true
      ∨ ((s.run maps w).2.rs.mDepthStencilDescChanged = w.rs.mDepthStencilDescChanged
        ∧ (s.run maps w).2.rs.mDepthStencilDesc = w.rs.mDepthStencilDesc) := by
  cases s with
  | setScissorTest e l t r b =>
    have e1 : StateSetter.run maps (.setScissorTest e l t r b) w
        = Ogre.setScissorTest e l t r b w := rfl
    rw [e1, setScissorTest_apply]
    split <;> exact Or.inr ⟨rfl, rfl⟩
  | _setSceneBlending s d op =>
    have e1 : (StateSetter.run maps (._setSceneBlending s d op) w).2.rs
        = Ogre._setSceneBlending maps w.rs s d op := rfl
    rw [e1]
    unfold Ogre._setSceneBlending
    split <;> exact Or.inr ⟨rfl, rfl⟩
  | _setSeparateSceneBlending s d sa da op aop =>
    have e1 : (StateSetter.run maps (._setSeparateSceneBlending s d sa da op aop) w).2.rs
        = Ogre._setSeparateSceneBlending maps w.rs s d sa da op aop := rfl
    rw [e1]
    unfold Ogre._setSeparateSceneBlending
    split <;> exact Or.inr ⟨rfl, rfl⟩
  | _setPolygonMode level =>
    have e1 : (StateSetter.run maps (._setPolygonMode level) w).2.rs
        = Ogre._setPolygonMode maps w.rs level := rfl
    rw [e1]
    unfold Ogre._setPolygonMode
    split <;> exact Or.inr ⟨rfl, rfl⟩
  | _ => first | exact Or.inl rfl | exact Or.inr ⟨rfl, rfl⟩

/-- A setter call that returns marks the rasterizer descriptor changed or leaves it and its
mark. -/
theorem StateSetter.run_rasterizer (maps : D3D11Mappings) (w : World) (s : StateSetter)
    (hok : (s.run maps w).1 = Except.ok ()) :
    (s.run maps w).2.rs.mRasterizerDescChanged = true
      ∨ ((s.run maps w).2.rs.mRasterizerDescChanged = w.rs.mRasterizerDescChanged
        ∧ (s.run maps w).2.rs.mRasterizerDesc = w.rs.mRasterizerDesc) := by
  cases s with
  | setScissorTest e l t r b =>
    have hok' : (Ogre.setScissorTest e l t r b w).1 = Except.ok () := hok
    have e1 : StateSetter.run maps (.setScissorTest e l t r b) w
        = Ogre.setScissorTest e l t r b w := rfl
    rw [e1, setScissorTest_apply]
    rw [setScissorTest_apply] at hok'
    split
    · rename_i h
      rw [if_pos h] at hok'
      cases hok'
    · exact Or.inl rfl
  | _setSceneBlending s d op =>
    have e1 : (StateSetter.run maps (._setSceneBlending s d op) w).2.rs
        = Ogre._setSceneBlending maps w.rs s d op := rfl
    rw [e1]
    unfold Ogre._setSceneBlending
    split <;> exact Or.inr ⟨rfl, rfl⟩
  | _setSeparateSceneBlending s d sa da op aop =>
    have e1 : (StateSetter.run maps (._setSeparateSceneBlending s d sa da op aop) w).2.rs
        = Ogre._setSeparateSceneBlending maps w.rs s d sa da op aop := rfl
    rw [e1]
    unfold Ogre._setSeparateSceneBlending
    split <;> exact Or.inr ⟨rfl, rfl⟩
  | _setPolygonMode level =>
    have e1 : (StateSetter.run maps (._setPolygonMode level) w).2.rs
        = Ogre._setPolygonMode maps w.rs level := rfl
    rw [e1]
    unfold Ogre._setPolygonMode
    split
    · exact Or.inl rfl
    · exact Or.inr ⟨rfl, rfl⟩
  | _ => first | exact Or.inl rfl | exact Or.inr ⟨rfl, rfl⟩

/-- No setter call clears a mark. -/
theorem StateSetter.run_marked (maps : D3D11Mappings) (w : World) (s : StateSetter)
    (k : DescriptorKind) (h : w.rs.marked k = true) : (s.run maps w).2.rs.marked k = true := by
  cases s with
  | setScissorTest e l t r b =>
    have e1 : StateSetter.run maps (.setScissorTest e l t r b) w
        = Ogre.setScissorTest e l t r b w := rfl
    rw [e1, setScissorTest_apply]
    split <;> cases k <;> first | exact h | rfl
  | _setSceneBlending s d op =>
    have e1 : (StateSetter.run maps (._setSceneBlending s d op) w).2.rs
        = Ogre._setSceneBlending maps w.rs s d op := rfl
    rw [e1]
    unfold Ogre._setSceneBlending
    split <;> cases k <;> first | exact h | rfl
  | _setSeparateSceneBlending s d sa da op aop =>
    have e1 : (StateSetter.run maps (._setSeparateSceneBlending s d sa da op aop) w).2.rs
        = Ogre._setSeparateSceneBlending maps w.rs s d sa da op aop := rfl
    rw [e1]
    unfold Ogre._setSeparateSceneBlending
    split <;> cases k <;> first | exact h | rfl
  | _setPolygonMode level =>
    have e1 : (StateSetter.run maps (._setPolygonMode level) w).2.rs
        = Ogre._setPolygonMode maps w.rs level := rfl
    rw [e1]
    unfold Ogre._setPolygonMode
    split <;> cases k <;> first | exact h | rfl
  | _ => cases k <;> first | exact h | rfl

/-- A setter call that returns marks the descriptor it writes, unless it is `_setPolygonMode`
with the polygon mode in force. -/
theorem StateSetter.run_marks (maps : D3D11Mappings) (w : World) (s : StateSetter)
    (hok : (s.run maps w).1 = Except.ok ()) (hp : ¬ s.keepsPolygonMode w.rs) :
    (s.run maps w).2.rs.marked s.kind = true := by
  cases s with
  | setScissorTest e l t r b =>
    have hok' : (Ogre.setScissorTest e l t r b w).1 = Except.ok () := hok
    have e1 : StateSetter.run maps (.setScissorTest e l t r b) w
        = Ogre.setScissorTest e l t r b w := rfl
    rw [e1, setScissorTest_apply]
    rw [setScissorTest_apply] at hok'
    split
    · rename_i h
      rw [if_pos h] at hok'
      cases hok'
    · rfl
  | _setSceneBlending s d op =>
    have e1 : (StateSetter.run maps (._setSceneBlending s d op) w).2.rs
        = Ogre._setSceneBlending maps w.rs s d op := rfl
    rw [e1]
    unfold Ogre._setSceneBlending
    split <;> rfl
  | _setSeparateSceneBlending s d sa da op aop =>
    have e1 : (StateSetter.run maps (._setSeparateSceneBlending s d sa da op aop) w).2.rs
        = Ogre._setSeparateSceneBlending maps w.rs s d sa da op aop := rfl
    rw [e1]
    unfold Ogre._setSeparateSceneBlending
    split <;> rfl
  | _setPolygonMode level =>
    have e1 : (StateSetter.run maps (._setPolygonMode level) w).2.rs
        = Ogre._setPolygonMode maps w.rs level := rfl
    rw [e1]
    unfold Ogre._setPolygonMode
    split
    · rfl
    · rename_i h
      exact absurd (not_not.mp h) hp
  | _ => rfl

theorem afterSetters_marked (maps : D3D11Mappings) (setters : List StateSetter)
    (k : DescriptorKind) :
    ∀ w : World, w.rs.marked k = true → (w.afterSetters maps setters).rs.marked k = true := by
  induction setters with
  | nil => intro w h; exact h
  | cons s rest ih =>
    intro w h
    rw [afterSetters_cons]
    exact ih _ (StateSetter.run_marked maps w s k h)

/-- After a sequence of setter calls the blend and the depth-stencil descriptor are marked
changed or are what they were, and so is the rasterizer descriptor when every call
returned. -/
theorem afterSetters_marks (maps : D3D11Mappings) (setters : List StateSetter) :
    ∀ w : World,
      ((w.afterSetters maps setters).rs.mBlendDescChanged = true
        ∨ ((w.afterSetters maps setters).rs.mBlendDescChanged = w.rs.mBlendDescChanged
          ∧ (w.afterSetters maps setters).rs.mBlendDesc = w.rs.mBlendDesc))
      ∧ (w.settersReturn maps setters →
        (w.afterSetters maps setters).rs.mRasterizerDescChanged = true
          ∨ ((w.afterSetters maps setters).rs.mRasterizerDescChanged
              = w.rs.mRasterizerDescChanged
            ∧ (w.afterSetters maps setters).rs.mRasterizerDesc = w.rs.mRasterizerDesc))
      ∧ ((w.afterSetters maps setters).rs.mDepthStencilDescChanged = true
        ∨ ((w.afterSetters maps setters).rs.mDepthStencilDescChanged
            = w.rs.mDepthStencilDescChanged
          ∧ (w.afterSetters maps setters).rs.mDepthStencilDesc = w.rs.mDepthStencilDesc)) := by
  induction setters with
  | nil => intro w; exact ⟨Or.inr ⟨rfl, rfl⟩, fun _ => Or.inr ⟨rfl, rfl⟩, Or.inr ⟨rfl, rfl⟩⟩
  | cons s rest ih =>
    intro w
    obtain ⟨hb, hr, hd⟩ := ih (s.run maps w).2
    rw [afterSetters_cons]
    refine ⟨?_, fun hret => ?_, ?_⟩
    · rcases hb with h | ⟨h1, h2⟩
      · exact Or.inl h
      · rcases StateSetter.run_blend maps w s with k | ⟨k1, k2⟩
        · exact Or.inl (h1.trans k)
        · exact Or.inr ⟨h1.trans k1, h2.trans k2⟩
    · rcases hr hret.2 with h | ⟨h1, h2⟩
      · exact Or.inl h
      · rcases StateSetter.run_rasterizer maps w s hret.1 with k | ⟨k1, k2⟩
        · exact Or.inl (h1.trans k)
        · exact Or.inr ⟨h1.trans k1, h2.trans k2⟩
    · rcases hd with h | ⟨h1, h2⟩
      · exact Or.inl h
      · rcases StateSetter.run_depthStencil maps w s with k | ⟨k1, k2⟩
        · exact Or.inl (h1.trans k)
        · exact Or.inr ⟨h1.trans k1, h2.trans k2⟩

/-- The calls of a successful `_render` of an operation with vertices: the `Create...State`
calls for the descriptors marked changed, then calls that create no blend, rasterizer or
depth-stencil state object. -/
theorem render_calls_create (maps : D3D11Mappings) (op : RenderOperation)
    (vertexData : VertexData) (w : World) (hvd : op.vertexData = some vertexData)
    (hcount : vertexData.vertexCount ≠ 0) (hok : (_render maps op w).1 = Except.ok ()) :
    ∃ l, (_render maps op).issued w = createCalls w.rs ++ l
      ∧ ∀ c ∈ l, c.createsStateObject = false := by
  obtain ⟨l, hl, hq⟩ := (render_settles maps op vertexData w hvd hcount hok).calls
  refine ⟨l, issued_eq ?_, hq⟩
  rw [hl, (resolvedWorld_spec w).2.2.2.2.2.2, List.append_assoc]

/-- After a successful `_render` of an operation with vertices no descriptor is marked
changed. -/
theorem render_clears (maps : D3D11Mappings) (op : RenderOperation)
    (vertexData : VertexData) (w : World) (hvd : op.vertexData = some vertexData)
    (hcount : vertexData.vertexCount ≠ 0) (hok : (_render maps op w).1 = Except.ok ()) :
    (_render maps op w).2.rs.mBlendDescChanged = false
      ∧ (_render maps op w).2.rs.mRasterizerDescChanged = false
      ∧ (_render maps op w).2.rs.mDepthStencilDescChanged = false := by
  have h := render_settles maps op vertexData w hvd hcount hok
  obtain ⟨hb, hr, hd, -⟩ := resolvedWorld_spec w
  exact ⟨h.blendClear hb, h.rasterizerClear hr, h.depthStencilClear hd⟩

/-! ## Texture units -/

theorem setTextures_succ (rs : D3D11RenderSystem) (enabled : Nat → Bool)
    (tex : Nat → Option D3D11Texture) (n : Nat) :
    setTextures rs enabled tex (n + 1)
      = _setTexture (setTextures rs enabled tex n) n (enabled n) (tex n) := by
  unfold setTextures
  rw [List.range_succ, List.foldl_append]
  rfl

/-- What one `_setTexture` call does to the counter and to the used marks. -/
theorem setTexture_cases (rs : D3D11RenderSystem) (stage : Nat) (enabled : Bool)
    (tex : Option D3D11Texture) :
    ((_setTexture rs stage enabled tex).mLastTextureUnitState = size_t (stage + 1)
        ∧ ((_setTexture rs stage enabled tex).mTexStageDesc stage).used = true
      ∨ (_setTexture rs stage enabled tex).mLastTextureUnitState
          = min rs.mLastTextureUnitState stage
        ∧ ((_setTexture rs stage enabled tex).mTexStageDesc stage).used = false)
      ∧ (∀ i, i ≠ stage →
          (_setTexture rs stage enabled tex).mTexStageDesc i = rs.mTexStageDesc i)
      ∧ (_setTexture rs stage enabled tex).mSamplerStatesChanged = true := by
  unfold _setTexture
  cases tex with
  | none =>
    refine ⟨Or.inr ⟨rfl, ?_⟩, fun i hi => ?_, rfl⟩
    · simp
    · simp [Function.update, hi]
  | some dt =>
    by_cases h : enabled = true ∧ dt.getSize > 0
    · dsimp only
      rw [if_pos h]
      refine ⟨Or.inl ⟨rfl, ?_⟩, fun i hi => ?_, rfl⟩
      · simp
      · simp [Function.update, hi]
    · dsimp only
      rw [if_neg h]
      refine ⟨Or.inr ⟨rfl, ?_⟩, fun i hi => ?_, rfl⟩
      · simp
      · simp [Function.update, hi]

/-- After `_setTexture` was called for the stages `0`, ..., `n` in this order, the counter
is one more than the highest stage marked used, and 0 when none is. -/
theorem setTextures_counter (rs : D3D11RenderSystem) (enabled : Nat → Bool)
    (tex : Nat → Option D3D11Texture) (n : Nat) (hn : n + 1 < 2 ^ 64) :
    (setTextures rs enabled tex (n + 1)).mLastTextureUnitState ≤ n + 1
      ∧ (∀ i, i < n + 1 → ((setTextures rs enabled tex (n + 1)).mTexStageDesc i).used = true →
          i < (setTextures rs enabled tex (n + 1)).mLastTextureUnitState)
      ∧ ((setTextures rs enabled tex (n + 1)).mLastTextureUnitState = 0
          ∨ ((setTextures rs enabled tex (n + 1)).mTexStageDesc
              ((setTextures rs enabled tex (n + 1)).mLastTextureUnitState - 1)).used = true)
      ∧ (setTextures rs enabled tex (n + 1)).mSamplerStatesChanged = true := by
  induction n with
  | zero =>
    rw [setTextures_succ]
    obtain ⟨h | h, -, hs⟩ := setTexture_cases (setTextures rs enabled tex 0) 0 (enabled 0) (tex 0)
    · have e : size_t (0 + 1) = 1 := by decide
      rw [h.1, e]
      refine ⟨le_refl _, fun i hi _ => hi, Or.inr h.2, hs⟩
    · rw [h.1, Nat.min_zero]
      refine ⟨Nat.zero_le _, fun i hi hu => ?_, Or.inl rfl, hs⟩
      have : i = 0 := by omega
      rw [this, h.2] at hu
      cases hu
  | succ k ih =>
    obtain ⟨h1, h2, h3, -⟩ := ih (by omega)
    rw [setTextures_succ]
    obtain ⟨h | h, ho, hs⟩ :=
      setTexture_cases (setTextures rs enabled tex (k + 1)) (k + 1) (enabled (k + 1))
        (tex (k + 1))
    · have e : size_t (k + 1 + 1) = k + 1 + 1 := Nat.mod_eq_of_lt hn
      rw [h.1, e]
      refine ⟨le_refl _, fun i hi _ => hi, Or.inr ?_, hs⟩
      rw [Nat.add_sub_cancel]
      exact h.2
    · rw [h.1, Nat.min_eq_left h1]
      refine ⟨Nat.le_succ_of_le h1, fun i hi hu => ?_, ?_, hs⟩
      · by_cases hik : i = k + 1
        · rw [hik, h.2] at hu
          cases hu
        · rw [ho i hik] at hu
          exact h2 i (by omega) hu
      · rcases h3 with h0 | hu
        · exact Or.inl h0
        · refine Or.inr ?_
          by_cases h0 : (setTextures rs enabled tex (k + 1)).mLastTextureUnitState = 0
          · rw [h0] at hu ⊢
            rw [ho _ (by omega)]
            exact hu
          · rw [ho _ (by omega)]
            exact hu

theorem resolvedWorld_samplers (w : World) :
    (resolvedWorld w).rs.mSamplerStatesChanged = w.rs.mSamplerStatesChanged
      ∧ (resolvedWorld w).rs.mLastTextureUnitState = w.rs.mLastTextureUnitState := by
  unfold resolvedWorld
  rw [resolveDepthStencilState_world, resolveRasterizer_world, resolveBlendState_world]
  cases hB : w.rs.mBlendDescChanged <;> cases hR : w.rs.mRasterizerDescChanged <;>
    cases hD : w.rs.mDepthStencilDescChanged <;> simp [hB, hR, hD]

/-- The number of sampler and texture slots that `resolveStateObjects` fills. -/
theorem resolveStateObjects_count (maps : D3D11Mappings) (w : World)
    (opState : D3D11RenderOperationState)
    (h : (resolveStateObjects maps w).1 = Except.ok opState) :
    opState.mSamplerStatesCount
        = (if w.rs.mSamplerStatesChanged then
            min w.rs.mLastTextureUnitState (OGRE_MAX_TEXTURE_LAYERS + 1) else 0)
      ∧ opState.mTexturesCount = opState.mSamplerStatesCount := by
  obtain ⟨hs, hl⟩ := resolvedWorld_samplers w
  unfold resolveStateObjects at h
  obtain ⟨b, -, e1⟩ := M.ok_of_bind h
  rw [e1] at h
  obtain ⟨r, -, e2⟩ := M.ok_of_bind h
  rw [e2] at h
  obtain ⟨d, -, e3⟩ := M.ok_of_bind h
  rw [e3, getRS_bind] at h
  change (_ : Except OgreException D3D11RenderOperationState × World).1 = _ at h
  rw [← hs, ← hl]
  unfold resolvedWorld
  split at h
  · rename_i hc
    obtain ⟨units, -, e⟩ := M.ok_of_bind h
    rw [e] at h
    simp only [Pure.pure, Except.ok.injEq] at h
    rw [← h]
    rw [if_pos hc]
    exact ⟨rfl, rfl⟩
  · rename_i hc
    simp only [Pure.pure, Except.ok.injEq] at h
    rw [← h]
    rw [if_neg hc]
    exact ⟨rfl, rfl⟩

/-! ## Capability derivation -/

section Capability

open RenderSystemCapabilities

theorem hasCapability_setCapability (rsc : RenderSystemCapabilities) (c d : Capabilities) :
    (rsc.setCapability c).hasCapability d = (decide (d = c) || rsc.hasCapability d) := by
  unfold setCapability hasCapability
  by_cases h : d = c
  · subst h
    simp
  · simp [Function.update, h]

theorem hasCapability_setCapabilities (l : List Capabilities) :
    ∀ (rsc : RenderSystemCapabilities) (d : Capabilities),
      (rsc.setCapabilities l).hasCapability d = (decide (d ∈ l) || rsc.hasCapability d) := by
  induction l with
  | nil => intro rsc d; simp [setCapabilities]
  | cons c rest ih =>
    intro rsc d
    have e : rsc.setCapabilities (c :: rest) = (rsc.setCapability c).setCapabilities rest := rfl
    rw [e, ih, hasCapability_setCapability]
    by_cases h1 : d = c <;> by_cases h2 : d ∈ rest <;> simp [h1, h2]

theorem hasCapability_addShaderProfile (rsc : RenderSystemCapabilities) (p : String)
    (d : Capabilities) : (rsc.addShaderProfile p).hasCapability d = rsc.hasCapability d := rfl

theorem hasCapability_addSM2ShaderProfile (rsc : RenderSystemCapabilities)
    (config : BuildConfig) (p : String) (d : Capabilities) :
    (rsc.addSM2ShaderProfile config p).hasCapability d = rsc.hasCapability d := by
  unfold addSM2ShaderProfile
  split <;> rfl

theorem hasCapability_convertVertexShaderCaps (config : BuildConfig) (rs : D3D11RenderSystem)
    (rsc : RenderSystemCapabilities) (d : Capabilities) :
    (convertVertexShaderCaps config rs rsc).hasCapability d
      = (decide (d = Capabilities.RSC_VERTEX_PROGRAM) || rsc.hasCapability d) := by
  unfold convertVertexShaderCaps
  show (RenderSystemCapabilities.setCapability _ _).hasCapability d = _
  rw [hasCapability_setCapability]
  congr 1
  split_ifs <;> simp only [hasCapability_addShaderProfile, hasCapability_addSM2ShaderProfile]

theorem hasCapability_convertPixelShaderCaps (config : BuildConfig) (rs : D3D11RenderSystem)
    (rsc : RenderSystemCapabilities) (d : Capabilities) :
    (convertPixelShaderCaps config rs rsc).hasCapability d
      = (decide (d = Capabilities.RSC_FRAGMENT_PROGRAM) || rsc.hasCapability d) := by
  unfold convertPixelShaderCaps
  show (RenderSystemCapabilities.setCapability _ _).hasCapability d = _
  rw [hasCapability_setCapability]
  congr 1
  split_ifs <;> simp only [hasCapability_addShaderProfile, hasCapability_addSM2ShaderProfile]

theorem hasCapability_convertGeometryShaderCaps (rs : D3D11RenderSystem)
    (rsc : RenderSystemCapabilities) (d : Capabilities) :
    (convertGeometryShaderCaps rs rsc).hasCapability d
      = ((decide (rs.mFeatureLevel ≥ D3D_FEATURE_LEVEL_10_0)
          && decide (d ∈ [Capabilities.RSC_GEOMETRY_PROGRAM,
            Capabilities.RSC_HWRENDER_TO_VERTEX_BUFFER]))
        || rsc.hasCapability d) := by
  unfold convertGeometryShaderCaps
  have e (r : RenderSystemCapabilities) :
      ((((r.setGeometryProgramConstantFloatCount 512).setGeometryProgramConstantIntCount
        16).setGeometryProgramConstantBoolCount 16).setGeometryProgramNumOutputVertices
          1024).hasCapability d = r.hasCapability d := rfl
  simp only [e]
  by_cases h : rs.mFeatureLevel ≥ D3D_FEATURE_LEVEL_10_0 <;>
    by_cases ha : d = Capabilities.RSC_GEOMETRY_PROGRAM <;>
    by_cases hb : d = Capabilities.RSC_HWRENDER_TO_VERTEX_BUFFER <;>
    split_ifs <;>
    simp [hasCapability_addShaderProfile, hasCapability_setCapability, h, ha, hb]

theorem hasCapability_convertHullShaderCaps (rs : D3D11RenderSystem)
    (rsc : RenderSystemCapabilities) (d : Capabilities) :
    (convertHullShaderCaps rs rsc).hasCapability d
      = ((decide (rs.mFeatureLevel ≥ D3D_FEATURE_LEVEL_11_0)
          && decide (d = Capabilities.RSC_TESSELLATION_HULL_PROGRAM))
        || rsc.hasCapability d) := by
  unfold convertHullShaderCaps
  split_ifs with h
  · show (RenderSystemCapabilities.setCapability _ _).hasCapability d = _
    rw [hasCapability_setCapability, hasCapability_addShaderProfile]
    simp [h]
  · simp [h]

theorem hasCapability_convertDomainShaderCaps (rs : D3D11RenderSystem)
    (rsc : RenderSystemCapabilities) (d : Capabilities) :
    (convertDomainShaderCaps rs rsc).hasCapability d
      = ((decide (rs.mFeatureLevel ≥ D3D_FEATURE_LEVEL_11_0)
          && decide (d = Capabilities.RSC_TESSELLATION_DOMAIN_PROGRAM))
        || rsc.hasCapability d) := by
  unfold convertDomainShaderCaps
  split_ifs with h
  · show (RenderSystemCapabilities.setCapability _ _).hasCapability d = _
    rw [hasCapability_setCapability, hasCapability_addShaderProfile]
    simp [h]
  · simp [h]

theorem hasCapability_convertComputeShaderCaps (rs : D3D11RenderSystem)
    (rsc : RenderSystemCapabilities) (d : Capabilities) :
    (convertComputeShaderCaps rs rsc).hasCapability d
      = ((decide (rs.mFeatureLevel ≥ D3D_FEATURE_LEVEL_10_0)
          && decide (d = Capabilities.RSC_COMPUTE_PROGRAM))
        || rsc.hasCapability d) := by
  unfold convertComputeShaderCaps
  have e (r : RenderSystemCapabilities) :
      (((r.setComputeProgramConstantBoolCount 16).setComputeProgramConstantIntCount
        16).setComputeProgramConstantFloatCount 512).hasCapability d = r.hasCapability d := rfl
  simp only [e]
  by_cases h : rs.mFeatureLevel ≥ D3D_FEATURE_LEVEL_10_0 <;>
    by_cases ha : d = Capabilities.RSC_COMPUTE_PROGRAM <;>
    split_ifs <;>
    simp [hasCapability_addShaderProfile, hasCapability_setCapability, h, ha]

open Capabilities in
/-- The capability flags that `createRenderSystemCapabilities` reports: those the object
was constructed with, those set at every feature level, and those set from a feature level
on. -/
theorem createRenderSystemCapabilities_hasCapability (config : BuildConfig)
    (rsc : RenderSystemCapabilities) (rs : D3D11RenderSystem) (formatSupport : HRESULT × Nat)
    (d : Capabilities) :
    (createRenderSystemCapabilities config rsc rs formatSupport).hasCapability d
      = (rsc.hasCapability d
        || decide (d ∈ [RSC_ADVANCED_BLEND_OPERATIONS, RSC_HWSTENCIL, RSC_ANISOTROPY,
            RSC_AUTOMIPMAP, RSC_AUTOMIPMAP_COMPRESSED, RSC_DOT3, RSC_TEXTURE_COMPRESSION,
            RSC_TEXTURE_COMPRESSION_DXT, RSC_SCISSOR_TEST, RSC_STENCIL_WRAP, RSC_HWOCCLUSION,
            RSC_HWOCCLUSION_ASYNCHRONOUS, RSC_VERTEX_PROGRAM, RSC_FRAGMENT_PROGRAM,
            RSC_USER_CLIP_PLANES, RSC_VERTEX_FORMAT_UBYTE4, RSC_RTT_SEPARATE_DEPTHBUFFER,
            RSC_RTT_MAIN_DEPTHBUFFER_ATTACHABLE, RSC_INFINITE_FAR_PLANE, RSC_TEXTURE_3D,
            RSC_HWRENDER_TO_TEXTURE, RSC_TEXTURE_FLOAT, RSC_MRT_DIFFERENT_BIT_DEPTHS,
            RSC_POINT_SPRITES, RSC_POINT_EXTENDED_PARAMETERS, RSC_VERTEX_TEXTURE_FETCH,
            RSC_MIPMAP_LOD_BIAS, RSC_PERSTAGECONSTANT, RSC_VERTEX_BUFFER_INSTANCE_DATA,
            RSC_CAN_GET_COMPILED_SHADER_BUFFER])
        || (decide (rs.mFeatureLevel ≥ D3D_FEATURE_LEVEL_9_2
              ∨ (SUCCEEDED formatSupport.1
                ∧ 0 ≠ formatSupport.2 &&& D3D11_FORMAT_SUPPORT_IA_INDEX_BUFFER))
            && decide (d = RSC_32BIT_INDEX))
        || (decide (rs.mFeatureLevel ≥ D3D_FEATURE_LEVEL_10_0)
            && decide (d ∈ [RSC_CUBEMAPPING, RSC_READ_BACK_AS_TEXTURE, RSC_TWO_SIDED_STENCIL,
              RSC_GEOMETRY_PROGRAM, RSC_HWRENDER_TO_VERTEX_BUFFER, RSC_COMPUTE_PROGRAM,
              RSC_NON_POWER_OF_2_TEXTURES, RSC_HWRENDER_TO_TEXTURE_3D, RSC_TEXTURE_1D,
              RSC_TEXTURE_COMPRESSION_BC6H_BC7, RSC_COMPLETE_TEXTURE_BINDING]))
        || (decide (rs.mFeatureLevel ≥ D3D_FEATURE_LEVEL_11_0)
            && decide (d ∈ [RSC_TESSELLATION_HULL_PROGRAM, RSC_TESSELLATION_DOMAIN_PROGRAM,
              RSC_SHADER_SUBROUTINE]))) := by
  have s1 (r : RenderSystemCapabilities) (v : DriverVersion) :
      (r.setDriverVersion v).hasCapability d = r.hasCapability d := rfl
  have s2 (r : RenderSystemCapabilities) (v : String) :
      (r.setDeviceName v).hasCapability d = r.hasCapability d := rfl
  have s3 (r : RenderSystemCapabilities) (v : String) :
      (r.setRenderSystemName v).hasCapability d = r.hasCapability d := rfl
  have s4 (r : RenderSystemCapabilities) (v : Nat) :
      (r.setStencilBufferBitDepth v).hasCapability d = r.hasCapability d := rfl
  have s5 (r : RenderSystemCapabilities) (v : Nat) :
      (r.setNumTextureUnits v).hasCapability d = r.hasCapability d := rfl
  have s6 (r : RenderSystemCapabilities) (v : Nat) :
      (r.setNumVertexAttributes v).hasCapability d = r.hasCapability d := rfl
  have s7 (r : RenderSystemCapabilities) (v : GPUVendor) :
      (r.setVendor v).hasCapability d = r.hasCapability d := rfl
  have s8 (r : RenderSystemCapabilities) (v : Nat) :
      (r.setNumMultiRenderTargets v).hasCapability d = r.hasCapability d := rfl
  have s9 (r : RenderSystemCapabilities) (v : ℚ) :
      (r.setMaxPointSize v).hasCapability d = r.hasCapability d := rfl
  have s10 (r : RenderSystemCapabilities) (v : Nat) :
      (r.setNumVertexTextureUnits v).hasCapability d = r.hasCapability d := rfl
  have s11 (r : RenderSystemCapabilities) (v : Bool) :
      (r.setVertexTextureUnitsShared v).hasCapability d = r.hasCapability d := rfl
  unfold createRenderSystemCapabilities
  by_cases h32 : rs.mFeatureLevel ≥ D3D_FEATURE_LEVEL_9_2
      ∨ (SUCCEEDED formatSupport.1
        ∧ 0 ≠ formatSupport.2 &&& D3D11_FORMAT_SUPPORT_IA_INDEX_BUFFER) <;>
    by_cases h10 : rs.mFeatureLevel ≥ D3D_FEATURE_LEVEL_10_0 <;>
    by_cases h11 : rs.mFeatureLevel ≥ D3D_FEATURE_LEVEL_11_0 <;>
    simp only [h32, h10, h11, if_true, if_false, s1, s2, s3, s4, s5, s6, s7, s8, s9, s10, s11,
      hasCapability_setCapabilities, hasCapability_setCapability, hasCapability_addShaderProfile,
      hasCapability_convertVertexShaderCaps, hasCapability_convertPixelShaderCaps,
      hasCapability_convertGeometryShaderCaps, hasCapability_convertHullShaderCaps,
      hasCapability_convertDomainShaderCaps, hasCapability_convertComputeShaderCaps,
      decide_True, decide_False, Bool.true_and, Bool.false_and, Bool.or_false, Bool.false_or] <;>
    generalize rsc.hasCapability d = b <;>
    cases b <;> cases d <;> rfl

theorem constantCounts_setCapabilities (l : List Capabilities) :
    ∀ rsc : RenderSystemCapabilities,
      (rsc.setCapabilities l).constantCounts = rsc.constantCounts := by
  induction l with
  | nil => intro rsc; rfl
  | cons c rest ih =>
    intro rsc
    have e : rsc.setCapabilities (c :: rest) = (rsc.setCapability c).setCapabilities rest := rfl
    rw [e, ih]
    rfl

theorem constantCounts_addSM2ShaderProfile (rsc : RenderSystemCapabilities)
    (config : BuildConfig) (p : String) :
    (rsc.addSM2ShaderProfile config p).constantCounts = rsc.constantCounts := by
  unfold addSM2ShaderProfile
  split <;> rfl

open GpuProgramType in
theorem constantCounts_convertVertexShaderCaps (config : BuildConfig) (rs : D3D11RenderSystem)
    (rsc : RenderSystemCapabilities) (stage : GpuProgramType) :
    (convertVertexShaderCaps config rs rsc).constantCounts stage
      = if stage = GPT_VERTEX_PROGRAM then (512, 16, 16) else rsc.constantCounts stage := by
  have e (r : RenderSystemCapabilities) :
      ((((r.setCapability Capabilities.RSC_VERTEX_PROGRAM).setVertexProgramConstantBoolCount
        16).setVertexProgramConstantIntCount 16).setVertexProgramConstantFloatCount
          512).constantCounts stage
        = if stage = GPT_VERTEX_PROGRAM then (512, 16, 16) else r.constantCounts stage := by
    cases stage <;> rfl
  have a (r : RenderSystemCapabilities) (p : String) :
      (r.addShaderProfile p).constantCounts = r.constantCounts := rfl
  unfold convertVertexShaderCaps
  simp only [e]
  split_ifs <;> simp only [a, constantCounts_addSM2ShaderProfile]

open GpuProgramType in
theorem constantCounts_convertPixelShaderCaps (config : BuildConfig) (rs : D3D11RenderSystem)
    (rsc : RenderSystemCapabilities) (stage : GpuProgramType) :
    (convertPixelShaderCaps config rs rsc).constantCounts stage
      = if stage = GPT_FRAGMENT_PROGRAM then (512, 16, 16) else rsc.constantCounts stage := by
  have e (r : RenderSystemCapabilities) :
      ((((r.setCapability Capabilities.RSC_FRAGMENT_PROGRAM).setFragmentProgramConstantBoolCount
        16).setFragmentProgramConstantIntCount 16).setFragmentProgramConstantFloatCount
          512).constantCounts stage
        = if stage = GPT_FRAGMENT_PROGRAM then (512, 16, 16) else r.constantCounts stage := by
    cases stage <;> rfl
  have a (r : RenderSystemCapabilities) (p : String) :
      (r.addShaderProfile p).constantCounts = r.constantCounts := rfl
  unfold convertPixelShaderCaps
  simp only [e]
  split_ifs <;> simp only [a, constantCounts_addSM2ShaderProfile]

open GpuProgramType in
theorem constantCounts_convertGeometryShaderCaps (rs : D3D11RenderSystem)
    (rsc : RenderSystemCapabilities) (stage : GpuProgramType) :
    (convertGeometryShaderCaps rs rsc).constantCounts stage
      = if stage = GPT_GEOMETRY_PROGRAM then (512, 16, 16) else rsc.constantCounts stage := by
  have e (r : RenderSystemCapabilities) :
      ((((r.setGeometryProgramConstantFloatCount 512).setGeometryProgramConstantIntCount
        16).setGeometryProgramConstantBoolCount 16).setGeometryProgramNumOutputVertices
          1024).constantCounts stage
        = if stage = GPT_GEOMETRY_PROGRAM then (512, 16, 16) else r.constantCounts stage := by
    cases stage <;> rfl
  have a (r : RenderSystemCapabilities) (p : String) :
      (r.addShaderProfile p).constantCounts = r.constantCounts := rfl
  have c (r : RenderSystemCapabilities) (x : Capabilities) :
      (r.setCapability x).constantCounts = r.constantCounts := rfl
  unfold convertGeometryShaderCaps
  simp only [e]
  split_ifs <;> simp only [a, c]

open GpuProgramType in
theorem constantCounts_convertComputeShaderCaps (rs : D3D11RenderSystem)
    (rsc : RenderSystemCapabilities) (stage : GpuProgramType) :
    (convertComputeShaderCaps rs rsc).constantCounts stage
      = if stage = GPT_COMPUTE_PROGRAM then (512, 16, 16) else rsc.constantCounts stage := by
  have e (r : RenderSystemCapabilities) :
      (((r.setComputeProgramConstantBoolCount 16).setComputeProgramConstantIntCount
        16).setComputeProgramConstantFloatCount 512).constantCounts stage
        = if stage = GPT_COMPUTE_PROGRAM then (512, 16, 16) else r.constantCounts stage := by
    cases stage <;> rfl
  have a (r : RenderSystemCapabilities) (p : String) :
      (r.addShaderProfile p).constantCounts = r.constantCounts := rfl
  have c (r : RenderSystemCapabilities) (x : Capabilities) :
      (r.setCapability x).constantCounts = r.constantCounts := rfl
  unfold convertComputeShaderCaps
  simp only [e]
  split_ifs <;> simp only [a, c]

open GpuProgramType in
theorem constantCounts_convertHullShaderCaps (rs : D3D11RenderSystem)
    (rsc : RenderSystemCapabilities) (stage : GpuProgramType) :
    (convertHullShaderCaps rs rsc).constantCounts stage
      = if rs.mFeatureLevel ≥ D3D_FEATURE_LEVEL_11_0 ∧ stage = GPT_HULL_PROGRAM then
          (512, 16, 16)
        else rsc.constantCounts stage := by
  unfold convertHullShaderCaps
  by_cases h : rs.mFeatureLevel ≥ D3D_FEATURE_LEVEL_11_0
  · simp only [h, if_true, true_and]
    cases stage <;> rfl
  · simp only [h, if_false, false_and]

open GpuProgramType in
theorem constantCounts_convertDomainShaderCaps (rs : D3D11RenderSystem)
    (rsc : RenderSystemCapabilities) (stage : GpuProgramType) :
    (convertDomainShaderCaps rs rsc).constantCounts stage
      = if rs.mFeatureLevel ≥ D3D_FEATURE_LEVEL_11_0 ∧ stage = GPT_DOMAIN_PROGRAM then
          (512, 16, 16)
        else rsc.constantCounts stage := by
  unfold convertDomainShaderCaps
  by_cases h : rs.mFeatureLevel ≥ D3D_FEATURE_LEVEL_11_0
  · simp only [h, if_true, true_and]
    cases stage <;> rfl
  · simp only [h, if_false, false_and]

open GpuProgramType in
/-- The constant counts that `createRenderSystemCapabilities` reports for a stage. -/
theorem createRenderSystemCapabilities_constantCounts (config : BuildConfig)
    (rsc : RenderSystemCapabilities) (rs : D3D11RenderSystem) (formatSupport : HRESULT × Nat)
    (stage : GpuProgramType) :
    (createRenderSystemCapabilities config rsc rs formatSupport).constantCounts stage
      = if (stage = GPT_HULL_PROGRAM ∨ stage = GPT_DOMAIN_PROGRAM)
            ∧ ¬ rs.mFeatureLevel ≥ D3D_FEATURE_LEVEL_11_0 then
          rsc.constantCounts stage
        else (512, 16, 16) := by
  have a (r : RenderSystemCapabilities) (p : String) :
      (r.addShaderProfile p).constantCounts = r.constantCounts := rfl
  have c (r : RenderSystemCapabilities) (x : Capabilities) :
      (r.setCapability x).constantCounts = r.constantCounts := rfl
  have s1 (r : RenderSystemCapabilities) (v : DriverVersion) :
      (r.setDriverVersion v).constantCounts = r.constantCounts := rfl
  have s2 (r : RenderSystemCapabilities) (v : String) :
      (r.setDeviceName v).constantCounts = r.constantCounts := rfl
  have s3 (r : RenderSystemCapabilities) (v : String) :
      (r.setRenderSystemName v).constantCounts = r.constantCounts := rfl
  have s4 (r : RenderSystemCapabilities) (v : Nat) :
      (r.setStencilBufferBitDepth v).constantCounts = r.constantCounts := rfl
  have s5 (r : RenderSystemCapabilities) (v : Nat) :
      (r.setNumTextureUnits v).constantCounts = r.constantCounts := rfl
  have s6 (r : RenderSystemCapabilities) (v : Nat) :
      (r.setNumVertexAttributes v).constantCounts = r.constantCounts := rfl
  have s7 (r : RenderSystemCapabilities) (v : GPUVendor) :
      (r.setVendor v).constantCounts = r.constantCounts := rfl
  have s8 (r : RenderSystemCapabilities) (v : Nat) :
      (r.setNumMultiRenderTargets v).constantCounts = r.constantCounts := rfl
  have s9 (r : RenderSystemCapabilities) (v : ℚ) :
      (r.setMaxPointSize v).constantCounts = r.constantCounts := rfl
  have s10 (r : RenderSystemCapabilities) (v : Nat) :
      (r.setNumVertexTextureUnits v).constantCounts = r.constantCounts := rfl
  have s11 (r : RenderSystemCapabilities) (v : Bool) :
      (r.setVertexTextureUnitsShared v).constantCounts = r.constantCounts := rfl
  unfold createRenderSystemCapabilities
  by_cases h32 : rs.mFeatureLevel ≥ D3D_FEATURE_LEVEL_9_2
      ∨ (SUCCEEDED formatSupport.1
        ∧ 0 ≠ formatSupport.2 &&& D3D11_FORMAT_SUPPORT_IA_INDEX_BUFFER) <;>
    by_cases h10 : rs.mFeatureLevel ≥ D3D_FEATURE_LEVEL_10_0 <;>
    by_cases h11 : rs.mFeatureLevel ≥ D3D_FEATURE_LEVEL_11_0 <;>
    simp only [h32, h10, h11, if_true, if_false, s1, s2, s3, s4, s5, s6, s7, s8, s9, s10, s11,
      a, c, constantCounts_setCapabilities, constantCounts_convertVertexShaderCaps,
      constantCounts_convertPixelShaderCaps, constantCounts_convertGeometryShaderCaps,
      constantCounts_convertHullShaderCaps, constantCounts_convertDomainShaderCaps,
      constantCounts_convertComputeShaderCaps] <;>
    cases stage <;> simp

end Capability

/-! ## Device-loss recovery -/

theorem capabilitiesKept_frame (Q : Call → Prop) : Frame (CapabilitiesKept Q) := by
  refine ⟨fun w => ⟨rfl, rfl, [], by simp, by simp⟩, ?_⟩
  intro a b c h k
  obtain ⟨l, hl, hq⟩ := h.calls
  obtain ⟨l', hl', hq'⟩ := k.calls
  refine ⟨k.real.trans h.real, k.current.trans h.current, l ++ l',
    by rw [hl', hl, List.append_assoc], ?_⟩
  intro x hx
  rcases List.mem_append.mp hx with h1 | h1
  · exact hq x h1
  · exact hq' x h1

theorem capabilitiesKept_native {Q : Call → Prop} {c : Call} (h : Q c) (w : World) :
    CapabilitiesKept Q w ⟨w.rs, w.calls ++ [c]⟩ :=
  ⟨rfl, rfl, [c], rfl, by simpa using h⟩

theorem capabilitiesKept_mono {Q Q' : Call → Prop} (hQ : ∀ c, Q c → Q' c) {a b : World}
    (h : CapabilitiesKept Q a b) : CapabilitiesKept Q' a b :=
  let ⟨l, hl, hq⟩ := h.calls
  ⟨h.real, h.current, l, hl, fun c hc => hQ c (hq c hc)⟩

theorem keeps_ask {α : Type} {R : World → World → Prop} (hR : Frame R)
    (answer : List Call → α) : M.Keeps R (ask answer) := fun w => hR.refl w

theorem keeps_collaborator {R : World → World → Prop} (hR : Frame R) {p : Platform}
    {c : Call} (h : ∀ w : World, R w ⟨w.rs, w.calls ++ [c]⟩) :
    M.Keeps R (collaborator p c) := by
  unfold collaborator
  refine keeps_bind hR (keeps_native h) fun _ => keeps_bind hR (keeps_ask hR _) fun e => ?_
  cases e with
  | none => exact keeps_pure hR _
  | some e => exact keeps_rethrow hR _

theorem keeps_OGRE_EXCEPT_EX {α : Type} {R : World → World → Prop} (hR : Frame R)
    (number : ExceptionCodes) (hr : HRESULT) (description source : String) :
    M.Keeps R (OGRE_EXCEPT_EX number hr description source : M α) := fun w => hR.refl w

theorem attemptCreateDevice_keeps (p : Platform) (pAdapter : Option Handle)
    (driverType : D3D_DRIVER_TYPE) (flags : Nat) (levels : List D3D_FEATURE_LEVEL)
    (store : Bool) :
    M.Keeps (CapabilitiesKept fun c => c.isRecreation = true)
      (attemptCreateDevice p pAdapter driverType flags levels store) := by
  unfold attemptCreateDevice
  refine keeps_bind (capabilitiesKept_frame _) (keeps_native (capabilitiesKept_native rfl))
    fun _ => keeps_bind (capabilitiesKept_frame _) (keeps_ask (capabilitiesKept_frame _) _)
      fun r => ?_
  obtain ⟨hr, device, level⟩ := r
  cases level with
  | none =>
    exact keeps_bind (capabilitiesKept_frame _) (keeps_pure (capabilitiesKept_frame _) _)
      fun _ => keeps_pure (capabilitiesKept_frame _) _
  | some level =>
    repeat' first
      | exact keeps_pure (capabilitiesKept_frame _) _
      | exact keeps_modifyRS fun _ => ⟨rfl, rfl, [], by simp, by simp⟩
      | refine keeps_ite ?_ ?_
      | refine keeps_bind (capabilitiesKept_frame _) ?_ fun _ => ?_

theorem createD3D11Device_keeps (config : BuildConfig) (p : Platform)
    (d3dDriver : Option D3D11Driver) (driverType : D3D_DRIVER_TYPE)
    (minFL maxFL : D3D_FEATURE_LEVEL) (store : Bool) :
    M.Keeps (CapabilitiesKept fun c => c.isRecreation = true)
      (createD3D11Device config p d3dDriver driverType minFL maxFL store) := by
  unfold createD3D11Device
  simp only []
  split
  · exact keeps_OGRE_EXCEPT (capabilitiesKept_frame _) _ _ _
  · refine keeps_bind (capabilitiesKept_frame _) (attemptCreateDevice_keeps _ _ _ _ _ _)
      fun r => ?_
    repeat' first
      | exact keeps_pure (capabilitiesKept_frame _) _
      | exact keeps_OGRE_EXCEPT_EX (capabilitiesKept_frame _) _ _ _ _
      | exact attemptCreateDevice_keeps _ _ _ _ _ _
      | refine keeps_ite ?_ ?_
      | refine keeps_bind (capabilitiesKept_frame _) ?_ fun _ => ?_

theorem getDirect3DDrivers_keeps (p : Platform) (refreshList : Bool) :
    M.Keeps (CapabilitiesKept fun c => c.isRecreation = true)
      (getDirect3DDrivers p refreshList) := by
  unfold getDirect3DDrivers
  repeat' first
    | exact keeps_pure (capabilitiesKept_frame _) _
    | exact keeps_ask (capabilitiesKept_frame _) _
    | exact keeps_collaborator (capabilitiesKept_frame _) (capabilitiesKept_native rfl)
    | refine keeps_ite ?_ ?_
    | refine keeps_bind (capabilitiesKept_frame _) ?_ fun _ => ?_

theorem createDevice_keeps (config : BuildConfig) (p : Platform) :
    M.Keeps (CapabilitiesKept fun c => c.isRecreation = true) (createDevice config p) := by
  unfold createDevice
  refine keeps_bind (capabilitiesKept_frame _)
    (keeps_collaborator (capabilitiesKept_frame _) (capabilitiesKept_native rfl)) fun _ => ?_
  refine keeps_bind (capabilitiesKept_frame _)
    (keeps_modifyRS fun _ => ⟨rfl, rfl, [], by simp, by simp⟩) fun _ => ?_
  refine keeps_bind (capabilitiesKept_frame _) (keeps_getRS (capabilitiesKept_frame _))
    fun rs => ?_
  refine keeps_bind (capabilitiesKept_frame _) (getDirect3DDrivers_keeps _ _) fun _ => ?_
  refine keeps_bind (capabilitiesKept_frame _) (keeps_ask (capabilitiesKept_frame _) _)
    fun d3dDriver => ?_
  refine keeps_bind (capabilitiesKept_frame _)
    (keeps_modifyRS fun _ => ⟨rfl, rfl, [], by simp, by simp⟩) fun _ => ?_
  have tail (driver : D3D11Driver) :
      M.Keeps (CapabilitiesKept fun c => c.isRecreation = true) (do
        let device ← createD3D11Device config p (some driver) rs.mDriverType
          rs.mMinRequestedFeatureLevel rs.mMaxRequestedFeatureLevel true
        modifyRS fun rs => { rs with mD3D11Device := device }
        let driverVersion ← ask p.GetDriverVersion
        modifyRS fun rs =>
          { rs with
            mDriverVersion :=
              { major := HIWORD driverVersion.1
                minor := LOWORD driverVersion.1
                release := HIWORD driverVersion.2
                build := LOWORD driverVersion.2 } }) := by
    refine keeps_bind (capabilitiesKept_frame _) (createD3D11Device_keeps _ _ _ _ _ _ _)
      fun _ => ?_
    refine keeps_bind (capabilitiesKept_frame _)
      (keeps_modifyRS fun _ => ⟨rfl, rfl, [], by simp, by simp⟩) fun _ => ?_
    exact keeps_bind (capabilitiesKept_frame _) (keeps_ask (capabilitiesKept_frame _) _)
      fun _ => keeps_modifyRS fun _ => ⟨rfl, rfl, [], by simp, by simp⟩
  refine keeps_ite ?_ ?_
  · exact keeps_bind (capabilitiesKept_frame _) (getDirect3DDrivers_keeps _ _) fun _ =>
      keeps_bind (capabilitiesKept_frame _) (keeps_ask (capabilitiesKept_frame _) _)
        fun _ => tail _
  · exact keeps_bind (capabilitiesKept_frame _) (keeps_pure (capabilitiesKept_frame _) _)
      fun _ => tail _

theorem fireDeviceEvent_keeps (p : Platform) (name : String) :
    M.Keeps (CapabilitiesKept fun c => c.isDraw = false) (fireDeviceEvent p name) := by
  unfold fireDeviceEvent
  exact keeps_bind (capabilitiesKept_frame _) (keeps_getRS (capabilitiesKept_frame _)) fun _ =>
    keeps_collaborator (capabilitiesKept_frame _) (capabilitiesKept_native rfl)

theorem forEachSceneManager_keeps (p : Platform) (method : Handle → Call)
    (h : ∀ sceneManager, (method sceneManager).isDraw = false) (l : List Handle) :
    M.Keeps (CapabilitiesKept fun c => c.isDraw = false) (forEachSceneManager p method l) := by
  induction l with
  | nil => exact keeps_pure (capabilitiesKept_frame _) _
  | cons sceneManager rest ih =>
    unfold forEachSceneManager
    exact keeps_bind (capabilitiesKept_frame _)
      (keeps_collaborator (capabilitiesKept_frame _) (capabilitiesKept_native (h _)))
      fun _ => ih

theorem isDraw_of_isRecreation (c : Call) (h : c.isRecreation = true) : c.isDraw = false := by
  cases c <;> first | rfl | cases h

theorem createDevice_issues_no_draw (config : BuildConfig) (p : Platform) :
    M.Keeps (CapabilitiesKept fun c => c.isDraw = false) (createDevice config p) := by
  refine keeps_mono (createDevice_keeps config p) ?_
  intro a b h
  exact capabilitiesKept_mono isDraw_of_isRecreation h

/-- Device-loss recovery keeps the capability objects of the render system, and issues no
draw call. -/
theorem handleDeviceLost_keeps (config : BuildConfig) (p : Platform) :
    M.Keeps (CapabilitiesKept fun c => c.isDraw = false) (handleDeviceLost config p) := by
  unfold handleDeviceLost
  repeat' first
    | exact keeps_pure (capabilitiesKept_frame _) _
    | exact keeps_getRS (capabilitiesKept_frame _)
    | exact keeps_ask (capabilitiesKept_frame _) _
    | exact keeps_modifyRS fun _ => ⟨rfl, rfl, [], by simp, by simp⟩
    | exact keeps_collaborator (capabilitiesKept_frame _) (capabilitiesKept_native rfl)
    | exact fireDeviceEvent_keeps _ _
    | exact forEachSceneManager_keeps p Call._releaseManualHardwareResources (fun _ => rfl) _
    | exact forEachSceneManager_keeps p Call._restoreManualHardwareResources (fun _ => rfl) _
    | exact createDevice_issues_no_draw _ _
    | refine keeps_bind (capabilitiesKept_frame _) ?_ fun _ => ?_

theorem yields_ite {α : Type} {S : World → World → Prop} {c : Prop} [Decidable c]
    {a b : M α} (ha : M.Yields S a) (hb : M.Yields S b) : M.Yields S (if c then a else b) := by
  split
  · exact ha
  · exact hb

theorem createsDevice_then {Q : Call → Prop} {a b c : World} (h : CreatesDevice a b)
    (k : CapabilitiesKept Q b c) : CreatesDevice a c := by
  obtain ⟨l, hl, x, hx, hc⟩ := h
  obtain ⟨l', hl', -⟩ := k.calls
  exact ⟨l ++ l', by rw [hl', hl, List.append_assoc], x, List.mem_append_left _ hx, hc⟩

theorem then_createsDevice {Q : Call → Prop} {a b c : World} (h : CapabilitiesKept Q a b)
    (k : CreatesDevice b c) : CreatesDevice a c := by
  obtain ⟨l, hl, -⟩ := h.calls
  obtain ⟨l', hl', x, hx, hc⟩ := k
  exact ⟨l ++ l', by rw [hl', hl, List.append_assoc], x, List.mem_append_right _ hx, hc⟩

theorem yields_then {α β : Type} {m : M α} {f : α → M β} (hm : M.Yields CreatesDevice m)
    (hf : ∀ a, M.Keeps (CapabilitiesKept fun c => c.isRecreation = true) (f a)) :
    M.Yields CreatesDevice (m >>= f) := by
  intro w b h
  obtain ⟨a, ha, e⟩ := M.ok_of_bind h
  rw [e]
  exact createsDevice_then (hm w a ha) (hf a _)

theorem then_yields {α β : Type} {m : M α} {f : α → M β}
    (hm : M.Keeps (CapabilitiesKept fun c => c.isRecreation = true) m)
    (hf : ∀ a, M.Yields CreatesDevice (f a)) : M.Yields CreatesDevice (m >>= f) := by
  intro w b h
  obtain ⟨a, ha, e⟩ := M.ok_of_bind h
  rw [e] at h ⊢
  exact then_createsDevice (hm w) (hf a _ b h)

theorem attemptCreateDevice_yields (p : Platform) (pAdapter : Option Handle)
    (driverType : D3D_DRIVER_TYPE) (flags : Nat) (levels : List D3D_FEATURE_LEVEL)
    (store : Bool) :
    M.Yields CreatesDevice (attemptCreateDevice p pAdapter driverType flags levels store) := by
  intro w a _
  obtain ⟨l, hl, -⟩ := (attemptCreateDevice_keeps p pAdapter driverType flags levels store w).calls
  have e : (attemptCreateDevice p pAdapter driverType flags levels store w).2.calls
      = w.calls ++ [Call.D3D11CreateDeviceN pAdapter driverType flags levels] := by
    unfold attemptCreateDevice
    rw [native_bind]
    show ((ask p.createdDevice >>= _) _).2.calls = _
    rw [M.bind_ok (ask p.createdDevice) _ _ _ rfl]
    rcases p.createdDevice (w.calls ++ [Call.D3D11CreateDeviceN pAdapter driverType flags levels])
      with ⟨hr, device, level⟩
    cases level with
    | none => rfl
    | some level => cases store <;> rfl
  exact ⟨_, e, _, List.mem_singleton_self _, rfl⟩

theorem createD3D11Device_yields (config : BuildConfig) (p : Platform)
    (d3dDriver : Option D3D11Driver) (driverType : D3D_DRIVER_TYPE)
    (minFL maxFL : D3D_FEATURE_LEVEL) (store : Bool) :
    M.Yields CreatesDevice
      (createD3D11Device config p d3dDriver driverType minFL maxFL store) := by
  unfold createD3D11Device
  simp only []
  split
  · intro w a h
    cases h
  · refine yields_then (attemptCreateDevice_yields _ _ _ _ _ _)
      fun r => ?_
    repeat' first
      | exact keeps_pure (capabilitiesKept_frame _) _
      | exact keeps_OGRE_EXCEPT_EX (capabilitiesKept_frame _) _ _ _ _
      | exact attemptCreateDevice_keeps _ _ _ _ _ _
      | refine keeps_ite ?_ ?_
      | refine keeps_bind (capabilitiesKept_frame _) ?_ fun _ => ?_

/-- When `createDevice` returns, it has issued a native device creation. -/
theorem createDevice_yields (config : BuildConfig) (p : Platform) :
    M.Yields CreatesDevice (createDevice config p) := by
  unfold createDevice
  refine then_yields
    (keeps_collaborator (capabilitiesKept_frame fun c => c.isRecreation = true)
      (capabilitiesKept_native rfl)) fun _ => ?_
  refine then_yields
    (keeps_modifyRS fun _ => ⟨rfl, rfl, [], by simp, by simp⟩) fun _ => ?_
  refine then_yields
    (keeps_getRS (capabilitiesKept_frame fun c => c.isRecreation = true)) fun rs => ?_
  refine then_yields (getDirect3DDrivers_keeps _ _) fun _ => ?_
  refine then_yields
    (keeps_ask (capabilitiesKept_frame fun c => c.isRecreation = true) _) fun d3dDriver => ?_
  refine then_yields
    (keeps_modifyRS fun _ => ⟨rfl, rfl, [], by simp, by simp⟩) fun _ => ?_
  have tail (driver : D3D11Driver) :
      M.Yields CreatesDevice (do
        let device ← createD3D11Device config p (some driver) rs.mDriverType
          rs.mMinRequestedFeatureLevel rs.mMaxRequestedFeatureLevel true
        modifyRS fun rs => { rs with mD3D11Device := device }
        let driverVersion ← ask p.GetDriverVersion
        modifyRS fun rs =>
          { rs with
            mDriverVersion :=
              { major := HIWORD driverVersion.1
                minor := LOWORD driverVersion.1
                release := HIWORD driverVersion.2
                build := LOWORD driverVersion.2 } }) := by
    refine yields_then (createD3D11Device_yields _ _ _ _ _ _ _)
      fun _ => ?_
    refine keeps_bind (capabilitiesKept_frame fun c => c.isRecreation = true)
      (keeps_modifyRS fun _ => ⟨rfl, rfl, [], by simp, by simp⟩) fun _ => ?_
    exact keeps_bind (capabilitiesKept_frame _) (keeps_ask (capabilitiesKept_frame _) _)
      fun _ => keeps_modifyRS fun _ => ⟨rfl, rfl, [], by simp, by simp⟩
  refine yields_ite ?_ ?_
  · exact then_yields (getDirect3DDrivers_keeps _ _) fun _ =>
      then_yields
        (keeps_ask (capabilitiesKept_frame fun c => c.isRecreation = true) _) fun _ => tail _
  · exact then_yields
      (keeps_pure (capabilitiesKept_frame fun c => c.isRecreation = true) _) fun _ => tail _

theorem ask_bind {α β : Type} (answer : List Call → α) (f : α → M β) (w : World) :
    (ask answer >>= f) w = f (answer w.calls) w := rfl

theorem collaborator_world (p : Platform) (c : Call) (w : World) :
    (collaborator p c w).2 = ⟨w.rs, w.calls ++ [c]⟩ := by
  unfold collaborator
  rw [native_bind, ask_bind]
  cases p.raised (w.calls ++ [c]) <;> rfl

theorem collaborator_bind {β : Type} {p : Platform} {c : Call} {f : Unit → M β} {w : World}
    {b : β} (h : ((collaborator p c >>= f) w).1 = Except.ok b) :
    (collaborator p c >>= f) w = f () ⟨w.rs, w.calls ++ [c]⟩ := by
  obtain ⟨a, -, e⟩ := M.ok_of_bind h
  rw [e, collaborator_world]

theorem fireDeviceEvent_bind {β : Type} {p : Platform} {name : String} {f : Unit → M β}
    {w : World} {b : β} (h : ((fireDeviceEvent p name >>= f) w).1 = Except.ok b) :
    (fireDeviceEvent p name >>= f) w
      = f () ⟨w.rs, w.calls ++ [Call.fireEvent name w.rs.mD3D11Device]⟩ := by
  obtain ⟨a, -, e⟩ := M.ok_of_bind h
  rw [e]
  unfold fireDeviceEvent
  rw [getRS_bind, collaborator_world]

theorem forEachSceneManager_world (p : Platform) (method : Handle → Call) (l : List Handle) :
    ∀ w, (forEachSceneManager p method l w).1 = Except.ok () →
      (forEachSceneManager p method l w).2 = ⟨w.rs, w.calls ++ l.map method⟩ := by
  induction l with
  | nil => intro w _; simp [forEachSceneManager]; rfl
  | cons sceneManager rest ih =>
    intro w h
    unfold forEachSceneManager at h ⊢
    have e := collaborator_bind h
    rw [e] at h ⊢
    rw [ih _ h]
    simp

theorem forEachSceneManager_bind {β : Type} {p : Platform} {method : Handle → Call}
    {l : List Handle} {f : Unit → M β} {w : World} {b : β}
    (h : ((forEachSceneManager p method l >>= f) w).1 = Except.ok b) :
    (forEachSceneManager p method l >>= f) w = f () ⟨w.rs, w.calls ++ l.map method⟩ := by
  obtain ⟨a, ha, e⟩ := M.ok_of_bind h
  rw [e, forEachSceneManager_world p method l w ha]

/-- The calls of a `handleDeviceLost` that returns, in order. -/
theorem handleDeviceLost_calls (config : BuildConfig) (p : Platform) (w : World)
    (hok : (handleDeviceLost config p w).1 = Except.ok ()) :
    ∃ recreated : World,
      (createDevice config p
          ⟨w.rs, w.calls ++ [Call.fireEvent "DeviceLost" w.rs.mD3D11Device]
            ++ (p.sceneManagers (w.calls ++ [Call.fireEvent "DeviceLost" w.rs.mD3D11Device])).map
              Call._releaseManualHardwareResources
            ++ [Call.notifyDeviceLost w.rs.mD3D11Device, Call._releaseBufferCopies true,
              Call._cleanupDepthBuffers]⟩).1 = Except.ok ()
      ∧ recreated = (createDevice config p
          ⟨w.rs, w.calls ++ [Call.fireEvent "DeviceLost" w.rs.mD3D11Device]
            ++ (p.sceneManagers (w.calls ++ [Call.fireEvent "DeviceLost" w.rs.mD3D11Device])).map
              Call._releaseManualHardwareResources
            ++ [Call.notifyDeviceLost w.rs.mD3D11Device, Call._releaseBufferCopies true,
              Call._cleanupDepthBuffers]⟩).2
      ∧ (handleDeviceLost config p w).2
        = ⟨{ recreated.rs with mActiveViewport := none },
            recreated.calls
              ++ [Call.notifyDeviceRestored recreated.rs.mD3D11Device, Call.reloadAll]
              ++ (p.sceneManagers (recreated.calls
                  ++ [Call.notifyDeviceRestored recreated.rs.mD3D11Device, Call.reloadAll])).map
                Call._restoreManualHardwareResources
              ++ [Call.fireEvent "DeviceRestored" recreated.rs.mD3D11Device]⟩ := by
  unfold handleDeviceLost at hok ⊢
  have e1 := fireDeviceEvent_bind hok
  rw [e1] at hok ⊢
  rw [ask_bind] at hok ⊢
  have e2 := forEachSceneManager_bind hok
  rw [e2] at hok ⊢
  rw [getRS_bind] at hok ⊢
  have e3 := collaborator_bind hok
  rw [e3] at hok ⊢
  have e4 := collaborator_bind hok
  rw [e4] at hok ⊢
  have e5 := collaborator_bind hok
  rw [e5] at hok ⊢
  simp only [List.append_assoc, List.singleton_append, List.cons_append, List.nil_append]
    at hok ⊢
  obtain ⟨_, hc, e6⟩ := M.ok_of_bind hok
  refine ⟨_, hc, rfl, ?_⟩
  rw [e6] at hok ⊢
  rw [getRS_bind] at hok ⊢
  have e7 := collaborator_bind hok
  rw [e7] at hok ⊢
  have e8 := collaborator_bind hok
  rw [e8] at hok ⊢
  rw [ask_bind] at hok ⊢
  have e9 := forEachSceneManager_bind hok
  rw [e9] at hok ⊢
  rw [modifyRS_bind] at hok ⊢
  unfold fireDeviceEvent
  rw [getRS_bind, collaborator_world]
  simp only [List.append_assoc, List.singleton_append, List.cons_append, List.nil_append]

/-! ## Interception of device loss -/

theorem catchDeviceLoss_result (body : M Unit) (w : World) (e : OgreException) (hr : HRESULT)
    (h : (body w).1 = Except.error e) (hcode : e.getHResult = some hr) :
    ((catchDeviceLoss body w).1 = Except.error e
      ↔ hr ≠ DXGI_ERROR_DEVICE_REMOVED ∧ hr ≠ DXGI_ERROR_DEVICE_RESET)
    ∧ ((catchDeviceLoss body w).1 = Except.ok ()
      ↔ hr = DXGI_ERROR_DEVICE_REMOVED ∨ hr = DXGI_ERROR_DEVICE_RESET) := by
  unfold catchDeviceLoss
  simp only [h, hcode]
  by_cases hc : hr = DXGI_ERROR_DEVICE_REMOVED ∨ hr = DXGI_ERROR_DEVICE_RESET
  · rw [if_pos hc]
    refine ⟨⟨fun k => Except.noConfusion k, fun k => absurd hc (not_or.mpr k)⟩,
      fun _ => hc, fun _ => rfl⟩
  · rw [if_neg hc]
    refine ⟨⟨fun _ => not_or.mp hc, fun _ => rfl⟩,
      fun k => Except.noConfusion k, fun k => absurd k hc⟩

/-! ## Shader profiles and feature levels -/

section Profiles

open RenderSystemCapabilities

theorem profiles_setCapabilities (l : List Capabilities) :
    ∀ rsc : RenderSystemCapabilities,
      (rsc.setCapabilities l).mSupportedShaderProfiles = rsc.mSupportedShaderProfiles := by
  induction l with
  | nil => intro rsc; rfl
  | cons c rest ih =>
    intro rsc
    have e : rsc.setCapabilities (c :: rest) = (rsc.setCapability c).setCapabilities rest := rfl
    rw [e, ih]
    rfl

/-- The profiles that `convertVertexShaderCaps` adds, in the order it adds them. -/
theorem profiles_convertVertexShaderCaps (config : BuildConfig) (rs : D3D11RenderSystem)
    (rsc : RenderSystemCapabilities) :
    (convertVertexShaderCaps config rs rsc).mSupportedShaderProfiles
      = rsc.mSupportedShaderProfiles
        ++ (if rs.mFeatureLevel ≥ D3D_FEATURE_LEVEL_9_1 then
            "vs_4_0_level_9_1" :: (if config.SUPPORT_SM2_0_HLSL_SHADERS then ["vs_2_0"] else [])
          else [])
        ++ (if rs.mFeatureLevel ≥ D3D_FEATURE_LEVEL_9_3 then
            "vs_4_0_level_9_3"
              :: (if config.SUPPORT_SM2_0_HLSL_SHADERS then ["vs_2_a", "vs_2_x"] else [])
          else [])
        ++ (if rs.mFeatureLevel ≥ D3D_FEATURE_LEVEL_10_0 then
            "vs_4_0" :: (if config.SUPPORT_SM2_0_HLSL_SHADERS then ["vs_3_0"] else [])
          else [])
        ++ (if rs.mFeatureLevel ≥ D3D_FEATURE_LEVEL_10_1 then ["vs_4_1"] else [])
        ++ (if rs.mFeatureLevel ≥ D3D_FEATURE_LEVEL_11_0 then ["vs_5_0"] else []) := by
  unfold convertVertexShaderCaps
  have e (r : RenderSystemCapabilities) :
      ((((r.setCapability Capabilities.RSC_VERTEX_PROGRAM).setVertexProgramConstantBoolCount
        16).setVertexProgramConstantIntCount 16).setVertexProgramConstantFloatCount
          512).mSupportedShaderProfiles = r.mSupportedShaderProfiles := rfl
  simp only [e]
  by_cases h1 : rs.mFeatureLevel ≥ D3D_FEATURE_LEVEL_9_1 <;>
    by_cases h2 : rs.mFeatureLevel ≥ D3D_FEATURE_LEVEL_9_3 <;>
    by_cases h3 : rs.mFeatureLevel ≥ D3D_FEATURE_LEVEL_10_0 <;>
    by_cases h4 : rs.mFeatureLevel ≥ D3D_FEATURE_LEVEL_10_1 <;>
    by_cases h5 : rs.mFeatureLevel ≥ D3D_FEATURE_LEVEL_11_0 <;>
    cases hs : config.SUPPORT_SM2_0_HLSL_SHADERS <;>
    simp [h1, h2, h3, h4, h5, hs, addShaderProfile, addSM2ShaderProfile]

/-- The profiles that `convertPixelShaderCaps` adds, in the order it adds them. -/
theorem profiles_convertPixelShaderCaps (config : BuildConfig) (rs : D3D11RenderSystem)
    (rsc : RenderSystemCapabilities) :
    (convertPixelShaderCaps config rs rsc).mSupportedShaderProfiles
      = rsc.mSupportedShaderProfiles
        ++ (if rs.mFeatureLevel ≥ D3D_FEATURE_LEVEL_9_1 then
            "ps_4_0_level_9_1" :: (if config.SUPPORT_SM2_0_HLSL_SHADERS then ["ps_2_0"] else [])
          else [])
        ++ (if rs.mFeatureLevel ≥ D3D_FEATURE_LEVEL_9_3 then
            "ps_4_0_level_9_3"
              :: (if config.SUPPORT_SM2_0_HLSL_SHADERS then ["ps_2_a", "ps_2_b", "ps_2_x"]
                else [])
          else [])
        ++ (if rs.mFeatureLevel ≥ D3D_FEATURE_LEVEL_10_0 then
            "ps_4_0"
              :: (if config.SUPPORT_SM2_0_HLSL_SHADERS then ["ps_3_0", "ps_3_x"] else [])
          else [])
        ++ (if rs.mFeatureLevel ≥ D3D_FEATURE_LEVEL_10_1 then ["ps_4_1"] else [])
        ++ (if rs.mFeatureLevel ≥ D3D_FEATURE_LEVEL_11_0 then ["ps_5_0"] else []) := by
  unfold convertPixelShaderCaps
  have e (r : RenderSystemCapabilities) :
      ((((r.setCapability Capabilities.RSC_FRAGMENT_PROGRAM).setFragmentProgramConstantBoolCount
        16).setFragmentProgramConstantIntCount 16).setFragmentProgramConstantFloatCount
          512).mSupportedShaderProfiles = r.mSupportedShaderProfiles := rfl
  simp only [e]
  by_cases h1 : rs.mFeatureLevel ≥ D3D_FEATURE_LEVEL_9_1 <;>
    by_cases h2 : rs.mFeatureLevel ≥ D3D_FEATURE_LEVEL_9_3 <;>
    by_cases h3 : rs.mFeatureLevel ≥ D3D_FEATURE_LEVEL_10_0 <;>
    by_cases h4 : rs.mFeatureLevel ≥ D3D_FEATURE_LEVEL_10_1 <;>
    by_cases h5 : rs.mFeatureLevel ≥ D3D_FEATURE_LEVEL_11_0 <;>
    cases hs : config.SUPPORT_SM2_0_HLSL_SHADERS <;>
    simp [h1, h2, h3, h4, h5, hs, addShaderProfile, addSM2ShaderProfile]

/-- The profiles that `convertGeometryShaderCaps` adds, in the order it adds them. -/
theorem profiles_convertGeometryShaderCaps (rs : D3D11RenderSystem)
    (rsc : RenderSystemCapabilities) :
    (convertGeometryShaderCaps rs rsc).mSupportedShaderProfiles
      = rsc.mSupportedShaderProfiles
        ++ (if rs.mFeatureLevel ≥ D3D_FEATURE_LEVEL_10_0 then ["gs_4_0"] else [])
        ++ (if rs.mFeatureLevel ≥ D3D_FEATURE_LEVEL_10_1 then ["gs_4_1"] else [])
        ++ (if rs.mFeatureLevel ≥ D3D_FEATURE_LEVEL_11_0 then ["gs_5_0"] else []) := by
  unfold convertGeometryShaderCaps
  have e (r : RenderSystemCapabilities) :
      ((((r.setGeometryProgramConstantFloatCount 512).setGeometryProgramConstantIntCount
        16).setGeometryProgramConstantBoolCount 16).setGeometryProgramNumOutputVertices
          1024).mSupportedShaderProfiles = r.mSupportedShaderProfiles := rfl
  simp only [e]
  by_cases h3 : rs.mFeatureLevel ≥ D3D_FEATURE_LEVEL_10_0 <;>
    by_cases h4 : rs.mFeatureLevel ≥ D3D_FEATURE_LEVEL_10_1 <;>
    by_cases h5 : rs.mFeatureLevel ≥ D3D_FEATURE_LEVEL_11_0 <;>
    simp [h3, h4, h5, addShaderProfile, setCapability]

/-- The profile that `convertHullShaderCaps` adds. -/
theorem profiles_convertHullShaderCaps (rs : D3D11RenderSystem)
    (rsc : RenderSystemCapabilities) :
    (convertHullShaderCaps rs rsc).mSupportedShaderProfiles
      = rsc.mSupportedShaderProfiles
        ++ (if rs.mFeatureLevel ≥ D3D_FEATURE_LEVEL_11_0 then ["hs_5_0"] else []) := by
  unfold convertHullShaderCaps
  by_cases h5 : rs.mFeatureLevel ≥ D3D_FEATURE_LEVEL_11_0 <;>
    simp [h5, addShaderProfile, setCapability]

/-- The profile that `convertDomainShaderCaps` adds. -/
theorem profiles_convertDomainShaderCaps (rs : D3D11RenderSystem)
    (rsc : RenderSystemCapabilities) :
    (convertDomainShaderCaps rs rsc).mSupportedShaderProfiles
      = rsc.mSupportedShaderProfiles
        ++ (if rs.mFeatureLevel ≥ D3D_FEATURE_LEVEL_11_0 then ["ds_5_0"] else []) := by
  unfold convertDomainShaderCaps
  by_cases h5 : rs.mFeatureLevel ≥ D3D_FEATURE_LEVEL_11_0 <;>
    simp [h5, addShaderProfile, setCapability]

/-- The profiles that `convertComputeShaderCaps` adds, in the order it adds them. -/
theorem profiles_convertComputeShaderCaps (rs : D3D11RenderSystem)
    (rsc : RenderSystemCapabilities) :
    (convertComputeShaderCaps rs rsc).mSupportedShaderProfiles
      = rsc.mSupportedShaderProfiles
        ++ (if rs.mFeatureLevel ≥ D3D_FEATURE_LEVEL_10_0 then ["cs_4_0"] else [])
        ++ (if rs.mFeatureLevel ≥ D3D_FEATURE_LEVEL_10_1 then ["cs_4_1"] else [])
        ++ (if rs.mFeatureLevel ≥ D3D_FEATURE_LEVEL_11_0 then ["cs_5_0"] else []) := by
  unfold convertComputeShaderCaps
  have e (r : RenderSystemCapabilities) :
      (((r.setComputeProgramConstantBoolCount 16).setComputeProgramConstantIntCount
        16).setComputeProgramConstantFloatCount 512).mSupportedShaderProfiles
        = r.mSupportedShaderProfiles := rfl
  simp only [e]
  by_cases h3 : rs.mFeatureLevel ≥ D3D_FEATURE_LEVEL_10_0 <;>
    by_cases h4 : rs.mFeatureLevel ≥ D3D_FEATURE_LEVEL_10_1 <;>
    by_cases h5 : rs.mFeatureLevel ≥ D3D_FEATURE_LEVEL_11_0 <;>
    simp [h3, h4, h5, addShaderProfile, setCapability]

/-- The shader profiles that `createRenderSystemCapabilities` reports: those the object was
constructed with, then those of the six stages, each from its feature level on, then
`hlsl`. -/
theorem createRenderSystemCapabilities_profiles (config : BuildConfig)
    (rsc : RenderSystemCapabilities) (rs : D3D11RenderSystem) (formatSupport : HRESULT × Nat) :
    (createRenderSystemCapabilities config rsc rs formatSupport).mSupportedShaderProfiles
      = (convertComputeShaderCaps rs (convertDomainShaderCaps rs (convertHullShaderCaps rs
          (convertGeometryShaderCaps rs (convertPixelShaderCaps config rs
            (convertVertexShaderCaps config rs rsc)))))).mSupportedShaderProfiles
        ++ ["hlsl"] := by
  have s1 (r : RenderSystemCapabilities) (v : DriverVersion) :
      (r.setDriverVersion v).mSupportedShaderProfiles = r.mSupportedShaderProfiles := rfl
  have s2 (r : RenderSystemCapabilities) (v : String) :
      (r.setDeviceName v).mSupportedShaderProfiles = r.mSupportedShaderProfiles := rfl
  have s3 (r : RenderSystemCapabilities) (v : String) :
      (r.setRenderSystemName v).mSupportedShaderProfiles = r.mSupportedShaderProfiles := rfl
  have s4 (r : RenderSystemCapabilities) (v : Nat) :
      (r.setStencilBufferBitDepth v).mSupportedShaderProfiles = r.mSupportedShaderProfiles :=
    rfl
  have s5 (r : RenderSystemCapabilities) (v : Nat) :
      (r.setNumTextureUnits v).mSupportedShaderProfiles = r.mSupportedShaderProfiles := rfl
  have s6 (r : RenderSystemCapabilities) (v : Nat) :
      (r.setNumVertexAttributes v).mSupportedShaderProfiles = r.mSupportedShaderProfiles := rfl
  have s7 (r : RenderSystemCapabilities) (v : GPUVendor) :
      (r.setVendor v).mSupportedShaderProfiles = r.mSupportedShaderProfiles := rfl
  have s8 (r : RenderSystemCapabilities) (v : Nat) :
      (r.setNumMultiRenderTargets v).mSupportedShaderProfiles = r.mSupportedShaderProfiles :=
    rfl
  have s9 (r : RenderSystemCapabilities) (v : ℚ) :
      (r.setMaxPointSize v).mSupportedShaderProfiles = r.mSupportedShaderProfiles := rfl
  have s10 (r : RenderSystemCapabilities) (v : Nat) :
      (r.setNumVertexTextureUnits v).mSupportedShaderProfiles = r.mSupportedShaderProfiles :=
    rfl
  have s11 (r : RenderSystemCapabilities) (v : Bool) :
      (r.setVertexTextureUnitsShared v).mSupportedShaderProfiles
        = r.mSupportedShaderProfiles := rfl
  have s12 (r : RenderSystemCapabilities) (c : Capabilities) :
      (r.setCapability c).mSupportedShaderProfiles = r.mSupportedShaderProfiles := rfl
  have s13 (r : RenderSystemCapabilities) (q : String) :
      (r.addShaderProfile q).mSupportedShaderProfiles = r.mSupportedShaderProfiles ++ [q] :=
    rfl
  unfold createRenderSystemCapabilities
  by_cases h32 : rs.mFeatureLevel ≥ D3D_FEATURE_LEVEL_9_2
      ∨ (SUCCEEDED formatSupport.1
        ∧ 0 ≠ formatSupport.2 &&& D3D11_FORMAT_SUPPORT_IA_INDEX_BUFFER) <;>
    by_cases h10 : rs.mFeatureLevel ≥ D3D_FEATURE_LEVEL_10_0 <;>
    by_cases h11 : rs.mFeatureLevel ≥ D3D_FEATURE_LEVEL_11_0 <;>
    simp only [h32, h10, h11, if_true, if_false, s1, s2, s3, s4, s5, s6, s7, s8, s9, s10, s11,
      s12, s13, profiles_setCapabilities, profiles_convertVertexShaderCaps,
      profiles_convertPixelShaderCaps, profiles_convertGeometryShaderCaps,
      profiles_convertHullShaderCaps, profiles_convertDomainShaderCaps,
      profiles_convertComputeShaderCaps]

theorem mem_ite_nil (c : Prop) [Decidable c] (l : List String) (p : String) :
    p ∈ (if c then l else []) ↔ c ∧ p ∈ l := by
  split <;> simp_all

/-- Every shader profile reported at a feature level is reported at every higher one. -/
theorem createRenderSystemCapabilities_profiles_mono (config : BuildConfig)
    (rsc : RenderSystemCapabilities) (rs rs' : D3D11RenderSystem)
    (formatSupport formatSupport' : HRESULT × Nat)
    (hle : rs.mFeatureLevel ≤ rs'.mFeatureLevel) (p : String)
    (hp : p ∈ (createRenderSystemCapabilities config rsc rs
      formatSupport).mSupportedShaderProfiles) :
    p ∈ (createRenderSystemCapabilities config rsc rs'
      formatSupport').mSupportedShaderProfiles := by
  have h1 : rs.mFeatureLevel ≥ D3D_FEATURE_LEVEL_9_1 → rs'.mFeatureLevel ≥ D3D_FEATURE_LEVEL_9_1 :=
    fun h => le_trans h hle
  have h2 : rs.mFeatureLevel ≥ D3D_FEATURE_LEVEL_9_3 → rs'.mFeatureLevel ≥ D3D_FEATURE_LEVEL_9_3 :=
    fun h => le_trans h hle
  have h3 : rs.mFeatureLevel ≥ D3D_FEATURE_LEVEL_10_0 → rs'.mFeatureLevel ≥ D3D_FEATURE_LEVEL_10_0 :=
    fun h => le_trans h hle
  have h4 : rs.mFeatureLevel ≥ D3D_FEATURE_LEVEL_10_1 → rs'.mFeatureLevel ≥ D3D_FEATURE_LEVEL_10_1 :=
    fun h => le_trans h hle
  have h5 : rs.mFeatureLevel ≥ D3D_FEATURE_LEVEL_11_0 → rs'.mFeatureLevel ≥ D3D_FEATURE_LEVEL_11_0 :=
    fun h => le_trans h hle
  simp only [createRenderSystemCapabilities_profiles, profiles_convertVertexShaderCaps,
    profiles_convertPixelShaderCaps, profiles_convertGeometryShaderCaps,
    profiles_convertHullShaderCaps, profiles_convertDomainShaderCaps,
    profiles_convertComputeShaderCaps, List.mem_append, mem_ite_nil] at hp ⊢
  revert hp
  repeat' refine Or.imp ?_ ?_
  all_goals
    first
    | exact id
    | exact And.imp h1 id
    | exact And.imp h2 id
    | exact And.imp h3 id
    | exact And.imp h4 id
    | exact And.imp h5 id

theorem numMultiRenderTargets_setCapabilities (l : List Capabilities) :
    ∀ rsc : RenderSystemCapabilities,
      (rsc.setCapabilities l).mNumMultiRenderTargets = rsc.mNumMultiRenderTargets := by
  induction l with
  | nil => intro rsc; rfl
  | cons c rest ih =>
    intro rsc
    have e : rsc.setCapabilities (c :: rest) = (rsc.setCapability c).setCapabilities rest := rfl
    rw [e, ih]
    rfl

/-- The number of render targets that `createRenderSystemCapabilities` reports. -/
theorem createRenderSystemCapabilities_numMultiRenderTargets (config : BuildConfig)
    (rsc : RenderSystemCapabilities) (rs : D3D11RenderSystem) (formatSupport : HRESULT × Nat) :
    (createRenderSystemCapabilities config rsc rs formatSupport).mNumMultiRenderTargets
      = min (numMultiRenderTargets config rs.mFeatureLevel)
          config.OGRE_MAX_MULTIPLE_RENDER_TARGETS := by
  have s9 (r : RenderSystemCapabilities) (v : ℚ) :
      (r.setMaxPointSize v).mNumMultiRenderTargets = r.mNumMultiRenderTargets := rfl
  have s10 (r : RenderSystemCapabilities) (v : Nat) :
      (r.setNumVertexTextureUnits v).mNumMultiRenderTargets = r.mNumMultiRenderTargets := rfl
  have s11 (r : RenderSystemCapabilities) (v : Bool) :
      (r.setVertexTextureUnitsShared v).mNumMultiRenderTargets = r.mNumMultiRenderTargets :=
    rfl
  have s12 (r : RenderSystemCapabilities) (c : Capabilities) :
      (r.setCapability c).mNumMultiRenderTargets = r.mNumMultiRenderTargets := rfl
  have s8 (r : RenderSystemCapabilities) (v : Nat) :
      (r.setNumMultiRenderTargets v).mNumMultiRenderTargets = v := rfl
  unfold createRenderSystemCapabilities
  simp only [s8, s9, s10, s11, s12, numMultiRenderTargets_setCapabilities]

theorem numMultiRenderTargets_mono (config : BuildConfig) (a b : D3D_FEATURE_LEVEL)
    (hle : a ≤ b) : numMultiRenderTargets config a ≤ numMultiRenderTargets config b := by
  unfold numMultiRenderTargets
  split
  · by_cases ha : a > D3D_FEATURE_LEVEL_9_3
    · have hb : b > D3D_FEATURE_LEVEL_9_3 := lt_of_lt_of_le ha hle
      rw [if_pos ha, if_pos hb]
    · rw [if_neg ha]
      by_cases hb : b > D3D_FEATURE_LEVEL_9_3
      · rw [if_pos hb]
        split <;> decide
      · rw [if_neg hb]
        by_cases ha' : a = D3D_FEATURE_LEVEL_9_3
        · have hb' : b = D3D_FEATURE_LEVEL_9_3 :=
            le_antisymm (not_lt.mp hb) (ha' ▸ hle)
          rw [if_pos ha', if_pos hb']
        · rw [if_neg ha']
          split <;> decide
  · exact le_refl _

end Profiles

/-! ## Multisampling modes -/

theorem forall_mem_dropWhile_cons {α : Type} (p : α → Bool) (x : α) (xs : List α)
    (good : α → Prop) (h1 : p x = false → ∀ m ∈ x :: xs, good m)
    (h2 : ∀ m ∈ xs.dropWhile p, good m) : ∀ m ∈ (x :: xs).dropWhile p, good m := by
  rw [List.dropWhile_cons]
  cases h : p x
  · simpa using h1 h
  · simpa using h2

theorem tooHQ_eq_false (fsaa : Nat) (qualityHint : Bool) (mode : DXGI_SAMPLE_DESC)
    (h : tooHQ fsaa qualityHint mode = false) :
    max mode.Count mode.Quality ≤ fsaa
      ∧ (mode.Count ≥ 8 → mode.Quality ≠ 0 → max mode.Count mode.Quality = fsaa →
        qualityHint = true) := by
  unfold tooHQ at h
  simp only [Bool.or_eq_false_iff, decide_eq_false_iff_not, not_lt, Bool.and_eq_false_iff,
    Bool.not_eq_false', Bool.and_eq_true, decide_eq_true_eq, not_and, Bool.not_eq_true] at h
  refine ⟨h.1, fun h8 hq he => ?_⟩
  rcases h.2 with (h' | h') | h'
  · exact absurd he h'
  · rcases h' with h' | h'
    · exact absurd h8 h'
    · exact absurd hq h'
  · exact h'

/-- The modes left after the too high ones are skipped: none is above the request, and a
quality mode at the level of the request is left only with the quality hint. -/
theorem mem_dropWhile_tooHQ (fsaa : Nat) (qualityHint : Bool) :
    ∀ mode ∈ presets.dropWhile (tooHQ fsaa qualityHint),
      max mode.Count mode.Quality ≤ fsaa
        ∧ (mode.Count ≥ 8 → mode.Quality ≠ 0 → max mode.Count mode.Quality = fsaa →
          qualityHint = true) := by
  unfold presets
  repeat' refine forall_mem_dropWhile_cons _ _ _ _ (fun h => ?_) ?_
  all_goals
    first
    | (obtain ⟨k1, k2⟩ := tooHQ_eq_false _ _ _ h
       simp only [sup_le_iff] at k1
       dsimp only at k1 k2
       simp only [List.forall_mem_cons, List.not_mem_nil, IsEmpty.forall_iff, implies_true,
         and_true, sup_le_iff, ge_iff_le, ne_eq]
       repeat' refine And.intro ?_ ?_
       all_goals
         first
         | omega
         | (intro h8 hq e
            first
            | exact k2 (by decide) (by decide) e
            | exact absurd trivial hq))
    | (intro m hm
       exact absurd hm (List.not_mem_nil _))

theorem multisampleQualityLevels_bind {β : Type} (f : HRESULT × Nat → M β) (w : World) :
    (multisampleQualityLevels >>= f) w = f (w.rs.mDevice.multisampleQualityLevels w.calls) w :=
  rfl

/-- What `firstSupportedMode` gives: it returns, it leaves the render system alone, and the
mode is either the one of one sample without quality, or a mode of the list that the device
supports with more quality levels than the mode asks for; the check of that mode is then
the last call. -/
theorem firstSupportedMode_spec (format : DXGI_FORMAT) :
    ∀ (modes : List DXGI_SAMPLE_DESC) (w : World),
      ∃ desc : DXGI_SAMPLE_DESC,
        (firstSupportedMode format modes w).1 = Except.ok desc
        ∧ (firstSupportedMode format modes w).2.rs = w.rs
        ∧ (desc = ⟨1, 0⟩
          ∨ (desc ∈ modes
            ∧ (∃ l, (firstSupportedMode format modes w).2.calls
                = w.calls ++ l ++ [Call.CheckMultisampleQualityLevels format desc.Count])
            ∧ SUCCEEDED (w.rs.mDevice.multisampleQualityLevels
                (firstSupportedMode format modes w).2.calls).1 = true
            ∧ (w.rs.mDevice.multisampleQualityLevels
                (firstSupportedMode format modes w).2.calls).2 > desc.Quality)) := by
  intro modes
  induction modes with
  | nil => intro w; exact ⟨⟨1, 0⟩, rfl, rfl, Or.inl rfl⟩
  | cons mode modes ih =>
    intro w
    have e : firstSupportedMode format (mode :: modes) w
        = (if SUCCEEDED (w.rs.mDevice.multisampleQualityLevels
              (w.calls ++ [Call.CheckMultisampleQualityLevels format mode.Count])).1 = true
            ∧ (w.rs.mDevice.multisampleQualityLevels
              (w.calls ++ [Call.CheckMultisampleQualityLevels format mode.Count])).2
                > mode.Quality then
            (pure mode : M DXGI_SAMPLE_DESC)
          else firstSupportedMode format modes)
          ⟨w.rs, w.calls ++ [Call.CheckMultisampleQualityLevels format mode.Count]⟩ := rfl
    rw [e]
    split
    · rename_i h
      exact ⟨mode, rfl, rfl, Or.inr ⟨List.mem_cons_self _ _, ⟨[], (List.append_nil _).symm ▸ rfl⟩, h.1, h.2⟩⟩
    · obtain ⟨desc, h1, h2, h3⟩ :=
        ih ⟨w.rs, w.calls ++ [Call.CheckMultisampleQualityLevels format mode.Count]⟩
      refine ⟨desc, h1, h2, ?_⟩
      rcases h3 with h3 | ⟨hm, ⟨l, hl⟩, hs, hq⟩
      · exact Or.inl h3
      · refine Or.inr ⟨List.mem_cons_of_mem _ hm,
          ⟨Call.CheckMultisampleQualityLevels format mode.Count :: l, ?_⟩, hs, hq⟩
        rw [hl]
        simp

/-! ## Attempts of the native device creation -/

theorem attemptCreateDevice_apply (p : Platform) (pAdapter : Option Handle)
    (driverType : D3D_DRIVER_TYPE) (flags : Nat) (levels : List D3D_FEATURE_LEVEL)
    (store : Bool) (w : World) :
    (attemptCreateDevice p pAdapter driverType flags levels store w).1
        = Except.ok
          ((p.createdDevice
              (w.calls ++ [Call.D3D11CreateDeviceN pAdapter driverType flags levels])).1,
            (p.createdDevice
              (w.calls ++ [Call.D3D11CreateDeviceN pAdapter driverType flags levels])).2.1)
      ∧ (attemptCreateDevice p pAdapter driverType flags levels store w).2.calls
        = w.calls ++ [Call.D3D11CreateDeviceN pAdapter driverType flags levels] := by
  unfold attemptCreateDevice
  rw [native_bind]
  show ((ask p.createdDevice >>= _) _).1 = _ ∧ ((ask p.createdDevice >>= _) _).2.calls = _
  rw [M.bind_ok (ask p.createdDevice) _ _ _ rfl]
  rcases p.createdDevice (w.calls ++ [Call.D3D11CreateDeviceN pAdapter driverType flags levels])
    with ⟨hr, device, level⟩
  cases level with
  | none => exact ⟨rfl, rfl⟩
  | some level => cases store <;> exact ⟨rfl, rfl⟩

/-- Clearing the debug flag of the device flags clears that flag only. -/
theorem deviceFlags_without_debug (config : BuildConfig) (p : Platform)
    (h : 0 ≠ deviceFlags config p &&& D3D11_CREATE_DEVICE_DEBUG) :
    (deviceFlags config p &&& (0xffffffff ^^^ D3D11_CREATE_DEVICE_DEBUG))
          ||| D3D11_CREATE_DEVICE_DEBUG = deviceFlags config p
      ∧ (deviceFlags config p &&& (0xffffffff ^^^ D3D11_CREATE_DEVICE_DEBUG))
          &&& D3D11_CREATE_DEVICE_DEBUG = 0 := by
  revert h
  unfold deviceFlags
  cases config.OGRE_WINRT <;> cases config.OGRE_DEBUG_MODE <;> cases config.OGRE_THREAD_SUPPORT <;>
    cases p.IsWorkingUnderNsight <;> cases p.exceptionsOff <;> decide

/-- The attempts of `createD3D11Device`, for the adapter, driver type, flags and levels it
has settled on. -/
theorem createD3D11Device_attempts (p : Platform) (pAdapter : Option Handle)
    (nativeType : D3D_DRIVER_TYPE) (flags : Nat) (levels : List D3D_FEATURE_LEVEL)
    (store : Bool) (w : World) (c1 c2 : Call)
    (h1 : c1 = Call.D3D11CreateDeviceN pAdapter nativeType flags levels)
    (h2 : c2 = Call.D3D11CreateDeviceN pAdapter nativeType
      (flags &&& (0xffffffff ^^^ D3D11_CREATE_DEVICE_DEBUG)) levels)
    (result : Except OgreException (Option Handle) × World)
    (hresult : result
      = (attemptCreateDevice p pAdapter nativeType flags levels store >>= fun d =>
          if FAILED d.1 = true ∧ 0 ≠ flags &&& D3D11_CREATE_DEVICE_DEBUG then
            attemptCreateDevice p pAdapter nativeType
              (flags &&& (0xffffffff ^^^ D3D11_CREATE_DEVICE_DEBUG)) levels store >>= fun y =>
                if FAILED y.1 = true then
                  OGRE_EXCEPT_EX ExceptionCodes.ERR_RENDERINGAPI_ERROR y.1
                    "Failed to create Direct3D11 device" "D3D11RenderSystem::D3D11RenderSystem"
                else pure y.2
          else
            (pure (d.1, d.2) : M (HRESULT × Option Handle)) >>= fun y =>
              if FAILED y.1 = true then
                OGRE_EXCEPT_EX ExceptionCodes.ERR_RENDERINGAPI_ERROR y.1
                  "Failed to create Direct3D11 device" "D3D11RenderSystem::D3D11RenderSystem"
              else pure y.2) w) :
    ((FAILED (p.createdDevice (w.calls ++ [c1])).1 = true
        ∧ 0 ≠ flags &&& D3D11_CREATE_DEVICE_DEBUG) →
      result.2.calls = w.calls ++ [c1, c2]
        ∧ result.1
          = if FAILED (p.createdDevice (w.calls ++ [c1, c2])).1 = true then
              Except.error (creationError (p.createdDevice (w.calls ++ [c1, c2])).1)
            else Except.ok (p.createdDevice (w.calls ++ [c1, c2])).2.1)
    ∧ (¬ (FAILED (p.createdDevice (w.calls ++ [c1])).1 = true
        ∧ 0 ≠ flags &&& D3D11_CREATE_DEVICE_DEBUG) →
      result.2.calls = w.calls ++ [c1]
        ∧ result.1
          = if FAILED (p.createdDevice (w.calls ++ [c1])).1 = true then
              Except.error (creationError (p.createdDevice (w.calls ++ [c1])).1)
            else Except.ok (p.createdDevice (w.calls ++ [c1])).2.1) := by
  subst h1 h2 hresult
  obtain ⟨a1, a2⟩ := attemptCreateDevice_apply p pAdapter nativeType flags levels store w
  rw [M.bind_ok _ _ _ _ a1]
  dsimp only
  refine ⟨fun hc => ?_, fun hc => ?_⟩
  · rw [if_pos hc]
    obtain ⟨b1, b2⟩ := attemptCreateDevice_apply p pAdapter nativeType
      (flags &&& (0xffffffff ^^^ D3D11_CREATE_DEVICE_DEBUG)) levels store
      (attemptCreateDevice p pAdapter nativeType flags levels store w).2
    rw [a2, List.append_assoc] at b1 b2
    rw [M.bind_ok _ _ _ _ b1]
    dsimp only
    have e : w.calls ++ ([Call.D3D11CreateDeviceN pAdapter nativeType flags levels]
          ++ [Call.D3D11CreateDeviceN pAdapter nativeType
            (flags &&& (0xffffffff ^^^ D3D11_CREATE_DEVICE_DEBUG)) levels])
        = w.calls ++ [Call.D3D11CreateDeviceN pAdapter nativeType flags levels,
          Call.D3D11CreateDeviceN pAdapter nativeType
            (flags &&& (0xffffffff ^^^ D3D11_CREATE_DEVICE_DEBUG)) levels] := rfl
    rw [e] at b2 ⊢
    by_cases hf : FAILED (p.createdDevice
        (w.calls ++ [Call.D3D11CreateDeviceN pAdapter nativeType flags levels,
          Call.D3D11CreateDeviceN pAdapter nativeType
            (flags &&& (0xffffffff ^^^ D3D11_CREATE_DEVICE_DEBUG)) levels])).1 = true
    · rw [if_pos hf, if_pos hf]
      exact ⟨b2, rfl⟩
    · rw [if_neg hf, if_neg hf]
      exact ⟨b2, rfl⟩
  · rw [if_neg hc, pure_bind_apply]
    dsimp only
    by_cases hf : FAILED (p.createdDevice
        (w.calls ++ [Call.D3D11CreateDeviceN pAdapter nativeType flags levels])).1 = true
    · rw [if_pos hf, if_pos hf]
      exact ⟨a2, rfl⟩
    · rw [if_neg hf, if_neg hf]
      exact ⟨a2, rfl⟩

/-- What `createD3D11Device` does, case by case. With an empty range it raises the range
error and calls nothing. Otherwise it makes a first attempt `c1`; if that failed and the
debug flag was among the flags it makes a second attempt `c2`; and it returns the device of
the last attempt, or raises the creation error with the result code of the last attempt. -/
theorem createD3D11Device_spec (config : BuildConfig) (p : Platform)
    (d3dDriver : Option D3D11Driver) (driverType : D3D_DRIVER_TYPE)
    (minFL maxFL : D3D_FEATURE_LEVEL) (store : Bool) (w : World) :
    ∃ (pAdapter : Option Handle) (nativeType : D3D_DRIVER_TYPE),
      ∀ (first last : Nat) (levels : List D3D_FEATURE_LEVEL) (c1 c2 : Call),
        first = (requestedRange (requestedLevels config) minFL maxFL).1 →
        last = (requestedRange (requestedLevels config) minFL maxFL).2 →
        levels = ((requestedLevels config).drop first).take (last - first + 1) →
        c1 = Call.D3D11CreateDeviceN pAdapter nativeType (deviceFlags config p) levels →
        c2 = Call.D3D11CreateDeviceN pAdapter nativeType
          (deviceFlags config p &&& (0xffffffff ^^^ D3D11_CREATE_DEVICE_DEBUG)) levels →
        (last < first →
          createD3D11Device config p d3dDriver driverType minFL maxFL store w
            = (Except.error rangeError, w))
        ∧ (¬ last < first →
          ((FAILED (p.createdDevice (w.calls ++ [c1])).1 = true
              ∧ 0 ≠ deviceFlags config p &&& D3D11_CREATE_DEVICE_DEBUG) →
            (createD3D11Device config p d3dDriver driverType minFL maxFL store w).2.calls
                = w.calls ++ [c1, c2]
              ∧ (createD3D11Device config p d3dDriver driverType minFL maxFL store w).1
                = if FAILED (p.createdDevice (w.calls ++ [c1, c2])).1 = true then
                    Except.error (creationError (p.createdDevice (w.calls ++ [c1, c2])).1)
                  else Except.ok (p.createdDevice (w.calls ++ [c1, c2])).2.1)
          ∧ (¬ (FAILED (p.createdDevice (w.calls ++ [c1])).1 = true
              ∧ 0 ≠ deviceFlags config p &&& D3D11_CREATE_DEVICE_DEBUG) →
            (createD3D11Device config p d3dDriver driverType minFL maxFL store w).2.calls
                = w.calls ++ [c1]
              ∧ (createD3D11Device config p d3dDriver driverType minFL maxFL store w).1
                = if FAILED (p.createdDevice (w.calls ++ [c1])).1 = true then
                    Except.error (creationError (p.createdDevice (w.calls ++ [c1])).1)
                  else Except.ok (p.createdDevice (w.calls ++ [c1])).2.1)) := by
  cases d3dDriver with
  | none =>
    refine ⟨none, driverType, ?_⟩
    rintro first last levels c1 c2 rfl rfl rfl h1 h2
    refine ⟨fun h => ?_, fun h => ?_⟩
    · unfold createD3D11Device
      simp only []
      rw [if_pos h]
      rfl
    · refine createD3D11Device_attempts p _ _ _ _ store w c1 c2 h1 h2 _ ?_
      unfold createD3D11Device
      simp only []
      rw [if_neg h]
  | some driver =>
    refine ⟨if driverType = D3D_DRIVER_TYPE.D3D_DRIVER_TYPE_HARDWARE then
        driver.getDeviceAdapter else none,
      if driver.Description = "NVIDIA PerfHUD" then D3D_DRIVER_TYPE.D3D_DRIVER_TYPE_REFERENCE
        else D3D_DRIVER_TYPE.D3D_DRIVER_TYPE_UNKNOWN, ?_⟩
    rintro first last levels c1 c2 rfl rfl rfl h1 h2
    refine ⟨fun h => ?_, fun h => ?_⟩
    · unfold createD3D11Device
      simp only []
      rw [if_pos h]
      rfl
    · refine createD3D11Device_attempts p _ _ _ _ store w c1 c2 h1 h2 _ ?_
      unfold createD3D11Device
      simp only []
      rw [if_neg h]

theorem requestedLevels_cases (config : BuildConfig) :
    requestedLevels config
        = [D3D_FEATURE_LEVEL_9_3, D3D_FEATURE_LEVEL_9_2, D3D_FEATURE_LEVEL_9_1]
      ∨ requestedLevels config
        = [D3D_FEATURE_LEVEL_11_0, D3D_FEATURE_LEVEL_10_1, D3D_FEATURE_LEVEL_10_0,
          D3D_FEATURE_LEVEL_9_3, D3D_FEATURE_LEVEL_9_2, D3D_FEATURE_LEVEL_9_1]
      ∨ requestedLevels config
        = [D3D_FEATURE_LEVEL_11_1, D3D_FEATURE_LEVEL_11_0, D3D_FEATURE_LEVEL_10_1,
          D3D_FEATURE_LEVEL_10_0, D3D_FEATURE_LEVEL_9_3, D3D_FEATURE_LEVEL_9_2,
          D3D_FEATURE_LEVEL_9_1] := by
  unfold requestedLevels
  cases config.OGRE_WINRT_PHONE <;> cases config.WIN32_WINNT_WIN8 <;> simp

/-- The range of the table that `createD3D11Device` selects for a minimum and a maximum
that both occur in the table: it is empty when the minimum is above the maximum, and
otherwise it is the run of the table from the maximum down to the minimum. -/
theorem requestedRange_spec (table : List D3D_FEATURE_LEVEL) (minFL maxFL : D3D_FEATURE_LEVEL)
    (htable : table = [D3D_FEATURE_LEVEL_9_3, D3D_FEATURE_LEVEL_9_2, D3D_FEATURE_LEVEL_9_1]
      ∨ table = [D3D_FEATURE_LEVEL_11_0, D3D_FEATURE_LEVEL_10_1, D3D_FEATURE_LEVEL_10_0,
          D3D_FEATURE_LEVEL_9_3, D3D_FEATURE_LEVEL_9_2, D3D_FEATURE_LEVEL_9_1]
      ∨ table = [D3D_FEATURE_LEVEL_11_1, D3D_FEATURE_LEVEL_11_0, D3D_FEATURE_LEVEL_10_1,
          D3D_FEATURE_LEVEL_10_0, D3D_FEATURE_LEVEL_9_3, D3D_FEATURE_LEVEL_9_2,
          D3D_FEATURE_LEVEL_9_1])
    (hmin : minFL ∈ table) (hmax : maxFL ∈ table) :
    (maxFL < minFL → (requestedRange table minFL maxFL).2 < (requestedRange table minFL maxFL).1)
    ∧ (minFL ≤ maxFL →
      ¬ (requestedRange table minFL maxFL).2 < (requestedRange table minFL maxFL).1
      ∧ (table.drop (requestedRange table minFL maxFL).1).take
          ((requestedRange table minFL maxFL).2 - (requestedRange table minFL maxFL).1 + 1)
        = table.filter (fun level => decide (minFL ≤ level ∧ level ≤ maxFL))
      ∧ table = table.take (requestedRange table minFL maxFL).1
          ++ table.filter (fun level => decide (minFL ≤ level ∧ level ≤ maxFL))
          ++ table.drop ((requestedRange table minFL maxFL).2 + 1)
      ∧ (table.filter (fun level => decide (minFL ≤ level ∧ level ≤ maxFL))).head?
        = some maxFL
      ∧ (table.filter (fun level => decide (minFL ≤ level ∧ level ≤ maxFL))).getLast?
        = some minFL
      ∧ (minFL = maxFL →
        table.filter (fun level => decide (minFL ≤ level ∧ level ≤ maxFL)) = [maxFL])) := by
  rcases htable with rfl | rfl | rfl <;>
    fin_cases hmin <;> fin_cases hmax <;> decide

/-! ## The counters of class instances -/

theorem classInstancesKept_frame (counts : GpuProgramType → Nat) :
    Frame (ClassInstancesKept counts) where
  refl := fun w => ⟨rfl, fun h => ⟨h, [], by simp, by simp⟩⟩
  trans := by
    intro a b c hab hbc
    refine ⟨hbc.1.trans hab.1, fun h => ?_⟩
    obtain ⟨h1, l1, e1, q1⟩ := hab.2 h
    obtain ⟨h2, l2, e2, q2⟩ := hbc.2 h1
    refine ⟨h2, l1 ++ l2, by rw [e2, e1, List.append_assoc], fun x hx => ?_⟩
    rcases List.mem_append.mp hx with hx | hx
    · exact q1 x hx
    · exact q2 x hx

theorem classInstancesKept_native {counts : GpuProgramType → Nat} {c : Call}
    (hc : c.passes counts) (w : World) :
    ClassInstancesKept counts w ⟨w.rs, w.calls ++ [c]⟩ :=
  ⟨rfl, fun h => ⟨h, [c], rfl, fun x hx => by rw [List.mem_singleton.mp hx]; exact hc⟩⟩

theorem classInstancesKept_modify {counts : GpuProgramType → Nat}
    {f : D3D11RenderSystem → D3D11RenderSystem}
    (hf : ∀ rs, (f rs).mCurrentPassIterationCount = rs.mCurrentPassIterationCount
      ∧ (f rs).mNumClassInstances = rs.mNumClassInstances) (w : World) :
    ClassInstancesKept counts w ⟨f w.rs, w.calls⟩ :=
  ⟨(hf w.rs).1, fun h => ⟨(hf w.rs).2.trans h, [], by simp, by simp⟩⟩

section Passing

variable (counts : GpuProgramType → Nat)

theorem resolveBlendState_passes : M.Keeps (ClassInstancesKept counts) resolveBlendState := by
  unfold resolveBlendState
  repeat' first
    | exact keeps_pure (classInstancesKept_frame counts) _
    | exact keeps_getRS (classInstancesKept_frame counts)
    | exact keeps_native (classInstancesKept_native trivial)
    | exact keeps_modifyRS (classInstancesKept_modify fun _ => ⟨rfl, rfl⟩)
    | exact keeps_throwIfFailed (classInstancesKept_frame counts) _
    | refine keeps_ite ?_ ?_
    | refine keeps_bind (classInstancesKept_frame counts) ?_ fun _ => ?_

theorem resolveRasterizer_passes : M.Keeps (ClassInstancesKept counts) resolveRasterizer := by
  unfold resolveRasterizer
  repeat' first
    | exact keeps_pure (classInstancesKept_frame counts) _
    | exact keeps_getRS (classInstancesKept_frame counts)
    | exact keeps_native (classInstancesKept_native trivial)
    | exact keeps_modifyRS (classInstancesKept_modify fun _ => ⟨rfl, rfl⟩)
    | exact keeps_throwIfFailed (classInstancesKept_frame counts) _
    | refine keeps_ite ?_ ?_
    | refine keeps_bind (classInstancesKept_frame counts) ?_ fun _ => ?_

theorem resolveDepthStencilState_passes :
    M.Keeps (ClassInstancesKept counts) resolveDepthStencilState := by
  unfold resolveDepthStencilState
  repeat' first
    | exact keeps_pure (classInstancesKept_frame counts) _
    | exact keeps_getRS (classInstancesKept_frame counts)
    | exact keeps_native (classInstancesKept_native trivial)
    | exact keeps_modifyRS (classInstancesKept_modify fun _ => ⟨rfl, rfl⟩)
    | exact keeps_throwIfFailed (classInstancesKept_frame counts) _
    | refine keeps_ite ?_ ?_
    | refine keeps_bind (classInstancesKept_frame counts) ?_ fun _ => ?_

theorem resolveSamplerUnit_passes (maps : D3D11Mappings) (n : Nat) :
    M.Keeps (ClassInstancesKept counts) (resolveSamplerUnit maps n) := by
  unfold resolveSamplerUnit
  repeat' first
    | exact keeps_pure (classInstancesKept_frame counts) _
    | exact keeps_getRS (classInstancesKept_frame counts)
    | exact keeps_native (classInstancesKept_native trivial)
    | exact keeps_modifyRS (classInstancesKept_modify fun _ => ⟨rfl, rfl⟩)
    | exact keeps_throwIfFailed (classInstancesKept_frame counts) _
    | refine keeps_ite ?_ ?_
    | refine keeps_bind (classInstancesKept_frame counts) ?_ fun _ => ?_

theorem resolveSamplerUnits_passes (maps : D3D11Mappings) (count : Nat) :
    ∀ n, M.Keeps (ClassInstancesKept counts) (resolveSamplerUnits maps n count) := by
  induction count with
  | zero => intro n; exact keeps_pure (classInstancesKept_frame counts) _
  | succ k ih =>
    intro n
    unfold resolveSamplerUnits
    exact keeps_bind (classInstancesKept_frame counts) (resolveSamplerUnit_passes counts maps n)
      fun _ => keeps_bind (classInstancesKept_frame counts) (ih (n + 1)) fun _ =>
        keeps_pure (classInstancesKept_frame counts) _

theorem resolveStateObjects_passes (maps : D3D11Mappings) :
    M.Keeps (ClassInstancesKept counts) (resolveStateObjects maps) := by
  unfold resolveStateObjects
  repeat' first
    | exact keeps_pure (classInstancesKept_frame counts) _
    | exact keeps_getRS (classInstancesKept_frame counts)
    | exact resolveBlendState_passes counts
    | exact resolveRasterizer_passes counts
    | exact resolveDepthStencilState_passes counts
    | exact resolveSamplerUnits_passes counts _ _ _
    | refine keeps_ite ?_ ?_
    | refine keeps_bind (classInstancesKept_frame counts) ?_ fun _ => ?_

theorem setSamplersAndResources_passes (stage : GpuProgramType) (supported : Bool)
    (opState : D3D11RenderOperationState) (a b : String) :
    M.Keeps (ClassInstancesKept counts)
      (setSamplersAndResources stage supported opState a b) := by
  unfold setSamplersAndResources
  repeat' first
    | exact keeps_pure (classInstancesKept_frame counts) _
    | exact keeps_native (classInstancesKept_native trivial)
    | exact keeps_throwIfError (classInstancesKept_frame counts) _ _
    | refine keeps_ite ?_ ?_
    | refine keeps_bind (classInstancesKept_frame counts) ?_ fun _ => ?_

theorem bindStateObjects_passes (opState : D3D11RenderOperationState) :
    M.Keeps (ClassInstancesKept counts) (bindStateObjects opState) := by
  unfold bindStateObjects
  repeat' first
    | exact keeps_pure (classInstancesKept_frame counts) _
    | exact keeps_getRS (classInstancesKept_frame counts)
    | exact keeps_native (classInstancesKept_native trivial)
    | exact keeps_modifyRS (classInstancesKept_modify fun _ => ⟨rfl, rfl⟩)
    | exact keeps_throwIfError (classInstancesKept_frame counts) _ _
    | exact setSamplersAndResources_passes counts _ _ _ _ _
    | refine keeps_ite ?_ ?_
    | refine keeps_bind (classInstancesKept_frame counts) ?_ fun _ => ?_

theorem bindSamplers_passes (opState : D3D11RenderOperationState) :
    M.Keeps (ClassInstancesKept counts) (bindSamplers opState) := by
  unfold bindSamplers
  repeat' first
    | exact keeps_pure (classInstancesKept_frame counts) _
    | exact keeps_getRS (classInstancesKept_frame counts)
    | exact keeps_modifyRS (classInstancesKept_modify fun _ => ⟨rfl, rfl⟩)
    | exact setSamplersAndResources_passes counts _ _ _ _ _
    | refine keeps_ite ?_ ?_
    | refine keeps_bind (classInstancesKept_frame counts) ?_ fun _ => ?_

theorem checkPrograms_passes (op : RenderOperation) :
    M.Keeps (ClassInstancesKept counts) (checkPrograms op) := by
  unfold checkPrograms
  repeat' first
    | exact keeps_pure (classInstancesKept_frame counts) _
    | exact keeps_getRS (classInstancesKept_frame counts)
    | exact keeps_soTarget (classInstancesKept_frame counts)
    | exact keeps_native (classInstancesKept_native trivial)
    | exact keeps_throwIfError (classInstancesKept_frame counts) _ _
    | exact keeps_OGRE_EXCEPT (classInstancesKept_frame counts) _ _ _
    | refine keeps_ite ?_ ?_
    | refine keeps_bind (classInstancesKept_frame counts) ?_ fun _ => ?_

/-- A block of the deferred program bind passes the counter of its stage. -/
theorem setShader_passes (stage : GpuProgramType) (program : Option D3D11HLSLProgram)
    (message : String) : M.Keeps (ClassInstancesKept counts) (setShader stage program message) := by
  intro w
  rw [setShader_world]
  refine ⟨rfl, fun h => ⟨h, _, rfl, fun c hc => ?_⟩⟩
  cases program with
  | none => exact absurd hc (List.not_mem_nil _)
  | some p =>
    rw [List.mem_singleton.mp hc]
    exact Or.inl (by rw [h])

theorem bindPrograms_passes : M.Keeps (ClassInstancesKept counts) bindPrograms := by
  unfold bindPrograms
  repeat' first
    | exact keeps_getRS (classInstancesKept_frame counts)
    | exact setShader_passes counts _ _ _
    | refine keeps_bind (classInstancesKept_frame counts) ?_ fun _ => ?_

theorem setVertexDeclaration_passes (decl : Handle) (binding : VertexBufferBinding) :
    M.Keeps (ClassInstancesKept counts) (setVertexDeclaration decl binding) := by
  unfold setVertexDeclaration
  refine keeps_bind (classInstancesKept_frame counts)
    (keeps_getRS (classInstancesKept_frame counts)) fun rs =>
      keeps_bind (classInstancesKept_frame counts)
        (keeps_native (classInstancesKept_native trivial)) fun _ =>
          keeps_bind (classInstancesKept_frame counts)
            (keeps_bindToShaderError (classInstancesKept_frame counts)) fun failure => ?_
  cases failure with
  | none => exact keeps_pure (classInstancesKept_frame counts) _
  | some d => exact keeps_OGRE_EXCEPT (classInstancesKept_frame counts) _ _ _

theorem setVertexBuffers_passes (l : List (Nat × D3D11HardwareVertexBuffer)) :
    M.Keeps (ClassInstancesKept counts) (setVertexBuffers l) := by
  induction l with
  | nil => exact keeps_pure (classInstancesKept_frame counts) _
  | cons b rest ih =>
    obtain ⟨slot, buf⟩ := b
    unfold setVertexBuffers
    exact keeps_bind (classInstancesKept_frame counts)
      (keeps_native (classInstancesKept_native trivial)) fun _ =>
        keeps_bind (classInstancesKept_frame counts)
          (keeps_throwIfError (classInstancesKept_frame counts) _ _) fun _ => ih

theorem setVertexBufferBinding_passes (binding : VertexBufferBinding) :
    M.Keeps (ClassInstancesKept counts) (setVertexBufferBinding binding) := by
  unfold setVertexBufferBinding
  repeat' first
    | exact keeps_modifyRS (classInstancesKept_modify fun _ => ⟨rfl, rfl⟩)
    | exact setVertexBuffers_passes counts _
    | refine keeps_bind (classInstancesKept_frame counts) ?_ fun _ => ?_

theorem drawCall_passes (op : RenderOperation) (vertexData : VertexData) (hi : Bool)
    (ni : Nat) : (drawCall op vertexData hi ni).passes counts := by
  unfold drawCall
  split_ifs <;> trivial

theorem prepareOperation_passes (maps : D3D11Mappings) (op : RenderOperation)
    (vertexData : VertexData) :
    M.Keeps (ClassInstancesKept counts) (prepareOperation maps op vertexData) := by
  unfold prepareOperation applyStateObjects
  repeat' first
    | exact resolveStateObjects_passes counts _
    | exact bindStateObjects_passes counts _
    | exact bindSamplers_passes counts _
    | exact checkPrograms_passes counts _
    | exact bindPrograms_passes counts
    | exact setVertexDeclaration_passes counts _ _
    | exact setVertexBufferBinding_passes counts _
    | refine keeps_bind (classInstancesKept_frame counts) ?_ fun _ => ?_

theorem callsPass_frame : Frame (CallsPass counts) where
  refl := fun w => ⟨[], by simp, by simp⟩
  trans := by
    rintro a b c ⟨l, hl, hq⟩ ⟨l', hl', hq'⟩
    refine ⟨l ++ l', by rw [hl', hl, List.append_assoc], fun x hx => ?_⟩
    rcases List.mem_append.1 hx with h | h
    · exact hq x h
    · exact hq' x h

theorem callsPass_native {c : Call} (hc : c.passes counts) (w : World) :
    CallsPass counts w ⟨w.rs, w.calls ++ [c]⟩ :=
  ⟨[c], rfl, fun x hx => by rw [List.mem_singleton.1 hx]; exact hc⟩

theorem callsPass_modify (f : D3D11RenderSystem → D3D11RenderSystem) (w : World) :
    CallsPass counts w ⟨f w.rs, w.calls⟩ :=
  ⟨[], by simp, by simp⟩

theorem callsPass_hookFrame : HookFrame (CallsPass counts) where
  toFrame := callsPass_frame counts
  call := fun c hc w => callsPass_native counts (by cases c <;> trivial) w
  write := fun f _ w => callsPass_modify counts f w

theorem drawOnce_calls_pass (op : RenderOperation) (vertexData : VertexData) (hi : Bool)
    (ni : Nat) : M.Keeps (CallsPass counts) (drawOnce op vertexData hi ni) := by
  unfold drawOnce
  repeat' first
    | exact keeps_pure (callsPass_frame counts) _
    | exact keeps_getRS (callsPass_frame counts)
    | exact keeps_isError (callsPass_frame counts)
    | exact keeps_getErrorDescription (callsPass_frame counts) _
    | exact keeps_native (callsPass_native counts (drawCall_passes counts _ _ _ _))
    | exact keeps_OGRE_EXCEPT (callsPass_frame counts) _ _ _
    | refine keeps_ite ?_ ?_
    | refine keeps_bind (callsPass_frame counts) ?_ fun _ => ?_

theorem drawLoop_calls_pass {body : M Unit} (h : M.Keeps (CallsPass counts) body)
    (k : Nat) : M.Keeps (CallsPass counts) (drawLoop body k) := by
  induction k with
  | zero => exact h
  | succ k ih =>
    unfold drawLoop
    exact keeps_bind (callsPass_frame counts) h fun _ =>
      keeps_bind (callsPass_frame counts) (keeps_modifyRS fun w => ⟨[], by simp, by simp⟩) fun _ =>
        keeps_bind (callsPass_frame counts)
          (passIterationHooks_keeps (callsPass_hookFrame counts)) fun _ => ih

theorem setIndexBufferAndTopology_calls_pass (maps : D3D11Mappings) (op : RenderOperation)
    (primType : D3D11_PRIMITIVE_TOPOLOGY) :
    M.Keeps (CallsPass counts) (setIndexBufferAndTopology maps op primType) := by
  unfold setIndexBufferAndTopology
  repeat' first
    | exact keeps_pure (callsPass_frame counts) _
    | exact keeps_native (callsPass_native counts trivial)
    | exact keeps_throwIfError (callsPass_frame counts) _ _
    | refine keeps_ite ?_ ?_
    | refine keeps_bind (callsPass_frame counts) ?_ fun _ => ?_

theorem issueOperation_calls_pass (maps : D3D11Mappings) (op : RenderOperation)
    (vertexData : VertexData) (hi : Bool) (ni : Nat) :
    M.Keeps (CallsPass counts) (issueOperation maps op vertexData hi ni) := by
  unfold issueOperation
  refine keeps_bind (callsPass_frame counts) (keeps_getRS (callsPass_frame counts))
    fun rs => keeps_ite ?_ ?_
  · repeat' first
      | exact keeps_native (callsPass_native counts trivial)
      | exact keeps_native (callsPass_native counts (Or.inr ⟨rfl, rfl, rfl⟩))
      | refine keeps_bind (callsPass_frame counts) ?_ fun _ => ?_
  · cases ht : translateOperation rs op vertexData with
    | error e => exact keeps_rethrow (callsPass_frame counts) _
    | ok p =>
      obtain ⟨primType, primCount⟩ := p
      refine keeps_ite ?_ (keeps_pure (callsPass_frame counts) _)
      exact keeps_bind (callsPass_frame counts)
        (setIndexBufferAndTopology_calls_pass counts maps op primType) fun _ =>
          drawLoop_calls_pass counts (drawOnce_calls_pass counts _ _ _ _) _

end Passing

/-- The calls that `_render` adds to the history pass the counters with which it was
entered. -/
theorem render_passes (maps : D3D11Mappings) (op : RenderOperation) (w : World) :
    CallsPass w.rs.mNumClassInstances w (_render maps op w).2 := by
  unfold _render
  cases op.vertexData with
  | none => exact (callsPass_frame _).refl w
  | some vertexData =>
    show CallsPass _ w ((if vertexData.vertexCount = 0 then (pure () : M Unit) else _) w).2
    split
    · exact (callsPass_frame _).refl w
    · show CallsPass _ w ((prepareOperation maps op vertexData >>= fun _ =>
        issueOperation maps op vertexData (hasInstanceData w.rs op vertexData)
          (numberOfInstances w.rs op)) w).2
      have hp := ((prepareOperation_passes w.rs.mNumClassInstances maps op vertexData w).2 rfl).2
      cases ho : (prepareOperation maps op vertexData w).1 with
      | error e => rw [M.bind_error _ _ w e ho]; exact hp
      | ok u =>
        rw [M.bind_ok _ _ w u ho]
        exact (callsPass_frame _).trans hp (issueOperation_calls_pass _ maps op vertexData _ _ _)

/-! ### What each member function counts -/

theorem countUp_add (a b : Nat) : ∀ x : Nat, countUp (a + b) x = countUp b (countUp a x) := by
  induction a with
  | zero => intro x; rw [Nat.zero_add]; rfl
  | succ a ih =>
    intro x
    rw [Nat.add_right_comm]
    exact ih (UINT (x + 1))

theorem countUp_eq (n : Nat) : ∀ x : Nat, x < 2 ^ 32 → countUp n x = (x + n) % 2 ^ 32 := by
  induction n with
  | zero => intro x hx; exact (Nat.mod_eq_of_lt hx).symm
  | succ n ih =>
    intro x _
    show countUp n (UINT (x + 1)) = _
    have hlt : UINT (x + 1) < 2 ^ 32 := Nat.mod_lt _ (by norm_num)
    rw [ih _ hlt]
    unfold UINT
    rw [Nat.mod_add_mod, Nat.add_assoc, Nat.add_comm 1 n]

theorem counts_bind {α β : Type} {c d : GpuProgramType → World → Nat} {m : M α}
    {f : α → M β} (hm : M.Counts c m) (hf : ∀ a, M.Counts d (f a)) :
    M.Counts (fun gptype w => c gptype w + countAfter m d gptype w) (m >>= f) := by
  intro w gptype
  cases ho : (m w).1 with
  | error e =>
    rw [M.bind_error _ _ w e ho]
    simp only [countAfter, ho, Nat.add_zero]
    exact hm w gptype
  | ok a =>
    rw [M.bind_ok _ _ w a ho, hf a (m w).2 gptype, hm w gptype, countUp_add]
    simp only [countAfter, ho]

theorem counts_congr {α : Type} {c d : GpuProgramType → World → Nat} {m : M α}
    (h : ∀ gptype w, c gptype w = d gptype w) (hm : M.Counts c m) : M.Counts d m :=
  fun w gptype => by rw [← h]; exact hm w gptype

theorem counts_of_does {α : Type} {Q : Call → Prop} {P : OgreException → Prop} {m : M α}
    (h : M.Does Q P m) : M.Counts (fun _ _ => 0) m :=
  fun w gptype => congrFun (h w).1.numClassInstances gptype

theorem counts_of_passes {α : Type} {m : M α}
    (h : ∀ counts, M.Keeps (ClassInstancesKept counts) m) : M.Counts (fun _ _ => 0) m :=
  fun w gptype => congrFun ((h w.rs.mNumClassInstances w).2 rfl).1 gptype

/-- A `setSubroutine` that returns adds one to the 32-bit counter of its stage and leaves
the counters of the other stages; one that raises leaves every counter. -/
theorem setSubroutine_counters (gptype : GpuProgramType) (slotIndex : Nat)
    (subroutineName : String) (w : World) :
    (setSubroutine gptype slotIndex subroutineName w).2.rs.mNumClassInstances =
      if (setSubroutine gptype slotIndex subroutineName w).1 = Except.ok () then
        Function.update w.rs.mNumClassInstances gptype
          (UINT (w.rs.mNumClassInstances gptype + 1))
      else w.rs.mNumClassInstances := by
  have hk := ((findClassInstance_does (Q := fun _ => True) (P := fun _ => True)
    (fun _ _ => trivial) (fun _ _ => trivial) subroutineName) w).1.numClassInstances
  unfold setSubroutine
  cases ho : (findClassInstance subroutineName w).1 with
  | error e =>
    rw [M.bind_error _ _ w e ho, if_neg (by simp), hk]
  | ok inst =>
    rw [M.bind_ok _ _ w inst ho, ← hk]
    exact (if_pos rfl).symm

theorem setSubroutine_counts (type : GpuProgramType) (slotIndex : Nat)
    (subroutineName : String) :
    M.Counts (subroutineSuccesses type slotIndex subroutineName)
      (setSubroutine type slotIndex subroutineName) := by
  intro w gptype
  rw [setSubroutine_counters, subroutineSuccesses]
  by_cases hok : (setSubroutine type slotIndex subroutineName w).1 = Except.ok ()
  · rw [if_pos hok]
    by_cases hg : type = gptype
    · subst hg
      rw [if_pos ⟨rfl, hok⟩, Function.update_same]
      rfl
    · rw [if_neg (fun h => hg h.1), Function.update_noteq (Ne.symm hg)]
      rfl
  · rw [if_neg hok, if_neg (fun h => hok h.2)]
    rfl

theorem setSubroutines_counts (type : GpuProgramType) (entries : List (Nat × String)) :
    M.Counts (subroutinesSuccesses type entries) (setSubroutines type entries) := by
  induction entries with
  | nil => exact fun w gptype => rfl
  | cons entry rest ih =>
    obtain ⟨slotIndex, subroutineName⟩ := entry
    exact counts_bind (setSubroutine_counts type slotIndex subroutineName) fun _ => ih

theorem bindGpuProgramParameters_counts (type : GpuProgramType)
    (params : GpuProgramParameters) (mask : Nat) :
    M.Counts (parametersSuccesses type params mask)
      (bindGpuProgramParameters type params mask) :=
  counts_congr (fun _ _ => Nat.zero_add _)
    (counts_bind
      (counts_of_does (setConstantBuffers_does (Q := fun _ => True) (P := fun _ => True)
        (fun _ _ => trivial) (fun _ _ => trivial) type params mask))
      fun _ => setSubroutines_counts type params.subroutineMap)

theorem bindGpuProgramPassIterationParameters_counts (type : GpuProgramType) :
    M.Counts (hookSuccesses type) (bindGpuProgramPassIterationParameters type) := by
  intro w gptype
  show ((match activeParameters w.rs type with
    | some params => bindGpuProgramParameters type params GPV_PASS_ITERATION_NUMBER
    | none => pure ()) w).2.rs.mNumClassInstances gptype = _
  unfold hookSuccesses
  cases activeParameters w.rs type with
  | none => rfl
  | some params => exact bindGpuProgramParameters_counts type params _ w gptype

theorem bindStages_counts (stages : List GpuProgramType) :
    M.Counts (stagesSuccesses stages) (bindStages stages) := by
  induction stages with
  | nil => exact fun w gptype => rfl
  | cons type rest ih =>
    exact counts_bind (bindGpuProgramPassIterationParameters_counts type) fun _ => ih

theorem passIterationHooks_counts : M.Counts hooksSuccesses passIterationHooks :=
  fun w gptype => bindStages_counts _ w gptype

theorem drawLoop_counts {body : M Unit} (h : M.Counts (fun _ _ => 0) body) (k : Nat) :
    M.Counts (drawLoopSuccesses body k) (drawLoop body k) := by
  induction k with
  | zero => exact h
  | succ k ih =>
    refine counts_congr (fun _ _ => Nat.zero_add _) (counts_bind h fun _ => ?_)
    have hm : M.Counts (fun _ _ => 0) (modifyRS fun rs =>
        { rs with mCurrentPassIterationCount := rs.mCurrentPassIterationCount - 1 }) :=
      fun w gptype => rfl
    have := counts_bind hm fun _ => counts_bind passIterationHooks_counts fun _ => ih
    exact counts_congr (fun _ _ => Nat.zero_add _) this

theorem drawOnce_counts (op : RenderOperation) (vertexData : VertexData) (hi : Bool)
    (ni : Nat) : M.Counts (fun _ _ => 0) (drawOnce op vertexData hi ni) :=
  counts_of_does (drawOnce_does op vertexData hi ni)

theorem issueOperation_counts (maps : D3D11Mappings) (op : RenderOperation)
    (vertexData : VertexData) (hi : Bool) (ni : Nat) :
    M.Counts (issueSuccesses maps op vertexData hi ni)
      (issueOperation maps op vertexData hi ni) := by
  intro w gptype
  show ((if w.rs.mBoundComputeProgram.isSome then _ else _ : M Unit) w).2.rs.mNumClassInstances
    gptype = _
  unfold issueSuccesses
  by_cases hc : w.rs.mBoundComputeProgram.isSome = true
  · simp only [if_pos hc]
    rfl
  · simp only [if_neg hc]
    cases ht : translateOperation w.rs op vertexData with
    | error e => rfl
    | ok p =>
      obtain ⟨primType, primCount⟩ := p
      show ((if primCount ≠ 0 then _ else _ : M Unit) w).2.rs.mNumClassInstances gptype
        = countUp (if primCount ≠ 0 then _ else 0) _
      by_cases hp : primCount ≠ 0
      · simp only [if_pos hp]
        exact counts_congr (fun _ _ => Nat.zero_add _)
          (counts_bind (counts_of_does (setIndexBufferAndTopology_does maps op primType))
            fun _ => drawLoop_counts (drawOnce_counts op vertexData hi ni) _) w gptype
      · simp only [if_neg hp]
        rfl

theorem render_counts (maps : D3D11Mappings) (op : RenderOperation) :
    M.Counts (renderSuccesses maps op) (_render maps op) := by
  intro w gptype
  unfold _render renderSuccesses
  cases op.vertexData with
  | none => rfl
  | some vertexData =>
    show ((if vertexData.vertexCount = 0 then (pure () : M Unit) else _) w).2.rs.mNumClassInstances
      gptype = countUp (if vertexData.vertexCount = 0 then 0 else _) _
    by_cases hv : vertexData.vertexCount = 0
    · simp only [if_pos hv]
      rfl
    · simp only [if_neg hv]
      exact counts_congr (fun _ _ => Nat.zero_add _)
        (counts_bind (counts_of_does (prepareOperation_does maps op vertexData))
          fun _ => issueOperation_counts maps op vertexData _ _) w gptype

theorem bindGpuProgram_counters (base : GpuProgramType → Bool → Bool)
    (prg : Option D3D11HLSLProgram) (type : GpuProgramType) (w : World) :
    (bindGpuProgram base prg type w).2.rs.mNumClassInstances = w.rs.mNumClassInstances := by
  cases prg with
  | none => rfl
  | some p => cases type <;> rfl

theorem unbindGpuProgram_counters (base : GpuProgramType → Bool → Bool)
    (gptype : GpuProgramType) (w : World) :
    (unbindGpuProgram base gptype w).2.rs.mNumClassInstances = w.rs.mNumClassInstances := by
  cases gptype <;> rfl

theorem programCall_counts (maps : D3D11Mappings) (base : GpuProgramType → Bool → Bool)
    (c : ProgramCall) : M.Counts (c.count maps) (c.run maps base) := by
  cases c with
  | setSubroutine type slotIndex subroutineName =>
    exact setSubroutine_counts type slotIndex subroutineName
  | bindGpuProgramParameters type params mask =>
    exact bindGpuProgramParameters_counts type params mask
  | bindGpuProgram prg type =>
    exact fun w gptype => congrFun (bindGpuProgram_counters base prg type w) gptype
  | unbindGpuProgram type =>
    exact fun w gptype => congrFun (unbindGpuProgram_counters base type w) gptype
  | _render op => exact render_counts maps op

/-- The counter of a stage after a sequence of calls: what it was, counted up once for each
`setSubroutine` of that stage that returned. -/
theorem runAll_counters (maps : D3D11Mappings) (base : GpuProgramType → Bool → Bool)
    (gptype : GpuProgramType) (calls : List ProgramCall) :
    ∀ w : World, (ProgramCall.runAll maps base calls w).rs.mNumClassInstances gptype
      = countUp (ProgramCall.successes maps base gptype calls w)
          (w.rs.mNumClassInstances gptype) := by
  induction calls with
  | nil => intro w; rfl
  | cons c calls ih =>
    intro w
    show (ProgramCall.runAll maps base calls (c.run maps base w).2).rs.mNumClassInstances gptype
      = _
    rw [ih, ProgramCall.successes, countUp_add, programCall_counts maps base c w gptype]

theorem countAfter_zero {α : Type} (m : M α) (gptype : GpuProgramType) (w : World) :
    countAfter m (fun _ _ => 0) gptype w = 0 := by
  unfold countAfter
  cases (m w).1 <;> rfl

theorem issueSuccesses_single (maps : D3D11Mappings) (op : RenderOperation)
    (vertexData : VertexData) (hi : Bool) (ni : Nat) (gptype : GpuProgramType) (w : World)
    (h : w.rs.mCurrentPassIterationCount ≤ 1) :
    issueSuccesses maps op vertexData hi ni gptype w = 0 := by
  unfold issueSuccesses
  rw [Nat.sub_eq_zero_of_le h]
  split
  · rfl
  · split
    · rfl
    · split
      · exact countAfter_zero _ _ _
      · rfl

theorem renderSuccesses_single (maps : D3D11Mappings) (op : RenderOperation)
    (gptype : GpuProgramType) (w : World) (h : w.rs.mCurrentPassIterationCount ≤ 1) :
    renderSuccesses maps op gptype w = 0 := by
  unfold renderSuccesses
  split
  · rfl
  · split
    · rfl
    · unfold countAfter
      split
      · refine issueSuccesses_single _ _ _ _ _ _ _ ?_
        rw [(prepareOperation_passes (fun _ => 0) maps op _ w).1]
        exact h
      · rfl

/-- A `setSubroutine` for a name that the instance map has returns and leaves the map. -/
theorem setSubroutine_found (gptype : GpuProgramType) (slotIndex : Nat)
    (subroutineName : String) (w : World) (inst : Option Handle)
    (h : w.rs.mInstanceMap.lookup subroutineName = some inst) :
    (setSubroutine gptype slotIndex subroutineName w).1 = Except.ok ()
    ∧ (setSubroutine gptype slotIndex subroutineName w).2.rs.mInstanceMap
      = w.rs.mInstanceMap := by
  have hf : findClassInstance subroutineName w = (Except.ok inst, w) := by
    show (match w.rs.mInstanceMap.lookup subroutineName with
      | none => _
      | some inst => (pure inst : M (Option Handle))) w = _
    rw [h]
    rfl
  unfold setSubroutine
  rw [M.bind_ok _ _ w inst (by rw [hf]), hf]
  exact ⟨rfl, rfl⟩

/-- Repeating a `setSubroutine` whose name the instance map has: every call returns. -/
theorem successes_replicate_found (maps : D3D11Mappings) (base : GpuProgramType → Bool → Bool)
    (gptype : GpuProgramType) (slotIndex : Nat) (subroutineName : String) (n : Nat) :
    ∀ w : World, (w.rs.mInstanceMap.lookup subroutineName).isSome = true →
      ProgramCall.successes maps base gptype
        (List.replicate n (ProgramCall.setSubroutine gptype slotIndex subroutineName)) w = n := by
  induction n with
  | zero => intro w _; rfl
  | succ n ih =>
    intro w h
    obtain ⟨inst, hi⟩ := Option.isSome_iff_exists.1 h
    obtain ⟨hok, hmap⟩ := setSubroutine_found gptype slotIndex subroutineName w inst hi
    show subroutineSuccesses gptype slotIndex subroutineName gptype w
      + ProgramCall.successes maps base gptype
          (List.replicate n (ProgramCall.setSubroutine gptype slotIndex subroutineName))
          (setSubroutine gptype slotIndex subroutineName w).2 = n + 1
    rw [ih _ (by rw [hmap]; exact h), subroutineSuccesses, if_pos ⟨rfl, hok⟩, Nat.add_comm]

/-- On the sample system, the call `setSubroutine(GpuProgramType.GPT_VERTEX_PROGRAM, 0, "red")` returns
however often it is repeated: the first call obtains the class instance from the linkage
and stores it in the instance map, where the later calls find it. -/
theorem successes_replicate_sample (n : Nat) :
    ProgramCall.successes sampleMappings (fun _ b => b) GpuProgramType.GPT_VERTEX_PROGRAM
      (List.replicate n (ProgramCall.setSubroutine GpuProgramType.GPT_VERTEX_PROGRAM 0 "red"))
      ⟨sampleSubroutineSystem, []⟩ = n := by
  cases n with
  | zero => rfl
  | succ n =>
    show subroutineSuccesses GpuProgramType.GPT_VERTEX_PROGRAM 0 "red" GpuProgramType.GPT_VERTEX_PROGRAM
        ⟨sampleSubroutineSystem, []⟩
      + ProgramCall.successes sampleMappings (fun _ b => b) GpuProgramType.GPT_VERTEX_PROGRAM
          (List.replicate n (ProgramCall.setSubroutine GpuProgramType.GPT_VERTEX_PROGRAM 0 "red"))
          (setSubroutine GpuProgramType.GPT_VERTEX_PROGRAM 0 "red" ⟨sampleSubroutineSystem, []⟩).2 = n + 1
    rw [successes_replicate_found _ _ _ _ _ _ _ (by decide), Nat.add_comm]
    rfl

/-! ## Properties of the specification -/

/-- Claim C1. For every prior state of the render system (its blend descriptor included)
and every blend operation, `_setSceneBlending(SBF_ONE, SBF_ZERO, op)` leaves
`RenderTarget[0].BlendEnable` false and marks the blend descriptor changed; so does
`_setSeparateSceneBlending(SBF_ONE, SBF_ZERO, ...)` for all alpha factors and operations. -/
theorem setSceneBlending_one_zero_disables_blending (maps : D3D11Mappings)
    (rs : D3D11RenderSystem) :
    (∀ op : SceneBlendOperation,
      ((_setSceneBlending maps rs SBF_ONE SBF_ZERO op).mBlendDesc.RenderTarget 0).BlendEnable
          = false
      ∧ (_setSceneBlending maps rs SBF_ONE SBF_ZERO op).mBlendDescChanged = true)
    ∧ ∀ (sourceFactorAlpha destFactorAlpha : SceneBlendFactor)
        (op alphaOp : SceneBlendOperation),
      ((_setSeparateSceneBlending maps rs SBF_ONE SBF_ZERO sourceFactorAlpha destFactorAlpha
          op alphaOp).mBlendDesc.RenderTarget 0).BlendEnable = false
      ∧ (_setSeparateSceneBlending maps rs SBF_ONE SBF_ZERO sourceFactorAlpha destFactorAlpha
          op alphaOp).mBlendDescChanged = true := by
  constructor
  · intro op
    simp [_setSceneBlending, D3D11_BLEND_DESC.setRenderTarget0]
  · intro a b op alphaOp
    simp [_setSeparateSceneBlending, D3D11_BLEND_DESC.setRenderTarget0]

/-- Claim C2, counterexample. With a compute program bound and no graphics-stage program,
`_render` of a three-vertex triangle list fails with the missing-shaders error and issues
no `Dispatch`. -/
theorem render_compute_only_issues_no_dispatch :
    sampleComputeOnlySystem.mBoundComputeProgram.isSome = true
    ∧ (sampleOperation OT_TRIANGLE_LIST 3).vertexData = some (sampleVertexData 3)
    ∧ (sampleVertexData 3).vertexCount ≠ 0
    ∧ (_render sampleMappings (sampleOperation OT_TRIANGLE_LIST 3)
        ⟨sampleComputeOnlySystem, []⟩).1 = Except.error missingShadersError
    ∧ ((_render sampleMappings (sampleOperation OT_TRIANGLE_LIST 3)).issued
        ⟨sampleComputeOnlySystem, []⟩).countP Call.isDispatch = 0 :=
  ⟨rfl, rfl, by decide, by decide, by decide⟩

/-- Claim C2, amended. For every render operation with a non-zero vertex count, when a
compute program is bound `_render` issues no topology-based draw call; it issues exactly
one `Dispatch` when it returns normally and none when it fails; and it fails whenever no
vertex program is bound. -/
theorem render_compute_dispatch (maps : D3D11Mappings) (op : RenderOperation)
    (vertexData : VertexData) (w : World)
    (hvd : op.vertexData = some vertexData) (hcount : vertexData.vertexCount ≠ 0)
    (hcompute : w.rs.mBoundComputeProgram.isSome = true) :
    (∀ c ∈ (_render maps op).issued w, c.isDraw = false)
    ∧ ((_render maps op w).1 = Except.ok () →
        ((_render maps op).issued w).countP Call.isDispatch = 1)
    ∧ ((_render maps op w).1 ≠ Except.ok () →
        ((_render maps op).issued w).countP Call.isDispatch = 0)
    ∧ (w.rs.mBoundVertexProgram = none → (_render maps op w).1 ≠ Except.ok ()) := by
  have hlast : w.rs.mBoundVertexProgram = none → (_render maps op w).1 ≠ Except.ok () := by
    intro hv hok
    obtain ⟨e, he⟩ := render_fails_without_vertex_program maps op vertexData w hvd hcount hv
    rw [he] at hok
    cases hok
  obtain ⟨hu, ⟨l, hl, hq⟩, -⟩ := prepareOperation_does maps op vertexData w
  have hnone : l.countP Call.isDispatch = 0 :=
    List.countP_eq_zero.mpr fun c hc => by simp [(hq c hc).2]
  cases hp : (prepareOperation maps op vertexData w).1 with
  | error e =>
    have hr : _render maps op w = (Except.error e, (prepareOperation maps op vertexData w).2) := by
      rw [render_eq maps op vertexData w hvd hcount, M.bind_error _ _ w e hp]
    have hi : (_render maps op).issued w = l := issued_eq (by rw [hr]; exact hl)
    refine ⟨?_, ?_, ?_, hlast⟩
    · rw [hi]
      exact fun c hc => (hq c hc).1
    · rw [hr]
      intro h
      simp at h
    · rw [hi]
      exact fun _ => hnone
  | ok u =>
    have hr : _render maps op w = (Except.ok (),
        ⟨(prepareOperation maps op vertexData w).2.rs,
          (prepareOperation maps op vertexData w).2.calls ++ computeCalls⟩) := by
      rw [render_eq maps op vertexData w hvd hcount, M.bind_ok _ _ w u hp,
        issueOperation_compute _ _ _ _ _ _ (by rw [hu.compute]; exact hcompute)]
    have hi : (_render maps op).issued w = l ++ computeCalls :=
      issued_eq (by rw [hr, hl, List.append_assoc])
    refine ⟨?_, fun _ => ?_, fun h => ?_, hlast⟩
    · rw [hi]
      intro c hc
      rcases List.mem_append.mp hc with h1 | h1
      · exact (hq c h1).1
      · simp [computeCalls] at h1
        rcases h1 with rfl | rfl | rfl | rfl <;> rfl
    · rw [hi, List.countP_append, hnone]
      rfl
    · rw [hr] at h
      exact absurd rfl h

/-- Claim C2, witness: a three-vertex triangle list with a vertex, a fragment and a compute
program bound returns normally and dispatches once. -/
theorem render_compute_dispatch_witness :
    sampleComputeSystem.mBoundComputeProgram.isSome = true
    ∧ (_render sampleMappings (sampleOperation OT_TRIANGLE_LIST 3)
        ⟨sampleComputeSystem, []⟩).1 = Except.ok ()
    ∧ ((_render sampleMappings (sampleOperation OT_TRIANGLE_LIST 3)).issued
        ⟨sampleComputeSystem, []⟩).countP Call.isDispatch = 1 :=
  ⟨rfl, by decide,
    (render_compute_dispatch sampleMappings (sampleOperation OT_TRIANGLE_LIST 3)
      (sampleVertexData 3) ⟨sampleComputeSystem, []⟩ rfl (by decide) rfl).2.1 (by decide)⟩

/-- Claim C3, counterexample. A 12-vertex triangle fan returns normally, having issued a
`Dispatch`, when a compute program is bound; it also returns normally when a hull and a
domain program are bound. -/
theorem render_triangle_fan_returns_normally :
    (_render sampleMappings (sampleOperation OT_TRIANGLE_FAN 12)
        ⟨sampleComputeSystem, []⟩).1 = Except.ok ()
    ∧ CallName.Dispatch ∈ ((_render sampleMappings (sampleOperation OT_TRIANGLE_FAN 12)).issued
        ⟨sampleComputeSystem, []⟩).map Call.name
    ∧ (_render sampleMappings (sampleOperation OT_TRIANGLE_FAN 12)
        ⟨sampleTessellationSystem, []⟩).1 = Except.ok () :=
  ⟨by decide, by decide, by decide⟩

/-- Claim C3, amended. For every pipeline state and every triangle-fan operation with a
non-zero vertex count, `_render` issues no topology-based draw call; and when no compute
program is bound and a hull and a domain program are not both bound, it fails with an
error and issues no dispatch, the error being the triangle-fan error when everything
before the topology translation succeeded. -/
theorem render_triangle_fan (maps : D3D11Mappings) (op : RenderOperation)
    (vertexData : VertexData) (w : World)
    (hvd : op.vertexData = some vertexData) (hcount : vertexData.vertexCount ≠ 0)
    (hfan : op.operationType = OperationType.OT_TRIANGLE_FAN) :
    (∀ c ∈ (_render maps op).issued w, c.isDraw = false)
    ∧ (w.rs.mBoundComputeProgram = none →
        ¬ (w.rs.mBoundTessellationHullProgram.isSome = true
          ∧ w.rs.mBoundTessellationDomainProgram.isSome = true) →
        (∃ e, (_render maps op w).1 = Except.error e)
        ∧ (∀ c ∈ (_render maps op).issued w, c.isDispatch = false)
        ∧ ((prepareOperation maps op vertexData w).1 = Except.ok () →
            (_render maps op w).1 = Except.error triangleFanError)) := by
  constructor
  · have hd : M.Does (fun c => c.isDraw = false) (fun _ => True)
        (prepareOperation maps op vertexData >>= fun _ =>
          issueOperation maps op vertexData (hasInstanceData w.rs op vertexData)
            (numberOfInstances w.rs op)) :=
      M.Does.bind (M.Does.mono (prepareOperation_does maps op vertexData) (fun _ h => h.1)
        fun _ h => h) fun _ => issueOperation_fan_does maps op vertexData _ _ hfan
    obtain ⟨-, ⟨l, hl, hq⟩, -⟩ := hd w
    rw [← render_eq maps op vertexData w hvd hcount] at hl
    rw [issued_eq hl]
    exact hq
  · intro hcompute htess
    obtain ⟨hu, ⟨l, hl, hq⟩, -⟩ := prepareOperation_does maps op vertexData w
    cases hp : (prepareOperation maps op vertexData w).1 with
    | error e =>
      have hr : _render maps op w =
          (Except.error e, (prepareOperation maps op vertexData w).2) := by
        rw [render_eq maps op vertexData w hvd hcount, M.bind_error _ _ w e hp]
      have hi : (_render maps op).issued w = l := issued_eq (by rw [hr]; exact hl)
      rw [hi, hr]
      exact ⟨⟨e, rfl⟩, fun c hc => (hq c hc).2, fun h => nomatch h⟩
    | ok u =>
      have hr : _render maps op w =
          (Except.error triangleFanError, (prepareOperation maps op vertexData w).2) := by
        rw [render_eq maps op vertexData w hvd hcount, M.bind_ok _ _ w u hp,
          issueOperation_fan_error _ _ _ _ _ _ hfan (by rw [hu.compute]; exact hcompute)
            (by rw [hu.hull, hu.domain]; exact htess)]
      have hi : (_render maps op).issued w = l := issued_eq (by rw [hr]; exact hl)
      rw [hi, hr]
      exact ⟨⟨_, rfl⟩, fun c hc => (hq c hc).2, fun _ => rfl⟩

/-- Claim C3, witness: with only a vertex and a fragment program bound, a 12-vertex
triangle fan fails with the triangle-fan error. -/
theorem render_triangle_fan_witness :
    (sampleOperation OT_TRIANGLE_FAN 12).operationType = OT_TRIANGLE_FAN
    ∧ (_render sampleMappings (sampleOperation OT_TRIANGLE_FAN 12)
        ⟨sampleGraphicsSystem, []⟩).1 = Except.error triangleFanError :=
  ⟨rfl,
    ((render_triangle_fan sampleMappings (sampleOperation OT_TRIANGLE_FAN 12)
      (sampleVertexData 12) ⟨sampleGraphicsSystem, []⟩ rfl (by decide) rfl).2 rfl
        (by decide)).2.2 (by decide)⟩

/-- Claim C4, counterexample. With a vertex, a fragment and a hull program bound and no
domain program, on a device whose `CreateBlendState` fails, `_render` fails with the
blend-state creation error, whose message does not name the domain shader. -/
theorem render_hull_only_on_failing_device :
    (_render sampleMappings (sampleOperation OT_TRIANGLE_LIST 3)
      ⟨{ sampleHullOnlySystem with mDevice := failingDevice }, []⟩).1
      = Except.error ⟨ExceptionCodes.ERR_RENDERINGAPI_ERROR, some (-2147467259),
          "Failed to create blend state\nError Description:", "D3D11RenderSystem::_render"⟩ := by
  decide

/-- Claim C4, amended. For every render operation with a non-zero vertex count submitted
with a vertex and a fragment program bound: if the hull program is bound and the domain
program is not, `_render` fails, and when state-object creation and binding succeeded
the error is the one whose message names the missing domain shader; if the domain
program is bound and the hull program is not, likewise with the message that names the
missing hull shader; both messages differ from the missing-shaders message. -/
theorem render_tessellation_pair (maps : D3D11Mappings) (op : RenderOperation)
    (vertexData : VertexData) (w : World)
    (hvd : op.vertexData = some vertexData) (hcount : vertexData.vertexCount ≠ 0)
    (hv : w.rs.mBoundVertexProgram.isSome = true)
    (hf : w.rs.mBoundFragmentProgram.isSome = true) :
    (w.rs.mBoundTessellationHullProgram.isSome = true →
      w.rs.mBoundTessellationDomainProgram = none →
        (∃ e, (_render maps op w).1 = Except.error e)
        ∧ ((applyStateObjects maps w).1 = Except.ok () →
            (_render maps op w).1 = Except.error missingDomainShaderError))
    ∧ (w.rs.mBoundTessellationHullProgram = none →
      w.rs.mBoundTessellationDomainProgram.isSome = true →
        (∃ e, (_render maps op w).1 = Except.error e)
        ∧ ((applyStateObjects maps w).1 = Except.ok () →
            (_render maps op w).1 = Except.error missingHullShaderError))
    ∧ missingDomainShaderError.description
        = "Attempted to use tessellation, but domain shader is missing"
    ∧ missingHullShaderError.description
        = "Attempted to use tessellation, but hull shader is missing"
    ∧ missingDomainShaderError.description ≠ missingShadersError.description
    ∧ missingHullShaderError.description ≠ missingShadersError.description := by
  obtain ⟨hu, -, -⟩ := applyStateObjects_does maps w
  refine ⟨fun hh hd => ?_, fun hh hd => ?_, rfl, rfl, by decide, by decide⟩
  · have hc := checkPrograms_hull_only op (applyStateObjects maps w).2
      (by rw [hu.vertex]; exact hv) (by rw [hu.fragment]; exact hf)
      (by rw [hu.hull]; exact hh) (by rw [hu.domain]; exact hd)
    have key : (applyStateObjects maps w).1 = Except.ok () →
        (_render maps op w).1 = Except.error missingDomainShaderError := fun hok =>
      render_error_of_check maps op vertexData w _ hvd hcount hok (by rw [hc])
    refine ⟨?_, key⟩
    cases ha : (applyStateObjects maps w).1 with
    | error e => exact ⟨e, render_error_of_apply maps op vertexData w e hvd hcount ha⟩
    | ok u => exact ⟨_, key ha⟩
  · have hc := checkPrograms_domain_only op (applyStateObjects maps w).2
      (by rw [hu.vertex]; exact hv) (by rw [hu.fragment]; exact hf)
      (by rw [hu.hull]; exact hh) (by rw [hu.domain]; exact hd)
    have key : (applyStateObjects maps w).1 = Except.ok () →
        (_render maps op w).1 = Except.error missingHullShaderError := fun hok =>
      render_error_of_check maps op vertexData w _ hvd hcount hok (by rw [hc])
    refine ⟨?_, key⟩
    cases ha : (applyStateObjects maps w).1 with
    | error e => exact ⟨e, render_error_of_apply maps op vertexData w e hvd hcount ha⟩
    | ok u => exact ⟨_, key ha⟩

/-- Claim C4, witness: a hull program without a domain program on a device that does not
fail. -/
theorem render_tessellation_pair_witness :
    sampleHullOnlySystem.mBoundTessellationHullProgram.isSome = true
    ∧ sampleHullOnlySystem.mBoundTessellationDomainProgram = none
    ∧ (_render sampleMappings (sampleOperation OT_TRIANGLE_LIST 3)
        ⟨sampleHullOnlySystem, []⟩).1 = Except.error missingDomainShaderError :=
  ⟨rfl, rfl,
    ((render_tessellation_pair sampleMappings (sampleOperation OT_TRIANGLE_LIST 3)
      (sampleVertexData 3) ⟨sampleHullOnlySystem, []⟩ rfl (by decide) rfl rfl).1 rfl rfl).2
      (by decide)⟩

/-- Claim C5, counterexample. Without tessellation, a point list of 2^32 vertices is given
the primitive count 0, the count being cast to 32 bits, and a one-vertex, non-indexed
triangle strip is given 4294967295, the 32-bit subtraction `1 - 2` wrapping around:
neither is `n` resp. `n - 2`. -/
theorem plain_primitive_count_is_32_bit :
    sampleGraphicsSystem.mBoundComputeProgram = none
    ∧ sampleGraphicsSystem.mBoundTessellationHullProgram = none
    ∧ sampleGraphicsSystem.mBoundTessellationDomainProgram = none
    ∧ elementCount (sampleOperation OT_POINT_LIST 4294967296) (sampleVertexData 4294967296)
        = 4294967296
    ∧ translateOperation sampleGraphicsSystem (sampleOperation OT_POINT_LIST 4294967296)
        (sampleVertexData 4294967296) = Except.ok (D3D11_PRIMITIVE_TOPOLOGY_POINTLIST, 0)
    ∧ elementCount (sampleOperation OT_TRIANGLE_STRIP 1) (sampleVertexData 1) = 1
    ∧ translateOperation sampleGraphicsSystem (sampleOperation OT_TRIANGLE_STRIP 1)
        (sampleVertexData 1) = Except.ok (D3D11_PRIMITIVE_TOPOLOGY_TRIANGLESTRIP, 4294967295)
    ∧ (4294967295 : Int) ≠ 1 - 2 ∧ (4294967295 : Nat) ≠ 1 - 2 :=
  ⟨rfl, rfl, rfl, rfl, by decide, rfl, by decide, by decide, by decide⟩

/-- Claim C5, amended. Without a hull or domain program bound, and for an element count
`n` below 2^32 (index count when indexed, otherwise vertex count), the primitive count
`_render` computes is `n` for a point list, `n / 2` for a line list, `n / 3` for a
triangle list, `n - 1` for a line strip of at least one element and `n - 2` for a
triangle strip of at least two elements. -/
theorem plain_primitive_count (rs : D3D11RenderSystem) (op : RenderOperation)
    (vertexData : VertexData)
    (hhull : rs.mBoundTessellationHullProgram = none)
    (hdomain : rs.mBoundTessellationDomainProgram = none)
    (hn : elementCount op vertexData < 2 ^ 32) :
    (op.operationType = OT_POINT_LIST →
      (translateOperation rs op vertexData).map Prod.snd
        = Except.ok (elementCount op vertexData))
    ∧ (op.operationType = OT_LINE_LIST →
      (translateOperation rs op vertexData).map Prod.snd
        = Except.ok (elementCount op vertexData / 2))
    ∧ (op.operationType = OT_LINE_STRIP → 1 ≤ elementCount op vertexData →
      (translateOperation rs op vertexData).map Prod.snd
        = Except.ok (elementCount op vertexData - 1))
    ∧ (op.operationType = OT_TRIANGLE_LIST →
      (translateOperation rs op vertexData).map Prod.snd
        = Except.ok (elementCount op vertexData / 3))
    ∧ (op.operationType = OT_TRIANGLE_STRIP → 2 ≤ elementCount op vertexData →
      (translateOperation rs op vertexData).map Prod.snd
        = Except.ok (elementCount op vertexData - 2)) := by
  have hplain : translateOperation rs op vertexData
      = plainPrimitives (useAdjacency rs) op.operationType (elementCount op vertexData) := by
    unfold translateOperation
    rw [hhull, hdomain]
    simp
  rw [hplain]
  refine ⟨fun h => ?_, fun h => ?_, fun h h1 => ?_, fun h => ?_, fun h h2 => ?_⟩ <;> rw [h]
  · simp [plainPrimitives, Except.map, DWORD_of_lt hn]
  · simp [plainPrimitives, Except.map, DWORD_of_lt hn]
  · simp [plainPrimitives, Except.map, DWORD_sub_of_le hn h1]
  · simp [plainPrimitives, Except.map, DWORD_of_lt hn]
  · simp [plainPrimitives, Except.map, DWORD_sub_of_le hn h2]

/-- Claim C5, witness: a 12-vertex non-indexed triangle strip gives 10, a 12-vertex
triangle list gives 4 and a 9-vertex line strip gives 8. -/
theorem plain_primitive_count_witness :
    (translateOperation sampleGraphicsSystem (sampleOperation OT_TRIANGLE_STRIP 12)
        (sampleVertexData 12)).map Prod.snd = Except.ok 10
    ∧ (translateOperation sampleGraphicsSystem (sampleOperation OT_TRIANGLE_LIST 12)
        (sampleVertexData 12)).map Prod.snd = Except.ok 4
    ∧ (translateOperation sampleGraphicsSystem (sampleOperation OT_LINE_STRIP 9)
        (sampleVertexData 9)).map Prod.snd = Except.ok 8 :=
  ⟨(plain_primitive_count sampleGraphicsSystem (sampleOperation OT_TRIANGLE_STRIP 12)
      (sampleVertexData 12) rfl rfl (by decide)).2.2.2.2 rfl (by decide),
    (plain_primitive_count sampleGraphicsSystem (sampleOperation OT_TRIANGLE_LIST 12)
      (sampleVertexData 12) rfl rfl (by decide)).2.2.2.1 rfl,
    (plain_primitive_count sampleGraphicsSystem (sampleOperation OT_LINE_STRIP 9)
      (sampleVertexData 9) rfl rfl (by decide)).2.2.1 rfl (by decide)⟩

/-- Claim C6, counterexample. With a hull and a domain program bound, a line list of
2^32 + 2 vertices is given the primitive count 1, the count being cast to 32 bits, and a
one-vertex triangle strip is given 4294967295, the 32-bit subtraction `1 - 2` wrapping
around: neither is `n / 2` resp. `n - 2`. -/
theorem tessellation_primitive_count_is_32_bit :
    sampleTessellationSystem.mBoundTessellationHullProgram.isSome = true
    ∧ sampleTessellationSystem.mBoundTessellationDomainProgram.isSome = true
    ∧ sampleTessellationSystem.mBoundComputeProgram = none
    ∧ elementCount (sampleOperation OT_LINE_LIST 4294967298) (sampleVertexData 4294967298)
        = 4294967298
    ∧ translateOperation sampleTessellationSystem (sampleOperation OT_LINE_LIST 4294967298)
        (sampleVertexData 4294967298)
      = Except.ok (D3D11_PRIMITIVE_TOPOLOGY_2_CONTROL_POINT_PATCHLIST, 1)
    ∧ (1 : Nat) ≠ 4294967298 / 2
    ∧ elementCount (sampleOperation OT_TRIANGLE_STRIP 1) (sampleVertexData 1) = 1
    ∧ translateOperation sampleTessellationSystem (sampleOperation OT_TRIANGLE_STRIP 1)
        (sampleVertexData 1)
      = Except.ok (D3D11_PRIMITIVE_TOPOLOGY_3_CONTROL_POINT_PATCHLIST, 4294967295)
    ∧ (4294967295 : Int) ≠ 1 - 2 ∧ (4294967295 : Nat) ≠ 1 - 2 :=
  ⟨rfl, rfl, rfl, rfl, by decide, by decide, rfl, by decide, by decide, by decide⟩

/-- Claim C6, amended. When both a hull and a domain program are bound (and no compute
program), `_render` translates every line-list and line-strip operation to the
2-control-point patch list and every triangle-list and triangle-strip operation to the
3-control-point patch list; for an element count `n` below 2^32 the primitive count is
`n / 2` for a line list, `n / 3` for a triangle list, `n - 1` for a line strip of at
least one element and `n - 2` for a triangle strip of at least two elements. -/
theorem tessellation_primitives (rs : D3D11RenderSystem) (op : RenderOperation)
    (vertexData : VertexData)
    (hhull : rs.mBoundTessellationHullProgram.isSome = true)
    (hdomain : rs.mBoundTessellationDomainProgram.isSome = true) :
    ((op.operationType = OT_LINE_LIST ∨ op.operationType = OT_LINE_STRIP) →
      (translateOperation rs op vertexData).map Prod.fst
        = Except.ok D3D11_PRIMITIVE_TOPOLOGY_2_CONTROL_POINT_PATCHLIST)
    ∧ ((op.operationType = OT_TRIANGLE_LIST ∨ op.operationType = OT_TRIANGLE_STRIP) →
      (translateOperation rs op vertexData).map Prod.fst
        = Except.ok D3D11_PRIMITIVE_TOPOLOGY_3_CONTROL_POINT_PATCHLIST)
    ∧ (elementCount op vertexData < 2 ^ 32 →
      (op.operationType = OT_LINE_LIST →
        (translateOperation rs op vertexData).map Prod.snd
          = Except.ok (elementCount op vertexData / 2))
      ∧ (op.operationType = OT_LINE_STRIP → 1 ≤ elementCount op vertexData →
        (translateOperation rs op vertexData).map Prod.snd
          = Except.ok (elementCount op vertexData - 1))
      ∧ (op.operationType = OT_TRIANGLE_LIST →
        (translateOperation rs op vertexData).map Prod.snd
          = Except.ok (elementCount op vertexData / 3))
      ∧ (op.operationType = OT_TRIANGLE_STRIP → 2 ≤ elementCount op vertexData →
        (translateOperation rs op vertexData).map Prod.snd
          = Except.ok (elementCount op vertexData - 2))) := by
  have htess : translateOperation rs op vertexData
      = Except.ok (tessellationPrimitives op.operationType (elementCount op vertexData)) := by
    unfold translateOperation
    rw [if_pos ⟨hhull, hdomain⟩]
  rw [htess]
  refine ⟨fun h => ?_, fun h => ?_, fun hn => ⟨fun h => ?_, fun h h1 => ?_, fun h => ?_,
    fun h h2 => ?_⟩⟩
  · rcases h with h | h <;> rw [h] <;> rfl
  · rcases h with h | h <;> rw [h] <;> rfl
  · rw [h]; simp [tessellationPrimitives, Except.map, DWORD_of_lt hn]
  · rw [h]; simp [tessellationPrimitives, Except.map, DWORD_sub_of_le hn h1]
  · rw [h]; simp [tessellationPrimitives, Except.map, DWORD_of_lt hn]
  · rw [h]; simp [tessellationPrimitives, Except.map, DWORD_sub_of_le hn h2]

/-- Claim C6, witness: a 12-vertex triangle strip with hull and domain programs bound
becomes a 3-control-point patch list of 10 primitives. -/
theorem tessellation_primitives_witness :
    (translateOperation sampleTessellationSystem (sampleOperation OT_TRIANGLE_STRIP 12)
        (sampleVertexData 12)).map Prod.fst
      = Except.ok D3D11_PRIMITIVE_TOPOLOGY_3_CONTROL_POINT_PATCHLIST
    ∧ (translateOperation sampleTessellationSystem (sampleOperation OT_TRIANGLE_STRIP 12)
        (sampleVertexData 12)).map Prod.snd = Except.ok 10 :=
  ⟨(tessellation_primitives sampleTessellationSystem (sampleOperation OT_TRIANGLE_STRIP 12)
      (sampleVertexData 12) rfl rfl).2.1 (Or.inr rfl),
    ((tessellation_primitives sampleTessellationSystem (sampleOperation OT_TRIANGLE_STRIP 12)
      (sampleVertexData 12) rfl rfl).2.2 (by decide)).2.2.2 rfl (by decide)⟩

/-- Claim C7, counterexample. An indexed triangle list whose vertex count is the auto
sentinel reaches the draw step and is drawn with `DrawIndexed`, not `DrawAuto`. -/
theorem render_indexed_auto_sentinel_draws_indexed :
    (sampleVertexData SIZE_MAX).vertexCount = SIZE_MAX
    ∧ (sampleIndexedOperation OT_TRIANGLE_LIST SIZE_MAX 3).useIndexes = true
    ∧ (((_render sampleMappings (sampleIndexedOperation OT_TRIANGLE_LIST SIZE_MAX 3)).issued
        ⟨sampleGraphicsSystem, []⟩).filter Call.isDraw).map Call.name
      = [CallName.DrawIndexed] :=
  ⟨rfl, rfl, by decide⟩

/-- Claim C7, amended. Every draw call `_render` issues is the one `drawCall` selects:
`DrawIndexedInstanced` when the operation is indexed and has instance data and
`DrawIndexed` when it is indexed only, in both cases also when the vertex count is the
auto sentinel; for a non-indexed operation `DrawAuto` when the vertex count is the auto
sentinel whatever the instance flag, otherwise `DrawInstanced` when it has instance data
and plain `Draw` when not. -/
theorem render_draw_variant (maps : D3D11Mappings) (op : RenderOperation)
    (vertexData : VertexData) (w : World) (hvd : op.vertexData = some vertexData) :
    (∀ c ∈ (_render maps op).issued w, c.isDraw = true →
      c = drawCall op vertexData (hasInstanceData w.rs op vertexData)
        (numberOfInstances w.rs op))
    ∧ ∀ (hi : Bool) (ni : Nat),
      (drawCall op vertexData hi ni).name =
        if op.useIndexes = true then
          (if hi = true then CallName.DrawIndexedInstanced else CallName.DrawIndexed)
        else if vertexData.vertexCount = SIZE_MAX then CallName.DrawAuto
        else if hi = true then CallName.DrawInstanced
        else CallName.Draw := by
  constructor
  · by_cases hcount : vertexData.vertexCount = 0
    · have hr : _render maps op w = (Except.ok (), w) := by
        unfold _render
        rw [hvd]
        simp only [hcount, if_true]
        rfl
      have hi : (_render maps op).issued w = [] := issued_eq (by rw [hr]; simp)
      rw [hi]
      intro c hc
      cases hc
    · obtain ⟨⟨l, hl, hq⟩, -⟩ := render_parts_issues maps op vertexData
        (hasInstanceData w.rs op vertexData) (numberOfInstances w.rs op) w
      rw [← render_eq maps op vertexData w hvd hcount] at hl
      rw [issued_eq hl]
      exact hq
  · intro hi ni
    unfold drawCall
    split
    · split <;> rfl
    · split
      · rfl
      · split <;> rfl

/-- Claim C7, witness: a non-indexed point list whose vertex count is the auto sentinel is
drawn with `DrawAuto`. -/
theorem render_draw_variant_witness :
    (sampleOperation OT_POINT_LIST SIZE_MAX).useIndexes = false
    ∧ (((_render sampleMappings (sampleOperation OT_POINT_LIST SIZE_MAX)).issued
        ⟨sampleGraphicsSystem, []⟩).filter Call.isDraw).map Call.name = [CallName.DrawAuto]
    ∧ ∀ c ∈ (_render sampleMappings (sampleOperation OT_POINT_LIST SIZE_MAX)).issued
        ⟨sampleGraphicsSystem, []⟩, c.isDraw = true → c = Call.DrawAuto :=
  ⟨rfl, by decide,
    (render_draw_variant sampleMappings (sampleOperation OT_POINT_LIST SIZE_MAX)
      (sampleVertexData SIZE_MAX) ⟨sampleGraphicsSystem, []⟩ rfl).1⟩

/-- Claim C8. For every render operation with a non-zero vertex count whose state-object
creation and binding succeed, `_render` raises the missing-shaders error if and only if
no vertex program is bound, or no fragment program is bound while the topology is not
point list and `SOGetTargets` reports no stream-output target. -/
theorem render_missing_shaders_iff (maps : D3D11Mappings) (op : RenderOperation)
    (vertexData : VertexData) (w : World)
    (hvd : op.vertexData = some vertexData) (hcount : vertexData.vertexCount ≠ 0)
    (hok : (applyStateObjects maps w).1 = Except.ok ()) :
    (_render maps op w).1 = Except.error missingShadersError ↔
      (w.rs.mBoundVertexProgram = none
        ∨ (w.rs.mBoundFragmentProgram = none
          ∧ op.operationType ≠ OperationType.OT_POINT_LIST
          ∧ w.rs.mDevice.soTarget
              ((applyStateObjects maps w).2.calls ++ [Call.SOGetTargets 1]) = none)) := by
  obtain ⟨hu, -, -⟩ := applyStateObjects_does maps w
  rw [← hu.vertex, ← hu.fragment, ← hu.device]
  constructor
  · intro hout
    by_contra hn
    have hall : ∀ e, (_render maps op w).1 = Except.error e → e ≠ missingShadersError := by
      intro e he
      rw [render_eq maps op vertexData w hvd hcount] at he
      rcases M.error_of_bind he with h1 | ⟨_, -, h1⟩
      · unfold prepareOperation at h1
        rw [M.bind_ok _ _ w () hok] at h1
        rcases M.error_of_bind h1 with h2 | ⟨_, -, h2⟩
        · exact checkPrograms_not_missing op _ hn e h2
        · exact M.Does.raises
            (M.Does.bind bindPrograms_does fun _ =>
              M.Does.bind (setVertexDeclaration_does _ _) fun _ =>
                setVertexBufferBinding_does _) _ h2
      · exact (issueOperation_issues maps op vertexData _ _ _).2 _ h1
    exact hall _ hout rfl
  · intro hc
    exact render_error_of_check maps op vertexData w _ hvd hcount hok
      (by rw [checkPrograms_missing op _ hc])

/-- Claim C8, witness: with nothing bound on a device that does not fail, state-object
creation and binding succeed and `_render` raises the missing-shaders error. -/
theorem render_missing_shaders_iff_witness :
    (applyStateObjects sampleMappings ⟨sampleRenderSystem, []⟩).1 = Except.ok ()
    ∧ sampleRenderSystem.mBoundVertexProgram = none
    ∧ (_render sampleMappings (sampleOperation OT_TRIANGLE_LIST 3)
        ⟨sampleRenderSystem, []⟩).1 = Except.error missingShadersError :=
  ⟨by decide, rfl,
    (render_missing_shaders_iff sampleMappings (sampleOperation OT_TRIANGLE_LIST 3)
      (sampleVertexData 3) ⟨sampleRenderSystem, []⟩ rfl (by decide) (by decide)).2
      (Or.inl rfl)⟩

/-- Claim C9, counterexample. `_render` of an operation with zero vertices, and of one
without vertex data, returns normally: the caller receives no failure. -/
theorem render_zero_vertices_returns_normally :
    (sampleVertexData 0).vertexCount = 0
    ∧ (_render sampleMappings (sampleOperation OT_TRIANGLE_LIST 0)
        ⟨sampleGraphicsSystem, []⟩).1 = Except.ok ()
    ∧ (_render sampleMappings { sampleOperation OT_TRIANGLE_LIST 3 with vertexData := none }
        ⟨sampleGraphicsSystem, []⟩).1 = Except.ok () :=
  ⟨rfl, by decide, by decide⟩

/-- Claim C9, amended. For every render operation whose vertex data is absent or whose
vertex count is zero, `_render` returns normally at once: it issues no call and leaves
the render system as it was. -/
theorem render_nothing_to_render (maps : D3D11Mappings) (op : RenderOperation) (w : World)
    (h : op.vertexData = none
      ∨ ∃ vertexData, op.vertexData = some vertexData ∧ vertexData.vertexCount = 0) :
    _render maps op w = (Except.ok (), w) := by
  unfold _render
  rcases h with h | ⟨vertexData, h, h0⟩
  · rw [h]; rfl
  · rw [h]
    simp only [h0, if_true]
    rfl

/-- Claim C9, witness: an operation with zero vertices. -/
theorem render_nothing_to_render_witness :
    (_render sampleMappings (sampleOperation OT_TRIANGLE_LIST 0) ⟨sampleGraphicsSystem, []⟩).2.calls
      = [] :=
  congrArg (fun r => r.2.calls)
    (render_nothing_to_render sampleMappings (sampleOperation OT_TRIANGLE_LIST 0)
      ⟨sampleGraphicsSystem, []⟩ (Or.inr ⟨sampleVertexData 0, rfl, rfl⟩))

/-- Claim C10, counterexample. With a vertex, a fragment and a compute program bound,
`_render` issues `VSSetShader`, `PSSetShader`, the vertex declaration bind and
`IASetVertexBuffers` before the `Dispatch`. -/
theorem render_compute_sets_graphics_shaders_before_dispatch :
    sampleComputeSystem.mBoundComputeProgram.isSome = true
    ∧ (beforeDispatch ((_render sampleMappings (sampleOperation OT_TRIANGLE_LIST 3)).issued
        ⟨sampleComputeSystem, []⟩)).map Call.name
      = [CallName.CreateBlendState, CallName.CreateRasterizerState,
          CallName.CreateDepthStencilState, CallName.OMSetBlendState, CallName.RSSetState,
          CallName.OMSetDepthStencilState, CallName.SOGetTargets, CallName.VSSetShader,
          CallName.PSSetShader, CallName.CSSetShader, CallName.bindToShader,
          CallName.IASetVertexBuffers]
    ∧ CallName.Dispatch ∈ ((_render sampleMappings (sampleOperation OT_TRIANGLE_LIST 3)).issued
        ⟨sampleComputeSystem, []⟩).map Call.name :=
  ⟨rfl, by decide, by decide⟩

/-- Claim C10, amended. When a compute program is bound and `_render` reaches the
dispatch (it returns normally, for a non-zero vertex count), graphics-stage binding is
not skipped: a vertex program is bound and its `VSSetShader` is issued before the
`Dispatch`, and so are the `SetShader` call of every other bound program, the bind of the
vertex declaration and the `IASetVertexBuffers` call of every bound vertex buffer. -/
theorem render_compute_binds_graphics (maps : D3D11Mappings) (op : RenderOperation)
    (vertexData : VertexData) (w : World)
    (hvd : op.vertexData = some vertexData) (hcount : vertexData.vertexCount ≠ 0)
    (hcompute : w.rs.mBoundComputeProgram.isSome = true)
    (hok : (_render maps op w).1 = Except.ok ()) :
    (∃ p, w.rs.mBoundVertexProgram = some p
      ∧ Call.SetShader GpuProgramType.GPT_VERTEX_PROGRAM p.shader
          (w.rs.mClassInstances GpuProgramType.GPT_VERTEX_PROGRAM)
          (w.rs.mNumClassInstances GpuProgramType.GPT_VERTEX_PROGRAM)
        ∈ beforeDispatch ((_render maps op).issued w))
    ∧ (∀ c ∈ programCalls w.rs, c ∈ beforeDispatch ((_render maps op).issued w))
    ∧ Call.bindToShader vertexData.vertexDeclaration w.rs.mBoundVertexProgram
        vertexData.vertexBufferBinding ∈ beforeDispatch ((_render maps op).issued w)
    ∧ (∀ c ∈ vertexBufferCalls vertexData.vertexBufferBinding,
        c ∈ beforeDispatch ((_render maps op).issued w)) := by
  obtain ⟨hvertex, pre, hpre, hi⟩ := render_compute_calls maps op vertexData w hvd hcount
    hcompute hok
  have hprog : ∀ c ∈ programCalls w.rs, c.isDispatch = false := by
    intro c hc
    simp only [programCalls, shaderCall, List.mem_append] at hc
    rcases hc with ((((h | h) | h) | h) | h) | h <;> split at h <;> simp at h <;> rw [h] <;> rfl
  have hvb : ∀ c ∈ vertexBufferCalls vertexData.vertexBufferBinding, c.isDispatch = false := by
    intro c hc
    simp only [vertexBufferCalls, List.mem_map] at hc
    obtain ⟨_, -, rfl⟩ := hc
    rfl
  have hb : beforeDispatch ((_render maps op).issued w)
      = pre ++ programCalls w.rs
        ++ [Call.bindToShader vertexData.vertexDeclaration w.rs.mBoundVertexProgram
            vertexData.vertexBufferBinding]
        ++ vertexBufferCalls vertexData.vertexBufferBinding := by
    rw [hi]
    apply beforeDispatch_append_computeCalls
    intro c hc
    simp only [List.mem_append, List.mem_singleton] at hc
    rcases hc with ((h | h) | h) | h
    · exact (hpre c h).2
    · exact hprog c h
    · rw [h]; rfl
    · exact hvb c h
  rw [hb]
  refine ⟨?_, fun c hc => by simp [hc], by simp, fun c hc => by simp [hc]⟩
  cases hv : w.rs.mBoundVertexProgram with
  | none => rw [hv] at hvertex; simp at hvertex
  | some p =>
    refine ⟨p, rfl, ?_⟩
    simp [programCalls, shaderCall, hv]

/-- Claim C10, witness: the vertex declaration is bound before the dispatch. -/
theorem render_compute_binds_graphics_witness :
    (_render sampleMappings (sampleOperation OT_TRIANGLE_LIST 3)
        ⟨sampleComputeSystem, []⟩).1 = Except.ok ()
    ∧ Call.bindToShader 7 (some (sampleProgram "vs" 1)) ⟨[(0, ⟨12, some 9⟩)], false⟩
      ∈ beforeDispatch ((_render sampleMappings (sampleOperation OT_TRIANGLE_LIST 3)).issued
          ⟨sampleComputeSystem, []⟩) :=
  ⟨by decide,
    (render_compute_binds_graphics sampleMappings (sampleOperation OT_TRIANGLE_LIST 3)
      (sampleVertexData 3) ⟨sampleComputeSystem, []⟩ rfl (by decide) rfl (by decide)).2.2.1⟩

/-- C11, counterexample: a `_render` of an operation without vertices returns normally and
resolves nothing, so on a freshly initialised render system the successful `_render` that
follows it, with no setter call in between, creates and binds the three state objects. -/
theorem render_after_empty_render_creates_state_objects :
    (_render sampleMappings (sampleOperation OT_TRIANGLE_LIST 0)
        ⟨sampleGraphicsSystem, []⟩).1 = Except.ok ()
    ∧ (_render sampleMappings (sampleOperation OT_TRIANGLE_LIST 3)
        (_render sampleMappings (sampleOperation OT_TRIANGLE_LIST 0)
          ⟨sampleGraphicsSystem, []⟩).2).1 = Except.ok ()
    ∧ (((_render sampleMappings (sampleOperation OT_TRIANGLE_LIST 3)).issued
        (_render sampleMappings (sampleOperation OT_TRIANGLE_LIST 0)
          ⟨sampleGraphicsSystem, []⟩).2).map Call.name).take 6
        = [CallName.CreateBlendState, CallName.CreateRasterizerState,
            CallName.CreateDepthStencilState, CallName.OMSetBlendState, CallName.RSSetState,
            CallName.OMSetDepthStencilState]
    ∧ (_render sampleMappings (sampleOperation OT_TRIANGLE_LIST 3)
        (_render sampleMappings (sampleOperation OT_TRIANGLE_LIST 0)
          ⟨sampleGraphicsSystem, []⟩).2).2.rs.mBoundBlendState
      ≠ (_render sampleMappings (sampleOperation OT_TRIANGLE_LIST 0)
          ⟨sampleGraphicsSystem, []⟩).2.rs.mBoundBlendState :=
  ⟨by decide, by decide, by decide, by decide⟩

/-- C11, amended: after a successful `_render` of an operation with vertices, the next
`_render`, with no setter call in between, issues no call that creates or binds a blend,
rasterizer or depth-stencil state object and leaves the three bound state objects as the
first call left them. -/
theorem render_twice_reuses_state_objects (maps : D3D11Mappings) (op1 op2 : RenderOperation)
    (vertexData : VertexData) (w : World) (hvd : op1.vertexData = some vertexData)
    (hcount : vertexData.vertexCount ≠ 0) (hok : (_render maps op1 w).1 = Except.ok ()) :
    (∀ c ∈ (_render maps op2).issued (_render maps op1 w).2,
        c.createsStateObject = false ∧ c.bindsStateObject = false)
      ∧ (_render maps op2 (_render maps op1 w).2).2.rs.mBoundBlendState
          = (_render maps op1 w).2.rs.mBoundBlendState
      ∧ (_render maps op2 (_render maps op1 w).2).2.rs.mBoundRasterizer
          = (_render maps op1 w).2.rs.mBoundRasterizer
      ∧ (_render maps op2 (_render maps op1 w).2).2.rs.mBoundDepthStencilState
          = (_render maps op1 w).2.rs.mBoundDepthStencilState := by
  obtain ⟨hb, hr, hd⟩ := render_clears maps op1 vertexData w hvd hcount hok
  have h := render_clean maps op2 (_render maps op1 w).2 hb hr hd
  obtain ⟨l, hl, hq⟩ := h.calls
  rw [issued_eq hl]
  exact ⟨hq, h.boundBlend, h.boundRasterizer, h.boundDepthStencil⟩

theorem render_twice_reuses_state_objects_witness :
    (sampleOperation OT_TRIANGLE_LIST 3).vertexData = some (sampleVertexData 3)
    ∧ (sampleVertexData 3).vertexCount ≠ 0
    ∧ (_render sampleMappings (sampleOperation OT_TRIANGLE_LIST 3)
        ⟨sampleGraphicsSystem, []⟩).1 = Except.ok ()
    ∧ (∀ c ∈ (_render sampleMappings (sampleOperation OT_LINE_LIST 4)).issued
          (_render sampleMappings (sampleOperation OT_TRIANGLE_LIST 3)
            ⟨sampleGraphicsSystem, []⟩).2,
        c.createsStateObject = false ∧ c.bindsStateObject = false)
    ∧ (_render sampleMappings (sampleOperation OT_LINE_LIST 4)
        (_render sampleMappings (sampleOperation OT_TRIANGLE_LIST 3)
          ⟨sampleGraphicsSystem, []⟩).2).2.rs.mBoundBlendState
        = (_render sampleMappings (sampleOperation OT_TRIANGLE_LIST 3)
            ⟨sampleGraphicsSystem, []⟩).2.rs.mBoundBlendState :=
  have h := render_twice_reuses_state_objects sampleMappings (sampleOperation OT_TRIANGLE_LIST 3)
    (sampleOperation OT_LINE_LIST 4) (sampleVertexData 3) ⟨sampleGraphicsSystem, []⟩ rfl
    (by decide) (by decide)
  ⟨rfl, by decide, by decide, h.1, h.2.1⟩

theorem mem_createCalls_append {rs : D3D11RenderSystem} {l : List Call}
    (hq : ∀ c ∈ l, c.createsStateObject = false) :
    ((∃ d, Call.CreateBlendState d ∈ createCalls rs ++ l) ↔ rs.mBlendDescChanged = true)
      ∧ ((∃ d, Call.CreateRasterizerState d ∈ createCalls rs ++ l)
        ↔ rs.mRasterizerDescChanged = true)
      ∧ ((∃ d, Call.CreateDepthStencilState d ∈ createCalls rs ++ l)
        ↔ rs.mDepthStencilDescChanged = true)
      ∧ (rs.mBlendDescChanged = true → Call.CreateBlendState rs.mBlendDesc ∈ createCalls rs ++ l)
      ∧ (rs.mRasterizerDescChanged = true →
          Call.CreateRasterizerState rs.mRasterizerDesc ∈ createCalls rs ++ l)
      ∧ (rs.mDepthStencilDescChanged = true →
          Call.CreateDepthStencilState rs.mDepthStencilDesc ∈ createCalls rs ++ l) := by
  have hB : ∀ d, Call.CreateBlendState d ∉ l := fun d h =>
    Bool.noConfusion (show true = false from hq _ h)
  have hR : ∀ d, Call.CreateRasterizerState d ∉ l := fun d h =>
    Bool.noConfusion (show true = false from hq _ h)
  have hD : ∀ d, Call.CreateDepthStencilState d ∉ l := fun d h =>
    Bool.noConfusion (show true = false from hq _ h)
  unfold createCalls
  cases rs.mBlendDescChanged <;> cases rs.mRasterizerDescChanged <;>
    cases rs.mDepthStencilDescChanged <;> simp [hB, hR, hD]

/-- A `setScissorTest` that raises has written the scissor flag and has not marked the
rasterizer descriptor: between two successful `_render` calls on a device that reports an
error after `RSSetScissorRects`, `setScissorTest(true, 0, 0, 8, 8)` raises; the rasterizer
descriptor then differs from its value at the first `_render`, it is not marked changed,
and the second `_render` creates no rasterizer state object. -/
theorem render_keeps_rasterizer_object_after_raising_setScissorTest :
    (_render sampleMappings (sampleOperation OT_TRIANGLE_LIST 3)
        ⟨sampleScissorFailingSystem, []⟩).1 = Except.ok ()
    ∧ (setScissorTest true 0 0 8 8
        (_render sampleMappings (sampleOperation OT_TRIANGLE_LIST 3)
          ⟨sampleScissorFailingSystem, []⟩).2).1 ≠ Except.ok ()
    ∧ (_render sampleMappings (sampleOperation OT_TRIANGLE_LIST 3)
        ((_render sampleMappings (sampleOperation OT_TRIANGLE_LIST 3)
          ⟨sampleScissorFailingSystem, []⟩).2.afterSetters sampleMappings
            [StateSetter.setScissorTest true 0 0 8 8])).1 = Except.ok ()
    ∧ ((_render sampleMappings (sampleOperation OT_TRIANGLE_LIST 3)
          ⟨sampleScissorFailingSystem, []⟩).2.afterSetters sampleMappings
            [StateSetter.setScissorTest true 0 0 8 8]).rs.mRasterizerDesc
        ≠ sampleScissorFailingSystem.mRasterizerDesc
    ∧ ((_render sampleMappings (sampleOperation OT_TRIANGLE_LIST 3)
          ⟨sampleScissorFailingSystem, []⟩).2.afterSetters sampleMappings
            [StateSetter.setScissorTest true 0 0 8 8]).rs.mRasterizerDescChanged = false
    ∧ ((_render sampleMappings (sampleOperation OT_TRIANGLE_LIST 3)).issued
        ((_render sampleMappings (sampleOperation OT_TRIANGLE_LIST 3)
          ⟨sampleScissorFailingSystem, []⟩).2.afterSetters sampleMappings
            [StateSetter.setScissorTest true 0 0 8 8])).map Call.name
        = [CallName.SOGetTargets, CallName.VSSetShader, CallName.PSSetShader,
            CallName.bindToShader, CallName.IASetVertexBuffers,
            CallName.IASetPrimitiveTopology, CallName.Draw] :=
  ⟨by decide, by decide, by decide, by decide, by decide, by decide⟩

/-- C12, counterexample: between two successful `_render` calls, `_setDepthBufferCheckEnabled`
is called with the value the descriptor already holds; no field of the depth-stencil
descriptor differs from its value at the first `_render`, and the second `_render` creates
a new depth-stencil state object all the same. -/
theorem render_recreates_after_setter_of_same_value :
    (_render sampleMappings (sampleOperation OT_TRIANGLE_LIST 3)
        ⟨sampleGraphicsSystem, []⟩).1 = Except.ok ()
    ∧ (_render sampleMappings (sampleOperation OT_TRIANGLE_LIST 3)
        ((_render sampleMappings (sampleOperation OT_TRIANGLE_LIST 3)
          ⟨sampleGraphicsSystem, []⟩).2.afterSetters sampleMappings
            [StateSetter._setDepthBufferCheckEnabled false])).1 = Except.ok ()
    ∧ ((_render sampleMappings (sampleOperation OT_TRIANGLE_LIST 3)
          ⟨sampleGraphicsSystem, []⟩).2.afterSetters sampleMappings
            [StateSetter._setDepthBufferCheckEnabled false]).rs.mDepthStencilDesc
        = sampleGraphicsSystem.mDepthStencilDesc
    ∧ ((_render sampleMappings (sampleOperation OT_TRIANGLE_LIST 3)).issued
        ((_render sampleMappings (sampleOperation OT_TRIANGLE_LIST 3)
          ⟨sampleGraphicsSystem, []⟩).2.afterSetters sampleMappings
            [StateSetter._setDepthBufferCheckEnabled false])).map Call.name
        = [CallName.CreateDepthStencilState, CallName.OMSetDepthStencilState,
            CallName.SOGetTargets, CallName.VSSetShader, CallName.PSSetShader,
            CallName.bindToShader, CallName.IASetVertexBuffers,
            CallName.IASetPrimitiveTopology, CallName.Draw] :=
  ⟨by decide, by decide, by decide, by decide⟩

/-- C12, amended: when setter calls are made between two successful `_render` calls of
operations with vertices, the second `_render` creates a state object of a category if and
only if the descriptor of the category is marked changed when it is entered. The blend and
the depth-stencil descriptor are marked changed whenever they differ from their value at
the first `_render`, and so is the rasterizer descriptor when every setter call in between
returned; the object is then created from the descriptor's new value. Every setter call
that returns leaves the descriptor it writes marked changed, whatever the values it stores,
unless it is `_setPolygonMode` with the polygon mode in force; no later setter call clears
the mark. -/
theorem render_creates_iff_marked (maps : D3D11Mappings) (op1 op2 : RenderOperation)
    (vertexData1 vertexData2 : VertexData) (w : World) (setters : List StateSetter)
    (hvd1 : op1.vertexData = some vertexData1) (hcount1 : vertexData1.vertexCount ≠ 0)
    (hok1 : (_render maps op1 w).1 = Except.ok ())
    (hvd2 : op2.vertexData = some vertexData2) (hcount2 : vertexData2.vertexCount ≠ 0)
    (hok2 : (_render maps op2 ((_render maps op1 w).2.afterSetters maps setters)).1
      = Except.ok ()) :
    ((∃ d, Call.CreateBlendState d
          ∈ (_render maps op2).issued ((_render maps op1 w).2.afterSetters maps setters))
        ↔ ((_render maps op1 w).2.afterSetters maps setters).rs.mBlendDescChanged = true)
      ∧ ((∃ d, Call.CreateRasterizerState d
          ∈ (_render maps op2).issued ((_render maps op1 w).2.afterSetters maps setters))
        ↔ ((_render maps op1 w).2.afterSetters maps setters).rs.mRasterizerDescChanged = true)
      ∧ ((∃ d, Call.CreateDepthStencilState d
          ∈ (_render maps op2).issued ((_render maps op1 w).2.afterSetters maps setters))
        ↔ ((_render maps op1 w).2.afterSetters maps setters).rs.mDepthStencilDescChanged
          = true)
      ∧ (((_render maps op1 w).2.afterSetters maps setters).rs.mBlendDesc ≠ w.rs.mBlendDesc →
          Call.CreateBlendState ((_render maps op1 w).2.afterSetters maps setters).rs.mBlendDesc
            ∈ (_render maps op2).issued ((_render maps op1 w).2.afterSetters maps setters))
      ∧ ((_render maps op1 w).2.settersReturn maps setters →
          ((_render maps op1 w).2.afterSetters maps setters).rs.mRasterizerDesc
            ≠ w.rs.mRasterizerDesc →
          Call.CreateRasterizerState
              ((_render maps op1 w).2.afterSetters maps setters).rs.mRasterizerDesc
            ∈ (_render maps op2).issued ((_render maps op1 w).2.afterSetters maps setters))
      ∧ (((_render maps op1 w).2.afterSetters maps setters).rs.mDepthStencilDesc
            ≠ w.rs.mDepthStencilDesc →
          Call.CreateDepthStencilState
              ((_render maps op1 w).2.afterSetters maps setters).rs.mDepthStencilDesc
            ∈ (_render maps op2).issued
              ((_render maps op1 w).2.afterSetters maps setters))
      ∧ (∀ (before : List StateSetter) (s : StateSetter) (after : List StateSetter),
          setters = before ++ s :: after →
          (s.run maps ((_render maps op1 w).2.afterSetters maps before)).1 = Except.ok () →
          ¬ s.keepsPolygonMode ((_render maps op1 w).2.afterSetters maps before).rs →
          ((_render maps op1 w).2.afterSetters maps setters).rs.marked s.kind = true) := by
  obtain ⟨l, hl, hq⟩ := render_calls_create maps op2 vertexData2 _ hvd2 hcount2 hok2
  obtain ⟨iB, iR, iD, mB, mR, mD⟩ :=
    @mem_createCalls_append ((_render maps op1 w).2.afterSetters maps setters).rs l hq
  have hs := render_settles maps op1 vertexData1 w hvd1 hcount1 hok1
  obtain ⟨-, -, -, dB, dR, dD, -⟩ := resolvedWorld_spec w
  obtain ⟨cB, cR, cD⟩ := render_clears maps op1 vertexData1 w hvd1 hcount1 hok1
  obtain ⟨sB, sR, sD⟩ := afterSetters_marks maps setters (_render maps op1 w).2
  rw [hl]
  refine ⟨iB, iR, iD, fun h => mB ?_, fun hret h => mR ?_, fun h => mD ?_, ?_⟩
  · rcases sB with k | ⟨-, k⟩
    · exact k
    · exact absurd (k.trans (hs.blendDesc.trans dB)) h
  · rcases sR hret with k | ⟨-, k⟩
    · exact k
    · exact absurd (k.trans (hs.rasterizerDesc.trans dR)) h
  · rcases sD with k | ⟨-, k⟩
    · exact k
    · exact absurd (k.trans (hs.depthStencilDesc.trans dD)) h
  · intro before s after hsplit hret hp
    rw [hsplit, afterSetters_append, afterSetters_cons]
    exact afterSetters_marked maps after s.kind _ (StateSetter.run_marks maps _ s hret hp)

theorem render_creates_iff_marked_witness :
    (sampleOperation OT_TRIANGLE_LIST 3).vertexData = some (sampleVertexData 3)
    ∧ (sampleVertexData 3).vertexCount ≠ 0
    ∧ (_render sampleMappings (sampleOperation OT_TRIANGLE_LIST 3)
        ⟨sampleGraphicsSystem, []⟩).1 = Except.ok ()
    ∧ (_render sampleMappings (sampleOperation OT_TRIANGLE_LIST 3)
        ((_render sampleMappings (sampleOperation OT_TRIANGLE_LIST 3)
          ⟨sampleGraphicsSystem, []⟩).2.afterSetters sampleMappings
            [StateSetter._setDepthBufferCheckEnabled true])).1 = Except.ok ()
    ∧ ((∃ d, Call.CreateRasterizerState d
          ∈ (_render sampleMappings (sampleOperation OT_TRIANGLE_LIST 3)).issued
            ((_render sampleMappings (sampleOperation OT_TRIANGLE_LIST 3)
              ⟨sampleGraphicsSystem, []⟩).2.afterSetters sampleMappings
                [StateSetter._setDepthBufferCheckEnabled true]))
        ↔ ((_render sampleMappings (sampleOperation OT_TRIANGLE_LIST 3)
              ⟨sampleGraphicsSystem, []⟩).2.afterSetters sampleMappings
                [StateSetter._setDepthBufferCheckEnabled true]).rs.mRasterizerDescChanged
            = true) :=
  ⟨rfl, by decide, by decide, by decide,
    (render_creates_iff_marked sampleMappings (sampleOperation OT_TRIANGLE_LIST 3)
      (sampleOperation OT_TRIANGLE_LIST 3) (sampleVertexData 3) (sampleVertexData 3)
      ⟨sampleGraphicsSystem, []⟩ [StateSetter._setDepthBufferCheckEnabled true] rfl
      (by decide) (by decide) rfl (by decide) (by decide)).2.1⟩

/-- C13, at the failing input: on a freshly initialised render system whose device fails
the first `CreateBlendState`, `_render` raises the rendering-API error and leaves the blend
descriptor not marked changed although no blend state object is bound; the next `_render`
therefore creates and binds no blend state object, and draws. -/
theorem render_after_failed_creation_skips_blend_state :
    (_render sampleMappings (sampleOperation OT_TRIANGLE_LIST 3)
        ⟨{ sampleGraphicsSystem with mDevice := failingOnceDevice }, []⟩).1
      = Except.error ⟨ExceptionCodes.ERR_RENDERINGAPI_ERROR, some (-2147024882),
          "Failed to create blend state\nError Description:", "D3D11RenderSystem::_render"⟩
    ∧ (_render sampleMappings (sampleOperation OT_TRIANGLE_LIST 3)
        ⟨{ sampleGraphicsSystem with mDevice := failingOnceDevice }, []⟩).2.rs.mBlendDescChanged
      = false
    ∧ (_render sampleMappings (sampleOperation OT_TRIANGLE_LIST 3)
        ⟨{ sampleGraphicsSystem with mDevice := failingOnceDevice }, []⟩).2.rs.mBoundBlendState
      = none
    ∧ (_render sampleMappings (sampleOperation OT_TRIANGLE_LIST 3)
        (_render sampleMappings (sampleOperation OT_TRIANGLE_LIST 3)
          ⟨{ sampleGraphicsSystem with mDevice := failingOnceDevice }, []⟩).2).1
      = Except.ok ()
    ∧ ((_render sampleMappings (sampleOperation OT_TRIANGLE_LIST 3)).issued
        (_render sampleMappings (sampleOperation OT_TRIANGLE_LIST 3)
          ⟨{ sampleGraphicsSystem with mDevice := failingOnceDevice }, []⟩).2).map Call.name
      = [CallName.CreateRasterizerState, CallName.CreateDepthStencilState,
          CallName.RSSetState, CallName.OMSetDepthStencilState, CallName.SOGetTargets,
          CallName.VSSetShader, CallName.PSSetShader, CallName.bindToShader,
          CallName.IASetVertexBuffers, CallName.IASetPrimitiveTopology, CallName.Draw]
    ∧ (_render sampleMappings (sampleOperation OT_TRIANGLE_LIST 3)
        (_render sampleMappings (sampleOperation OT_TRIANGLE_LIST 3)
          ⟨{ sampleGraphicsSystem with mDevice := failingOnceDevice }, []⟩).2).2.rs.mBoundBlendState
      = none :=
  ⟨by decide, by decide, by decide, by decide, by decide, by decide⟩

/-- C14, counterexample: after `_setTexture` enabled stage 1 and then stage 0, both below
`OGRE_MAX_TEXTURE_LAYERS`, the counter is 1 although stage 1 is marked used, so it is not
one more than the highest stage in use, and sampler resolution fills one slot only. -/
theorem setTexture_counter_follows_last_call :
    1 < OGRE_MAX_TEXTURE_LAYERS
    ∧ (_setTexture (_setTexture sampleRenderSystem 1 true (some ⟨64, some 50, TextureType.TEX_TYPE_2D⟩))
        0 true (some ⟨64, some 51, TextureType.TEX_TYPE_2D⟩)).mLastTextureUnitState = 1
    ∧ ((_setTexture (_setTexture sampleRenderSystem 1 true (some ⟨64, some 50, TextureType.TEX_TYPE_2D⟩))
        0 true (some ⟨64, some 51, TextureType.TEX_TYPE_2D⟩)).mTexStageDesc 1).used = true
    ∧ (match (resolveStateObjects sampleMappings
          ⟨_setTexture (_setTexture sampleRenderSystem 1 true
              (some ⟨64, some 50, TextureType.TEX_TYPE_2D⟩))
            0 true (some ⟨64, some 51, TextureType.TEX_TYPE_2D⟩), []⟩).1 with
        | Except.ok opState => opState.mSamplerStatesCount
        | Except.error _ => 0) = 1 :=
  ⟨by decide, by decide, by decide, by decide⟩

/-- C14, amended: after `_setTexture` was called once for every stage below
`OGRE_MAX_TEXTURE_LAYERS`, in ascending order, the counter is one more than the highest
stage marked used, and 0 when none is; sampler resolution then fills exactly that many
slots, so it covers every stage in use and none beyond the last one in use. -/
theorem setTextures_counts_used_units (maps : D3D11Mappings) (rs : D3D11RenderSystem)
    (enabled : Nat → Bool) (tex : Nat → Option D3D11Texture) (calls : List Call)
    (opState : D3D11RenderOperationState)
    (h : (resolveStateObjects maps
      ⟨setTextures rs enabled tex OGRE_MAX_TEXTURE_LAYERS, calls⟩).1 = Except.ok opState) :
    (∀ stage, stage < OGRE_MAX_TEXTURE_LAYERS →
        ((setTextures rs enabled tex OGRE_MAX_TEXTURE_LAYERS).mTexStageDesc stage).used = true →
          stage < (setTextures rs enabled tex OGRE_MAX_TEXTURE_LAYERS).mLastTextureUnitState)
      ∧ ((setTextures rs enabled tex OGRE_MAX_TEXTURE_LAYERS).mLastTextureUnitState = 0
        ∨ ((setTextures rs enabled tex OGRE_MAX_TEXTURE_LAYERS).mTexStageDesc
            ((setTextures rs enabled tex OGRE_MAX_TEXTURE_LAYERS).mLastTextureUnitState
              - 1)).used = true)
      ∧ (setTextures rs enabled tex OGRE_MAX_TEXTURE_LAYERS).mLastTextureUnitState
          ≤ OGRE_MAX_TEXTURE_LAYERS
      ∧ opState.mSamplerStatesCount
          = (setTextures rs enabled tex OGRE_MAX_TEXTURE_LAYERS).mLastTextureUnitState
      ∧ opState.mTexturesCount
          = (setTextures rs enabled tex OGRE_MAX_TEXTURE_LAYERS).mLastTextureUnitState := by
  obtain ⟨h1, h2, h3, h4⟩ := setTextures_counter rs enabled tex 15 (by decide)
  obtain ⟨hc, ht⟩ := resolveStateObjects_count maps _ opState h
  have e : OGRE_MAX_TEXTURE_LAYERS = 15 + 1 := rfl
  rw [e] at hc ⊢
  simp only [h4, if_true] at hc
  rw [Nat.min_eq_left (Nat.le_succ_of_le h1)] at hc
  exact ⟨h2, h3, h1, hc, ht.trans hc⟩

theorem setTextures_counts_used_units_witness :
    (resolveStateObjects sampleMappings
        ⟨setTextures sampleRenderSystem (fun stage => decide (stage < 2))
          (fun stage => some ⟨64, some (50 + stage), TextureType.TEX_TYPE_2D⟩)
          OGRE_MAX_TEXTURE_LAYERS, []⟩).1
      = Except.ok ⟨some 101, some 102, some 103, [some 104, some 105], 2, [some 50, some 51], 2⟩
    ∧ (setTextures sampleRenderSystem (fun stage => decide (stage < 2))
        (fun stage => some ⟨64, some (50 + stage), TextureType.TEX_TYPE_2D⟩)
        OGRE_MAX_TEXTURE_LAYERS).mLastTextureUnitState = 2 :=
  have h : (resolveStateObjects sampleMappings
        ⟨setTextures sampleRenderSystem (fun stage => decide (stage < 2))
          (fun stage => some ⟨64, some (50 + stage), TextureType.TEX_TYPE_2D⟩)
          OGRE_MAX_TEXTURE_LAYERS, []⟩).1
      = Except.ok ⟨some 101, some 102, some 103, [some 104, some 105], 2, [some 50, some 51], 2⟩ :=
    rfl
  ⟨h, ((setTextures_counts_used_units sampleMappings sampleRenderSystem _ _ [] _ h).2.2.2.1).symm⟩

/-- C15, at the failing input: with the counter at 17, one more than
`OGRE_MAX_TEXTURE_LAYERS` (the value `_setTexture` stores for stage 16), sampler resolution
fills 17 sampler slots and 17 texture slots, and `_render` hands 17 slots to the pixel
stage. -/
theorem resolveStateObjects_fills_17_slots :
    OGRE_MAX_TEXTURE_LAYERS = 16
    ∧ (_setTexture sampleGraphicsSystem 16 true
        (some ⟨64, some 50, TextureType.TEX_TYPE_2D⟩)).mLastTextureUnitState = 17
    ∧ (match (resolveStateObjects sampleMappings
          ⟨{ sampleGraphicsSystem with mLastTextureUnitState := 17 }, []⟩).1 with
        | Except.ok opState =>
          (opState.mSamplerStatesCount, opState.mSamplerStates.length, opState.mTexturesCount,
            opState.mTextures.length)
        | Except.error _ => (0, 0, 0, 0)) = (17, 17, 17, 17)
    ∧ (_render sampleMappings (sampleOperation OT_TRIANGLE_LIST 3)
        ⟨{ sampleGraphicsSystem with mLastTextureUnitState := 17 }, []⟩).1 = Except.ok ()
    ∧ (((_render sampleMappings (sampleOperation OT_TRIANGLE_LIST 3)).issued
        ⟨{ sampleGraphicsSystem with mLastTextureUnitState := 17 }, []⟩).filterMap fun c =>
          match c with
          | Call.SetSamplers GpuProgramType.GPT_FRAGMENT_PROGRAM _ numSamplers samplers =>
            some (numSamplers, samplers.length)
          | _ => none) = [(17, 17)] :=
  ⟨rfl, by decide, by decide, by decide, by decide⟩

open Capabilities in
/-- C16, counterexample: at feature level 9.1, which is below 10.0, the capability set
built on an object constructed without any capability reports 3-D texture support. -/
theorem capabilities_report_texture_3d_at_level_9_1 :
    D3D_FEATURE_LEVEL_9_1 < D3D_FEATURE_LEVEL_10_0
    ∧ emptyCapabilities.hasCapability RSC_TEXTURE_3D = false
    ∧ (createRenderSystemCapabilities sampleConfig emptyCapabilities
        { sampleRenderSystem with mFeatureLevel := D3D_FEATURE_LEVEL_9_1 }
        (0, 0)).hasCapability RSC_TEXTURE_3D = true :=
  ⟨by decide, rfl, by decide⟩

open Capabilities in
/-- C16, amended: 3-D texture support is reported at every feature level. For every feature
level below 10.0 `createRenderSystemCapabilities` sets none of cube-mapping, tessellation
hull program and tessellation domain program support, so each is reported only if the
capability object was constructed with it; for every feature level at or above 11.0 all
four are reported. -/
theorem capabilities_by_feature_level (config : BuildConfig) (rsc : RenderSystemCapabilities)
    (rs : D3D11RenderSystem) (formatSupport : HRESULT × Nat) :
    (createRenderSystemCapabilities config rsc rs formatSupport).hasCapability RSC_TEXTURE_3D
        = true
      ∧ (rs.mFeatureLevel < D3D_FEATURE_LEVEL_10_0 →
          (createRenderSystemCapabilities config rsc rs formatSupport).hasCapability
              RSC_CUBEMAPPING = rsc.hasCapability RSC_CUBEMAPPING
            ∧ (createRenderSystemCapabilities config rsc rs formatSupport).hasCapability
              RSC_TESSELLATION_HULL_PROGRAM = rsc.hasCapability RSC_TESSELLATION_HULL_PROGRAM
            ∧ (createRenderSystemCapabilities config rsc rs formatSupport).hasCapability
              RSC_TESSELLATION_DOMAIN_PROGRAM
                = rsc.hasCapability RSC_TESSELLATION_DOMAIN_PROGRAM)
      ∧ (rs.mFeatureLevel ≥ D3D_FEATURE_LEVEL_11_0 →
          (createRenderSystemCapabilities config rsc rs formatSupport).hasCapability
              RSC_CUBEMAPPING = true
            ∧ (createRenderSystemCapabilities config rsc rs formatSupport).hasCapability
              RSC_TESSELLATION_HULL_PROGRAM = true
            ∧ (createRenderSystemCapabilities config rsc rs formatSupport).hasCapability
              RSC_TESSELLATION_DOMAIN_PROGRAM = true) := by
  simp only [createRenderSystemCapabilities_hasCapability]
  refine ⟨by simp, fun h => ?_, fun h => ?_⟩
  · have h10 : ¬ rs.mFeatureLevel ≥ D3D_FEATURE_LEVEL_10_0 := Nat.not_le.mpr h
    have h11 : ¬ rs.mFeatureLevel ≥ D3D_FEATURE_LEVEL_11_0 := fun k =>
      h10 (le_trans (by decide) k)
    simp [h10, h11]
  · have h10 : rs.mFeatureLevel ≥ D3D_FEATURE_LEVEL_10_0 := le_trans (by decide) h
    simp [h10, h]

open Capabilities in
theorem capabilities_by_feature_level_witness :
    D3D_FEATURE_LEVEL_9_1 < D3D_FEATURE_LEVEL_10_0
    ∧ emptyCapabilities.hasCapability RSC_CUBEMAPPING = false
    ∧ (createRenderSystemCapabilities sampleConfig emptyCapabilities
        { sampleRenderSystem with mFeatureLevel := D3D_FEATURE_LEVEL_9_1 }
        (0, 0)).hasCapability RSC_CUBEMAPPING = emptyCapabilities.hasCapability RSC_CUBEMAPPING
    ∧ sampleRenderSystem.mFeatureLevel ≥ D3D_FEATURE_LEVEL_11_0
    ∧ (createRenderSystemCapabilities sampleConfig emptyCapabilities sampleRenderSystem
        (0, 0)).hasCapability RSC_TESSELLATION_HULL_PROGRAM = true :=
  ⟨by decide, rfl,
    ((capabilities_by_feature_level sampleConfig emptyCapabilities
      { sampleRenderSystem with mFeatureLevel := D3D_FEATURE_LEVEL_9_1 } (0, 0)).2.1
        (by decide)).1,
    by decide,
    ((capabilities_by_feature_level sampleConfig emptyCapabilities sampleRenderSystem
      (0, 0)).2.2 (by decide)).2.1⟩

open GpuProgramType in
/-- C17, counterexample: on a capability object constructed with every count 0, the hull
stage is reported with 0 float constants at feature level 9.1 and with 512 at feature
level 11.0. -/
theorem hull_constant_counts_differ_between_levels :
    (createRenderSystemCapabilities sampleConfig emptyCapabilities
        { sampleRenderSystem with mFeatureLevel := D3D_FEATURE_LEVEL_9_1 }
        (0, 0)).constantCounts GPT_HULL_PROGRAM = (0, 0, 0)
    ∧ (createRenderSystemCapabilities sampleConfig emptyCapabilities
        { sampleRenderSystem with mFeatureLevel := D3D_FEATURE_LEVEL_11_0 }
        (0, 0)).constantCounts GPT_HULL_PROGRAM = (512, 16, 16) :=
  ⟨by decide, by decide⟩

open GpuProgramType in
/-- C17, amended: for the vertex, fragment, geometry and compute stages
`createRenderSystemCapabilities` reports 512 float, 16 int and 16 bool constants at every
feature level, so the same counts for every two feature levels; for the hull and domain
stages it reports these counts at feature level 11.0 and above, and below that leaves
the counts the capability object was constructed with. -/
theorem constant_counts_by_feature_level (config : BuildConfig)
    (rsc : RenderSystemCapabilities) (rs rs' : D3D11RenderSystem)
    (formatSupport formatSupport' : HRESULT × Nat) (stage : GpuProgramType) :
    (stage ≠ GPT_HULL_PROGRAM → stage ≠ GPT_DOMAIN_PROGRAM →
        (createRenderSystemCapabilities config rsc rs formatSupport).constantCounts stage
            = (512, 16, 16)
          ∧ (createRenderSystemCapabilities config rsc rs formatSupport).constantCounts stage
            = (createRenderSystemCapabilities config rsc rs' formatSupport').constantCounts
                stage)
      ∧ (rs.mFeatureLevel ≥ D3D_FEATURE_LEVEL_11_0 →
          (createRenderSystemCapabilities config rsc rs formatSupport).constantCounts stage
            = (512, 16, 16))
      ∧ (rs.mFeatureLevel < D3D_FEATURE_LEVEL_11_0 →
          stage = GPT_HULL_PROGRAM ∨ stage = GPT_DOMAIN_PROGRAM →
            (createRenderSystemCapabilities config rsc rs formatSupport).constantCounts stage
              = rsc.constantCounts stage) := by
  simp only [createRenderSystemCapabilities_constantCounts]
  refine ⟨fun h1 h2 => ?_, fun h => ?_, fun h hs => ?_⟩
  · simp [h1, h2]
  · simp [h]
  · simp [hs, Nat.not_le.mpr h]

open GpuProgramType in
theorem constant_counts_by_feature_level_witness :
    GPT_VERTEX_PROGRAM ≠ GPT_HULL_PROGRAM
    ∧ GPT_VERTEX_PROGRAM ≠ GPT_DOMAIN_PROGRAM
    ∧ (createRenderSystemCapabilities sampleConfig emptyCapabilities
        { sampleRenderSystem with mFeatureLevel := D3D_FEATURE_LEVEL_9_1 }
        (0, 0)).constantCounts GPT_VERTEX_PROGRAM
      = (createRenderSystemCapabilities sampleConfig emptyCapabilities sampleRenderSystem
        (0, 0)).constantCounts GPT_VERTEX_PROGRAM :=
  ⟨by decide, by decide,
    ((constant_counts_by_feature_level sampleConfig emptyCapabilities
      { sampleRenderSystem with mFeatureLevel := D3D_FEATURE_LEVEL_9_1 } sampleRenderSystem
      (0, 0) (0, 0) GPT_VERTEX_PROGRAM).1 (by decide) (by decide)).2⟩

/-- C18: a `handleDeviceLost` that returns has issued, in this order, the `DeviceLost`
event, one `_releaseManualHardwareResources` call for each scene manager, `notifyDeviceLost`
and the release of buffer copies and depth buffers; then the calls of a `createDevice` that
returned, among them a native device creation and none but `ReleaseAll`, `refresh` and
device creations; then `notifyDeviceRestored` with the new device, `reloadAll`, one
`_restoreManualHardwareResources` call for each scene manager and the `DeviceRestored`
event. None of its calls is a draw call. -/
theorem handleDeviceLost_order (config : BuildConfig) (p : Platform) (w : World)
    (hok : (handleDeviceLost config p w).1 = Except.ok ()) :
    (∃ recreation history : List Call,
      (handleDeviceLost config p).issued w
        = [Call.fireEvent "DeviceLost" w.rs.mD3D11Device]
          ++ (p.sceneManagers (w.calls ++ [Call.fireEvent "DeviceLost" w.rs.mD3D11Device])).map
            Call._releaseManualHardwareResources
          ++ [Call.notifyDeviceLost w.rs.mD3D11Device, Call._releaseBufferCopies true,
            Call._cleanupDepthBuffers]
          ++ recreation
          ++ [Call.notifyDeviceRestored (handleDeviceLost config p w).2.rs.mD3D11Device,
            Call.reloadAll]
          ++ (p.sceneManagers history).map Call._restoreManualHardwareResources
          ++ [Call.fireEvent "DeviceRestored" (handleDeviceLost config p w).2.rs.mD3D11Device]
      ∧ history = w.calls ++ [Call.fireEvent "DeviceLost" w.rs.mD3D11Device]
          ++ (p.sceneManagers (w.calls ++ [Call.fireEvent "DeviceLost" w.rs.mD3D11Device])).map
            Call._releaseManualHardwareResources
          ++ [Call.notifyDeviceLost w.rs.mD3D11Device, Call._releaseBufferCopies true,
            Call._cleanupDepthBuffers]
          ++ recreation
          ++ [Call.notifyDeviceRestored (handleDeviceLost config p w).2.rs.mD3D11Device,
            Call.reloadAll]
      ∧ recreation = (createDevice config p).issued
          ⟨w.rs, w.calls ++ [Call.fireEvent "DeviceLost" w.rs.mD3D11Device]
            ++ (p.sceneManagers (w.calls ++ [Call.fireEvent "DeviceLost" w.rs.mD3D11Device])).map
              Call._releaseManualHardwareResources
            ++ [Call.notifyDeviceLost w.rs.mD3D11Device, Call._releaseBufferCopies true,
              Call._cleanupDepthBuffers]⟩
      ∧ (createDevice config p
          ⟨w.rs, w.calls ++ [Call.fireEvent "DeviceLost" w.rs.mD3D11Device]
            ++ (p.sceneManagers (w.calls ++ [Call.fireEvent "DeviceLost" w.rs.mD3D11Device])).map
              Call._releaseManualHardwareResources
            ++ [Call.notifyDeviceLost w.rs.mD3D11Device, Call._releaseBufferCopies true,
              Call._cleanupDepthBuffers]⟩).1 = Except.ok ()
      ∧ (∀ c ∈ recreation, c.isRecreation = true)
      ∧ ∃ c ∈ recreation, c.isDeviceCreation = true)
    ∧ ∀ c ∈ (handleDeviceLost config p).issued w, c.isDraw = false := by
  refine ⟨?_, ?_⟩
  · obtain ⟨recreated, hc, hr, hw⟩ := handleDeviceLost_calls config p w hok
    obtain ⟨l, hl, hq⟩ := (createDevice_keeps config p
      ⟨w.rs, w.calls ++ [Call.fireEvent "DeviceLost" w.rs.mD3D11Device]
        ++ (p.sceneManagers (w.calls ++ [Call.fireEvent "DeviceLost" w.rs.mD3D11Device])).map
          Call._releaseManualHardwareResources
        ++ [Call.notifyDeviceLost w.rs.mD3D11Device, Call._releaseBufferCopies true,
          Call._cleanupDepthBuffers]⟩).calls
    obtain ⟨l', hl', hx⟩ := createDevice_yields config p _ () hc
    have hll : l' = l := List.append_cancel_left (hl'.symm.trans hl)
    rw [hll] at hx
    have hl0 := hl
    rw [← hr] at hl
    have hd : (handleDeviceLost config p w).2.rs.mD3D11Device = recreated.rs.mD3D11Device := by
      rw [hw]
    refine ⟨l, _, issued_eq ?_, rfl, ?_, hc, hq, hx⟩
    · rw [hw, hl]
      simp only [List.append_assoc]
    · exact (issued_eq hl0).symm
  · obtain ⟨l, hl, hq⟩ := (handleDeviceLost_keeps config p w).calls
    rw [issued_eq hl]
    exact hq

theorem handleDeviceLost_order_witness :
    (handleDeviceLost sampleConfig samplePlatform ⟨sampleWindowedSystem, []⟩).1 = Except.ok ()
    ∧ ((handleDeviceLost sampleConfig samplePlatform).issued ⟨sampleWindowedSystem, []⟩).map
        Call.name
      = [CallName.fireEvent, CallName._releaseManualHardwareResources,
        CallName._releaseManualHardwareResources, CallName.notifyDeviceLost,
        CallName._releaseBufferCopies, CallName._cleanupDepthBuffers, CallName.ReleaseAll,
        CallName.refresh, CallName.D3D11CreateDeviceN, CallName.notifyDeviceRestored,
        CallName.reloadAll, CallName._restoreManualHardwareResources,
        CallName._restoreManualHardwareResources, CallName.fireEvent]
    ∧ ∀ c ∈ (handleDeviceLost sampleConfig samplePlatform).issued ⟨sampleWindowedSystem, []⟩,
      c.isDraw = false :=
  ⟨by decide, by decide,
    (handleDeviceLost_order sampleConfig samplePlatform ⟨sampleWindowedSystem, []⟩
      (by decide)).2⟩

/-- C19, counterexample: the sample system derived its capabilities for a device of
feature level 11.0; the device is lost and the platform re-creates one of feature level
9.1. `handleDeviceLost` returns, the feature level is 9.1, and the capabilities still
report cube mapping, which `createRenderSystemCapabilities` does not yield at that level:
they are not what it yields for the new device. -/
theorem handleDeviceLost_keeps_stale_capabilities :
    (handleDeviceLost sampleConfig samplePlatform ⟨sampleWindowedSystem, []⟩).1 = Except.ok ()
    ∧ sampleWindowedSystem.mFeatureLevel = D3D_FEATURE_LEVEL_11_0
    ∧ (handleDeviceLost sampleConfig samplePlatform ⟨sampleWindowedSystem, []⟩).2.rs.mFeatureLevel
      = D3D_FEATURE_LEVEL_9_1
    ∧ (handleDeviceLost sampleConfig samplePlatform
          ⟨sampleWindowedSystem, []⟩).2.rs.mCurrentCapabilities.map
        (fun rsc => rsc.hasCapability Capabilities.RSC_CUBEMAPPING) = some true
    ∧ (handleDeviceLost sampleConfig samplePlatform
          ⟨sampleWindowedSystem, []⟩).2.rs.mRealCapabilities.map
        (fun rsc => rsc.hasCapability Capabilities.RSC_CUBEMAPPING) = some true
    ∧ (createRenderSystemCapabilities sampleConfig emptyCapabilities
        (handleDeviceLost sampleConfig samplePlatform ⟨sampleWindowedSystem, []⟩).2.rs
        (0, 0)).hasCapability Capabilities.RSC_CUBEMAPPING = false
    ∧ (handleDeviceLost sampleConfig samplePlatform
          ⟨sampleWindowedSystem, []⟩).2.rs.mCurrentCapabilities
      ≠ some (createRenderSystemCapabilities sampleConfig emptyCapabilities
        (handleDeviceLost sampleConfig samplePlatform ⟨sampleWindowedSystem, []⟩).2.rs
        (0, 0)) := by
  have h4 : (handleDeviceLost sampleConfig samplePlatform
          ⟨sampleWindowedSystem, []⟩).2.rs.mCurrentCapabilities.map
        (fun rsc => rsc.hasCapability Capabilities.RSC_CUBEMAPPING) = some true := by decide
  have h6 : (createRenderSystemCapabilities sampleConfig emptyCapabilities
        (handleDeviceLost sampleConfig samplePlatform ⟨sampleWindowedSystem, []⟩).2.rs
        (0, 0)).hasCapability Capabilities.RSC_CUBEMAPPING = false := by decide
  refine ⟨by decide, by decide, by decide, h4, by decide, h6, fun h => ?_⟩
  rw [h, Option.map_some', h6] at h4
  exact Bool.noConfusion (Option.some.inj h4)

/-- C19, amended: `handleDeviceLost` does not derive the capabilities again. Whether it
returns or raises, and whatever device `createDevice` obtained, the real and the current
capabilities of the render system are the objects they were when it was entered. -/
theorem handleDeviceLost_leaves_capabilities (config : BuildConfig) (p : Platform)
    (w : World) :
    (handleDeviceLost config p w).2.rs.mRealCapabilities = w.rs.mRealCapabilities
    ∧ (handleDeviceLost config p w).2.rs.mCurrentCapabilities = w.rs.mCurrentCapabilities :=
  ⟨(handleDeviceLost_keeps config p w).real, (handleDeviceLost_keeps config p w).current⟩

/-- C20: let the wrapped method of the base class raise a rendering-API exception that
carries the native result code `hr`. Then `_updateAllRenderTargets` and
`_swapAllRenderTargetBuffers` raise that exception exactly when `hr` is neither
`DXGI_ERROR_DEVICE_REMOVED` nor `DXGI_ERROR_DEVICE_RESET`, and return normally exactly when
it is one of the two. -/
theorem device_loss_is_intercepted (updateBase : Bool → M Unit) (swapBase : M Unit)
    (swapBuffers : Bool) (w : World) (e : OgreException) (hr : HRESULT)
    (hcode : e.getHResult = some hr) :
    ((updateBase swapBuffers w).1 = Except.error e →
      ((_updateAllRenderTargets updateBase swapBuffers w).1 = Except.error e
        ↔ hr ≠ DXGI_ERROR_DEVICE_REMOVED ∧ hr ≠ DXGI_ERROR_DEVICE_RESET)
      ∧ ((_updateAllRenderTargets updateBase swapBuffers w).1 = Except.ok ()
        ↔ hr = DXGI_ERROR_DEVICE_REMOVED ∨ hr = DXGI_ERROR_DEVICE_RESET))
    ∧ ((swapBase w).1 = Except.error e →
      ((_swapAllRenderTargetBuffers swapBase w).1 = Except.error e
        ↔ hr ≠ DXGI_ERROR_DEVICE_REMOVED ∧ hr ≠ DXGI_ERROR_DEVICE_RESET)
      ∧ ((_swapAllRenderTargetBuffers swapBase w).1 = Except.ok ()
        ↔ hr = DXGI_ERROR_DEVICE_REMOVED ∨ hr = DXGI_ERROR_DEVICE_RESET)) :=
  ⟨fun h => catchDeviceLoss_result _ w e hr h hcode,
    fun h => catchDeviceLoss_result _ w e hr h hcode⟩

theorem device_loss_is_intercepted_witness :
    sampleDeviceRemoved.getHResult = some DXGI_ERROR_DEVICE_REMOVED
    ∧ (presentOnRemovedDevice ⟨sampleRenderSystem, []⟩).1 = Except.error sampleDeviceRemoved
    ∧ (_updateAllRenderTargets (fun _ => presentOnRemovedDevice) true ⟨sampleRenderSystem, []⟩).1
      = Except.ok ()
    ∧ (_swapAllRenderTargetBuffers presentOnRemovedDevice ⟨sampleRenderSystem, []⟩).1 = Except.ok () :=
  ⟨by decide, rfl,
    ((device_loss_is_intercepted (fun _ => presentOnRemovedDevice) presentOnRemovedDevice
      true ⟨sampleRenderSystem, []⟩ sampleDeviceRemoved DXGI_ERROR_DEVICE_REMOVED (by decide)).1
        rfl).2.mpr (Or.inl rfl),
    ((device_loss_is_intercepted (fun _ => presentOnRemovedDevice) presentOnRemovedDevice
      true ⟨sampleRenderSystem, []⟩ sampleDeviceRemoved DXGI_ERROR_DEVICE_REMOVED (by decide)).2
        rfl).2.mpr (Or.inl rfl)⟩

/-- C21: `createD3D11Device` makes at most two native creation attempts, and nothing else
is called. Either the requested range is empty and no attempt is made (the range error is
raised); or one attempt `c1` is made, it did not both fail and ask for the debug layer, and
its device is returned, or the creation error with its result code is raised if it failed;
or two attempts `c1`, `c2` are made, the first failed and asked for the debug layer, `c2`
has the adapter, driver type and feature levels of `c1` and its flags with the debug flag
cleared and no other flag changed, and the device of `c2` is returned, or the creation error
with the result code of `c2` is raised if it failed. -/
theorem createD3D11Device_retries_once_without_debug (config : BuildConfig) (p : Platform)
    (d3dDriver : Option D3D11Driver) (driverType : D3D_DRIVER_TYPE)
    (minFL maxFL : D3D_FEATURE_LEVEL) (store : Bool) (w : World) :
    ((createD3D11Device config p d3dDriver driverType minFL maxFL store).issued w).length ≤ 2
    ∧ (∀ c ∈ (createD3D11Device config p d3dDriver driverType minFL maxFL store).issued w,
      c.isDeviceCreation = true)
    ∧ ∃ (pAdapter : Option Handle) (nativeType : D3D_DRIVER_TYPE)
        (levels : List D3D_FEATURE_LEVEL) (flags2 : Nat) (c1 c2 : Call),
      c1 = Call.D3D11CreateDeviceN pAdapter nativeType (deviceFlags config p) levels
      ∧ c2 = Call.D3D11CreateDeviceN pAdapter nativeType flags2 levels
      ∧ (((createD3D11Device config p d3dDriver driverType minFL maxFL store).issued w = []
          ∧ (createD3D11Device config p d3dDriver driverType minFL maxFL store w).1
            = Except.error rangeError)
        ∨ ((createD3D11Device config p d3dDriver driverType minFL maxFL store).issued w = [c1]
          ∧ ¬ (FAILED (p.createdDevice (w.calls ++ [c1])).1 = true
            ∧ 0 ≠ deviceFlags config p &&& D3D11_CREATE_DEVICE_DEBUG)
          ∧ (createD3D11Device config p d3dDriver driverType minFL maxFL store w).1
            = if FAILED (p.createdDevice (w.calls ++ [c1])).1 = true then
                Except.error (creationError (p.createdDevice (w.calls ++ [c1])).1)
              else Except.ok (p.createdDevice (w.calls ++ [c1])).2.1)
        ∨ ((createD3D11Device config p d3dDriver driverType minFL maxFL store).issued w
            = [c1, c2]
          ∧ FAILED (p.createdDevice (w.calls ++ [c1])).1 = true
          ∧ 0 ≠ deviceFlags config p &&& D3D11_CREATE_DEVICE_DEBUG
          ∧ flags2 ||| D3D11_CREATE_DEVICE_DEBUG = deviceFlags config p
          ∧ flags2 &&& D3D11_CREATE_DEVICE_DEBUG = 0
          ∧ (createD3D11Device config p d3dDriver driverType minFL maxFL store w).1
            = if FAILED (p.createdDevice (w.calls ++ [c1, c2])).1 = true then
                Except.error (creationError (p.createdDevice (w.calls ++ [c1, c2])).1)
              else Except.ok (p.createdDevice (w.calls ++ [c1, c2])).2.1)) := by
  obtain ⟨pAdapter, nativeType, h⟩ :=
    createD3D11Device_spec config p d3dDriver driverType minFL maxFL store w
  obtain ⟨hempty, hrange⟩ := h _ _ _ _ _ rfl rfl rfl rfl rfl
  by_cases hr : (requestedRange (requestedLevels config) minFL maxFL).2
      < (requestedRange (requestedLevels config) minFL maxFL).1
  · have e := hempty hr
    have hi : (createD3D11Device config p d3dDriver driverType minFL maxFL store).issued w
        = [] := issued_eq (by rw [e]; simp)
    rw [hi]
    refine ⟨by simp, by simp, pAdapter, nativeType, [], 0, _, _, rfl, rfl, Or.inl ⟨rfl, ?_⟩⟩
    rw [e]
  · obtain ⟨hretry, honce⟩ := hrange hr
    by_cases hc : FAILED (p.createdDevice (w.calls
          ++ [Call.D3D11CreateDeviceN pAdapter nativeType (deviceFlags config p)
            (((requestedLevels config).drop
              (requestedRange (requestedLevels config) minFL maxFL).1).take
              ((requestedRange (requestedLevels config) minFL maxFL).2
                - (requestedRange (requestedLevels config) minFL maxFL).1 + 1))])).1 = true
        ∧ 0 ≠ deviceFlags config p &&& D3D11_CREATE_DEVICE_DEBUG
    · obtain ⟨hcalls, hres⟩ := hretry hc
      have hi := issued_eq hcalls
      rw [hi]
      refine ⟨by simp, ?_, pAdapter, nativeType, _, _, _, _, rfl, rfl,
        Or.inr (Or.inr ⟨rfl, hc.1, hc.2, (deviceFlags_without_debug config p hc.2).1,
          (deviceFlags_without_debug config p hc.2).2, hres⟩)⟩
      intro c hcm
      simp only [List.mem_cons, List.mem_singleton, List.not_mem_nil, or_false] at hcm
      rcases hcm with rfl | rfl <;> rfl
    · obtain ⟨hcalls, hres⟩ := honce hc
      have hi := issued_eq hcalls
      rw [hi]
      refine ⟨by simp, ?_, pAdapter, nativeType, _, 0, _, _, rfl, rfl,
        Or.inr (Or.inl ⟨rfl, hc, hres⟩)⟩
      intro c hcm
      simp only [List.mem_singleton] at hcm
      rw [hcm]
      rfl

/-- C21, witness: with the debug mode on and no debug layer on the platform, the first
attempt fails, the second is made without the debug flag, and its device is returned. -/
theorem createD3D11Device_retries_once_without_debug_witness :
    (createD3D11Device debugConfig missingDebugLayerPlatform none
        D3D_DRIVER_TYPE.D3D_DRIVER_TYPE_HARDWARE D3D_FEATURE_LEVEL_9_1 D3D_FEATURE_LEVEL_11_0
        true ⟨sampleRenderSystem, []⟩).1 = Except.ok (some 2002)
    ∧ ((createD3D11Device debugConfig missingDebugLayerPlatform none
        D3D_DRIVER_TYPE.D3D_DRIVER_TYPE_HARDWARE D3D_FEATURE_LEVEL_9_1 D3D_FEATURE_LEVEL_11_0
        true).issued ⟨sampleRenderSystem, []⟩).filterMap
          (fun c =>
            match c with
            | Call.D3D11CreateDeviceN _ _ flags _ => some flags
            | _ => none) = [3, 1]
    ∧ ((createD3D11Device debugConfig missingDebugLayerPlatform none
        D3D_DRIVER_TYPE.D3D_DRIVER_TYPE_HARDWARE D3D_FEATURE_LEVEL_9_1 D3D_FEATURE_LEVEL_11_0
        true).issued ⟨sampleRenderSystem, []⟩).length ≤ 2 :=
  ⟨by decide, by decide,
    (createD3D11Device_retries_once_without_debug debugConfig missingDebugLayerPlatform none
      D3D_DRIVER_TYPE.D3D_DRIVER_TYPE_HARDWARE D3D_FEATURE_LEVEL_9_1 D3D_FEATURE_LEVEL_11_0
      true ⟨sampleRenderSystem, []⟩).1⟩

/-- C30: let the minimum and the maximum feature level both occur in the table of requested
levels. When the minimum is not above the maximum, `createD3D11Device` makes at least one
native creation attempt and hands every attempt the levels of the table between the two:
a run of the table that starts with the maximum and ends with the minimum, and the maximum
alone when the two are equal. When the minimum is above the maximum it raises the range
error, an internal error, and calls nothing. -/
theorem createD3D11Device_hands_over_requested_range (config : BuildConfig) (p : Platform)
    (d3dDriver : Option D3D11Driver) (driverType : D3D_DRIVER_TYPE)
    (minFL maxFL : D3D_FEATURE_LEVEL) (store : Bool) (w : World)
    (hmin : minFL ∈ requestedLevels config) (hmax : maxFL ∈ requestedLevels config) :
    (minFL ≤ maxFL →
      (createD3D11Device config p d3dDriver driverType minFL maxFL store).issued w ≠ []
      ∧ (∀ c ∈ (createD3D11Device config p d3dDriver driverType minFL maxFL store).issued w,
        ∃ pAdapter nativeType flags,
          c = Call.D3D11CreateDeviceN pAdapter nativeType flags
            ((requestedLevels config).filter
              fun level => decide (minFL ≤ level ∧ level ≤ maxFL)))
      ∧ (∃ before after,
        requestedLevels config
          = before
            ++ (requestedLevels config).filter
              (fun level => decide (minFL ≤ level ∧ level ≤ maxFL))
            ++ after)
      ∧ ((requestedLevels config).filter
          fun level => decide (minFL ≤ level ∧ level ≤ maxFL)).head? = some maxFL
      ∧ ((requestedLevels config).filter
          fun level => decide (minFL ≤ level ∧ level ≤ maxFL)).getLast? = some minFL
      ∧ (minFL = maxFL →
        (requestedLevels config).filter (fun level => decide (minFL ≤ level ∧ level ≤ maxFL))
          = [maxFL]))
    ∧ (maxFL < minFL →
      (createD3D11Device config p d3dDriver driverType minFL maxFL store w).1
          = Except.error rangeError
        ∧ rangeError.number = ExceptionCodes.ERR_INTERNAL_ERROR
        ∧ (createD3D11Device config p d3dDriver driverType minFL maxFL store).issued w = []
        ∧ (createD3D11Device config p d3dDriver driverType minFL maxFL store w).2 = w) := by
  obtain ⟨hlt, hle⟩ := requestedRange_spec (requestedLevels config) minFL maxFL
    (requestedLevels_cases config) hmin hmax
  obtain ⟨pAdapter, nativeType, h⟩ :=
    createD3D11Device_spec config p d3dDriver driverType minFL maxFL store w
  obtain ⟨hempty, hrange⟩ := h _ _ _ _ _ rfl rfl rfl rfl rfl
  refine ⟨fun hmm => ?_, fun hmm => ?_⟩
  · obtain ⟨hr, hlevels, hsplit, hhead, hlast, hone⟩ := hle hmm
    rw [hlevels] at hrange
    obtain ⟨hretry, honce⟩ := hrange hr
    refine ⟨?_, ?_, ⟨_, _, hsplit⟩, hhead, hlast, hone⟩
    · by_cases hc : FAILED (p.createdDevice (w.calls
            ++ [Call.D3D11CreateDeviceN pAdapter nativeType (deviceFlags config p)
              ((requestedLevels config).filter
                fun level => decide (minFL ≤ level ∧ level ≤ maxFL))])).1 = true
          ∧ 0 ≠ deviceFlags config p &&& D3D11_CREATE_DEVICE_DEBUG
      · rw [issued_eq (hretry hc).1]
        simp
      · rw [issued_eq (honce hc).1]
        simp
    · by_cases hc : FAILED (p.createdDevice (w.calls
            ++ [Call.D3D11CreateDeviceN pAdapter nativeType (deviceFlags config p)
              ((requestedLevels config).filter
                fun level => decide (minFL ≤ level ∧ level ≤ maxFL))])).1 = true
          ∧ 0 ≠ deviceFlags config p &&& D3D11_CREATE_DEVICE_DEBUG
      · rw [issued_eq (hretry hc).1]
        intro c hcm
        simp only [List.mem_cons, List.mem_singleton, List.not_mem_nil, or_false] at hcm
        rcases hcm with rfl | rfl
        · exact ⟨_, _, _, rfl⟩
        · exact ⟨_, _, _, rfl⟩
      · rw [issued_eq (honce hc).1]
        intro c hcm
        simp only [List.mem_singleton] at hcm
        exact ⟨_, _, _, hcm⟩
  · have e := hempty (hlt hmm)
    refine ⟨by rw [e], rfl, issued_eq (by rw [e]; simp), by rw [e]⟩

/-- C30, witness: on the sample build, the minimum 9.3 and the maximum 10.1 give the levels
10.1, 10.0 and 9.3. -/
theorem createD3D11Device_hands_over_requested_range_witness :
    D3D_FEATURE_LEVEL_9_3 ∈ requestedLevels sampleConfig
    ∧ D3D_FEATURE_LEVEL_10_1 ∈ requestedLevels sampleConfig
    ∧ D3D_FEATURE_LEVEL_9_3 ≤ D3D_FEATURE_LEVEL_10_1
    ∧ (requestedLevels sampleConfig).filter
        (fun level => decide (D3D_FEATURE_LEVEL_9_3 ≤ level ∧ level ≤ D3D_FEATURE_LEVEL_10_1))
      = [D3D_FEATURE_LEVEL_10_1, D3D_FEATURE_LEVEL_10_0, D3D_FEATURE_LEVEL_9_3]
    ∧ (createD3D11Device sampleConfig samplePlatform none
        D3D_DRIVER_TYPE.D3D_DRIVER_TYPE_HARDWARE D3D_FEATURE_LEVEL_9_3 D3D_FEATURE_LEVEL_10_1
        true).issued ⟨sampleRenderSystem, []⟩ ≠ []
    ∧ ∀ c ∈ (createD3D11Device sampleConfig samplePlatform none
        D3D_DRIVER_TYPE.D3D_DRIVER_TYPE_HARDWARE D3D_FEATURE_LEVEL_9_3 D3D_FEATURE_LEVEL_10_1
        true).issued ⟨sampleRenderSystem, []⟩,
      ∃ pAdapter nativeType flags,
        c = Call.D3D11CreateDeviceN pAdapter nativeType flags
          ((requestedLevels sampleConfig).filter
            fun level =>
              decide (D3D_FEATURE_LEVEL_9_3 ≤ level ∧ level ≤ D3D_FEATURE_LEVEL_10_1)) :=
  ⟨by decide, by decide, by decide, by decide,
    ((createD3D11Device_hands_over_requested_range sampleConfig samplePlatform none
      D3D_DRIVER_TYPE.D3D_DRIVER_TYPE_HARDWARE D3D_FEATURE_LEVEL_9_3 D3D_FEATURE_LEVEL_10_1
      true ⟨sampleRenderSystem, []⟩ (by decide) (by decide)).1 (by decide)).1,
    ((createD3D11Device_hands_over_requested_range sampleConfig samplePlatform none
      D3D_DRIVER_TYPE.D3D_DRIVER_TYPE_HARDWARE D3D_FEATURE_LEVEL_9_3 D3D_FEATURE_LEVEL_10_1
      true ⟨sampleRenderSystem, []⟩ (by decide) (by decide)).1 (by decide)).2.1⟩

/-- C22: `_addManualDepthBuffer` looks the view up in the default pool before it creates a
depth buffer. If the pool holds an entry with the view, the first such entry is returned and
the render system, the pool with it, is unchanged. Otherwise one new entry for the view is
appended to the default pool, the other pools are unchanged, and the new entry is returned.
A second call with the same view, whatever its other arguments, returns the depth buffer of
the first call and leaves the pool as the first call left it, at most one entry longer than
at the start. -/
theorem addManualDepthBuffer_looks_up_by_view (rs : D3D11RenderSystem)
    (newAddress newAddress' : Handle) (depthSurface : Option Handle)
    (width height fsaa fsaaQuality width' height' fsaa' fsaaQuality' : Nat) :
    ((∃ b ∈ rs.mDepthBufferPool POOL_DEFAULT, b.depthStencilView = depthSurface) →
      (rs.mDepthBufferPool POOL_DEFAULT).find? (fun b => b.depthStencilView = depthSurface)
          = some (_addManualDepthBuffer rs newAddress depthSurface width height fsaa
            fsaaQuality).1
        ∧ (_addManualDepthBuffer rs newAddress depthSurface width height fsaa fsaaQuality).1
          ∈ rs.mDepthBufferPool POOL_DEFAULT
        ∧ (_addManualDepthBuffer rs newAddress depthSurface width height fsaa
          fsaaQuality).1.depthStencilView = depthSurface
        ∧ (_addManualDepthBuffer rs newAddress depthSurface width height fsaa fsaaQuality).2
          = rs)
    ∧ ((∀ b ∈ rs.mDepthBufferPool POOL_DEFAULT, b.depthStencilView ≠ depthSurface) →
      (_addManualDepthBuffer rs newAddress depthSurface width height fsaa fsaaQuality).1
          = ⟨newAddress, POOL_DEFAULT, depthSurface, width, height, fsaa, fsaaQuality, true⟩
        ∧ (_addManualDepthBuffer rs newAddress depthSurface width height fsaa
            fsaaQuality).2.mDepthBufferPool POOL_DEFAULT
          = rs.mDepthBufferPool POOL_DEFAULT
            ++ [(_addManualDepthBuffer rs newAddress depthSurface width height fsaa
              fsaaQuality).1]
        ∧ ∀ poolId, poolId ≠ POOL_DEFAULT →
          (_addManualDepthBuffer rs newAddress depthSurface width height fsaa
            fsaaQuality).2.mDepthBufferPool poolId = rs.mDepthBufferPool poolId)
    ∧ (_addManualDepthBuffer
          (_addManualDepthBuffer rs newAddress depthSurface width height fsaa fsaaQuality).2
          newAddress' depthSurface width' height' fsaa' fsaaQuality').1
        = (_addManualDepthBuffer rs newAddress depthSurface width height fsaa fsaaQuality).1
    ∧ (_addManualDepthBuffer
          (_addManualDepthBuffer rs newAddress depthSurface width height fsaa fsaaQuality).2
          newAddress' depthSurface width' height' fsaa' fsaaQuality').2
        = (_addManualDepthBuffer rs newAddress depthSurface width height fsaa fsaaQuality).2
    ∧ ((_addManualDepthBuffer
          (_addManualDepthBuffer rs newAddress depthSurface width height fsaa fsaaQuality).2
          newAddress' depthSurface width' height' fsaa' fsaaQuality').2.mDepthBufferPool
            POOL_DEFAULT).length
        ≤ (rs.mDepthBufferPool POOL_DEFAULT).length + 1 := by
  have found : ∀ (r : D3D11RenderSystem) (a : Handle) (w h f q : Nat) (b : D3D11DepthBuffer),
      (r.mDepthBufferPool POOL_DEFAULT).find? (fun b => b.depthStencilView = depthSurface)
        = some b →
      _addManualDepthBuffer r a depthSurface w h f q = (b, r) := by
    intro r a w h f q b hb
    unfold _addManualDepthBuffer
    rw [hb]
  cases hf : (rs.mDepthBufferPool POOL_DEFAULT).find?
      (fun b => decide (b.depthStencilView = depthSurface)) with
  | some b =>
    have e := found rs newAddress width height fsaa fsaaQuality b hf
    have e' := found rs newAddress' width' height' fsaa' fsaaQuality' b hf
    rw [e]
    refine ⟨fun _ => ⟨rfl, List.mem_of_find?_eq_some hf, ?_, rfl⟩, fun h => ?_, ?_, ?_, ?_⟩
    · simpa using List.find?_some hf
    · exact absurd (by simpa using List.find?_some hf) (h b (List.mem_of_find?_eq_some hf))
    · rw [e']
    · rw [e']
    · rw [e']
      exact Nat.le_succ _
  | none =>
    have hall : ∀ b ∈ rs.mDepthBufferPool POOL_DEFAULT, b.depthStencilView ≠ depthSurface := by
      intro b hb
      simpa using List.find?_eq_none.mp hf b hb
    have e : _addManualDepthBuffer rs newAddress depthSurface width height fsaa fsaaQuality
        = (⟨newAddress, POOL_DEFAULT, depthSurface, width, height, fsaa, fsaaQuality, true⟩,
          { rs with
            mDepthBufferPool :=
              Function.update rs.mDepthBufferPool POOL_DEFAULT
                (rs.mDepthBufferPool POOL_DEFAULT
                  ++ [⟨newAddress, POOL_DEFAULT, depthSurface, width, height, fsaa,
                    fsaaQuality, true⟩]) }) := by
      unfold _addManualDepthBuffer
      rw [hf]
    have hf' : ((Function.update rs.mDepthBufferPool POOL_DEFAULT
          (rs.mDepthBufferPool POOL_DEFAULT
            ++ [⟨newAddress, POOL_DEFAULT, depthSurface, width, height, fsaa,
              fsaaQuality, true⟩])) POOL_DEFAULT).find?
          (fun b => decide (b.depthStencilView = depthSurface))
        = some ⟨newAddress, POOL_DEFAULT, depthSurface, width, height, fsaa, fsaaQuality,
          true⟩ := by
      rw [Function.update_same, List.find?_append, hf]
      simp
    rw [e]
    have e' := found
      { rs with
        mDepthBufferPool :=
          Function.update rs.mDepthBufferPool POOL_DEFAULT
            (rs.mDepthBufferPool POOL_DEFAULT
              ++ [⟨newAddress, POOL_DEFAULT, depthSurface, width, height, fsaa,
                fsaaQuality, true⟩]) }
      newAddress' width' height' fsaa' fsaaQuality' _ hf'
    refine ⟨fun ⟨b, hb, hv⟩ => absurd hv (hall b hb), fun _ => ⟨rfl, ?_, ?_⟩, ?_, ?_, ?_⟩
    · simp
    · intro poolId hp
      exact Function.update_noteq hp _ _
    · rw [e']
    · rw [e']
    · rw [e']
      simp

/-- C22, witness: on a pool that holds one depth buffer, for view 70, a call for view 70
returns it and a call for view 71 appends a new one. -/
theorem addManualDepthBuffer_looks_up_by_view_witness :
    (_addManualDepthBuffer
        { sampleRenderSystem with
          mDepthBufferPool := fun _ => [⟨500, POOL_DEFAULT, some 70, 640, 480, 0, 0, true⟩] }
        501 (some 70) 800 600 4 0).1 = ⟨500, POOL_DEFAULT, some 70, 640, 480, 0, 0, true⟩
    ∧ (_addManualDepthBuffer
        { sampleRenderSystem with
          mDepthBufferPool := fun _ => [⟨500, POOL_DEFAULT, some 70, 640, 480, 0, 0, true⟩] }
        501 (some 71) 800 600 4 0).2.mDepthBufferPool POOL_DEFAULT
      = [⟨500, POOL_DEFAULT, some 70, 640, 480, 0, 0, true⟩,
        ⟨501, POOL_DEFAULT, some 71, 800, 600, 4, 0, true⟩] :=
  ⟨Option.some.inj (((addManualDepthBuffer_looks_up_by_view
      { sampleRenderSystem with
        mDepthBufferPool := fun _ => [⟨500, POOL_DEFAULT, some 70, 640, 480, 0, 0, true⟩] }
      501 502 (some 70) 800 600 4 0 800 600 4 0).1
        ⟨_, List.mem_singleton.mpr rfl, rfl⟩).1.symm.trans (by decide)),
    (((addManualDepthBuffer_looks_up_by_view
      { sampleRenderSystem with
        mDepthBufferPool := fun _ => [⟨500, POOL_DEFAULT, some 70, 640, 480, 0, 0, true⟩] }
      501 502 (some 71) 800 600 4 0 800 600 4 0).2.1
        (by decide)).2.1).trans (by decide)⟩

/-- C23: for every requested level, hint, format and device, `determineFSAASettings` returns
a sample description and leaves the render system alone. The description is not above the
request: `max(Count, Quality) ≤ max(fsaa, 1)`. It is the fallback of one sample without
quality, or a mode of the table for which the check that ends the calls succeeded with more
quality levels than the mode asks for. A quality mode (`Count ≥ 8` and `Quality ≠ 0`) at
the requested level is returned only when `fsaa ≥ 8` and the hint contains `Quality`. -/
theorem determineFSAASettings_within_request (fsaa : Nat) (fsaaHint : String)
    (format : DXGI_FORMAT) (w : World) :
    ∃ desc : DXGI_SAMPLE_DESC,
      (determineFSAASettings fsaa fsaaHint format w).1 = Except.ok desc
      ∧ (determineFSAASettings fsaa fsaaHint format w).2.rs = w.rs
      ∧ max desc.Count desc.Quality ≤ max fsaa 1
      ∧ (desc = ⟨1, 0⟩
        ∨ (desc ∈ presets
          ∧ (∃ l, (determineFSAASettings fsaa fsaaHint format w).2.calls
              = w.calls ++ l ++ [Call.CheckMultisampleQualityLevels format desc.Count])
          ∧ SUCCEEDED (w.rs.mDevice.multisampleQualityLevels
              (determineFSAASettings fsaa fsaaHint format w).2.calls).1 = true
          ∧ (w.rs.mDevice.multisampleQualityLevels
              (determineFSAASettings fsaa fsaaHint format w).2.calls).2 > desc.Quality))
      ∧ (desc.Count ≥ 8 → desc.Quality ≠ 0 → max desc.Count desc.Quality = fsaa →
        fsaa ≥ 8 ∧ "Quality".toList <:+: fsaaHint.toList) := by
  obtain ⟨desc, h1, h2, h3⟩ := firstSupportedMode_spec format
    (presets.dropWhile (tooHQ fsaa
      (decide (fsaa ≥ 8) && decide ("Quality".toList <:+: fsaaHint.toList)))) w
  refine ⟨desc, h1, h2, ?_, ?_, ?_⟩
  · rcases h3 with h3 | ⟨hm, -⟩
    · rw [h3]
      exact le_max_right _ _
    · exact le_trans (mem_dropWhile_tooHQ _ _ desc hm).1 (le_max_left _ _)
  · rcases h3 with h3 | ⟨hm, hl, hs, hq⟩
    · exact Or.inl h3
    · exact Or.inr ⟨(List.dropWhile_sublist _).subset hm, hl, hs, hq⟩
  · intro h8 hq he
    rcases h3 with h3 | ⟨hm, -⟩
    · rw [h3] at hq
      exact absurd rfl hq
    · have k := (mem_dropWhile_tooHQ _ _ desc hm).2 h8 hq he
      simpa using k

/-- C23, witness: on a device that reports one quality level for every sample count, a
request of level 8 with the hint `Quality` gives the mode of 8 samples without quality. -/
theorem determineFSAASettings_within_request_witness :
    (determineFSAASettings 8 "Quality" 0 ⟨sampleRenderSystem, []⟩).1 = Except.ok ⟨8, 0⟩
    ∧ ((determineFSAASettings 8 "Quality" 0).issued ⟨sampleRenderSystem, []⟩).map Call.name
      = [CallName.CheckMultisampleQualityLevels, CallName.CheckMultisampleQualityLevels,
        CallName.CheckMultisampleQualityLevels]
    ∧ ∃ desc : DXGI_SAMPLE_DESC,
      (determineFSAASettings 8 "Quality" 0 ⟨sampleRenderSystem, []⟩).1 = Except.ok desc
      ∧ max desc.Count desc.Quality ≤ max 8 1 :=
  ⟨by decide, by decide,
    (determineFSAASettings_within_request 8 "Quality" 0 ⟨sampleRenderSystem, []⟩).elim
      fun desc h => ⟨desc, h.1, h.2.2.1⟩⟩

/-- C24, at the failing input: a non-indexed triangle strip of one vertex, without compute,
hull or domain program. One element is fewer than the three of a triangle, yet the 32-bit
primitive count is 4294967295, not 0, and `_render` returns after issuing `Draw(1, 0)`.
Likewise an indexed line strip without indices issues `DrawIndexed`. -/
theorem render_one_vertex_triangle_strip_draws :
    sampleGraphicsSystem.mBoundComputeProgram = none
    ∧ sampleGraphicsSystem.mBoundTessellationHullProgram = none
    ∧ sampleGraphicsSystem.mBoundTessellationDomainProgram = none
    ∧ elementCount (sampleOperation OT_TRIANGLE_STRIP 1) (sampleVertexData 1) = 1
    ∧ translateOperation sampleGraphicsSystem (sampleOperation OT_TRIANGLE_STRIP 1)
        (sampleVertexData 1) = Except.ok (D3D11_PRIMITIVE_TOPOLOGY_TRIANGLESTRIP, 4294967295)
    ∧ (_render sampleMappings (sampleOperation OT_TRIANGLE_STRIP 1)
        ⟨sampleGraphicsSystem, []⟩).1 = Except.ok ()
    ∧ (((_render sampleMappings (sampleOperation OT_TRIANGLE_STRIP 1)).issued
        ⟨sampleGraphicsSystem, []⟩).filter Call.isDraw).map Call.name = [CallName.Draw]
    ∧ (((_render sampleMappings (sampleOperation OT_TRIANGLE_STRIP 1)).issued
        ⟨sampleGraphicsSystem, []⟩).filterMap fun c =>
          match c with
          | Call.Draw vertexCount startVertexLocation => some (vertexCount, startVertexLocation)
          | _ => none) = [(1, 0)]
    ∧ translateOperation sampleGraphicsSystem
        (sampleIndexedOperation OT_LINE_STRIP 4 0) (sampleVertexData 4)
      = Except.ok (D3D11_PRIMITIVE_TOPOLOGY_LINESTRIP, 4294967295)
    ∧ (((_render sampleMappings (sampleIndexedOperation OT_LINE_STRIP 4 0)).issued
        ⟨sampleGraphicsSystem, []⟩).filter Call.isDraw).map Call.name
      = [CallName.DrawIndexed] :=
  ⟨rfl, rfl, rfl, rfl, by decide, by decide, by decide, by decide, by decide, by decide⟩

/-- C25: after `_setColourBufferWriteEnabled` stored any mask, `_setSceneBlending` and
`_setSeparateSceneBlending` with a factor pair other than `(SBF_ONE, SBF_ZERO)` leave the
write mask of render target 0 at `0x0F`. With the pair `(SBF_ONE, SBF_ZERO)` they set
`BlendEnable` of render target 0 to false and mark the blend descriptor changed, and that is
all: the write mask is as before, putting the former `BlendEnable` back gives the former
blend descriptor, and putting the former descriptor and flag back gives the former render
system. -/
theorem blending_setters_and_write_mask (maps : D3D11Mappings) (rs : D3D11RenderSystem)
    (red green blue alpha : Bool)
    (sourceFactor destFactor sourceFactorAlpha destFactorAlpha : SceneBlendFactor)
    (op alphaOp : SceneBlendOperation) :
    (¬ (sourceFactor = SBF_ONE ∧ destFactor = SBF_ZERO) →
      (((_setSceneBlending maps (_setColourBufferWriteEnabled rs red green blue alpha)
          sourceFactor destFactor op).mBlendDesc.RenderTarget 0).RenderTargetWriteMask = 0x0F
        ∧ ((_setSeparateSceneBlending maps (_setColourBufferWriteEnabled rs red green blue alpha)
          sourceFactor destFactor sourceFactorAlpha destFactorAlpha op
            alphaOp).mBlendDesc.RenderTarget 0).RenderTargetWriteMask = 0x0F))
    ∧ (sourceFactor = SBF_ONE ∧ destFactor = SBF_ZERO →
      ∀ result, (result = _setSceneBlending maps rs sourceFactor destFactor op
          ∨ result = _setSeparateSceneBlending maps rs sourceFactor destFactor
            sourceFactorAlpha destFactorAlpha op alphaOp) →
        (result.mBlendDesc.RenderTarget 0).BlendEnable = false
        ∧ result.mBlendDescChanged = true
        ∧ (result.mBlendDesc.RenderTarget 0).RenderTargetWriteMask
          = (rs.mBlendDesc.RenderTarget 0).RenderTargetWriteMask
        ∧ result.mBlendDesc.setRenderTarget0
            (fun rt => { rt with BlendEnable := (rs.mBlendDesc.RenderTarget 0).BlendEnable })
          = rs.mBlendDesc
        ∧ { result with
            mBlendDesc := rs.mBlendDesc
            mBlendDescChanged := rs.mBlendDescChanged } = rs) := by
  refine ⟨fun h => ?_, fun h result hr => ?_⟩
  · simp [_setSceneBlending, _setSeparateSceneBlending, h,
      D3D11_BLEND_DESC.setRenderTarget0]
  · have e : result = { rs with
        mBlendDesc := rs.mBlendDesc.setRenderTarget0 fun rt => { rt with BlendEnable := false }
        mBlendDescChanged := true } := by
      rcases hr with hr | hr
      · rw [hr, _setSceneBlending, if_pos h]
      · rw [hr, _setSeparateSceneBlending, if_pos h]
    subst e
    refine ⟨?_, rfl, ?_, ?_, rfl⟩
    · simp [D3D11_BLEND_DESC.setRenderTarget0]
    · simp [D3D11_BLEND_DESC.setRenderTarget0]
    · simp only [D3D11_BLEND_DESC.setRenderTarget0, Function.update_same,
        Function.update_idem]
      cases hd : rs.mBlendDesc with
      | mk a i rt =>
        simp only [D3D11_BLEND_DESC.mk.injEq, true_and]
        exact Function.update_eq_self 0 rt

/-- C25, witness: after a write mask of red only, `(SBF_SOURCE_ALPHA,
SBF_ONE_MINUS_SOURCE_ALPHA)` gives the mask `0x0F` and `(SBF_ONE, SBF_ZERO)` keeps the
mask 1. -/
theorem blending_setters_and_write_mask_witness :
    ((_setSceneBlending sampleMappings
        (_setColourBufferWriteEnabled sampleRenderSystem true false false false)
        SBF_SOURCE_ALPHA SBF_ONE_MINUS_SOURCE_ALPHA
        SceneBlendOperation.SBO_ADD).mBlendDesc.RenderTarget 0).RenderTargetWriteMask = 0x0F
    ∧ ((_setSeparateSceneBlending sampleMappings
        (_setColourBufferWriteEnabled sampleRenderSystem true false false false)
        SBF_ONE SBF_ZERO SBF_SOURCE_ALPHA SBF_ONE_MINUS_SOURCE_ALPHA
        SceneBlendOperation.SBO_ADD
        SceneBlendOperation.SBO_ADD).mBlendDesc.RenderTarget 0).RenderTargetWriteMask = 1 :=
  ⟨((blending_setters_and_write_mask sampleMappings sampleRenderSystem true false false false
      SBF_SOURCE_ALPHA SBF_ONE_MINUS_SOURCE_ALPHA SBF_ONE SBF_ZERO SceneBlendOperation.SBO_ADD
      SceneBlendOperation.SBO_ADD).1 (by decide)).1,
    (((blending_setters_and_write_mask sampleMappings
      (_setColourBufferWriteEnabled sampleRenderSystem true false false false) true false
      false false SBF_ONE SBF_ZERO SBF_SOURCE_ALPHA SBF_ONE_MINUS_SOURCE_ALPHA
      SceneBlendOperation.SBO_ADD SceneBlendOperation.SBO_ADD).2 ⟨rfl, rfl⟩ _
        (Or.inr rfl)).2.2.1).trans (by decide)⟩

/-- C26, at the failing input: on a device of feature level 9.1
`_setAlphaRejectSettings` with alpha-to-coverage requested leaves `AlphaToCoverageEnable`
true; `_setSceneBlending` and `_setSeparateSceneBlending` with `(SBF_ONE, SBF_ZERO)` keep
it true, and the next `_render` creates the blend state with alpha-to-coverage enabled. -/
theorem alpha_reject_enables_alpha_to_coverage_at_level_9_1 :
    D3D_FEATURE_LEVEL_9_1 < D3D_FEATURE_LEVEL_10_0
    ∧ (_setAlphaRejectSettings
        { sampleGraphicsSystem with mFeatureLevel := D3D_FEATURE_LEVEL_9_1 }
        CompareFunction.CMPF_GREATER 128 true).mFeatureLevel = D3D_FEATURE_LEVEL_9_1
    ∧ sampleGraphicsSystem.mBlendDesc.AlphaToCoverageEnable = false
    ∧ (_setAlphaRejectSettings
        { sampleGraphicsSystem with mFeatureLevel := D3D_FEATURE_LEVEL_9_1 }
        CompareFunction.CMPF_GREATER 128 true).mBlendDesc.AlphaToCoverageEnable = true
    ∧ (_setSceneBlending sampleMappings
        (_setAlphaRejectSettings
          { sampleGraphicsSystem with mFeatureLevel := D3D_FEATURE_LEVEL_9_1 }
          CompareFunction.CMPF_GREATER 128 true)
        SBF_ONE SBF_ZERO SceneBlendOperation.SBO_ADD).mBlendDesc.AlphaToCoverageEnable = true
    ∧ (_setSeparateSceneBlending sampleMappings
        (_setAlphaRejectSettings
          { sampleGraphicsSystem with mFeatureLevel := D3D_FEATURE_LEVEL_9_1 }
          CompareFunction.CMPF_GREATER 128 true)
        SBF_ONE SBF_ZERO SBF_ONE SBF_ZERO SceneBlendOperation.SBO_ADD
        SceneBlendOperation.SBO_ADD).mBlendDesc.AlphaToCoverageEnable = true
    ∧ (_render sampleMappings (sampleOperation OT_TRIANGLE_LIST 3)
        ⟨_setAlphaRejectSettings
          { sampleGraphicsSystem with mFeatureLevel := D3D_FEATURE_LEVEL_9_1 }
          CompareFunction.CMPF_GREATER 128 true, []⟩).1 = Except.ok ()
    ∧ (((_render sampleMappings (sampleOperation OT_TRIANGLE_LIST 3)).issued
        ⟨_setAlphaRejectSettings
          { sampleGraphicsSystem with mFeatureLevel := D3D_FEATURE_LEVEL_9_1 }
          CompareFunction.CMPF_GREATER 128 true, []⟩).filterMap fun c =>
          match c with
          | Call.CreateBlendState desc => some desc.AlphaToCoverageEnable
          | _ => none) = [true] :=
  ⟨by decide, rfl, rfl, rfl, by decide, by decide, by decide, by decide⟩

/-- C27: the level-of-detail bias drifts with every rebuild of the samplers. Unit 0 holds a
texture and its bias is set to 0. The first render creates the sampler with the bias
`clamp(0 - 0.5, -16.00, 15.99) = -0.5` and stores `-0.5` as the bias of the unit. The
texture is set on unit 0 again, which marks the samplers changed, and the bias is not set
again; the next render creates the sampler with the bias `-1`, not `-0.5`. -/
theorem sampler_rebuild_lowers_the_stored_bias :
    (sampleBiasedSystem.mTexStageDesc 0).samplerDesc.MipLODBias = 0
    ∧ (((_render sampleMappings (sampleOperation OT_TRIANGLE_LIST 3)).issued
        ⟨sampleBiasedSystem, []⟩).filterMap fun c =>
          match c with
          | Call.CreateSamplerState desc => some desc.MipLODBias
          | _ => none) = [Clamp (0 - 1 / 2) (-16) (1599 / 100)]
    ∧ Clamp (0 - 1 / 2 : ℚ) (-16) (1599 / 100) = -1 / 2
    ∧ (sampleBiasedWorld.rs.mTexStageDesc 0).samplerDesc.MipLODBias
      = Clamp (0 - 1 / 2) (-16) (1599 / 100)
    ∧ (((_render sampleMappings (sampleOperation OT_TRIANGLE_LIST 3)).issued
        ⟨_setTexture sampleBiasedWorld.rs 0 true (some sampleTexture),
          sampleBiasedWorld.calls⟩).filterMap fun c =>
          match c with
          | Call.CreateSamplerState desc => some desc.MipLODBias
          | _ => none)
      = [Clamp (Clamp (0 - 1 / 2) (-16) (1599 / 100) - 1 / 2) (-16) (1599 / 100)]
    ∧ Clamp (Clamp (0 - 1 / 2 : ℚ) (-16) (1599 / 100) - 1 / 2) (-16) (1599 / 100) = -1 :=
  ⟨rfl, rfl, by norm_num [Clamp], rfl, rfl, by norm_num [Clamp]⟩

/-- C28, amended: in a render system whose counters of class instances are zero, as the
constructor
leaves them, after any sequence of calls of `setSubroutine`, `bindGpuProgramParameters`,
`bindGpuProgram`, `unbindGpuProgram` and `_render` the counter of every stage is the number
of `setSubroutine` calls for that stage that returned, modulo 2^32, where the calls that
`bindGpuProgramParameters` makes for the entries of a subroutine map, and those that the
binding update hooks make between the iterations of a `_render`, are counted with the calls
of the caller; it is that number itself while the number is below 2^32. Every `SetShader`
call that `_render` then issues passes the counter of its stage, or passes no shader and no
class instance (the compute stage is unbound after a dispatch); in any world, the
`SetShader` calls of `_render` pass the counters with which it is entered. In any world, a
`setSubroutine` that returns adds one to the 32-bit counter of its stage, which wraps
around from 4294967295 to 0, whatever the slot and whatever the slot held, and leaves the
other counters; one that raises leaves all counters; `bindGpuProgram` and
`unbindGpuProgram` leave all counters; `bindGpuProgramParameters` and `_render` count the
counter of a stage up once for each `setSubroutine` call for the stage that returns inside
them, and a `_render` of a single iteration leaves all counters. -/
theorem class_instance_count_is_number_of_successful_setSubroutine_modulo_UINT
    (maps : D3D11Mappings) (base : GpuProgramType → Bool → Bool) (calls : List ProgramCall)
    (w : World) (hnew : w.rs.mNumClassInstances = fun _ => 0) :
    (∀ gptype, (ProgramCall.runAll maps base calls w).rs.mNumClassInstances gptype
        = ProgramCall.successes maps base gptype calls w % 2 ^ 32)
    ∧ (∀ gptype, ProgramCall.successes maps base gptype calls w < 2 ^ 32 →
        (ProgramCall.runAll maps base calls w).rs.mNumClassInstances gptype
          = ProgramCall.successes maps base gptype calls w)
    ∧ (∀ op, ∃ l,
        (_render maps op (ProgramCall.runAll maps base calls w)).2.calls
          = (ProgramCall.runAll maps base calls w).calls ++ l
        ∧ ∀ c ∈ l, c.passes fun gptype =>
            ProgramCall.successes maps base gptype calls w % 2 ^ 32)
    ∧ (∀ (v : World) op, CallsPass v.rs.mNumClassInstances v (_render maps op v).2)
    ∧ (∀ (v : World) gptype slotIndex subroutineName,
        ((setSubroutine gptype slotIndex subroutineName v).1 = Except.ok () →
          (setSubroutine gptype slotIndex subroutineName v).2.rs.mNumClassInstances
            = Function.update v.rs.mNumClassInstances gptype
                ((v.rs.mNumClassInstances gptype + 1) % 2 ^ 32))
        ∧ ((setSubroutine gptype slotIndex subroutineName v).1 ≠ Except.ok () →
          (setSubroutine gptype slotIndex subroutineName v).2.rs.mNumClassInstances
            = v.rs.mNumClassInstances))
    ∧ (∀ (v : World) prg type,
        (bindGpuProgram base prg type v).2.rs.mNumClassInstances = v.rs.mNumClassInstances)
    ∧ (∀ (v : World) gptype,
        (unbindGpuProgram base gptype v).2.rs.mNumClassInstances = v.rs.mNumClassInstances)
    ∧ (∀ (v : World) type params mask gptype,
        (bindGpuProgramParameters type params mask v).2.rs.mNumClassInstances gptype
          = countUp (parametersSuccesses type params mask gptype v)
              (v.rs.mNumClassInstances gptype))
    ∧ (∀ (v : World) op gptype,
        (_render maps op v).2.rs.mNumClassInstances gptype
          = countUp (renderSuccesses maps op gptype v) (v.rs.mNumClassInstances gptype))
    ∧ (∀ (v : World) op, v.rs.mCurrentPassIterationCount ≤ 1 →
        (_render maps op v).2.rs.mNumClassInstances = v.rs.mNumClassInstances) := by
  have hc : ∀ gptype, (ProgramCall.runAll maps base calls w).rs.mNumClassInstances gptype
      = ProgramCall.successes maps base gptype calls w % 2 ^ 32 := by
    intro gptype
    rw [runAll_counters, hnew, countUp_eq _ _ (by norm_num), Nat.zero_add]
  refine ⟨hc, fun gptype hlt => by rw [hc, Nat.mod_eq_of_lt hlt], fun op => ?_,
    fun v op => render_passes maps op v, fun v gptype slotIndex name => ?_,
    fun v prg type => bindGpuProgram_counters base prg type v,
    fun v gptype => unbindGpuProgram_counters base gptype v,
    fun v type params mask gptype => bindGpuProgramParameters_counts type params mask v gptype,
    fun v op gptype => render_counts maps op v gptype, fun v op hv => ?_⟩
  · have h := render_passes maps op (ProgramCall.runAll maps base calls w)
    rw [funext hc] at h
    exact h
  · have h := setSubroutine_counters gptype slotIndex name v
    exact ⟨fun hok => by rw [h, if_pos hok]; rfl, fun hno => by rw [h, if_neg hno]⟩
  · funext gptype
    rw [render_counts maps op v gptype, renderSuccesses_single maps op gptype v hv]
    rfl

/-- C28, witness: on the sample system in a pass of three iterations, of three
`setSubroutine` calls for the vertex stage two return, both for slot 0, and one raises; one
call for the fragment stage returns; `bindGpuProgramParameters` for the fragment stage
makes one call that returns and one that raises; the render makes four calls for the vertex
stage that return, two between the first and the second iteration and two between the
second and the third. After the sequence the counters of the vertex and the fragment stage
are 6 and 2, and the next render passes 6 class instances with the vertex shader and 2 with
the fragment shader. -/
theorem class_instance_count_is_number_of_successful_setSubroutine_modulo_UINT_witness :
    (∀ gptype,
      (ProgramCall.runAll sampleMappings (fun _ b => b) sampleProgramCalls
          ⟨sampleIteratedSystem, []⟩).rs.mNumClassInstances gptype
        = ProgramCall.successes sampleMappings (fun _ b => b) gptype sampleProgramCalls
            ⟨sampleIteratedSystem, []⟩ % 2 ^ 32)
    ∧ ProgramCall.successes sampleMappings (fun _ b => b) GpuProgramType.GPT_VERTEX_PROGRAM
        sampleProgramCalls ⟨sampleIteratedSystem, []⟩ = 6
    ∧ ProgramCall.successes sampleMappings (fun _ b => b) GpuProgramType.GPT_FRAGMENT_PROGRAM
        sampleProgramCalls ⟨sampleIteratedSystem, []⟩ = 2
    ∧ renderSuccesses sampleMappings (sampleOperation OperationType.OT_TRIANGLE_LIST 3)
        GpuProgramType.GPT_VERTEX_PROGRAM
        (ProgramCall.runAll sampleMappings (fun _ b => b) (sampleProgramCalls.take 7)
          ⟨sampleIteratedSystem, []⟩) = 4
    ∧ (((_render sampleMappings (sampleOperation OperationType.OT_TRIANGLE_LIST 3)).issued
        (ProgramCall.runAll sampleMappings (fun _ b => b) sampleProgramCalls
          ⟨sampleIteratedSystem, []⟩)).filterMap fun c =>
          match c with
          | Call.SetShader stage shader _ numClassInstances =>
            some (stage, shader, numClassInstances)
          | _ => none)
      = [(GpuProgramType.GPT_VERTEX_PROGRAM, some 6, 6),
        (GpuProgramType.GPT_FRAGMENT_PROGRAM, some 2, 2)] :=
  ⟨(class_instance_count_is_number_of_successful_setSubroutine_modulo_UINT sampleMappings
      (fun _ b => b) sampleProgramCalls ⟨sampleIteratedSystem, []⟩ rfl).1,
    by decide, by decide, by decide, by rfl⟩

/-- C28, counterexample: on the sample system, whose counters of class instances are zero,
the call `setSubroutine(GpuProgramType.GPT_VERTEX_PROGRAM, 0, "red")` is made 4294967296 times. Every call
returns, so the number of `setSubroutine` calls for the vertex stage that returned is
4294967296; after the first 4294967295 of them the counter of the stage is 4294967295, and
after the last it is 0, which is the count that every `SetShader` call for the vertex stage
of a `_render` that follows passes. -/
theorem class_instance_count_wraps_around_after_4294967296_calls :
    sampleSubroutineSystem.mNumClassInstances GpuProgramType.GPT_VERTEX_PROGRAM = 0
    ∧ ProgramCall.successes sampleMappings (fun _ b => b) GpuProgramType.GPT_VERTEX_PROGRAM
        sampleRepeatedCalls ⟨sampleSubroutineSystem, []⟩ = 4294967296
    ∧ (ProgramCall.runAll sampleMappings (fun _ b => b)
        (List.replicate 4294967295
          (ProgramCall.setSubroutine GpuProgramType.GPT_VERTEX_PROGRAM 0 "red"))
        ⟨sampleSubroutineSystem, []⟩).rs.mNumClassInstances GpuProgramType.GPT_VERTEX_PROGRAM
        = 4294967295
    ∧ (ProgramCall.runAll sampleMappings (fun _ b => b) sampleRepeatedCalls
        ⟨sampleSubroutineSystem, []⟩).rs.mNumClassInstances GpuProgramType.GPT_VERTEX_PROGRAM
        = 0
    ∧ ∀ op shader classInstances numClassInstances,
        Call.SetShader GpuProgramType.GPT_VERTEX_PROGRAM shader classInstances
            numClassInstances
          ∈ (_render sampleMappings op).issued
              (ProgramCall.runAll sampleMappings (fun _ b => b) sampleRepeatedCalls
                ⟨sampleSubroutineSystem, []⟩) →
        numClassInstances = 0 := by
  have h0 : sampleSubroutineSystem.mNumClassInstances GpuProgramType.GPT_VERTEX_PROGRAM = 0 :=
    rfl
  have hlast : (ProgramCall.runAll sampleMappings (fun _ b => b) sampleRepeatedCalls
      ⟨sampleSubroutineSystem, []⟩).rs.mNumClassInstances GpuProgramType.GPT_VERTEX_PROGRAM
      = 0 := by
    rw [runAll_counters]
    show countUp (ProgramCall.successes sampleMappings (fun _ b => b) GpuProgramType.GPT_VERTEX_PROGRAM
      (List.replicate 4294967296 (ProgramCall.setSubroutine GpuProgramType.GPT_VERTEX_PROGRAM 0 "red"))
      ⟨sampleSubroutineSystem, []⟩) 0 = 0
    rw [successes_replicate_sample, countUp_eq _ _ (by norm_num)]
    norm_num
  refine ⟨h0, successes_replicate_sample 4294967296, ?_, hlast, ?_⟩
  · rw [runAll_counters, successes_replicate_sample]
    show countUp 4294967295 0 = 4294967295
    rw [countUp_eq _ _ (by norm_num)]
    norm_num
  · intro op shader classInstances numClassInstances hmem
    obtain ⟨l, hl, hq⟩ := render_passes sampleMappings op
      (ProgramCall.runAll sampleMappings (fun _ b => b) sampleRepeatedCalls
        ⟨sampleSubroutineSystem, []⟩)
    rw [M.issued, hl, List.drop_left] at hmem
    rcases hq _ hmem with h | ⟨-, -, h⟩
    · exact h.trans hlast
    · exact h

/-- C29: capability derivation is monotone in the feature level. For two render systems
whose feature levels are `a ≤ b`, the same build, the same freshly constructed capability
object and the same format-support answer of the device, every capability flag and every
shader profile that `createRenderSystemCapabilities` reports at `a` is reported at `b`, and
the number of render targets at `a` is at most that at `b`. Driver type and vendor play no
part in the three. -/
theorem capabilities_monotone_in_feature_level (config : BuildConfig)
    (rsc : RenderSystemCapabilities) (rs rs' : D3D11RenderSystem)
    (formatSupport : HRESULT × Nat) (hle : rs.mFeatureLevel ≤ rs'.mFeatureLevel) :
    (∀ d : Capabilities,
      (createRenderSystemCapabilities config rsc rs formatSupport).hasCapability d = true →
        (createRenderSystemCapabilities config rsc rs' formatSupport).hasCapability d = true)
    ∧ (∀ profile : String,
      (createRenderSystemCapabilities config rsc rs formatSupport).isShaderProfileSupported
          profile = true →
        (createRenderSystemCapabilities config rsc rs' formatSupport).isShaderProfileSupported
          profile = true)
    ∧ (createRenderSystemCapabilities config rsc rs formatSupport).mNumMultiRenderTargets
      ≤ (createRenderSystemCapabilities config rsc rs'
        formatSupport).mNumMultiRenderTargets := by
  refine ⟨fun d => ?_, fun profile h => ?_, ?_⟩
  · simp only [createRenderSystemCapabilities_hasCapability, Bool.or_eq_true,
      Bool.and_eq_true, decide_eq_true_eq]
    refine Or.imp (Or.imp (Or.imp id (And.imp (Or.imp (fun h => le_trans h hle) id) id))
      (And.imp (fun h => le_trans h hle) id)) (And.imp (fun h => le_trans h hle) id)
  · unfold RenderSystemCapabilities.isShaderProfileSupported at h ⊢
    exact decide_eq_true (createRenderSystemCapabilities_profiles_mono config rsc rs rs'
      formatSupport formatSupport hle profile (of_decide_eq_true h))
  · rw [createRenderSystemCapabilities_numMultiRenderTargets,
      createRenderSystemCapabilities_numMultiRenderTargets]
    exact min_le_min (numMultiRenderTargets_mono config _ _ hle) (le_refl _)

/-- C29, witness: the profile `vs_4_0_level_9_3`, reported at feature level 9.3, is
reported at 11.0, and the number of render targets at 9.3 is at most that at 11.0. -/
theorem capabilities_monotone_in_feature_level_witness :
    D3D_FEATURE_LEVEL_9_3 ≤ D3D_FEATURE_LEVEL_11_0
    ∧ (createRenderSystemCapabilities sampleConfig emptyCapabilities
        { sampleRenderSystem with mFeatureLevel := D3D_FEATURE_LEVEL_9_3 }
        (0, 0)).isShaderProfileSupported "vs_4_0_level_9_3" = true
    ∧ (createRenderSystemCapabilities sampleConfig emptyCapabilities
        { sampleRenderSystem with mFeatureLevel := D3D_FEATURE_LEVEL_11_0 }
        (0, 0)).isShaderProfileSupported "vs_4_0_level_9_3" = true
    ∧ (createRenderSystemCapabilities sampleConfig emptyCapabilities
        { sampleRenderSystem with mFeatureLevel := D3D_FEATURE_LEVEL_9_3 }
        (0, 0)).mNumMultiRenderTargets
      ≤ (createRenderSystemCapabilities sampleConfig emptyCapabilities
        { sampleRenderSystem with mFeatureLevel := D3D_FEATURE_LEVEL_11_0 }
        (0, 0)).mNumMultiRenderTargets :=
  ⟨by decide, by decide,
    (capabilities_monotone_in_feature_level sampleConfig emptyCapabilities
      { sampleRenderSystem with mFeatureLevel := D3D_FEATURE_LEVEL_9_3 }
      { sampleRenderSystem with mFeatureLevel := D3D_FEATURE_LEVEL_11_0 } (0, 0)
      (by decide)).2.1 "vs_4_0_level_9_3" (by decide),
    (capabilities_monotone_in_feature_level sampleConfig emptyCapabilities
      { sampleRenderSystem with mFeatureLevel := D3D_FEATURE_LEVEL_9_3 }
      { sampleRenderSystem with mFeatureLevel := D3D_FEATURE_LEVEL_11_0 } (0, 0)
      (by decide)).2.2⟩

end Ogre
